import Mathlib

/-!
# Creality DWIN menu front-end (Marlin, `src/lcd/dwin/creality_dwin.cpp`)

A shallow embedding of the navigation state machine of `CrealityDWINClass`:
the global navigation variables become one `State` record, every member
function becomes a pure function `State → State`, and the encoder event a
handler polls becomes an argument of the handler.

Conventions of the embedding

* `uint8_t` variables are natural numbers; increments and decrements are written
  with an explicit `% 256`.  Comparisons follow the integer promotions of a
  32-bit target (`selection - scrollpos > MROWS` is a signed comparison).
* `float` variables are exact rationals: no rounding, no NaN.
* Rendering primitives (`DWIN_Draw_*`, `Draw_Menu_Item`, `Draw_Float`, ...) have
  no effect on the variables embedded here and are left out.
* G-code handed to `gcode.process_subcommands_now_P` / `queue.inject_P` is appended to
  `State.cmds` (format string and arguments); other calls into the firmware are
  appended to `State.calls` by name.  Blocking firmware calls
  (`planner.synchronize`, `thermalManager.wait_for_hotend`, ...) return with the
  user-interface variables as they were.
* Build-time feature macros are the fields of `Config`.
-/

namespace CrealityDWIN

/-! ## Enumerations of `creality_dwin.h` (as used by the source) -/

/-- Values of `process` / `last_process`. -/
inductive Process where
  | Main | Menu | Value | Option | File | Print | Popup | Confirm | Wait
deriving DecidableEq, Repr

/-- Dialog identifiers used by `Popup_Handler`, `Confirm_Handler` and `Draw_Print_confirm`. -/
inductive PopupID where
  | Pause | Stop | Resume | SaveLevel | ETemp | ConfFilChange | PurgeMore | MeshSlot
  | ManualProbing | Level | Home | MoveWait | Heating | FilLoad | FilChange | TempWarn
  | Runout | PIDWait | Resuming
  | FilInsert | HeaterTime | UserInput | LevelError | InvalidMesh | Complete
deriving DecidableEq, Repr

/-- Menu identifiers: the case labels of `Get_Menu_Title` / `Get_Menu_Size`. -/
inductive Menu where
  | MainMenu | Prepare | HomeMenu | Move | ManualLevel | ZOffset | Preheat | ChangeFilament
  | Control | TempMenu | PID | HotendPID | BedPID
  | Preheat1 | Preheat2 | Preheat3 | Preheat4 | Preheat5
  | Motion | HomeOffsets | MaxSpeed | MaxAcceleration | MaxJerk | Steps | Visual | Advanced
  | ProbeMenu | ColorSettings | Info | InfoMain
  | Leveling | LevelView | LevelSettings | MeshViewer | LevelManual | UBLMesh | ManualMesh
  | Tune | PreheatHotend
deriving DecidableEq, Repr

/-- The axis indices `X_AXIS`, `Y_AXIS`, `Z_AXIS`, `E_AXIS` used to subscript the per-axis
settings. -/
inductive AxisEnum where
  | X_AXIS | Y_AXIS | Z_AXIS | E_AXIS
deriving DecidableEq, Repr

/-- Result of `Encoder_ReceiveAnalyze()`. -/
inductive ENCODER_DiffState where
  | ENCODER_DIFF_NO | ENCODER_DIFF_CW | ENCODER_DIFF_CCW | ENCODER_DIFF_ENTER
deriving DecidableEq, Repr

/-- Values of `pause_menu_response` (feature/pause.h) that the source compares with. -/
inductive PauseMenuResponse where
  | PAUSE_RESPONSE_WAIT_FOR | PAUSE_RESPONSE_EXTRUDE_MORE | PAUSE_RESPONSE_RESUME_PRINT
deriving DecidableEq, Repr

/-! ## Build configuration -/

/-- Feature macros and configuration constants the source is compiled against. -/
structure Config where
  HAS_HOTEND : Bool
  HAS_HEATED_BED : Bool
  HAS_FAN : Bool
  HAS_BED_PROBE : Bool
  BABYSTEPPING : Bool
  HAS_WORKSPACE_OFFSET : Bool
  ADVANCED_PAUSE_FEATURE : Bool
  FILAMENT_LOAD_UNLOAD_GCODES : Bool
  EEPROM_SETTINGS : Bool
  HAS_CLASSIC_JERK : Bool
  LIN_ADVANCE : Bool
  PREVENT_COLD_EXTRUSION : Bool
  FILAMENT_RUNOUT_SENSOR : Bool
  HAS_FILAMENT_RUNOUT_DISTANCE : Bool
  POWER_LOSS_RECOVERY : Bool
  PRINTCOUNTER : Bool
  HAS_MESH : Bool
  HAS_LEVELING : Bool
  AUTO_BED_LEVELING_UBL : Bool
  PROBE_MANUALLY : Bool
  PARK_HEAD_ON_PAUSE : Bool
  HOST_ACTION_COMMANDS : Bool
  SDSUPPORT : Bool
  AUTO_BED_LEVELING_BILINEAR : Bool
  PREHEAT_BEFORE_LEVELING : Bool
  PREHEAT_COUNT : Nat
  X_MIN_POS : ℚ
  X_MAX_POS : ℚ
  Y_MIN_POS : ℚ
  Y_MAX_POS : ℚ
  Z_MIN_POS : ℚ
  Z_MAX_POS : ℚ
  EXTRUDE_MINTEMP : ℚ
  HEATER_0_MAXTEMP : ℚ
  HOTEND_OVERSHOOT : ℚ
  Z_CLEARANCE_BETWEEN_PROBES : ℚ
  MANUAL_PROBE_START_Z : ℚ
  LEVELING_NOZZLE_TEMP : ℚ
  LEVELING_BED_TEMP : ℚ
  GRID_MAX_POINTS_X : Nat
  GRID_MAX_POINTS_Y : Nat
  /-- The macro `SD_ORDER(N, C)`: the card index of row `N` of a listing of `C` files. -/
  SD_ORDER : Nat → Nat → Nat
  /-- The macros `unscalePID_i`, `unscalePID_d`, `scalePID_i`, `scalePID_d` of temperature.h. -/
  unscalePID_i : ℚ → ℚ
  unscalePID_d : ℚ → ℚ
  scalePID_i : ℚ → ℚ
  scalePID_d : ℚ → ℚ
  /-- The libc number formatter `dtostrf(x, 1, 3, buf)`. -/
  dtostrf : ℚ → String
  LONG_FILENAME_LENGTH : Nat
  PROGRESS_SCALE : Nat
  BED_MAXTEMP : ℚ
  EXTRUDE_MAXLENGTH : ℚ
  MIN_LCD_BRIGHTNESS : ℚ
  MAX_LCD_BRIGHTNESS : ℚ
  /-- The macro `Custom_Colors` of the header: the highest index of `color_names`. -/
  Custom_Colors : Nat
  /-- The macros `DEFAULT_MAX_FEEDRATE`, `DEFAULT_MAX_ACCELERATION`,
  `DEFAULT_AXIS_STEPS_PER_UNIT` and `DEFAULT_XJERK` ... `DEFAULT_EJERK`, which initialise the
  arrays of lines 141-146. -/
  DEFAULT_MAX_FEEDRATE : AxisEnum → ℚ
  DEFAULT_MAX_ACCELERATION : AxisEnum → ℚ
  DEFAULT_AXIS_STEPS_PER_UNIT : AxisEnum → ℚ
  DEFAULT_JERK : AxisEnum → ℚ
  /-- The macros `PREHEAT_1_LABEL` ... `PREHEAT_5_LABEL`. -/
  PREHEAT_LABEL : Nat → String
  Z_SAFE_HOMING : Bool
  Z_SAFE_HOMING_X_POINT : ℚ
  Z_SAFE_HOMING_Y_POINT : ℚ

/-- Line 59: `#if ANY(BABYSTEPPING, HAS_BED_PROBE, HAS_WORKSPACE_OFFSET)`. -/
def Config.HAS_ZOFFSET_ITEM (c : Config) : Bool :=
  c.BABYSTEPPING || c.HAS_BED_PROBE || c.HAS_WORKSPACE_OFFSET

/-- Line 80: `#if ANY(HAS_HOTEND, HAS_HEATED_BED, HAS_FAN) && PREHEAT_COUNT`. -/
def Config.HAS_PREHEAT (c : Config) : Bool :=
  (c.HAS_HOTEND || c.HAS_HEATED_BED || c.HAS_FAN) && decide (c.PREHEAT_COUNT ≠ 0)

/-- The value of `ENABLED(F)` (and of a C comparison) inside an arithmetic expression. -/
def ENABLED (b : Bool) : Nat := if b then 1 else 0

/-- Line 133: `TROWS = 6`. -/
def TROWS : Nat := 6

/-- Line 133: `MROWS = TROWS - 1`. -/
def MROWS : Nat := TROWS - 1

/-- Line 105: `#define MAX_FAN_SPEED 255`. -/
def MAX_FAN_SPEED : ℚ := 255

/-- Line 124: `#define MAX_E_TEMP (HEATER_0_MAXTEMP - HOTEND_OVERSHOOT)`. -/
def MAX_E_TEMP (c : Config) : ℚ := c.HEATER_0_MAXTEMP - c.HOTEND_OVERSHOOT

/-- Lines 101-102. -/
def MAX_PRINT_SPEED : ℚ := 500
def MIN_PRINT_SPEED : ℚ := 10

/-- Line 106. -/
def MIN_FAN_SPEED : ℚ := 0

/-- Line 109. -/
def MAX_XY_OFFSET : ℚ := 100

/-- Lines 111-118: `MAX_Z_OFFSET` is 9.99, `MIN_Z_OFFSET` is -9.99 with a probe and -1
without. -/
def MAX_Z_OFFSET : ℚ := 999 / 100
def MIN_Z_OFFSET (c : Config) : ℚ := if c.HAS_BED_PROBE then -(999 / 100) else -1

/-- Lines 121-122 and 125. -/
def MAX_FLOW_RATE : ℚ := 200
def MIN_FLOW_RATE : ℚ := 10
def MIN_E_TEMP : ℚ := 0

/-- Lines 129-130. -/
def MAX_BED_TEMP (c : Config) : ℚ := c.BED_MAXTEMP
def MIN_BED_TEMP : ℚ := 0

/-! ## Item indices: the `#define`s inside `Menu_Item_Handler`, in source order -/

@[simp] def PREPARE_BACK (_ : Config) : Nat := 0
@[simp] def PREPARE_MOVE (c : Config) : Nat := PREPARE_BACK c + 1
@[simp] def PREPARE_DISABLE (c : Config) : Nat := PREPARE_MOVE c + 1
@[simp] def PREPARE_HOME (c : Config) : Nat := PREPARE_DISABLE c + 1
@[simp] def PREPARE_MANUALLEVEL (c : Config) : Nat := PREPARE_HOME c + 1
@[simp] def PREPARE_ZOFFSET (c : Config) : Nat := PREPARE_MANUALLEVEL c + ENABLED c.HAS_ZOFFSET_ITEM
@[simp] def PREPARE_PREHEAT (c : Config) : Nat := PREPARE_ZOFFSET c + ENABLED c.HAS_PREHEAT
@[simp] def PREPARE_COOLDOWN (c : Config) : Nat := PREPARE_PREHEAT c + ENABLED c.HAS_PREHEAT
@[simp] def PREPARE_CHANGEFIL (c : Config) : Nat := PREPARE_COOLDOWN c + ENABLED c.ADVANCED_PAUSE_FEATURE
@[simp] def PREPARE_TOTAL (c : Config) : Nat := PREPARE_CHANGEFIL c
@[simp] def HOME_BACK (_ : Config) : Nat := 0
@[simp] def HOME_ALL (c : Config) : Nat := HOME_BACK c + 1
@[simp] def HOME_X (c : Config) : Nat := HOME_ALL c + 1
@[simp] def HOME_Y (c : Config) : Nat := HOME_X c + 1
@[simp] def HOME_Z (c : Config) : Nat := HOME_Y c + 1
@[simp] def HOME_SET (c : Config) : Nat := HOME_Z c + 1
@[simp] def HOME_TOTAL (c : Config) : Nat := HOME_SET c
@[simp] def MOVE_BACK (_ : Config) : Nat := 0
@[simp] def MOVE_X (c : Config) : Nat := MOVE_BACK c + 1
@[simp] def MOVE_Y (c : Config) : Nat := MOVE_X c + 1
@[simp] def MOVE_Z (c : Config) : Nat := MOVE_Y c + 1
@[simp] def MOVE_E (c : Config) : Nat := MOVE_Z c + ENABLED c.HAS_HOTEND
@[simp] def MOVE_P (c : Config) : Nat := MOVE_E c + ENABLED c.HAS_BED_PROBE
@[simp] def MOVE_LIVE (c : Config) : Nat := MOVE_P c + 1
@[simp] def MOVE_TOTAL (c : Config) : Nat := MOVE_LIVE c
@[simp] def MLEVEL_BACK (_ : Config) : Nat := 0
@[simp] def MLEVEL_PROBE (c : Config) : Nat := MLEVEL_BACK c + ENABLED c.HAS_BED_PROBE
@[simp] def MLEVEL_BL (c : Config) : Nat := MLEVEL_PROBE c + 1
@[simp] def MLEVEL_TL (c : Config) : Nat := MLEVEL_BL c + 1
@[simp] def MLEVEL_TR (c : Config) : Nat := MLEVEL_TL c + 1
@[simp] def MLEVEL_BR (c : Config) : Nat := MLEVEL_TR c + 1
@[simp] def MLEVEL_C (c : Config) : Nat := MLEVEL_BR c + 1
@[simp] def MLEVEL_ZPOS (c : Config) : Nat := MLEVEL_C c + 1
@[simp] def MLEVEL_TOTAL (c : Config) : Nat := MLEVEL_ZPOS c
@[simp] def ZOFFSET_BACK (_ : Config) : Nat := 0
@[simp] def ZOFFSET_HOME (c : Config) : Nat := ZOFFSET_BACK c + 1
@[simp] def ZOFFSET_MODE (c : Config) : Nat := ZOFFSET_HOME c + 1
@[simp] def ZOFFSET_OFFSET (c : Config) : Nat := ZOFFSET_MODE c + 1
@[simp] def ZOFFSET_UP (c : Config) : Nat := ZOFFSET_OFFSET c + 1
@[simp] def ZOFFSET_DOWN (c : Config) : Nat := ZOFFSET_UP c + 1
@[simp] def ZOFFSET_SAVE (c : Config) : Nat := ZOFFSET_DOWN c + ENABLED c.EEPROM_SETTINGS
@[simp] def ZOFFSET_TOTAL (c : Config) : Nat := ZOFFSET_SAVE c
@[simp] def PREHEAT_BACK (_ : Config) : Nat := 0
@[simp] def PREHEAT_MODE (c : Config) : Nat := PREHEAT_BACK c + 1
@[simp] def PREHEAT_1 (c : Config) : Nat := PREHEAT_MODE c + ENABLED (decide (1 ≤ c.PREHEAT_COUNT))
@[simp] def PREHEAT_2 (c : Config) : Nat := PREHEAT_1 c + ENABLED (decide (2 ≤ c.PREHEAT_COUNT))
@[simp] def PREHEAT_3 (c : Config) : Nat := PREHEAT_2 c + ENABLED (decide (3 ≤ c.PREHEAT_COUNT))
@[simp] def PREHEAT_4 (c : Config) : Nat := PREHEAT_3 c + ENABLED (decide (4 ≤ c.PREHEAT_COUNT))
@[simp] def PREHEAT_5 (c : Config) : Nat := PREHEAT_4 c + ENABLED (decide (5 ≤ c.PREHEAT_COUNT))
@[simp] def PREHEAT_TOTAL (c : Config) : Nat := PREHEAT_5 c
@[simp] def CHANGEFIL_BACK (_ : Config) : Nat := 0
@[simp] def CHANGEFIL_LOAD (c : Config) : Nat := CHANGEFIL_BACK c + 1
@[simp] def CHANGEFIL_UNLOAD (c : Config) : Nat := CHANGEFIL_LOAD c + 1
@[simp] def CHANGEFIL_CHANGE (c : Config) : Nat := CHANGEFIL_UNLOAD c + 1
@[simp] def CHANGEFIL_TOTAL (c : Config) : Nat := CHANGEFIL_CHANGE c
@[simp] def CONTROL_BACK (_ : Config) : Nat := 0
@[simp] def CONTROL_TEMP (c : Config) : Nat := CONTROL_BACK c + 1
@[simp] def CONTROL_MOTION (c : Config) : Nat := CONTROL_TEMP c + 1
@[simp] def CONTROL_VISUAL (c : Config) : Nat := CONTROL_MOTION c + 1
@[simp] def CONTROL_ADVANCED (c : Config) : Nat := CONTROL_VISUAL c + 1
@[simp] def CONTROL_SAVE (c : Config) : Nat := CONTROL_ADVANCED c + ENABLED c.EEPROM_SETTINGS
@[simp] def CONTROL_RESTORE (c : Config) : Nat := CONTROL_SAVE c + ENABLED c.EEPROM_SETTINGS
@[simp] def CONTROL_RESET (c : Config) : Nat := CONTROL_RESTORE c + ENABLED c.EEPROM_SETTINGS
@[simp] def CONTROL_INFO (c : Config) : Nat := CONTROL_RESET c + 1
@[simp] def CONTROL_TOTAL (c : Config) : Nat := CONTROL_INFO c
@[simp] def TEMP_BACK (_ : Config) : Nat := 0
@[simp] def TEMP_HOTEND (c : Config) : Nat := TEMP_BACK c + ENABLED c.HAS_HOTEND
@[simp] def TEMP_BED (c : Config) : Nat := TEMP_HOTEND c + ENABLED c.HAS_HEATED_BED
@[simp] def TEMP_FAN (c : Config) : Nat := TEMP_BED c + ENABLED c.HAS_FAN
@[simp] def TEMP_PID (c : Config) : Nat := TEMP_FAN c + ENABLED (c.HAS_HOTEND || c.HAS_HEATED_BED)
@[simp] def TEMP_PREHEAT1 (c : Config) : Nat := TEMP_PID c + ENABLED (decide (1 ≤ c.PREHEAT_COUNT))
@[simp] def TEMP_PREHEAT2 (c : Config) : Nat := TEMP_PREHEAT1 c + ENABLED (decide (2 ≤ c.PREHEAT_COUNT))
@[simp] def TEMP_PREHEAT3 (c : Config) : Nat := TEMP_PREHEAT2 c + ENABLED (decide (3 ≤ c.PREHEAT_COUNT))
@[simp] def TEMP_PREHEAT4 (c : Config) : Nat := TEMP_PREHEAT3 c + ENABLED (decide (4 ≤ c.PREHEAT_COUNT))
@[simp] def TEMP_PREHEAT5 (c : Config) : Nat := TEMP_PREHEAT4 c + ENABLED (decide (5 ≤ c.PREHEAT_COUNT))
@[simp] def TEMP_TOTAL (c : Config) : Nat := TEMP_PREHEAT5 c
@[simp] def PID_BACK (_ : Config) : Nat := 0
@[simp] def PID_HOTEND (c : Config) : Nat := PID_BACK c + ENABLED c.HAS_HOTEND
@[simp] def PID_BED (c : Config) : Nat := PID_HOTEND c + ENABLED c.HAS_HEATED_BED
@[simp] def PID_CYCLES (c : Config) : Nat := PID_BED c + 1
@[simp] def PID_TOTAL (c : Config) : Nat := PID_CYCLES c
@[simp] def HOTENDPID_BACK (_ : Config) : Nat := 0
@[simp] def HOTENDPID_TUNE (c : Config) : Nat := HOTENDPID_BACK c + 1
@[simp] def HOTENDPID_TEMP (c : Config) : Nat := HOTENDPID_TUNE c + 1
@[simp] def HOTENDPID_KP (c : Config) : Nat := HOTENDPID_TEMP c + 1
@[simp] def HOTENDPID_KI (c : Config) : Nat := HOTENDPID_KP c + 1
@[simp] def HOTENDPID_KD (c : Config) : Nat := HOTENDPID_KI c + 1
@[simp] def HOTENDPID_TOTAL (c : Config) : Nat := HOTENDPID_KD c
@[simp] def BEDPID_BACK (_ : Config) : Nat := 0
@[simp] def BEDPID_TUNE (c : Config) : Nat := BEDPID_BACK c + 1
@[simp] def BEDPID_TEMP (c : Config) : Nat := BEDPID_TUNE c + 1
@[simp] def BEDPID_KP (c : Config) : Nat := BEDPID_TEMP c + 1
@[simp] def BEDPID_KI (c : Config) : Nat := BEDPID_KP c + 1
@[simp] def BEDPID_KD (c : Config) : Nat := BEDPID_KI c + 1
@[simp] def BEDPID_TOTAL (c : Config) : Nat := BEDPID_KD c
@[simp] def PREHEAT1_BACK (_ : Config) : Nat := 0
@[simp] def PREHEAT1_HOTEND (c : Config) : Nat := PREHEAT1_BACK c + ENABLED c.HAS_HOTEND
@[simp] def PREHEAT1_BED (c : Config) : Nat := PREHEAT1_HOTEND c + ENABLED c.HAS_HEATED_BED
@[simp] def PREHEAT1_FAN (c : Config) : Nat := PREHEAT1_BED c + ENABLED c.HAS_FAN
@[simp] def PREHEAT1_TOTAL (c : Config) : Nat := PREHEAT1_FAN c
@[simp] def PREHEAT2_BACK (_ : Config) : Nat := 0
@[simp] def PREHEAT2_HOTEND (c : Config) : Nat := PREHEAT2_BACK c + ENABLED c.HAS_HOTEND
@[simp] def PREHEAT2_BED (c : Config) : Nat := PREHEAT2_HOTEND c + ENABLED c.HAS_HEATED_BED
@[simp] def PREHEAT2_FAN (c : Config) : Nat := PREHEAT2_BED c + ENABLED c.HAS_FAN
@[simp] def PREHEAT2_TOTAL (c : Config) : Nat := PREHEAT2_FAN c
@[simp] def PREHEAT3_BACK (_ : Config) : Nat := 0
@[simp] def PREHEAT3_HOTEND (c : Config) : Nat := PREHEAT3_BACK c + ENABLED c.HAS_HOTEND
@[simp] def PREHEAT3_BED (c : Config) : Nat := PREHEAT3_HOTEND c + ENABLED c.HAS_HEATED_BED
@[simp] def PREHEAT3_FAN (c : Config) : Nat := PREHEAT3_BED c + ENABLED c.HAS_FAN
@[simp] def PREHEAT3_TOTAL (c : Config) : Nat := PREHEAT3_FAN c
@[simp] def PREHEAT4_BACK (_ : Config) : Nat := 0
@[simp] def PREHEAT4_HOTEND (c : Config) : Nat := PREHEAT4_BACK c + ENABLED c.HAS_HOTEND
@[simp] def PREHEAT4_BED (c : Config) : Nat := PREHEAT4_HOTEND c + ENABLED c.HAS_HEATED_BED
@[simp] def PREHEAT4_FAN (c : Config) : Nat := PREHEAT4_BED c + ENABLED c.HAS_FAN
@[simp] def PREHEAT4_TOTAL (c : Config) : Nat := PREHEAT4_FAN c
@[simp] def PREHEAT5_BACK (_ : Config) : Nat := 0
@[simp] def PREHEAT5_HOTEND (c : Config) : Nat := PREHEAT5_BACK c + ENABLED c.HAS_HOTEND
@[simp] def PREHEAT5_BED (c : Config) : Nat := PREHEAT5_HOTEND c + ENABLED c.HAS_HEATED_BED
@[simp] def PREHEAT5_FAN (c : Config) : Nat := PREHEAT5_BED c + ENABLED c.HAS_FAN
@[simp] def PREHEAT5_TOTAL (c : Config) : Nat := PREHEAT5_FAN c
@[simp] def MOTION_BACK (_ : Config) : Nat := 0
@[simp] def MOTION_HOMEOFFSETS (c : Config) : Nat := MOTION_BACK c + 1
@[simp] def MOTION_SPEED (c : Config) : Nat := MOTION_HOMEOFFSETS c + 1
@[simp] def MOTION_ACCEL (c : Config) : Nat := MOTION_SPEED c + 1
@[simp] def MOTION_JERK (c : Config) : Nat := MOTION_ACCEL c + ENABLED c.HAS_CLASSIC_JERK
@[simp] def MOTION_STEPS (c : Config) : Nat := MOTION_JERK c + 1
@[simp] def MOTION_FLOW (c : Config) : Nat := MOTION_STEPS c + ENABLED c.HAS_HOTEND
@[simp] def MOTION_TOTAL (c : Config) : Nat := MOTION_FLOW c
@[simp] def HOMEOFFSETS_BACK (_ : Config) : Nat := 0
@[simp] def HOMEOFFSETS_XOFFSET (c : Config) : Nat := HOMEOFFSETS_BACK c + 1
@[simp] def HOMEOFFSETS_YOFFSET (c : Config) : Nat := HOMEOFFSETS_XOFFSET c + 1
@[simp] def HOMEOFFSETS_TOTAL (c : Config) : Nat := HOMEOFFSETS_YOFFSET c
@[simp] def SPEED_BACK (_ : Config) : Nat := 0
@[simp] def SPEED_X (c : Config) : Nat := SPEED_BACK c + 1
@[simp] def SPEED_Y (c : Config) : Nat := SPEED_X c + 1
@[simp] def SPEED_Z (c : Config) : Nat := SPEED_Y c + 1
@[simp] def SPEED_E (c : Config) : Nat := SPEED_Z c + ENABLED c.HAS_HOTEND
@[simp] def SPEED_TOTAL (c : Config) : Nat := SPEED_E c
@[simp] def ACCEL_BACK (_ : Config) : Nat := 0
@[simp] def ACCEL_X (c : Config) : Nat := ACCEL_BACK c + 1
@[simp] def ACCEL_Y (c : Config) : Nat := ACCEL_X c + 1
@[simp] def ACCEL_Z (c : Config) : Nat := ACCEL_Y c + 1
@[simp] def ACCEL_E (c : Config) : Nat := ACCEL_Z c + ENABLED c.HAS_HOTEND
@[simp] def ACCEL_TOTAL (c : Config) : Nat := ACCEL_E c
@[simp] def JERK_BACK (_ : Config) : Nat := 0
@[simp] def JERK_X (c : Config) : Nat := JERK_BACK c + 1
@[simp] def JERK_Y (c : Config) : Nat := JERK_X c + 1
@[simp] def JERK_Z (c : Config) : Nat := JERK_Y c + 1
@[simp] def JERK_E (c : Config) : Nat := JERK_Z c + ENABLED c.HAS_HOTEND
@[simp] def JERK_TOTAL (c : Config) : Nat := JERK_E c
@[simp] def STEPS_BACK (_ : Config) : Nat := 0
@[simp] def STEPS_X (c : Config) : Nat := STEPS_BACK c + 1
@[simp] def STEPS_Y (c : Config) : Nat := STEPS_X c + 1
@[simp] def STEPS_Z (c : Config) : Nat := STEPS_Y c + 1
@[simp] def STEPS_E (c : Config) : Nat := STEPS_Z c + ENABLED c.HAS_HOTEND
@[simp] def STEPS_TOTAL (c : Config) : Nat := STEPS_E c
@[simp] def VISUAL_BACK (_ : Config) : Nat := 0
@[simp] def VISUAL_BACKLIGHT (c : Config) : Nat := VISUAL_BACK c + 1
@[simp] def VISUAL_BRIGHTNESS (c : Config) : Nat := VISUAL_BACKLIGHT c + 1
@[simp] def VISUAL_TIME_FORMAT (c : Config) : Nat := VISUAL_BRIGHTNESS c + 1
@[simp] def VISUAL_COLOR_THEMES (c : Config) : Nat := VISUAL_TIME_FORMAT c + 1
@[simp] def VISUAL_TOTAL (c : Config) : Nat := VISUAL_COLOR_THEMES c
@[simp] def COLORSETTINGS_BACK (_ : Config) : Nat := 0
@[simp] def COLORSETTINGS_CURSOR (c : Config) : Nat := COLORSETTINGS_BACK c + 1
@[simp] def COLORSETTINGS_SPLIT_LINE (c : Config) : Nat := COLORSETTINGS_CURSOR c + 1
@[simp] def COLORSETTINGS_MENU_TOP_TXT (c : Config) : Nat := COLORSETTINGS_SPLIT_LINE c + 1
@[simp] def COLORSETTINGS_MENU_TOP_BG (c : Config) : Nat := COLORSETTINGS_MENU_TOP_TXT c + 1
@[simp] def COLORSETTINGS_HIGHLIGHT_BORDER (c : Config) : Nat := COLORSETTINGS_MENU_TOP_BG c + 1
@[simp] def COLORSETTINGS_PROGRESS_PERCENT (c : Config) : Nat := COLORSETTINGS_HIGHLIGHT_BORDER c + 1
@[simp] def COLORSETTINGS_PROGRESS_TIME (c : Config) : Nat := COLORSETTINGS_PROGRESS_PERCENT c + 1
@[simp] def COLORSETTINGS_PROGRESS_STATUS_BAR (c : Config) : Nat := COLORSETTINGS_PROGRESS_TIME c + 1
@[simp] def COLORSETTINGS_PROGRESS_STATUS_AREA (c : Config) : Nat := COLORSETTINGS_PROGRESS_STATUS_BAR c + 1
@[simp] def COLORSETTINGS_PROGRESS_COORDINATES (c : Config) : Nat := COLORSETTINGS_PROGRESS_STATUS_AREA c + 1
@[simp] def COLORSETTINGS_PROGRESS_COORDINATES_LINE (c : Config) : Nat := COLORSETTINGS_PROGRESS_COORDINATES c + 1
@[simp] def COLORSETTINGS_TOTAL (c : Config) : Nat := COLORSETTINGS_PROGRESS_COORDINATES_LINE c
@[simp] def ADVANCED_BACK (_ : Config) : Nat := 0
@[simp] def ADVANCED_BEEPER (c : Config) : Nat := ADVANCED_BACK c + 1
@[simp] def ADVANCED_PROBE (c : Config) : Nat := ADVANCED_BEEPER c + ENABLED c.HAS_BED_PROBE
@[simp] def ADVANCED_CORNER (c : Config) : Nat := ADVANCED_PROBE c + 1
@[simp] def ADVANCED_LA (c : Config) : Nat := ADVANCED_CORNER c + ENABLED c.LIN_ADVANCE
@[simp] def ADVANCED_LOAD (c : Config) : Nat := ADVANCED_LA c + ENABLED c.ADVANCED_PAUSE_FEATURE
@[simp] def ADVANCED_UNLOAD (c : Config) : Nat := ADVANCED_LOAD c + ENABLED c.ADVANCED_PAUSE_FEATURE
@[simp] def ADVANCED_COLD_EXTRUDE (c : Config) : Nat := ADVANCED_UNLOAD c + ENABLED c.PREVENT_COLD_EXTRUSION
@[simp] def ADVANCED_FILSENSORENABLED (c : Config) : Nat := ADVANCED_COLD_EXTRUDE c + ENABLED c.FILAMENT_RUNOUT_SENSOR
@[simp] def ADVANCED_FILSENSORDISTANCE (c : Config) : Nat := ADVANCED_FILSENSORENABLED c + ENABLED c.HAS_FILAMENT_RUNOUT_DISTANCE
@[simp] def ADVANCED_POWER_LOSS (c : Config) : Nat := ADVANCED_FILSENSORDISTANCE c + ENABLED c.POWER_LOSS_RECOVERY
@[simp] def ADVANCED_TOTAL (c : Config) : Nat := ADVANCED_POWER_LOSS c
@[simp] def PROBE_BACK (_ : Config) : Nat := 0
@[simp] def PROBE_XOFFSET (c : Config) : Nat := PROBE_BACK c + 1
@[simp] def PROBE_YOFFSET (c : Config) : Nat := PROBE_XOFFSET c + 1
@[simp] def PROBE_TEST (c : Config) : Nat := PROBE_YOFFSET c + 1
@[simp] def PROBE_TEST_COUNT (c : Config) : Nat := PROBE_TEST c + 1
@[simp] def PROBE_TOTAL (c : Config) : Nat := PROBE_TEST_COUNT c
@[simp] def INFO_BACK (_ : Config) : Nat := 0
@[simp] def INFO_PRINTCOUNT (c : Config) : Nat := INFO_BACK c + ENABLED c.PRINTCOUNTER
@[simp] def INFO_PRINTTIME (c : Config) : Nat := INFO_PRINTCOUNT c + ENABLED c.PRINTCOUNTER
@[simp] def INFO_SIZE (c : Config) : Nat := INFO_PRINTTIME c + 1
@[simp] def INFO_VERSION (c : Config) : Nat := INFO_SIZE c + 1
@[simp] def INFO_CONTACT (c : Config) : Nat := INFO_VERSION c + 1
@[simp] def INFO_TOTAL (c : Config) : Nat := INFO_BACK c
@[simp] def LEVELING_BACK (_ : Config) : Nat := 0
@[simp] def LEVELING_ACTIVE (c : Config) : Nat := LEVELING_BACK c + 1
@[simp] def LEVELING_GET_TILT (c : Config) : Nat := LEVELING_ACTIVE c + ENABLED (c.HAS_BED_PROBE && c.AUTO_BED_LEVELING_UBL)
@[simp] def LEVELING_GET_MESH (c : Config) : Nat := LEVELING_GET_TILT c + 1
@[simp] def LEVELING_MANUAL (c : Config) : Nat := LEVELING_GET_MESH c + 1
@[simp] def LEVELING_VIEW (c : Config) : Nat := LEVELING_MANUAL c + 1
@[simp] def LEVELING_SETTINGS (c : Config) : Nat := LEVELING_VIEW c + 1
@[simp] def LEVELING_SLOT (c : Config) : Nat := LEVELING_SETTINGS c + ENABLED c.AUTO_BED_LEVELING_UBL
@[simp] def LEVELING_LOAD (c : Config) : Nat := LEVELING_SLOT c + ENABLED c.AUTO_BED_LEVELING_UBL
@[simp] def LEVELING_SAVE (c : Config) : Nat := LEVELING_LOAD c + ENABLED c.AUTO_BED_LEVELING_UBL
@[simp] def LEVELING_TOTAL (c : Config) : Nat := LEVELING_SAVE c
@[simp] def LEVELING_VIEW_BACK (_ : Config) : Nat := 0
@[simp] def LEVELING_VIEW_MESH (c : Config) : Nat := LEVELING_VIEW_BACK c + 1
@[simp] def LEVELING_VIEW_TEXT (c : Config) : Nat := LEVELING_VIEW_MESH c + 1
@[simp] def LEVELING_VIEW_ASYMMETRIC (c : Config) : Nat := LEVELING_VIEW_TEXT c + 1
@[simp] def LEVELING_VIEW_TOTAL (c : Config) : Nat := LEVELING_VIEW_ASYMMETRIC c
@[simp] def LEVELING_SETTINGS_BACK (_ : Config) : Nat := 0
@[simp] def LEVELING_SETTINGS_FADE (c : Config) : Nat := LEVELING_SETTINGS_BACK c + 1
@[simp] def LEVELING_SETTINGS_TILT (c : Config) : Nat := LEVELING_SETTINGS_FADE c + ENABLED c.AUTO_BED_LEVELING_UBL
@[simp] def LEVELING_SETTINGS_PLANE (c : Config) : Nat := LEVELING_SETTINGS_TILT c + ENABLED c.AUTO_BED_LEVELING_UBL
@[simp] def LEVELING_SETTINGS_ZERO (c : Config) : Nat := LEVELING_SETTINGS_PLANE c + ENABLED c.AUTO_BED_LEVELING_UBL
@[simp] def LEVELING_SETTINGS_UNDEF (c : Config) : Nat := LEVELING_SETTINGS_ZERO c + ENABLED c.AUTO_BED_LEVELING_UBL
@[simp] def LEVELING_SETTINGS_TOTAL (c : Config) : Nat := LEVELING_SETTINGS_UNDEF c
@[simp] def MESHVIEW_BACK (_ : Config) : Nat := 0
@[simp] def MESHVIEW_TOTAL (c : Config) : Nat := MESHVIEW_BACK c
@[simp] def LEVELING_M_BACK (_ : Config) : Nat := 0
@[simp] def LEVELING_M_X (c : Config) : Nat := LEVELING_M_BACK c + 1
@[simp] def LEVELING_M_Y (c : Config) : Nat := LEVELING_M_X c + 1
@[simp] def LEVELING_M_NEXT (c : Config) : Nat := LEVELING_M_Y c + 1
@[simp] def LEVELING_M_OFFSET (c : Config) : Nat := LEVELING_M_NEXT c + 1
@[simp] def LEVELING_M_UP (c : Config) : Nat := LEVELING_M_OFFSET c + 1
@[simp] def LEVELING_M_DOWN (c : Config) : Nat := LEVELING_M_UP c + 1
@[simp] def LEVELING_M_GOTO_VALUE (c : Config) : Nat := LEVELING_M_DOWN c + 1
@[simp] def LEVELING_M_UNDEF (c : Config) : Nat := LEVELING_M_GOTO_VALUE c + ENABLED c.AUTO_BED_LEVELING_UBL
@[simp] def LEVELING_M_TOTAL (c : Config) : Nat := LEVELING_M_UNDEF c
@[simp] def UBL_M_BACK (_ : Config) : Nat := 0
@[simp] def UBL_M_NEXT (c : Config) : Nat := UBL_M_BACK c + 1
@[simp] def UBL_M_PREV (c : Config) : Nat := UBL_M_NEXT c + 1
@[simp] def UBL_M_OFFSET (c : Config) : Nat := UBL_M_PREV c + 1
@[simp] def UBL_M_UP (c : Config) : Nat := UBL_M_OFFSET c + 1
@[simp] def UBL_M_DOWN (c : Config) : Nat := UBL_M_UP c + 1
@[simp] def UBL_M_TOTAL (c : Config) : Nat := UBL_M_DOWN c
@[simp] def MMESH_BACK (_ : Config) : Nat := 0
@[simp] def MMESH_NEXT (c : Config) : Nat := MMESH_BACK c + 1
@[simp] def MMESH_OFFSET (c : Config) : Nat := MMESH_NEXT c + 1
@[simp] def MMESH_UP (c : Config) : Nat := MMESH_OFFSET c + 1
@[simp] def MMESH_DOWN (c : Config) : Nat := MMESH_UP c + 1
@[simp] def MMESH_OLD (c : Config) : Nat := MMESH_DOWN c + 1
@[simp] def MMESH_TOTAL (c : Config) : Nat := MMESH_OLD c
@[simp] def TUNE_BACK (_ : Config) : Nat := 0
@[simp] def TUNE_SPEED (c : Config) : Nat := TUNE_BACK c + 1
@[simp] def TUNE_FLOW (c : Config) : Nat := TUNE_SPEED c + ENABLED c.HAS_HOTEND
@[simp] def TUNE_HOTEND (c : Config) : Nat := TUNE_FLOW c + ENABLED c.HAS_HOTEND
@[simp] def TUNE_BED (c : Config) : Nat := TUNE_HOTEND c + ENABLED c.HAS_HEATED_BED
@[simp] def TUNE_FAN (c : Config) : Nat := TUNE_BED c + ENABLED c.HAS_FAN
@[simp] def TUNE_ZOFFSET (c : Config) : Nat := TUNE_FAN c + ENABLED c.HAS_ZOFFSET_ITEM
@[simp] def TUNE_ZUP (c : Config) : Nat := TUNE_ZOFFSET c + ENABLED c.HAS_ZOFFSET_ITEM
@[simp] def TUNE_ZDOWN (c : Config) : Nat := TUNE_ZUP c + ENABLED c.HAS_ZOFFSET_ITEM
@[simp] def TUNE_CHANGEFIL (c : Config) : Nat := TUNE_ZDOWN c + ENABLED c.FILAMENT_LOAD_UNLOAD_GCODES
@[simp] def TUNE_FILSENSORENABLED (c : Config) : Nat := TUNE_CHANGEFIL c + ENABLED c.FILAMENT_RUNOUT_SENSOR
@[simp] def TUNE_BACKLIGHT_OFF (c : Config) : Nat := TUNE_FILSENSORENABLED c + 1
@[simp] def TUNE_BACKLIGHT (c : Config) : Nat := TUNE_BACKLIGHT_OFF c + 1
@[simp] def TUNE_TOTAL (c : Config) : Nat := TUNE_BACKLIGHT c
@[simp] def PREHEATHOTEND_BACK (_ : Config) : Nat := 0
@[simp] def PREHEATHOTEND_CONTINUE (c : Config) : Nat := PREHEATHOTEND_BACK c + 1
@[simp] def PREHEATHOTEND_1 (c : Config) : Nat := PREHEATHOTEND_CONTINUE c + ENABLED (decide (1 ≤ c.PREHEAT_COUNT))
@[simp] def PREHEATHOTEND_2 (c : Config) : Nat := PREHEATHOTEND_1 c + ENABLED (decide (2 ≤ c.PREHEAT_COUNT))
@[simp] def PREHEATHOTEND_3 (c : Config) : Nat := PREHEATHOTEND_2 c + ENABLED (decide (3 ≤ c.PREHEAT_COUNT))
@[simp] def PREHEATHOTEND_4 (c : Config) : Nat := PREHEATHOTEND_3 c + ENABLED (decide (4 ≤ c.PREHEAT_COUNT))
@[simp] def PREHEATHOTEND_5 (c : Config) : Nat := PREHEATHOTEND_4 c + ENABLED (decide (5 ≤ c.PREHEAT_COUNT))
@[simp] def PREHEATHOTEND_CUSTOM (c : Config) : Nat := PREHEATHOTEND_5 c + 1
@[simp] def PREHEATHOTEND_TOTAL (c : Config) : Nat := PREHEATHOTEND_CUSTOM c

/-! ## Catalog size -/

/-- Lines 4379-4491.  A `case` that is compiled out falls to the final `return 0`. -/
def Get_Menu_Size (c : Config) (menu : Menu) : Nat :=
  match menu with
  | .Prepare => PREPARE_TOTAL c
  | .HomeMenu => HOME_TOTAL c
  | .Move => MOVE_TOTAL c
  | .ManualLevel => MLEVEL_TOTAL c
  | .ZOffset => if c.HAS_ZOFFSET_ITEM then ZOFFSET_TOTAL c else 0
  | .Preheat => if c.HAS_PREHEAT then PREHEAT_TOTAL c else 0
  | .ChangeFilament => if c.FILAMENT_LOAD_UNLOAD_GCODES then CHANGEFIL_TOTAL c else 0
  | .Control => CONTROL_TOTAL c
  | .TempMenu => TEMP_TOTAL c
  | .PID => if c.HAS_HOTEND || c.HAS_HEATED_BED then PID_TOTAL c else 0
  | .HotendPID => if c.HAS_HOTEND then HOTENDPID_TOTAL c else 0
  | .BedPID => if c.HAS_HEATED_BED then BEDPID_TOTAL c else 0
  | .Preheat1 => if 1 ≤ c.PREHEAT_COUNT then PREHEAT1_TOTAL c else 0
  | .Preheat2 => if 2 ≤ c.PREHEAT_COUNT then PREHEAT2_TOTAL c else 0
  | .Preheat3 => if 3 ≤ c.PREHEAT_COUNT then PREHEAT3_TOTAL c else 0
  | .Preheat4 => if 4 ≤ c.PREHEAT_COUNT then PREHEAT4_TOTAL c else 0
  | .Preheat5 => if 5 ≤ c.PREHEAT_COUNT then PREHEAT5_TOTAL c else 0
  | .Motion => MOTION_TOTAL c
  | .HomeOffsets => HOMEOFFSETS_TOTAL c
  | .MaxSpeed => SPEED_TOTAL c
  | .MaxAcceleration => ACCEL_TOTAL c
  | .MaxJerk => if c.HAS_CLASSIC_JERK then JERK_TOTAL c else 0
  | .Steps => STEPS_TOTAL c
  | .Visual => VISUAL_TOTAL c
  | .Advanced => ADVANCED_TOTAL c
  | .ProbeMenu => if c.HAS_BED_PROBE then PROBE_TOTAL c else 0
  | .Info => INFO_TOTAL c
  | .InfoMain => INFO_TOTAL c
  | .UBLMesh => if c.AUTO_BED_LEVELING_UBL && !c.HAS_BED_PROBE then UBL_M_TOTAL c else 0
  | .ManualMesh => if c.PROBE_MANUALLY then MMESH_TOTAL c else 0
  | .Leveling => if c.HAS_MESH then LEVELING_TOTAL c else 0
  | .LevelView => if c.HAS_MESH then LEVELING_VIEW_TOTAL c else 0
  | .LevelSettings => if c.HAS_MESH then LEVELING_SETTINGS_TOTAL c else 0
  | .MeshViewer => if c.HAS_MESH then MESHVIEW_TOTAL c else 0
  | .LevelManual => if c.HAS_MESH then LEVELING_M_TOTAL c else 0
  | .Tune => TUNE_TOTAL c
  | .PreheatHotend => PREHEATHOTEND_TOTAL c
  | .ColorSettings => COLORSETTINGS_TOTAL c
  | .MainMenu => 0

/-! ## State -/

/-- The variables a value editor can be bound to (`valuepointer`), and the other firmware
variables the embedded code reads or writes. -/
inductive ValuePtr where
  | null
  | current_position_x | current_position_y | current_position_z | current_position_e
  | hotend_target | bed_target | fan_speed0 | extrude_min_temp
  | hotend_pid_Kp | hotend_pid_Ki | hotend_pid_Kd
  | bed_pid_Kp | bed_pid_Ki | bed_pid_Kd
  | flow_percentage0 | zoffsetvalue | corner_pos | tilt_grid | storage_slot
  | mesh_x | mesh_y | probe_offset_z | home_offset_z
  | preset_hotend (i : Nat) | preset_bed (i : Nat) | preset_fan (i : Nat)
  | mesh_z_values (x y : Nat)
  | color_names | preheat_modes
  | other (id : Nat)
  /-- Any other variable, by the expression that names it in the source. -/
  | named (name : String)
deriving DecidableEq, Repr

/-- Completion callbacks registered through `Modify_Value(..., f)`. -/
inductive Callback where
  | updatePID | refresh_brightness
deriving DecidableEq, Repr

/-- A G-code submission: the format string and the values substituted into it. -/
structure GCode where
  fmt : String
  args : List ℚ
deriving DecidableEq

/-- The fields of `eeprom_settings` that the source assigns (struct `EEPROM_Settings` of the
header). -/
structure EEPROM_Settings where
  time_format_textual : Bool
  beeperenable : Bool
  tilt_grid_size : Nat
  corner_pos : Nat
  cursor_color : Nat
  menu_split_line : Nat
  menu_top_bg : Nat
  menu_top_txt : Nat
  highlight_box : Nat
  progress_percent : Nat
  progress_time : Nat
  status_bar_text : Nat
  status_area_text : Nat
  coordinates_text : Nat
  coordinates_split_line : Nat
deriving DecidableEq, Repr

/-- Machine state sampled by the front-end during one call (owned by the firmware). -/
structure Machine where
  /-- Is `print_job_timer.isRunning()`. -/
  timer_running : Bool
  /-- Is `print_job_timer.isPaused()`. -/
  timer_paused : Bool
  /-- Is `card.isFileOpen()`. -/
  file_open : Bool
  /-- Is `recovery.valid()`. -/
  recovery_valid : Bool
  /-- Is `recovery.enabled`. -/
  recovery_enabled : Bool
  /-- Is `runout.filament_ran_out`. -/
  filament_ran_out : Bool
  /-- Is `axes_should_home()`. -/
  axes_should_home : Bool
  /-- Is `IS_SD_PRINTING()`. -/
  is_sd_printing : Bool
  /-- Is `thermalManager.temp_hotend[0].celsius`. -/
  hotend_celsius : ℚ
  /-- Is `card.longest_filename()`. -/
  longest_filename : String
  /-- Result of `probe.probe_at_point(...)`. -/
  probe_at_point : ℚ
  /-- Result of `settings.save()`. -/
  settings_save : Bool
  /-- Is `millis()`. -/
  millis : Nat
  /-- Is `card.isMounted()`. -/
  card_mounted : Bool
  /-- Is `card.get_num_Files()`. -/
  num_Files : Nat
  /-- Is `card.flag.workDirIsRoot`. -/
  workDirIsRoot : Bool
  /-- What `card.getfilename_sorted(i)` selects: `card.longest_filename()` and
  `card.flag.filenameIsDir` of the entry with card index `i`. -/
  sorted_file : Nat → String × Bool
  /-- How often the loop `while (LCD_SERIAL.availableForWrite() < 32)` of `Draw_Bed_Mesh`
  (line 339) runs during one call, over all cells. -/
  lcd_serial_waits : Nat
  /-- The two numbers `Set_Mesh_Viewer_Status` formats with `dtostrf` (lines 371-378). -/
  mesh_status_lo : String
  mesh_status_hi : String
  /-- Is `leveling_is_valid()`. -/
  leveling_is_valid : Bool
  /-- Value of `planner.leveling_active` after `set_bed_leveling_enabled(true)`. -/
  leveling_enable_result : Bool
  /-- Result of `settings.calc_num_meshes()`. -/
  calc_num_meshes : Nat
  /-- Is `isnan(mesh_conf.mesh_z_values[x][y])`. -/
  mesh_value_isnan : Nat → Nat → Bool

/-- The global variables of the translation unit (lines 148-183, function statics) together
with the firmware variables the embedded functions write. -/
structure State where
  active_menu : Menu
  last_menu : Menu
  selection : Nat
  last_selection : Nat
  scrollpos : Nat
  process : Process
  last_process : Process
  popup : PopupID
  last_popup : PopupID
  funcpointer : Option Callback
  valuepointer : ValuePtr
  tempvalue : ℚ
  valuemin : ℚ
  valuemax : ℚ
  valueunit : Nat
  valuetype : Nat
  statusmsg : String
  filename : String
  printing : Bool
  paused : Bool
  sdprint : Bool
  livemove : Bool
  liveadjust : Bool
  preheatmode : Nat
  pausetemp : ℚ
  pausebed : ℚ
  pausefan : ℚ
  corner_avg : ℚ
  probe_deployed : Bool
  /-- Static `namescrl` of `Draw_Print_Filename`. -/
  namescrl : Nat
  /-- Static `level_state` of `Menu_Item_Handler`. -/
  level_state : Bool
  /-- Static `use_probe` of `Menu_Item_Handler` (line 1344). -/
  use_probe : Bool
  /-- Static `ranout` of `State_Update`. -/
  ranout : Bool
  /-- Static `init` of `Load_Settings`. -/
  load_init : Bool
  /-- Field `goto_mesh_value` of `mesh_conf`. -/
  goto_mesh_value : Bool
  /-- Field `viewer_print_value` of `mesh_conf`. -/
  viewer_print_value : Bool
  /-- Field `drawing_mesh` of `mesh_conf`. -/
  drawing_mesh : Bool
  /-- Field `viewer_asymmetric_range` of `mesh_conf`. -/
  viewer_asymmetric_range : Bool
  gridpoint : Nat
  /-- Static `filescrl` of `File_Control`. -/
  filescrl : Nat
  /-- Static `time` of `File_Control`. -/
  file_time : Nat
  /-- Statics `scrltime`, `statustime`, `printtime` of `Screen_Update`. -/
  scrltime : Nat
  statustime : Nat
  printtime : Nat
  /-- Static `mounted` of `Screen_Update`; `none` until the first call initialises it. -/
  mounted : Option Bool
  /-- Static `lastzoffset` of `Screen_Update`; `none` until the first call initialises it. -/
  lastzoffset : Option ℚ
  eeprom_settings : EEPROM_Settings
  /-- Firmware globals written by the handlers. -/
  wait_for_user : Bool
  pause_menu_response : PauseMenuResponse
  leveling_active : Bool
  /-- Is `runout.enabled`. -/
  runout_enabled : Bool
  encoder_rate_enabled : Bool
  progress : Nat
  remaining_time : Nat
  /-- Contents of the variables a `ValuePtr` names. -/
  vars : ValuePtr → ℚ
  /-- G-code submitted so far, oldest first. -/
  cmds : List GCode
  /-- Other firmware calls made so far, oldest first. -/
  calls : List String

/-- Assignment through a pointer. -/
def State.store (s : State) (p : ValuePtr) (v : ℚ) : State :=
  { s with vars := fun q => if q = p then v else s.vars q }

/-- Submission of a G-code line (`gcode.process_subcommands_now_P`, `queue.inject_P`). -/
def State.gcode (s : State) (fmt : String) (args : List ℚ) : State :=
  { s with cmds := s.cmds ++ [GCode.mk fmt args] }

/-- A call into the firmware that is recorded by name only. -/
def State.call (s : State) (name : String) : State :=
  { s with calls := s.calls ++ [name] }

/-- Conversion of an `int` to `int8_t`. -/
def toInt8 (z : Int) : Int := (z + 128) % 256 - 128

/-- Conversion of a `float` to an integer type: truncation toward zero. -/
def truncQ (q : ℚ) : Int := if 0 ≤ q then ⌊q⌋ else ⌈q⌉

/-- Conversion of a `float` to an unsigned integer type of `w` bits. -/
def toUnsigned (w : Nat) (q : ℚ) : Nat := (truncQ q % (2 ^ w : Int)).toNat

/-- Conversion of a `float` to a signed integer type of `w` bits. -/
def toSigned (w : Nat) (q : ℚ) : Int :=
  (truncQ q + 2 ^ (w - 1)) % (2 ^ w : Int) - 2 ^ (w - 1)

/-! ## File name and status message -/

/-- Lines 663-696: the scroll counter of the file name; the window the call draws is
`Print_Filename_window` below. -/
def Draw_Print_Filename (reset : Bool) (s : State) : State :=
  let s1 : State := if reset then { s with namescrl := 0 } else s
  if s1.process = .Print then
    let pos : Int := toInt8 s1.filename.length
    if pos > 30 then
      let pos1 : Int := toInt8 (pos - s1.namescrl)
      let n : Nat := if -pos1 ≥ 30 then 0 else s1.namescrl
      { s1 with namescrl := (n + 1) % 256 }
    else s1
  else s1

/-- Lines 5144-5157, on strings: a text that starts with `<F>` names the file being printed,
any other text becomes the status message (its first 64 characters). -/
def Update_Status (c : Config) (text : String) (s : State) : State :=
  if text.take 3 = "<F>" then
    Draw_Print_Filename true
      { s with filename := (text.drop 3).take (c.LONG_FILENAME_LENGTH - 1) }
  else { s with statusmsg := text.take 64 }

/-! ## Rendering of menu rows -/

/-- The build configuration together with the activate branches of `Menu_Item_Handler` that
are not embedded below: `rest menu item` stands for the `else` branch (`draw == false`) of item
`item` of `menu`, for the rows whose case below says so. -/
structure Env where
  cfg : Config
  rest : Menu → Nat → Machine → State → State
  /-- The overload of `Modify_Value` the declared type of a firmware variable selects (0
  `float`, 1 `uint8_t`, 2 `uint16_t`, 3 `int16_t`, 4 `uint32_t`, 5 `int8_t`), for the variables
  declared outside this file. -/
  value_type : ValuePtr → Nat

/-- Lines 308-365, `Mesh_Settings::Draw_Bed_Mesh`: beside rendering, every pass of the wait
loop and, with `viewer_print_value`, every cell submits `G4 P10` and synchronizes the planner;
`drawing_mesh` is set. -/
def Draw_Bed_Mesh (e : Env) (m : Machine) (s : State) : State :=
  let n : Nat :=
    m.lcd_serial_waits +
      (if s.viewer_print_value then e.cfg.GRID_MAX_POINTS_X * e.cfg.GRID_MAX_POINTS_Y else 0)
  { s with drawing_mesh := true,
           cmds := s.cmds ++ List.replicate n (GCode.mk "G4 P10" []),
           calls := s.calls ++ List.replicate n "planner.synchronize" }

/-- Lines 367-381, `Mesh_Settings::Set_Mesh_Viewer_Status`. -/
def Set_Mesh_Viewer_Status (e : Env) (m : Machine) (s : State) : State :=
  { Update_Status e.cfg ("Red " ++ m.mesh_status_lo ++ "..0.." ++ m.mesh_status_hi ++ " Green") s
    with drawing_mesh := false }

/-- Lines 1024-4261 with `draw == true`.  Of the 230 draw branches, all but three consist of
rendering calls only (`Draw_Menu_Item`, `Draw_Float`, `Draw_Checkbox`, `Draw_Option`, and the
formatting of their texts).  Row `MOVE_E` also resets `current_position.e` (lines 1285-1286),
row `MMESH_OFFSET` sets `current_position.z` (line 3913), and the only row of the mesh viewer
draws the mesh and sets the status message (lines 3610-3611). -/
def Item_draw (e : Env) (m : Machine) (menu : Menu) (item : Nat) (s : State) : State :=
  match menu with
  | .Move =>
    if e.cfg.HAS_HOTEND = true ∧ item = MOVE_E e.cfg then
      (s.store .current_position_e 0).call "sync_plan_position"
    else s
  | .ManualMesh =>
    if e.cfg.PROBE_MANUALLY = true ∧ item = MMESH_OFFSET e.cfg then
      s.store .current_position_z e.cfg.MANUAL_PROBE_START_Z
    else s
  | .MeshViewer =>
    if e.cfg.HAS_MESH = true ∧ item = MESHVIEW_BACK e.cfg then
      Set_Mesh_Viewer_Status e m (Draw_Bed_Mesh e m s)
    else s
  | _ => s

/-! ## Screens -/

/-- Lines 495-510. -/
def Draw_Menu (e : Env) (m : Machine) (menu : Menu) (select : Nat) (scroll : Nat) (s : State) :
    State :=
  let s1 : State :=
    if s.active_menu ≠ menu then
      { s with last_menu := s.active_menu,
               last_selection := if s.process = .Menu then s.selection else s.last_selection }
    else s
  let sel := min select (Get_Menu_Size e.cfg menu)
  let scr := if (sel : Int) - (scroll : Int) > (MROWS : Int) then (sel - MROWS) % 256 else scroll
  let s2 : State :=
    { s1 with selection := sel, scrollpos := scr, process := .Menu, active_menu := menu }
  (List.range TROWS).foldl (fun t i => Item_draw e m menu ((i + scr) % 256) t) s2

/-- Lines 591-600. -/
def Draw_Main_Menu (select : Nat) (s : State) : State :=
  { s with process := .Main, active_menu := .MainMenu, selection := select }

/-- Lines 645-661. -/
def Draw_Print_Screen (s : State) : State :=
  Draw_Print_Filename true { s with process := .Print, selection := 0 }

/-- Lines 732-740. -/
def Draw_Print_confirm (s : State) : State :=
  { Draw_Print_Screen s with process := .Confirm, popup := .Complete }

/-- Lines 767-783. -/
def Draw_SD_List (s : State) : State :=
  { s with selection := 0, scrollpos := 0, process := .File }

/-- Lines 512-529. -/
def Redraw_Menu (e : Env) (m : Machine) (lastprocess : Bool) (lastselection : Bool) (lastmenu : Bool)
    (s : State) : State :=
  match (if lastprocess then s.last_process else s.process) with
  | .Menu =>
    Draw_Menu e m (if lastmenu then s.last_menu else s.active_menu)
      (if lastselection then s.last_selection else s.selection)
      (if lastmenu then 0 else s.scrollpos) s
  | .Main => Draw_Main_Menu (if lastselection then s.last_selection else s.selection) s
  | .Print => Draw_Print_Screen s
  | .File => Draw_SD_List s
  | _ => s

/-- Lines 531-535: `Draw_Status_Area` and `Update_Status_Bar` only render. -/
def Redraw_Screen (e : Env) (m : Machine) (s : State) : State :=
  Redraw_Menu e m false false false s

/-! ## Dialogs -/

/-- Lines 926-955; `mode` is one of `Popup`, `Confirm`, `Wait`. -/
def Draw_Popup (mode : Process) (s : State) : State :=
  let s1 : State :=
    if s.process ≠ .Confirm ∧ s.process ≠ .Popup ∧ s.process ≠ .Wait then
      { s with last_process := s.process }
    else s
  let s2 : State :=
    if (s1.process = .Menu ∨ s1.process = .Wait) ∧ mode = .Popup then
      { s1 with last_selection := s1.selection }
    else s1
  let s3 : State := { s2 with process := mode }
  if mode = .Popup then { s3 with selection := 0 } else s3

/-- The `mode` argument `Popup_Handler` passes to `Draw_Popup` for each identifier it has a
`case` for (lines 4498-4554); `none` for the `default` branch. -/
def Popup_Handler_mode : PopupID → Option Process
  | .Pause | .Stop | .Resume | .ConfFilChange | .PurgeMore | .SaveLevel | .MeshSlot | .ETemp
  | .ManualProbing => some .Popup
  | .Level | .Home | .MoveWait | .Heating | .FilLoad | .FilChange | .TempWarn | .Runout
  | .PIDWait | .Resuming => some .Wait
  | _ => none

/-- Lines 4495-4558.  The `option` argument only selects the text drawn. -/
def Popup_Handler (popupid : PopupID) (s : State) : State :=
  let s1 : State := { s with popup := popupid, last_popup := popupid }
  match Popup_Handler_mode popupid with
  | some mode => Draw_Popup mode s1
  | none => s1

/-- Lines 4560-4581. -/
def Confirm_Handler (popupid : PopupID) (s : State) : State :=
  let s1 : State := { s with popup := popupid }
  match popupid with
  | .FilInsert | .HeaterTime | .UserInput | .LevelError | .InvalidMesh => Draw_Popup .Confirm s1
  | _ => s1

/-! ## Value editor -/

/-- Lines 5084-5098. -/
def Setup_Value (c : Config) (value min max unit : ℚ) (type : Nat) (s : State) : State :=
  let tv : ℚ :=
    if s.valuepointer = .hotend_pid_Ki ∨ s.valuepointer = .bed_pid_Ki then
      c.unscalePID_i value * unit
    else if s.valuepointer = .hotend_pid_Kd ∨ s.valuepointer = .bed_pid_Kd then
      c.unscalePID_d value * unit
    else value * unit
  { s with tempvalue := tv, valuemin := min, valuemax := max, valueunit := toUnsigned 8 unit,
           valuetype := type, process := .Value, encoder_rate_enabled := true }

/-- Lines 5100-5129: the six overloads differ in the type tag `type` only (0 `float`,
1 `uint8_t`, 2 `uint16_t`, 3 `int16_t`, 4 `uint32_t`, 5 `int8_t`). -/
def Modify_Value (c : Config) (value : ValuePtr) (type : Nat) (min max unit : ℚ)
    (f : Option Callback) (s : State) : State :=
  Setup_Value c (s.vars value) min max unit type { s with valuepointer := value, funcpointer := f }

/-- Lines 5132-5140. -/
def Modify_Option (value : Nat) (options : ValuePtr) (max : Nat) (s : State) : State :=
  { s with tempvalue := value, valuepointer := options, valuemin := 0, valuemax := max,
           process := .Option, encoder_rate_enabled := true }

/-! ## Status line and feedback -/

/-- Lines 5382-5395. -/
def AudioFeedback (c : Config) (success : Bool) (s : State) : State :=
  if success then
    if s.eeprom_settings.beeperenable then
      ((s.call "buzzer.tone(100, 659)").call "buzzer.tone(10, 0)").call "buzzer.tone(100, 698)"
    else Update_Status c "Success" s
  else
    if s.eeprom_settings.beeperenable then s.call "buzzer.tone(40, 440)"
    else Update_Status c "Failed" s

/-- Firmware call `thermalManager.zero_fan_speeds()`, as far as the embedded variables go. -/
def zero_fan_speeds (s : State) : State :=
  (s.call "thermalManager.zero_fan_speeds").store .fan_speed0 0

/-- Firmware call `thermalManager.disable_all_heaters()`, as far as the embedded variables go. -/
def disable_all_heaters (s : State) : State :=
  ((s.call "thermalManager.disable_all_heaters").store .hotend_target 0).store .bed_target 0

/-- The pair `thermalManager.zero_fan_speeds(); thermalManager.disable_all_heaters();`. -/
def cooldown (s : State) : State :=
  disable_all_heaters (zero_fan_speeds s)

/-- Firmware call `thermalManager.setTargetHotend(t, 0)`. -/
def setTargetHotend (t : ℚ) (s : State) : State :=
  (s.call "thermalManager.setTargetHotend").store .hotend_target t

/-- Firmware call `thermalManager.setTargetBed(t)`. -/
def setTargetBed (t : ℚ) (s : State) : State :=
  (s.call "thermalManager.setTargetBed").store .bed_target t

/-- Firmware call `thermalManager.set_fan_speed(0, v)`. -/
def set_fan_speed (v : ℚ) (s : State) : State :=
  (s.call "thermalManager.set_fan_speed").store .fan_speed0 v

/-! ## Mesh points -/

/-- Conversion of an `int` to `uint8_t`. -/
def toUInt8 (z : Int) : Nat := (z % 256).toNat

/-- Lines 3668-3676 and 3777-3785: the stepping of "Next Point" on `mesh_conf.mesh_x` and
`mesh_conf.mesh_y` (both `uint8_t`) for a grid of `X` by `Y` points (`GRID_MAX_POINTS_X`,
`GRID_MAX_POINTS_Y`); `none` at the stopping point, where the outer `if` fails. -/
def Next_Point (X Y x y : Nat) : Option (Nat × Nat) :=
  if (x : Int) ≠ (X : Int) - 1 ∨ (y : Int) ≠ (Y : Int) - 1 then
    if ((x : Int) = (X : Int) - 1 ∧ y % 2 = 0) ∨ (x = 0 ∧ y % 2 = 1) then
      some (x, (y + 1) % 256)
    else if y % 2 = 0 then some ((x + 1) % 256, y)
    else some ((x + 255) % 256, y)
  else none

/-- The point after one activation of "Next Point": the stopping point is kept. -/
def Next_Point_step (X Y : Nat) (p : Nat × Nat) : Nat × Nat :=
  (Next_Point X Y p.1 p.2).getD p

/-- The point after `n` activations of "Next Point" from `(0, 0)`. -/
def Next_Point_walk (X Y n : Nat) : Nat × Nat :=
  (Next_Point_step X Y)^[n] (0, 0)

/-- Lines 3949-3956 of item `MMESH_OLD`: the mesh point computed from `gridpoint` for a grid of
`X` by `Y` points; the division and the remainder are those of `int`, the results are stored in
`uint8_t`. -/
def MMESH_OLD_point (X Y gridpoint : Nat) : Nat × Nat :=
  let mesh_y : Nat := toUInt8 (((gridpoint : Int) - 1).tdiv (Y : Int))
  let mesh_x : Nat := toUInt8 (((gridpoint : Int) - 1).tmod (X : Int))
  if mesh_y % 2 = 1 then (toUInt8 ((X : Int) - (mesh_x : Int) - 1), mesh_y) else (mesh_x, mesh_y)

/-- Row `y` of the serpentine probing order in the words of the claims: `x` ascending when `y`
is even and descending when `y` is odd. -/
def serpentine_row (X y : Nat) : List (Nat × Nat) :=
  if y % 2 = 0 then (List.range X).map (fun (x : Nat) => (x, y))
  else (List.range X).reverse.map (fun (x : Nat) => (x, y))

/-- The serpentine probing order of a grid of `X` by `Y` points in the words of the claims: the
rows in ascending `y`, each traversed as `serpentine_row` says. -/
def serpentine_order (X : Nat) : Nat → List (Nat × Nat)
  | 0 => []
  | Y + 1 => serpentine_order X Y ++ serpentine_row X Y

/-- The points visited by the first `n` activations of "Next Point" from `(0, 0)`, the start
included. -/
def Next_Point_visited (X Y n : Nat) : List (Nat × Nat) :=
  (List.range (n + 1)).map (Next_Point_walk X Y)

/-- The stepping of "Next Point" (lines 3668-3676, 3777-3785) on the variables
`mesh_conf.mesh_x` and `mesh_conf.mesh_y`: the state after the increment or decrement, `none`
at the stopping point. -/
def Next_Point_store (X Y : Nat) (s : State) : Option State :=
  let x : Nat := toUnsigned 8 (s.vars .mesh_x)
  let y : Nat := toUnsigned 8 (s.vars .mesh_y)
  if (x : Int) ≠ (X : Int) - 1 ∨ (y : Int) ≠ (Y : Int) - 1 then
    if ((x : Int) = (X : Int) - 1 ∧ y % 2 = 0) ∨ (x = 0 ∧ y % 2 = 1) then
      some (s.store .mesh_y (((y + 1) % 256 : Nat) : ℚ))
    else if y % 2 = 0 then some (s.store .mesh_x (((x + 1) % 256 : Nat) : ℚ))
    else some (s.store .mesh_x (((x + 255) % 256 : Nat) : ℚ))
  else none

/-- The call `set_bed_leveling_enabled(level_state)`. -/
def restore_leveling (m : Machine) (s : State) : State :=
  if s.level_state then
    ({ s with leveling_active := m.leveling_enable_result }).call "set_bed_leveling_enabled(true)"
  else ({ s with leveling_active := false }).call "set_bed_leveling_enabled(false)"

/-! ## Catalogue of rows -/

/-- The colour fields of `eeprom_settings` the ColorSettings menu shows. -/
inductive ColorField where
  | cursor_color | menu_split_line | menu_top_bg | menu_top_txt | highlight_box
  | progress_percent | progress_time | status_bar_text | status_area_text
  | coordinates_text | coordinates_split_line
deriving DecidableEq, Repr

/-- The value of a colour field. -/
def ColorField.get (f : ColorField) (x : EEPROM_Settings) : Nat :=
  match f with
  | .cursor_color => x.cursor_color
  | .menu_split_line => x.menu_split_line
  | .menu_top_bg => x.menu_top_bg
  | .menu_top_txt => x.menu_top_txt
  | .highlight_box => x.highlight_box
  | .progress_percent => x.progress_percent
  | .progress_time => x.progress_time
  | .status_bar_text => x.status_bar_text
  | .status_area_text => x.status_area_text
  | .coordinates_text => x.coordinates_text
  | .coordinates_split_line => x.coordinates_split_line

/-- The flags the rows with a checkbox pass to `Draw_Checkbox`: `probe_deployed`, `livemove`,
`use_probe`, `liveadjust`, `eeprom_settings.time_format_textual`,
`eeprom_settings.beeperenable`, `runout.enabled`, `recovery.enabled`,
`planner.leveling_active`, `mesh_conf.viewer_print_value`,
`mesh_conf.viewer_asymmetric_range`, `mesh_conf.goto_mesh_value`. -/
inductive Flag where
  | probe_deployed | livemove | use_probe | liveadjust | time_format_textual | beeperenable
  | runout_enabled | recovery_enabled | leveling_active | viewer_print_value
  | viewer_asymmetric_range | goto_mesh_value
deriving DecidableEq, Repr

/-- The value of a flag; `recovery.enabled` belongs to the firmware, which alone writes it. -/
def Flag.get (b : Flag) (m : Machine) (s : State) : Bool :=
  match b with
  | .probe_deployed => s.probe_deployed
  | .livemove => s.livemove
  | .use_probe => s.use_probe
  | .liveadjust => s.liveadjust
  | .time_format_textual => s.eeprom_settings.time_format_textual
  | .beeperenable => s.eeprom_settings.beeperenable
  | .runout_enabled => s.runout_enabled
  | .recovery_enabled => m.recovery_enabled
  | .leveling_active => s.leveling_active
  | .viewer_print_value => s.viewer_print_value
  | .viewer_asymmetric_range => s.viewer_asymmetric_range
  | .goto_mesh_value => s.goto_mesh_value

/-- What a draw branch draws beside the label of its row: the value of a variable
(`Draw_Float(var, ...)`; the PID rows pass `unscalePID_i(var)`, `unscalePID_d(var)`), the value
of a local copy of a variable (`Draw_Float(currval, ...)` of row `MMESH_OLD`), a colour field
or the preheat mode (`Draw_Option`), or a flag (`Draw_Checkbox(row, flag)`). -/
inductive Shown where
  | value (p : ValuePtr)
  | local_copy (p : ValuePtr)
  | color (f : ColorField)
  | preheat_mode
  | checkbox (flag : Flag)
deriving DecidableEq, Repr

/-- What the draw branch of a row renders: the label it passes to `Draw_Menu_Item` and what it
draws beside it. -/
structure RowView where
  label : String
  shown : Option Shown
deriving DecidableEq, Repr

/-- The case labels of `switch (item)` in case `Prepare` that are compiled in
(lines 1044-1126). -/
def Prepare_case (c : Config) (item : Nat) : Prop :=
  item = PREPARE_BACK c ∨
  item = PREPARE_MOVE c ∨
  item = PREPARE_DISABLE c ∨
  item = PREPARE_HOME c ∨
  item = PREPARE_MANUALLEVEL c ∨
  (c.HAS_ZOFFSET_ITEM = true ∧ item = PREPARE_ZOFFSET c) ∨
  (c.HAS_PREHEAT = true ∧ item = PREPARE_PREHEAT c) ∨
  (c.HAS_PREHEAT = true ∧ item = PREPARE_COOLDOWN c) ∨
  (c.ADVANCED_PAUSE_FEATURE = true ∧ item = PREPARE_CHANGEFIL c)

/-- The draw branches of case `Prepare`: the label passed to `Draw_Menu_Item` and what is
drawn beside it. -/
def Prepare_row (c : Config) (item : Nat) (_s : State) : Option RowView :=
  if item = PREPARE_BACK c then some ⟨"Back", none⟩
  else if item = PREPARE_MOVE c then some ⟨"Move", none⟩
  else if item = PREPARE_DISABLE c then some ⟨"Disable Stepper", none⟩
  else if item = PREPARE_HOME c then some ⟨"Homing", none⟩
  else if item = PREPARE_MANUALLEVEL c then some ⟨"Manual Leveling", none⟩
  else if c.HAS_ZOFFSET_ITEM = true ∧ item = PREPARE_ZOFFSET c then some ⟨"Z-Offset", none⟩
  else if c.HAS_PREHEAT = true ∧ item = PREPARE_PREHEAT c then some ⟨"Preheat", none⟩
  else if c.HAS_PREHEAT = true ∧ item = PREPARE_COOLDOWN c then some ⟨"Cooldown", none⟩
  else if c.ADVANCED_PAUSE_FEATURE = true ∧ item = PREPARE_CHANGEFIL c then
    some ⟨"Change Filament", none⟩
  else none

/-- The case labels of `switch (item)` in case `HomeMenu` that are compiled in
(lines 1168-1219). -/
def HomeMenu_case (c : Config) (item : Nat) : Prop :=
  item = HOME_BACK c ∨
  item = HOME_ALL c ∨
  item = HOME_X c ∨
  item = HOME_Y c ∨
  item = HOME_Z c ∨
  item = HOME_SET c

/-- The draw branches of case `HomeMenu`: the label passed to `Draw_Menu_Item` and what is
drawn beside it. -/
def HomeMenu_row (c : Config) (item : Nat) (_s : State) : Option RowView :=
  if item = HOME_BACK c then some ⟨"Back", none⟩
  else if item = HOME_ALL c then some ⟨"Home All", none⟩
  else if item = HOME_X c then some ⟨"Home X", none⟩
  else if item = HOME_Y c then some ⟨"Home Y", none⟩
  else if item = HOME_Z c then some ⟨"Home Z", none⟩
  else if item = HOME_SET c then some ⟨"Set Home Position", none⟩
  else none

/-- The case labels of `switch (item)` in case `Move` that are compiled in
(lines 1242-1319). -/
def Move_case (c : Config) (item : Nat) : Prop :=
  item = MOVE_BACK c ∨
  item = MOVE_X c ∨
  item = MOVE_Y c ∨
  item = MOVE_Z c ∨
  (c.HAS_HOTEND = true ∧ item = MOVE_E c) ∨
  (c.HAS_BED_PROBE = true ∧ item = MOVE_P c) ∨
  item = MOVE_LIVE c

/-- The draw branches of case `Move`: the label passed to `Draw_Menu_Item` and what is
drawn beside it. -/
def Move_row (c : Config) (item : Nat) (_s : State) : Option RowView :=
  if item = MOVE_BACK c then some ⟨"Back", none⟩
  else if item = MOVE_X c then some ⟨"Move X", some (.value .current_position_x)⟩
  else if item = MOVE_Y c then some ⟨"Move Y", some (.value .current_position_y)⟩
  else if item = MOVE_Z c then some ⟨"Move Z", some (.value .current_position_z)⟩
  else if c.HAS_HOTEND = true ∧ item = MOVE_E c then
    some ⟨"Extruder", some (.value .current_position_e)⟩
  else if c.HAS_BED_PROBE = true ∧ item = MOVE_P c then
    some ⟨"Probe", some (.checkbox .probe_deployed)⟩
  else if item = MOVE_LIVE c then some ⟨"Live Movement", some (.checkbox .livemove)⟩
  else none

/-- The case labels of `switch (item)` in case `ManualLevel` that are compiled in
(lines 1347-1494). -/
def ManualLevel_case (c : Config) (item : Nat) : Prop :=
  item = MLEVEL_BACK c ∨
  (c.HAS_BED_PROBE = true ∧ item = MLEVEL_PROBE c) ∨
  item = MLEVEL_BL c ∨
  item = MLEVEL_TL c ∨
  item = MLEVEL_TR c ∨
  item = MLEVEL_BR c ∨
  item = MLEVEL_C c ∨
  item = MLEVEL_ZPOS c

/-- The draw branches of case `ManualLevel`: the label passed to `Draw_Menu_Item` and what is
drawn beside it. -/
def ManualLevel_row (c : Config) (item : Nat) (_s : State) : Option RowView :=
  if item = MLEVEL_BACK c then some ⟨"Back", none⟩
  else if c.HAS_BED_PROBE = true ∧ item = MLEVEL_PROBE c then
    some ⟨"Use Probe", some (.checkbox .use_probe)⟩
  else if item = MLEVEL_BL c then some ⟨"Bottom Left", none⟩
  else if item = MLEVEL_TL c then some ⟨"Top Left", none⟩
  else if item = MLEVEL_TR c then some ⟨"Top Right", none⟩
  else if item = MLEVEL_BR c then some ⟨"Bottom Right", none⟩
  else if item = MLEVEL_C c then some ⟨"Center", none⟩
  else if item = MLEVEL_ZPOS c then some ⟨"Z Position", some (.value (.named "mlev_z_pos"))⟩
  else none

/-- The case labels of `switch (item)` in case `ZOffset` that are compiled in
(lines 1518-1617). -/
def ZOffset_case (c : Config) (item : Nat) : Prop :=
  item = ZOFFSET_BACK c ∨
  item = ZOFFSET_HOME c ∨
  item = ZOFFSET_MODE c ∨
  item = ZOFFSET_OFFSET c ∨
  item = ZOFFSET_UP c ∨
  item = ZOFFSET_DOWN c ∨
  (c.EEPROM_SETTINGS = true ∧ item = ZOFFSET_SAVE c)

/-- The draw branches of case `ZOffset`: the label passed to `Draw_Menu_Item` and what is
drawn beside it. -/
def ZOffset_row (c : Config) (item : Nat) (_s : State) : Option RowView :=
  if item = ZOFFSET_BACK c then some ⟨"Back", none⟩
  else if item = ZOFFSET_HOME c then some ⟨"Home Z Axis", none⟩
  else if item = ZOFFSET_MODE c then some ⟨"Live Adjustment", some (.checkbox .liveadjust)⟩
  else if item = ZOFFSET_OFFSET c then some ⟨"Z Offset", some (.value .zoffsetvalue)⟩
  else if item = ZOFFSET_UP c then some ⟨"Microstep Up", none⟩
  else if item = ZOFFSET_DOWN c then some ⟨"Microstep Down", none⟩
  else if c.EEPROM_SETTINGS = true ∧ item = ZOFFSET_SAVE c then some ⟨"Save", none⟩
  else none

/-- The case labels of `switch (item)` in case `Preheat` that are compiled in
(lines 1642-1724). -/
def Preheat_case (c : Config) (item : Nat) : Prop :=
  item = PREHEAT_BACK c ∨
  item = PREHEAT_MODE c ∨
  (1 ≤ c.PREHEAT_COUNT ∧ item = PREHEAT_1 c) ∨
  (2 ≤ c.PREHEAT_COUNT ∧ item = PREHEAT_2 c) ∨
  (3 ≤ c.PREHEAT_COUNT ∧ item = PREHEAT_3 c) ∨
  (4 ≤ c.PREHEAT_COUNT ∧ item = PREHEAT_4 c) ∨
  (5 ≤ c.PREHEAT_COUNT ∧ item = PREHEAT_5 c)

/-- The draw branches of case `Preheat`: the label passed to `Draw_Menu_Item` and what is
drawn beside it. -/
def Preheat_row (c : Config) (item : Nat) (_s : State) : Option RowView :=
  if item = PREHEAT_BACK c then some ⟨"Back", none⟩
  else if item = PREHEAT_MODE c then some ⟨"Preheat Mode", some .preheat_mode⟩
  else if 1 ≤ c.PREHEAT_COUNT ∧ item = PREHEAT_1 c then some ⟨(c.PREHEAT_LABEL 1), none⟩
  else if 2 ≤ c.PREHEAT_COUNT ∧ item = PREHEAT_2 c then some ⟨(c.PREHEAT_LABEL 2), none⟩
  else if 3 ≤ c.PREHEAT_COUNT ∧ item = PREHEAT_3 c then some ⟨(c.PREHEAT_LABEL 3), none⟩
  else if 4 ≤ c.PREHEAT_COUNT ∧ item = PREHEAT_4 c then some ⟨(c.PREHEAT_LABEL 4), none⟩
  else if 5 ≤ c.PREHEAT_COUNT ∧ item = PREHEAT_5 c then some ⟨(c.PREHEAT_LABEL 5), none⟩
  else none

/-- The case labels of `switch (item)` in case `ChangeFilament` that are compiled in
(lines 1752-1800). -/
def ChangeFilament_case (c : Config) (item : Nat) : Prop :=
  item = CHANGEFIL_BACK c ∨
  item = CHANGEFIL_LOAD c ∨
  item = CHANGEFIL_UNLOAD c ∨
  item = CHANGEFIL_CHANGE c

/-- The draw branches of case `ChangeFilament`: the label passed to `Draw_Menu_Item` and what is
drawn beside it. -/
def ChangeFilament_row (c : Config) (item : Nat) (_s : State) : Option RowView :=
  if item = CHANGEFIL_BACK c then some ⟨"Back", none⟩
  else if item = CHANGEFIL_LOAD c then some ⟨"Load Filament", none⟩
  else if item = CHANGEFIL_UNLOAD c then some ⟨"Unload Filament", none⟩
  else if item = CHANGEFIL_CHANGE c then some ⟨"Change Filament", none⟩
  else none

/-- The case labels of `switch (item)` in case `Control` that are compiled in
(lines 1836-1903). -/
def Control_case (c : Config) (item : Nat) : Prop :=
  item = CONTROL_BACK c ∨
  item = CONTROL_TEMP c ∨
  item = CONTROL_MOTION c ∨
  item = CONTROL_VISUAL c ∨
  item = CONTROL_ADVANCED c ∨
  (c.EEPROM_SETTINGS = true ∧ item = CONTROL_SAVE c) ∨
  (c.EEPROM_SETTINGS = true ∧ item = CONTROL_RESTORE c) ∨
  (c.EEPROM_SETTINGS = true ∧ item = CONTROL_RESET c) ∨
  item = CONTROL_INFO c

/-- The draw branches of case `Control`: the label passed to `Draw_Menu_Item` and what is
drawn beside it. -/
def Control_row (c : Config) (item : Nat) (_s : State) : Option RowView :=
  if item = CONTROL_BACK c then some ⟨"Back", none⟩
  else if item = CONTROL_TEMP c then some ⟨"Temperature", none⟩
  else if item = CONTROL_MOTION c then some ⟨"Motion", none⟩
  else if item = CONTROL_VISUAL c then some ⟨"Visual", none⟩
  else if item = CONTROL_ADVANCED c then some ⟨"Advanced", none⟩
  else if c.EEPROM_SETTINGS = true ∧ item = CONTROL_SAVE c then some ⟨"Store Settings", none⟩
  else if c.EEPROM_SETTINGS = true ∧ item = CONTROL_RESTORE c then some ⟨"Restore Settings", none⟩
  else if c.EEPROM_SETTINGS = true ∧ item = CONTROL_RESET c then some ⟨"Reset to Defaults", none⟩
  else if item = CONTROL_INFO c then some ⟨"Info", none⟩
  else none

/-- The case labels of `switch (item)` in case `TempMenu` that are compiled in
(lines 1928-2020). -/
def TempMenu_case (c : Config) (item : Nat) : Prop :=
  item = TEMP_BACK c ∨
  (c.HAS_HOTEND = true ∧ item = TEMP_HOTEND c) ∨
  (c.HAS_HEATED_BED = true ∧ item = TEMP_BED c) ∨
  (c.HAS_FAN = true ∧ item = TEMP_FAN c) ∨
  ((c.HAS_HOTEND || c.HAS_HEATED_BED) = true ∧ item = TEMP_PID c) ∨
  (1 ≤ c.PREHEAT_COUNT ∧ item = TEMP_PREHEAT1 c) ∨
  (2 ≤ c.PREHEAT_COUNT ∧ item = TEMP_PREHEAT2 c) ∨
  (3 ≤ c.PREHEAT_COUNT ∧ item = TEMP_PREHEAT3 c) ∨
  (4 ≤ c.PREHEAT_COUNT ∧ item = TEMP_PREHEAT4 c) ∨
  (5 ≤ c.PREHEAT_COUNT ∧ item = TEMP_PREHEAT5 c)

/-- The draw branches of case `TempMenu`: the label passed to `Draw_Menu_Item` and what is
drawn beside it. -/
def TempMenu_row (c : Config) (item : Nat) (_s : State) : Option RowView :=
  if item = TEMP_BACK c then some ⟨"Back", none⟩
  else if c.HAS_HOTEND = true ∧ item = TEMP_HOTEND c then
    some ⟨"Hotend", some (.value .hotend_target)⟩
  else if c.HAS_HEATED_BED = true ∧ item = TEMP_BED c then some ⟨"Bed", some (.value .bed_target)⟩
  else if c.HAS_FAN = true ∧ item = TEMP_FAN c then some ⟨"Fan", some (.value .fan_speed0)⟩
  else if (c.HAS_HOTEND || c.HAS_HEATED_BED) = true ∧ item = TEMP_PID c then some ⟨"PID", none⟩
  else if 1 ≤ c.PREHEAT_COUNT ∧ item = TEMP_PREHEAT1 c then some ⟨(c.PREHEAT_LABEL 1), none⟩
  else if 2 ≤ c.PREHEAT_COUNT ∧ item = TEMP_PREHEAT2 c then some ⟨(c.PREHEAT_LABEL 2), none⟩
  else if 3 ≤ c.PREHEAT_COUNT ∧ item = TEMP_PREHEAT3 c then some ⟨(c.PREHEAT_LABEL 3), none⟩
  else if 4 ≤ c.PREHEAT_COUNT ∧ item = TEMP_PREHEAT4 c then some ⟨(c.PREHEAT_LABEL 4), none⟩
  else if 5 ≤ c.PREHEAT_COUNT ∧ item = TEMP_PREHEAT5 c then some ⟨(c.PREHEAT_LABEL 5), none⟩
  else none

/-- The case labels of `switch (item)` in case `PID` that are compiled in
(lines 2043-2071). -/
def PID_case (c : Config) (item : Nat) : Prop :=
  item = PID_BACK c ∨
  (c.HAS_HOTEND = true ∧ item = PID_HOTEND c) ∨
  (c.HAS_HEATED_BED = true ∧ item = PID_BED c) ∨
  item = PID_CYCLES c

/-- The draw branches of case `PID`: the label passed to `Draw_Menu_Item` and what is
drawn beside it. -/
def PID_row (c : Config) (item : Nat) (_s : State) : Option RowView :=
  if item = PID_BACK c then some ⟨"Back", none⟩
  else if c.HAS_HOTEND = true ∧ item = PID_HOTEND c then some ⟨"Hotend", none⟩
  else if c.HAS_HEATED_BED = true ∧ item = PID_BED c then some ⟨"Bed", none⟩
  else if item = PID_CYCLES c then some ⟨"Cycles", some (.value (.named "PID_cycles"))⟩
  else none

/-- The case labels of `switch (item)` in case `HotendPID` that are compiled in
(lines 2097-2144). -/
def HotendPID_case (c : Config) (item : Nat) : Prop :=
  item = HOTENDPID_BACK c ∨
  item = HOTENDPID_TUNE c ∨
  item = HOTENDPID_TEMP c ∨
  item = HOTENDPID_KP c ∨
  item = HOTENDPID_KI c ∨
  item = HOTENDPID_KD c

/-- The draw branches of case `HotendPID`: the label passed to `Draw_Menu_Item` and what is
drawn beside it. -/
def HotendPID_row (c : Config) (item : Nat) (_s : State) : Option RowView :=
  if item = HOTENDPID_BACK c then some ⟨"Back", none⟩
  else if item = HOTENDPID_TUNE c then some ⟨"Autotune", none⟩
  else if item = HOTENDPID_TEMP c then some ⟨"Temperature", some (.value (.named "PID_e_temp"))⟩
  else if item = HOTENDPID_KP c then some ⟨"Kp Value", some (.value .hotend_pid_Kp)⟩
  else if item = HOTENDPID_KI c then some ⟨"Ki Value", some (.value .hotend_pid_Ki)⟩
  else if item = HOTENDPID_KD c then some ⟨"Kd Value", some (.value .hotend_pid_Kd)⟩
  else none

/-- The case labels of `switch (item)` in case `BedPID` that are compiled in
(lines 2170-2217). -/
def BedPID_case (c : Config) (item : Nat) : Prop :=
  item = BEDPID_BACK c ∨
  item = BEDPID_TUNE c ∨
  item = BEDPID_TEMP c ∨
  item = BEDPID_KP c ∨
  item = BEDPID_KI c ∨
  item = BEDPID_KD c

/-- The draw branches of case `BedPID`: the label passed to `Draw_Menu_Item` and what is
drawn beside it. -/
def BedPID_row (c : Config) (item : Nat) (_s : State) : Option RowView :=
  if item = BEDPID_BACK c then some ⟨"Back", none⟩
  else if item = BEDPID_TUNE c then some ⟨"Autotune", none⟩
  else if item = BEDPID_TEMP c then some ⟨"Temperature", some (.value (.named "PID_bed_temp"))⟩
  else if item = BEDPID_KP c then some ⟨"Kp Value", some (.value .bed_pid_Kp)⟩
  else if item = BEDPID_KI c then some ⟨"Ki Value", some (.value .bed_pid_Ki)⟩
  else if item = BEDPID_KD c then some ⟨"Kd Value", some (.value .bed_pid_Kd)⟩
  else none

/-- The case labels of `switch (item)` in case `Preheat1` that are compiled in
(lines 2239-2270). -/
def Preheat1_case (c : Config) (item : Nat) : Prop :=
  item = PREHEAT1_BACK c ∨
  (c.HAS_HOTEND = true ∧ item = PREHEAT1_HOTEND c) ∨
  (c.HAS_HEATED_BED = true ∧ item = PREHEAT1_BED c) ∨
  (c.HAS_FAN = true ∧ item = PREHEAT1_FAN c)

/-- The draw branches of case `Preheat1`: the label passed to `Draw_Menu_Item` and what is
drawn beside it. -/
def Preheat1_row (c : Config) (item : Nat) (_s : State) : Option RowView :=
  if item = PREHEAT1_BACK c then some ⟨"Back", none⟩
  else if c.HAS_HOTEND = true ∧ item = PREHEAT1_HOTEND c then
    some ⟨"Hotend", some (.value (.preset_hotend 0))⟩
  else if c.HAS_HEATED_BED = true ∧ item = PREHEAT1_BED c then
    some ⟨"Bed", some (.value (.preset_bed 0))⟩
  else if c.HAS_FAN = true ∧ item = PREHEAT1_FAN c then some ⟨"Fan", some (.value (.preset_fan 0))⟩
  else none

/-- The case labels of `switch (item)` in case `Preheat2` that are compiled in
(lines 2293-2324). -/
def Preheat2_case (c : Config) (item : Nat) : Prop :=
  item = PREHEAT2_BACK c ∨
  (c.HAS_HOTEND = true ∧ item = PREHEAT2_HOTEND c) ∨
  (c.HAS_HEATED_BED = true ∧ item = PREHEAT2_BED c) ∨
  (c.HAS_FAN = true ∧ item = PREHEAT2_FAN c)

/-- The draw branches of case `Preheat2`: the label passed to `Draw_Menu_Item` and what is
drawn beside it. -/
def Preheat2_row (c : Config) (item : Nat) (_s : State) : Option RowView :=
  if item = PREHEAT2_BACK c then some ⟨"Back", none⟩
  else if c.HAS_HOTEND = true ∧ item = PREHEAT2_HOTEND c then
    some ⟨"Hotend", some (.value (.preset_hotend 1))⟩
  else if c.HAS_HEATED_BED = true ∧ item = PREHEAT2_BED c then
    some ⟨"Bed", some (.value (.preset_bed 1))⟩
  else if c.HAS_FAN = true ∧ item = PREHEAT2_FAN c then some ⟨"Fan", some (.value (.preset_fan 1))⟩
  else none

/-- The case labels of `switch (item)` in case `Preheat3` that are compiled in
(lines 2347-2378). -/
def Preheat3_case (c : Config) (item : Nat) : Prop :=
  item = PREHEAT3_BACK c ∨
  (c.HAS_HOTEND = true ∧ item = PREHEAT3_HOTEND c) ∨
  (c.HAS_HEATED_BED = true ∧ item = PREHEAT3_BED c) ∨
  (c.HAS_FAN = true ∧ item = PREHEAT3_FAN c)

/-- The draw branches of case `Preheat3`: the label passed to `Draw_Menu_Item` and what is
drawn beside it. -/
def Preheat3_row (c : Config) (item : Nat) (_s : State) : Option RowView :=
  if item = PREHEAT3_BACK c then some ⟨"Back", none⟩
  else if c.HAS_HOTEND = true ∧ item = PREHEAT3_HOTEND c then
    some ⟨"Hotend", some (.value (.preset_hotend 2))⟩
  else if c.HAS_HEATED_BED = true ∧ item = PREHEAT3_BED c then
    some ⟨"Bed", some (.value (.preset_bed 2))⟩
  else if c.HAS_FAN = true ∧ item = PREHEAT3_FAN c then some ⟨"Fan", some (.value (.preset_fan 2))⟩
  else none

/-- The case labels of `switch (item)` in case `Preheat4` that are compiled in
(lines 2401-2432). -/
def Preheat4_case (c : Config) (item : Nat) : Prop :=
  item = PREHEAT4_BACK c ∨
  (c.HAS_HOTEND = true ∧ item = PREHEAT4_HOTEND c) ∨
  (c.HAS_HEATED_BED = true ∧ item = PREHEAT4_BED c) ∨
  (c.HAS_FAN = true ∧ item = PREHEAT4_FAN c)

/-- The draw branches of case `Preheat4`: the label passed to `Draw_Menu_Item` and what is
drawn beside it. -/
def Preheat4_row (c : Config) (item : Nat) (_s : State) : Option RowView :=
  if item = PREHEAT4_BACK c then some ⟨"Back", none⟩
  else if c.HAS_HOTEND = true ∧ item = PREHEAT4_HOTEND c then
    some ⟨"Hotend", some (.value (.preset_hotend 3))⟩
  else if c.HAS_HEATED_BED = true ∧ item = PREHEAT4_BED c then
    some ⟨"Bed", some (.value (.preset_bed 3))⟩
  else if c.HAS_FAN = true ∧ item = PREHEAT4_FAN c then some ⟨"Fan", some (.value (.preset_fan 3))⟩
  else none

/-- The case labels of `switch (item)` in case `Preheat5` that are compiled in
(lines 2455-2486). -/
def Preheat5_case (c : Config) (item : Nat) : Prop :=
  item = PREHEAT5_BACK c ∨
  (c.HAS_HOTEND = true ∧ item = PREHEAT5_HOTEND c) ∨
  (c.HAS_HEATED_BED = true ∧ item = PREHEAT5_BED c) ∨
  (c.HAS_FAN = true ∧ item = PREHEAT5_FAN c)

/-- The draw branches of case `Preheat5`: the label passed to `Draw_Menu_Item` and what is
drawn beside it. -/
def Preheat5_row (c : Config) (item : Nat) (_s : State) : Option RowView :=
  if item = PREHEAT5_BACK c then some ⟨"Back", none⟩
  else if c.HAS_HOTEND = true ∧ item = PREHEAT5_HOTEND c then
    some ⟨"Hotend", some (.value (.preset_hotend 4))⟩
  else if c.HAS_HEATED_BED = true ∧ item = PREHEAT5_BED c then
    some ⟨"Bed", some (.value (.preset_bed 4))⟩
  else if c.HAS_FAN = true ∧ item = PREHEAT5_FAN c then some ⟨"Fan", some (.value (.preset_fan 4))⟩
  else none

/-- The case labels of `switch (item)` in case `Motion` that are compiled in
(lines 2511-2562). -/
def Motion_case (c : Config) (item : Nat) : Prop :=
  item = MOTION_BACK c ∨
  item = MOTION_HOMEOFFSETS c ∨
  item = MOTION_SPEED c ∨
  item = MOTION_ACCEL c ∨
  (c.HAS_CLASSIC_JERK = true ∧ item = MOTION_JERK c) ∨
  item = MOTION_STEPS c ∨
  (c.HAS_HOTEND = true ∧ item = MOTION_FLOW c)

/-- The draw branches of case `Motion`: the label passed to `Draw_Menu_Item` and what is
drawn beside it. -/
def Motion_row (c : Config) (item : Nat) (_s : State) : Option RowView :=
  if item = MOTION_BACK c then some ⟨"Back", none⟩
  else if item = MOTION_HOMEOFFSETS c then some ⟨"Home Offsets", none⟩
  else if item = MOTION_SPEED c then some ⟨"Max Speed", none⟩
  else if item = MOTION_ACCEL c then some ⟨"Max Acceleration", none⟩
  else if c.HAS_CLASSIC_JERK = true ∧ item = MOTION_JERK c then some ⟨"Max Jerk", none⟩
  else if item = MOTION_STEPS c then some ⟨"Steps/mm", none⟩
  else if c.HAS_HOTEND = true ∧ item = MOTION_FLOW c then
    some ⟨"Flow Rate", some (.value .flow_percentage0)⟩
  else none

/-- The case labels of `switch (item)` in case `HomeOffsets` that are compiled in
(lines 2582-2599). -/
def HomeOffsets_case (c : Config) (item : Nat) : Prop :=
  item = HOMEOFFSETS_BACK c ∨
  item = HOMEOFFSETS_XOFFSET c ∨
  item = HOMEOFFSETS_YOFFSET c

/-- The draw branches of case `HomeOffsets`: the label passed to `Draw_Menu_Item` and what is
drawn beside it. -/
def HomeOffsets_row (c : Config) (item : Nat) (_s : State) : Option RowView :=
  if item = HOMEOFFSETS_BACK c then some ⟨"Back", none⟩
  else if item = HOMEOFFSETS_XOFFSET c then
    some ⟨"X Offset", some (.value (.named "home_offset.x"))⟩
  else if item = HOMEOFFSETS_YOFFSET c then
    some ⟨"Y Offset", some (.value (.named "home_offset.y"))⟩
  else none

/-- The case labels of `switch (item)` in case `MaxSpeed` that are compiled in
(lines 2620-2656). -/
def MaxSpeed_case (c : Config) (item : Nat) : Prop :=
  item = SPEED_BACK c ∨
  item = SPEED_X c ∨
  item = SPEED_Y c ∨
  item = SPEED_Z c ∨
  (c.HAS_HOTEND = true ∧ item = SPEED_E c)

/-- The draw branches of case `MaxSpeed`: the label passed to `Draw_Menu_Item` and what is
drawn beside it. -/
def MaxSpeed_row (c : Config) (item : Nat) (_s : State) : Option RowView :=
  if item = SPEED_BACK c then some ⟨"Back", none⟩
  else if item = SPEED_X c then
    some ⟨"X Axis", some (.value (.named "planner.settings.max_feedrate_mm_s[X_AXIS]"))⟩
  else if item = SPEED_Y c then
    some ⟨"Y Axis", some (.value (.named "planner.settings.max_feedrate_mm_s[Y_AXIS]"))⟩
  else if item = SPEED_Z c then
    some ⟨"Z Axis", some (.value (.named "planner.settings.max_feedrate_mm_s[Z_AXIS]"))⟩
  else if c.HAS_HOTEND = true ∧ item = SPEED_E c then
    some ⟨"Extruder", some (.value (.named "planner.settings.max_feedrate_mm_s[E_AXIS]"))⟩
  else none

/-- The case labels of `switch (item)` in case `MaxAcceleration` that are compiled in
(lines 2678-2714). -/
def MaxAcceleration_case (c : Config) (item : Nat) : Prop :=
  item = ACCEL_BACK c ∨
  item = ACCEL_X c ∨
  item = ACCEL_Y c ∨
  item = ACCEL_Z c ∨
  (c.HAS_HOTEND = true ∧ item = ACCEL_E c)

/-- The draw branches of case `MaxAcceleration`: the label passed to `Draw_Menu_Item` and what is
drawn beside it. -/
def MaxAcceleration_row (c : Config) (item : Nat) (_s : State) : Option RowView :=
  if item = ACCEL_BACK c then some ⟨"Back", none⟩
  else if item = ACCEL_X c then
    some ⟨"X Axis", some (.value (.named "planner.settings.max_acceleration_mm_per_s2[X_AXIS]"))⟩
  else if item = ACCEL_Y c then
    some ⟨"Y Axis", some (.value (.named "planner.settings.max_acceleration_mm_per_s2[Y_AXIS]"))⟩
  else if item = ACCEL_Z c then
    some ⟨"Z Axis", some (.value (.named "planner.settings.max_acceleration_mm_per_s2[Z_AXIS]"))⟩
  else if c.HAS_HOTEND = true ∧ item = ACCEL_E c then
    some ⟨"Extruder", some (.value (.named "planner.settings.max_acceleration_mm_per_s2[E_AXIS]"))⟩
  else none

/-- The case labels of `switch (item)` in case `MaxJerk` that are compiled in
(lines 2737-2773). -/
def MaxJerk_case (c : Config) (item : Nat) : Prop :=
  item = JERK_BACK c ∨
  item = JERK_X c ∨
  item = JERK_Y c ∨
  item = JERK_Z c ∨
  (c.HAS_HOTEND = true ∧ item = JERK_E c)

/-- The draw branches of case `MaxJerk`: the label passed to `Draw_Menu_Item` and what is
drawn beside it. -/
def MaxJerk_row (c : Config) (item : Nat) (_s : State) : Option RowView :=
  if item = JERK_BACK c then some ⟨"Back", none⟩
  else if item = JERK_X c then some ⟨"X Axis", some (.value (.named "planner.max_jerk[X_AXIS]"))⟩
  else if item = JERK_Y c then some ⟨"Y Axis", some (.value (.named "planner.max_jerk[Y_AXIS]"))⟩
  else if item = JERK_Z c then some ⟨"Z Axis", some (.value (.named "planner.max_jerk[Z_AXIS]"))⟩
  else if c.HAS_HOTEND = true ∧ item = JERK_E c then
    some ⟨"Extruder", some (.value (.named "planner.max_jerk[E_AXIS]"))⟩
  else none

/-- The case labels of `switch (item)` in case `Steps` that are compiled in
(lines 2796-2832). -/
def Steps_case (c : Config) (item : Nat) : Prop :=
  item = STEPS_BACK c ∨
  item = STEPS_X c ∨
  item = STEPS_Y c ∨
  item = STEPS_Z c ∨
  (c.HAS_HOTEND = true ∧ item = STEPS_E c)

/-- The draw branches of case `Steps`: the label passed to `Draw_Menu_Item` and what is
drawn beside it. -/
def Steps_row (c : Config) (item : Nat) (_s : State) : Option RowView :=
  if item = STEPS_BACK c then some ⟨"Back", none⟩
  else if item = STEPS_X c then
    some ⟨"X Axis", some (.value (.named "planner.settings.axis_steps_per_mm[X_AXIS]"))⟩
  else if item = STEPS_Y c then
    some ⟨"Y Axis", some (.value (.named "planner.settings.axis_steps_per_mm[Y_AXIS]"))⟩
  else if item = STEPS_Z c then
    some ⟨"Z Axis", some (.value (.named "planner.settings.axis_steps_per_mm[Z_AXIS]"))⟩
  else if c.HAS_HOTEND = true ∧ item = STEPS_E c then
    some ⟨"Extruder", some (.value (.named "planner.settings.axis_steps_per_mm[E_AXIS]"))⟩
  else none

/-- The case labels of `switch (item)` in case `Visual` that are compiled in
(lines 2855-2890). -/
def Visual_case (c : Config) (item : Nat) : Prop :=
  item = VISUAL_BACK c ∨
  item = VISUAL_BACKLIGHT c ∨
  item = VISUAL_BRIGHTNESS c ∨
  item = VISUAL_TIME_FORMAT c ∨
  item = VISUAL_COLOR_THEMES c

/-- The draw branches of case `Visual`: the label passed to `Draw_Menu_Item` and what is
drawn beside it. -/
def Visual_row (c : Config) (item : Nat) (_s : State) : Option RowView :=
  if item = VISUAL_BACK c then some ⟨"Back", none⟩
  else if item = VISUAL_BACKLIGHT c then some ⟨"Display Off", none⟩
  else if item = VISUAL_BRIGHTNESS c then
    some ⟨"LCD Brightness", some (.value (.named "ui.brightness"))⟩
  else if item = VISUAL_TIME_FORMAT c then
    some ⟨"Progress as __h__m", some (.checkbox .time_format_textual)⟩
  else if item = VISUAL_COLOR_THEMES c then some ⟨"UI Color Settings", none⟩
  else none

/-- The case labels of `switch (item)` in case `ColorSettings` that are compiled in
(lines 2917-3015). -/
def ColorSettings_case (c : Config) (item : Nat) : Prop :=
  item = COLORSETTINGS_BACK c ∨
  item = COLORSETTINGS_CURSOR c ∨
  item = COLORSETTINGS_SPLIT_LINE c ∨
  item = COLORSETTINGS_MENU_TOP_TXT c ∨
  item = COLORSETTINGS_MENU_TOP_BG c ∨
  item = COLORSETTINGS_HIGHLIGHT_BORDER c ∨
  item = COLORSETTINGS_PROGRESS_PERCENT c ∨
  item = COLORSETTINGS_PROGRESS_TIME c ∨
  item = COLORSETTINGS_PROGRESS_STATUS_BAR c ∨
  item = COLORSETTINGS_PROGRESS_STATUS_AREA c ∨
  item = COLORSETTINGS_PROGRESS_COORDINATES c ∨
  item = COLORSETTINGS_PROGRESS_COORDINATES_LINE c

/-- The draw branches of case `ColorSettings`: the label passed to `Draw_Menu_Item` and what is
drawn beside it. -/
def ColorSettings_row (c : Config) (item : Nat) (_s : State) : Option RowView :=
  if item = COLORSETTINGS_BACK c then some ⟨"Back", none⟩
  else if item = COLORSETTINGS_CURSOR c then some ⟨"Cursor", some (.color .cursor_color)⟩
  else if item = COLORSETTINGS_SPLIT_LINE c then
    some ⟨"Menu Split Line", some (.color .menu_split_line)⟩
  else if item = COLORSETTINGS_MENU_TOP_TXT c then
    some ⟨"Menu Header Text", some (.color .menu_top_txt)⟩
  else if item = COLORSETTINGS_MENU_TOP_BG c then
    some ⟨"Menu Header Bg", some (.color .menu_top_bg)⟩
  else if item = COLORSETTINGS_HIGHLIGHT_BORDER c then
    some ⟨"Highlight Box", some (.color .highlight_box)⟩
  else if item = COLORSETTINGS_PROGRESS_PERCENT c then
    some ⟨"Progress Percent", some (.color .progress_percent)⟩
  else if item = COLORSETTINGS_PROGRESS_TIME c then
    some ⟨"Progress Time", some (.color .progress_time)⟩
  else if item = COLORSETTINGS_PROGRESS_STATUS_BAR c then
    some ⟨"Status Bar Text", some (.color .status_bar_text)⟩
  else if item = COLORSETTINGS_PROGRESS_STATUS_AREA c then
    some ⟨"Status Area Text", some (.color .status_area_text)⟩
  else if item = COLORSETTINGS_PROGRESS_COORDINATES c then
    some ⟨"Coordinates Text", some (.color .coordinates_text)⟩
  else if item = COLORSETTINGS_PROGRESS_COORDINATES_LINE c then
    some ⟨"Coordinates Line", some (.color .coordinates_split_line)⟩
  else none

/-- The case labels of `switch (item)` in case `Advanced` that are compiled in
(lines 3042-3146). -/
def Advanced_case (c : Config) (item : Nat) : Prop :=
  item = ADVANCED_BACK c ∨
  item = ADVANCED_BEEPER c ∨
  (c.HAS_BED_PROBE = true ∧ item = ADVANCED_PROBE c) ∨
  item = ADVANCED_CORNER c ∨
  (c.LIN_ADVANCE = true ∧ item = ADVANCED_LA c) ∨
  (c.ADVANCED_PAUSE_FEATURE = true ∧ item = ADVANCED_LOAD c) ∨
  (c.ADVANCED_PAUSE_FEATURE = true ∧ item = ADVANCED_UNLOAD c) ∨
  (c.PREVENT_COLD_EXTRUSION = true ∧ item = ADVANCED_COLD_EXTRUDE c) ∨
  (c.FILAMENT_RUNOUT_SENSOR = true ∧ item = ADVANCED_FILSENSORENABLED c) ∨
  (c.FILAMENT_RUNOUT_SENSOR = true ∧ c.HAS_FILAMENT_RUNOUT_DISTANCE = true ∧ item = ADVANCED_FILSENSORDISTANCE c)
    ∨
  (c.POWER_LOSS_RECOVERY = true ∧ item = ADVANCED_POWER_LOSS c)

/-- The draw branches of case `Advanced`: the label passed to `Draw_Menu_Item` and what is
drawn beside it. -/
def Advanced_row (c : Config) (item : Nat) (_s : State) : Option RowView :=
  if item = ADVANCED_BACK c then some ⟨"Back", none⟩
  else if item = ADVANCED_BEEPER c then
    some ⟨"LCD Beeper", some (.checkbox .beeperenable)⟩
  else if c.HAS_BED_PROBE = true ∧ item = ADVANCED_PROBE c then some ⟨"Probe", none⟩
  else if item = ADVANCED_CORNER c then some ⟨"Bed Screw Inset", some (.value .corner_pos)⟩
  else if c.LIN_ADVANCE = true ∧ item = ADVANCED_LA c then
    some ⟨"Lin Advance Kp", some (.value (.named "planner.extruder_advance_K[0]"))⟩
  else if c.ADVANCED_PAUSE_FEATURE = true ∧ item = ADVANCED_LOAD c then
    some ⟨"Load Length", some (.value (.named "fc_settings[0].load_length"))⟩
  else if c.ADVANCED_PAUSE_FEATURE = true ∧ item = ADVANCED_UNLOAD c then
    some ⟨"Unload Length", some (.value (.named "fc_settings[0].unload_length"))⟩
  else if c.PREVENT_COLD_EXTRUSION = true ∧ item = ADVANCED_COLD_EXTRUDE c then
    some ⟨"Min Extrusion T", some (.value .extrude_min_temp)⟩
  else if c.FILAMENT_RUNOUT_SENSOR = true ∧ item = ADVANCED_FILSENSORENABLED c then
    some ⟨"Filament Sensor", some (.checkbox .runout_enabled)⟩
  else if c.FILAMENT_RUNOUT_SENSOR = true ∧ c.HAS_FILAMENT_RUNOUT_DISTANCE = true ∧ item =
    ADVANCED_FILSENSORDISTANCE c then
    some ⟨"Runout Distance", some (.value (.named "runout.runout_distance()"))⟩
  else if c.POWER_LOSS_RECOVERY = true ∧ item = ADVANCED_POWER_LOSS c then
    some ⟨"Power-loss recovery", some (.checkbox .recovery_enabled)⟩
  else none

/-- The case labels of `switch (item)` in case `ProbeMenu` that are compiled in
(lines 3172-3208). -/
def ProbeMenu_case (c : Config) (item : Nat) : Prop :=
  item = PROBE_BACK c ∨
  item = PROBE_XOFFSET c ∨
  item = PROBE_YOFFSET c ∨
  item = PROBE_TEST c ∨
  item = PROBE_TEST_COUNT c

/-- The draw branches of case `ProbeMenu`: the label passed to `Draw_Menu_Item` and what is
drawn beside it. -/
def ProbeMenu_row (c : Config) (item : Nat) (_s : State) : Option RowView :=
  if item = PROBE_BACK c then some ⟨"Back", none⟩
  else if item = PROBE_XOFFSET c then
    some ⟨"Probe X Offset", some (.value (.named "probe.offset.x"))⟩
  else if item = PROBE_YOFFSET c then
    some ⟨"Probe Y Offset", some (.value (.named "probe.offset.y"))⟩
  else if item = PROBE_TEST c then some ⟨"M48 Probe Test", none⟩
  else if item = PROBE_TEST_COUNT c then
    some ⟨"Probe Test Count", some (.value (.named "testcount"))⟩
  else none

/-- The case labels of `switch (item)` in case `Info` that are compiled in
(lines 3233-3233). -/
def Info_case (c : Config) (item : Nat) : Prop :=
  item = INFO_BACK c

/-- The draw branches of case `Info`: the label passed to `Draw_Menu_Item` and what is
drawn beside it. -/
def Info_row (c : Config) (item : Nat) (_s : State) : Option RowView :=
  if item = INFO_BACK c then some ⟨"Back", none⟩
  else none

/-- The case labels of `switch (item)` in case `Leveling` that are compiled in
(lines 3281-3466). -/
def Leveling_case (c : Config) (item : Nat) : Prop :=
  item = LEVELING_BACK c ∨
  item = LEVELING_ACTIVE c ∨
  ((c.HAS_BED_PROBE && c.AUTO_BED_LEVELING_UBL) = true ∧ item = LEVELING_GET_TILT c) ∨
  item = LEVELING_GET_MESH c ∨
  item = LEVELING_MANUAL c ∨
  item = LEVELING_VIEW c ∨
  item = LEVELING_SETTINGS c ∨
  (c.AUTO_BED_LEVELING_UBL = true ∧ item = LEVELING_SLOT c) ∨
  (c.AUTO_BED_LEVELING_UBL = true ∧ item = LEVELING_LOAD c) ∨
  (c.AUTO_BED_LEVELING_UBL = true ∧ item = LEVELING_SAVE c)

/-- The draw branches of case `Leveling`: the label passed to `Draw_Menu_Item` and what is
drawn beside it. -/
def Leveling_row (c : Config) (item : Nat) (_s : State) : Option RowView :=
  if item = LEVELING_BACK c then some ⟨"Back", none⟩
  else if item = LEVELING_ACTIVE c then
    some ⟨"Leveling Active", some (.checkbox .leveling_active)⟩
  else if (c.HAS_BED_PROBE && c.AUTO_BED_LEVELING_UBL) = true ∧ item = LEVELING_GET_TILT c then
    some ⟨"Autotilt Current Mesh", none⟩
  else if item = LEVELING_GET_MESH c then some ⟨"Create New Mesh", none⟩
  else if item = LEVELING_MANUAL c then some ⟨"Manual Tuning", none⟩
  else if item = LEVELING_VIEW c then some ⟨"Mesh Viewer", none⟩
  else if item = LEVELING_SETTINGS c then some ⟨"Leveling Settings", none⟩
  else if c.AUTO_BED_LEVELING_UBL = true ∧ item = LEVELING_SLOT c then
    some ⟨"Mesh Slot", some (.value .storage_slot)⟩
  else if c.AUTO_BED_LEVELING_UBL = true ∧ item = LEVELING_LOAD c then some ⟨"Load Mesh", none⟩
  else if c.AUTO_BED_LEVELING_UBL = true ∧ item = LEVELING_SAVE c then some ⟨"Save Mesh", none⟩
  else none

/-- The case labels of `switch (item)` in case `LevelView` that are compiled in
(lines 3492-3518). -/
def LevelView_case (c : Config) (item : Nat) : Prop :=
  item = LEVELING_VIEW_BACK c ∨
  item = LEVELING_VIEW_MESH c ∨
  item = LEVELING_VIEW_TEXT c ∨
  item = LEVELING_VIEW_ASYMMETRIC c

/-- The draw branches of case `LevelView`: the label passed to `Draw_Menu_Item` and what is
drawn beside it. -/
def LevelView_row (c : Config) (item : Nat) (_s : State) : Option RowView :=
  if item = LEVELING_VIEW_BACK c then some ⟨"Back", none⟩
  else if item = LEVELING_VIEW_MESH c then some ⟨"Mesh Viewer", none⟩
  else if item = LEVELING_VIEW_TEXT c then
    some ⟨"Viewer Show Values", some (.checkbox .viewer_print_value)⟩
  else if item = LEVELING_VIEW_ASYMMETRIC c then
    some ⟨"Viewer Asymmetric", some (.checkbox .viewer_asymmetric_range)⟩
  else none

/-- The case labels of `switch (item)` in case `LevelSettings` that are compiled in
(lines 3541-3591). -/
def LevelSettings_case (c : Config) (item : Nat) : Prop :=
  item = LEVELING_SETTINGS_BACK c ∨
  item = LEVELING_SETTINGS_FADE c ∨
  (c.AUTO_BED_LEVELING_UBL = true ∧ item = LEVELING_SETTINGS_TILT c) ∨
  (c.AUTO_BED_LEVELING_UBL = true ∧ item = LEVELING_SETTINGS_PLANE c) ∨
  (c.AUTO_BED_LEVELING_UBL = true ∧ item = LEVELING_SETTINGS_ZERO c) ∨
  (c.AUTO_BED_LEVELING_UBL = true ∧ item = LEVELING_SETTINGS_UNDEF c)

/-- The draw branches of case `LevelSettings`: the label passed to `Draw_Menu_Item` and what is
drawn beside it. -/
def LevelSettings_row (c : Config) (item : Nat) (_s : State) : Option RowView :=
  if item = LEVELING_SETTINGS_BACK c then some ⟨"Back", none⟩
  else if item = LEVELING_SETTINGS_FADE c then
    some ⟨"Fade Mesh within", some (.value (.named "planner.z_fade_height"))⟩
  else if c.AUTO_BED_LEVELING_UBL = true ∧ item = LEVELING_SETTINGS_TILT c then
    some ⟨"Tilting Grid Size", some (.value .tilt_grid)⟩
  else if c.AUTO_BED_LEVELING_UBL = true ∧ item = LEVELING_SETTINGS_PLANE c then
    some ⟨"Convert Mesh to Plane", none⟩
  else if c.AUTO_BED_LEVELING_UBL = true ∧ item = LEVELING_SETTINGS_ZERO c then
    some ⟨"Zero Current Mesh", none⟩
  else if c.AUTO_BED_LEVELING_UBL = true ∧ item = LEVELING_SETTINGS_UNDEF c then
    some ⟨"Clear Current Mesh", none⟩
  else none

/-- The case labels of `switch (item)` in case `MeshViewer` that are compiled in
(lines 3607-3607). -/
def MeshViewer_case (c : Config) (item : Nat) : Prop :=
  item = MESHVIEW_BACK c

/-- The draw branches of case `MeshViewer`: the label passed to `Draw_Menu_Item` and what is
drawn beside it. -/
def MeshViewer_row (c : Config) (item : Nat) (_s : State) : Option RowView :=
  if item = MESHVIEW_BACK c then some ⟨"Back", none⟩
  else none

/-- The case labels of `switch (item)` in case `LevelManual` that are compiled in
(lines 3636-3739). -/
def LevelManual_case (c : Config) (item : Nat) : Prop :=
  item = LEVELING_M_BACK c ∨
  item = LEVELING_M_X c ∨
  item = LEVELING_M_Y c ∨
  item = LEVELING_M_NEXT c ∨
  item = LEVELING_M_OFFSET c ∨
  item = LEVELING_M_UP c ∨
  item = LEVELING_M_DOWN c ∨
  item = LEVELING_M_GOTO_VALUE c ∨
  (c.AUTO_BED_LEVELING_UBL = true ∧ item = LEVELING_M_UNDEF c)

/-- The draw branches of case `LevelManual`: the label passed to `Draw_Menu_Item` and what is
drawn beside it. -/
def LevelManual_row (c : Config) (item : Nat) (s : State) : Option RowView :=
  if item = LEVELING_M_BACK c then some ⟨"Back", none⟩
  else if item = LEVELING_M_X c then some ⟨"Mesh Point X", some (.value .mesh_x)⟩
  else if item = LEVELING_M_Y c then some ⟨"Mesh Point Y", some (.value .mesh_y)⟩
  else if item = LEVELING_M_NEXT c then some ⟨"Next Point", none⟩
  else if item = LEVELING_M_OFFSET c then
    some
      ⟨"Point Z Offset", some (.value (.mesh_z_values (toUnsigned 8 (s.vars .mesh_x)) (toUnsigned 8 (s.vars .mesh_y))))⟩
  else if item = LEVELING_M_UP c then some ⟨"Microstep Up", none⟩
  else if item = LEVELING_M_DOWN c then some ⟨"Microstep Down", none⟩
  else if item = LEVELING_M_GOTO_VALUE c then
    some ⟨"Go to Mesh Z Value", some (.checkbox .goto_mesh_value)⟩
  else if c.AUTO_BED_LEVELING_UBL = true ∧ item = LEVELING_M_UNDEF c then
    some ⟨"Clear Point Value", none⟩
  else none

/-- The case labels of `switch (item)` in case `UBLMesh` that are compiled in
(lines 3764-3846). -/
def UBLMesh_case (c : Config) (item : Nat) : Prop :=
  item = UBL_M_BACK c ∨
  item = UBL_M_NEXT c ∨
  item = UBL_M_PREV c ∨
  item = UBL_M_OFFSET c ∨
  item = UBL_M_UP c ∨
  item = UBL_M_DOWN c

/-- The draw branches of case `UBLMesh`: the label passed to `Draw_Menu_Item` and what is
drawn beside it. -/
def UBLMesh_row (c : Config) (item : Nat) (s : State) : Option RowView :=
  if item = UBL_M_BACK c then some ⟨"Back", none⟩
  else if item = UBL_M_NEXT c then
    some ⟨(if ((toUnsigned 8 (s.vars .mesh_x) : Nat) : Int) ≠ (c.GRID_MAX_POINTS_X : Int) - 1 ∨
        ((toUnsigned 8 (s.vars .mesh_y) : Nat) : Int) ≠ (c.GRID_MAX_POINTS_Y : Int) - 1 then
          "Next Point"
       else "Save Mesh"), none⟩
  else if item = UBL_M_PREV c then some ⟨"Previous Point", none⟩
  else if item = UBL_M_OFFSET c then
    some
      ⟨"Point Z Offset", some (.value (.mesh_z_values (toUnsigned 8 (s.vars .mesh_x)) (toUnsigned 8 (s.vars .mesh_y))))⟩
  else if item = UBL_M_UP c then some ⟨"Microstep Up", none⟩
  else if item = UBL_M_DOWN c then some ⟨"Microstep Down", none⟩
  else none

/-- The case labels of `switch (item)` in case `ManualMesh` that are compiled in
(lines 3876-3948). -/
def ManualMesh_case (c : Config) (item : Nat) : Prop :=
  item = MMESH_BACK c ∨
  item = MMESH_NEXT c ∨
  item = MMESH_OFFSET c ∨
  item = MMESH_UP c ∨
  item = MMESH_DOWN c ∨
  item = MMESH_OLD c

/-- The draw branches of case `ManualMesh`: the label passed to `Draw_Menu_Item` and what is
drawn beside it. -/
def ManualMesh_row (c : Config) (item : Nat) (s : State) : Option RowView :=
  if item = MMESH_BACK c then some ⟨"Cancel", none⟩
  else if item = MMESH_NEXT c then
    some
      ⟨(if s.gridpoint < c.GRID_MAX_POINTS_X * c.GRID_MAX_POINTS_Y then "Next Point" else "Save Mesh"), none⟩
  else if item = MMESH_OFFSET c then some ⟨"Z Position", some (.value .current_position_z)⟩
  else if item = MMESH_UP c then some ⟨"Microstep Up", none⟩
  else if item = MMESH_DOWN c then some ⟨"Microstep Down", none⟩
  else if item = MMESH_OLD c then
    some
      ⟨"Goto Mesh Value", some (.local_copy (.mesh_z_values (MMESH_OLD_point c.GRID_MAX_POINTS_X c.GRID_MAX_POINTS_Y s.gridpoint).1
          (MMESH_OLD_point c.GRID_MAX_POINTS_X c.GRID_MAX_POINTS_Y s.gridpoint).2))⟩
  else none

/-- The case labels of `switch (item)` in case `Tune` that are compiled in
(lines 3994-4118). -/
def Tune_case (c : Config) (item : Nat) : Prop :=
  item = TUNE_BACK c ∨
  item = TUNE_SPEED c ∨
  (c.HAS_HOTEND = true ∧ item = TUNE_FLOW c) ∨
  (c.HAS_HOTEND = true ∧ item = TUNE_HOTEND c) ∨
  (c.HAS_HEATED_BED = true ∧ item = TUNE_BED c) ∨
  (c.HAS_FAN = true ∧ item = TUNE_FAN c) ∨
  (c.HAS_ZOFFSET_ITEM = true ∧ item = TUNE_ZOFFSET c) ∨
  (c.HAS_ZOFFSET_ITEM = true ∧ item = TUNE_ZUP c) ∨
  (c.HAS_ZOFFSET_ITEM = true ∧ item = TUNE_ZDOWN c) ∨
  (c.FILAMENT_LOAD_UNLOAD_GCODES = true ∧ item = TUNE_CHANGEFIL c) ∨
  (c.FILAMENT_RUNOUT_SENSOR = true ∧ item = TUNE_FILSENSORENABLED c) ∨
  item = TUNE_BACKLIGHT_OFF c ∨
  item = TUNE_BACKLIGHT c

/-- The draw branches of case `Tune`: the label passed to `Draw_Menu_Item` and what is
drawn beside it. -/
def Tune_row (c : Config) (item : Nat) (_s : State) : Option RowView :=
  if item = TUNE_BACK c then some ⟨"Back", none⟩
  else if item = TUNE_SPEED c then
    some ⟨"Print Speed", some (.value (.named "feedrate_percentage"))⟩
  else if c.HAS_HOTEND = true ∧ item = TUNE_FLOW c then
    some ⟨"Flow Rate", some (.value .flow_percentage0)⟩
  else if c.HAS_HOTEND = true ∧ item = TUNE_HOTEND c then
    some ⟨"Hotend", some (.value .hotend_target)⟩
  else if c.HAS_HEATED_BED = true ∧ item = TUNE_BED c then some ⟨"Bed", some (.value .bed_target)⟩
  else if c.HAS_FAN = true ∧ item = TUNE_FAN c then some ⟨"Fan", some (.value .fan_speed0)⟩
  else if c.HAS_ZOFFSET_ITEM = true ∧ item = TUNE_ZOFFSET c then
    some ⟨"Z-Offset", some (.value .zoffsetvalue)⟩
  else if c.HAS_ZOFFSET_ITEM = true ∧ item = TUNE_ZUP c then some ⟨"Z-Offset Up", none⟩
  else if c.HAS_ZOFFSET_ITEM = true ∧ item = TUNE_ZDOWN c then some ⟨"Z-Offset Down", none⟩
  else if c.FILAMENT_LOAD_UNLOAD_GCODES = true ∧ item = TUNE_CHANGEFIL c then
    some ⟨"Change Filament", none⟩
  else if c.FILAMENT_RUNOUT_SENSOR = true ∧ item = TUNE_FILSENSORENABLED c then
    some ⟨"Filament Sensor", some (.checkbox .runout_enabled)⟩
  else if item = TUNE_BACKLIGHT_OFF c then some ⟨"Display Off", none⟩
  else if item = TUNE_BACKLIGHT c then
    some ⟨"LCD Brightness", some (.value (.named "ui.brightness"))⟩
  else none

/-- The case labels of `switch (item)` in case `PreheatHotend` that are compiled in
(lines 4142-4249). -/
def PreheatHotend_case (c : Config) (item : Nat) : Prop :=
  item = PREHEATHOTEND_BACK c ∨
  item = PREHEATHOTEND_CONTINUE c ∨
  (1 ≤ c.PREHEAT_COUNT ∧ item = PREHEATHOTEND_1 c) ∨
  (2 ≤ c.PREHEAT_COUNT ∧ item = PREHEATHOTEND_2 c) ∨
  (3 ≤ c.PREHEAT_COUNT ∧ item = PREHEATHOTEND_3 c) ∨
  (4 ≤ c.PREHEAT_COUNT ∧ item = PREHEATHOTEND_4 c) ∨
  (5 ≤ c.PREHEAT_COUNT ∧ item = PREHEATHOTEND_5 c) ∨
  item = PREHEATHOTEND_CUSTOM c

/-- The draw branches of case `PreheatHotend`: the label passed to `Draw_Menu_Item` and what is
drawn beside it. -/
def PreheatHotend_row (c : Config) (item : Nat) (_s : State) : Option RowView :=
  if item = PREHEATHOTEND_BACK c then some ⟨"Cancel", none⟩
  else if item = PREHEATHOTEND_CONTINUE c then some ⟨"Continue", none⟩
  else if 1 ≤ c.PREHEAT_COUNT ∧ item = PREHEATHOTEND_1 c then some ⟨(c.PREHEAT_LABEL 1), none⟩
  else if 2 ≤ c.PREHEAT_COUNT ∧ item = PREHEATHOTEND_2 c then some ⟨(c.PREHEAT_LABEL 2), none⟩
  else if 3 ≤ c.PREHEAT_COUNT ∧ item = PREHEATHOTEND_3 c then some ⟨(c.PREHEAT_LABEL 3), none⟩
  else if 4 ≤ c.PREHEAT_COUNT ∧ item = PREHEATHOTEND_4 c then some ⟨(c.PREHEAT_LABEL 4), none⟩
  else if 5 ≤ c.PREHEAT_COUNT ∧ item = PREHEATHOTEND_5 c then some ⟨(c.PREHEAT_LABEL 5), none⟩
  else if item = PREHEATHOTEND_CUSTOM c then some ⟨"Custom", some (.value .hotend_target)⟩
  else none


/-- The case labels of `Menu_Item_Handler` (lines 1024-4261) that are compiled in: `item` is a
label of the `switch (item)` of case `menu`. -/
def Item_case (c : Config) (menu : Menu) (item : Nat) : Prop :=
  match menu with
  | .Prepare => Prepare_case c item
  | .HomeMenu => HomeMenu_case c item
  | .Move => Move_case c item
  | .ManualLevel => ManualLevel_case c item
  | .ZOffset => c.HAS_ZOFFSET_ITEM = true ∧ ZOffset_case c item
  | .Preheat => c.HAS_PREHEAT = true ∧ Preheat_case c item
  | .ChangeFilament => c.FILAMENT_LOAD_UNLOAD_GCODES = true ∧ ChangeFilament_case c item
  | .Control => Control_case c item
  | .TempMenu => TempMenu_case c item
  | .PID => (c.HAS_HOTEND || c.HAS_HEATED_BED) = true ∧ PID_case c item
  | .HotendPID => c.HAS_HOTEND = true ∧ HotendPID_case c item
  | .BedPID => c.HAS_HEATED_BED = true ∧ BedPID_case c item
  | .Preheat1 => 1 ≤ c.PREHEAT_COUNT ∧ Preheat1_case c item
  | .Preheat2 => 2 ≤ c.PREHEAT_COUNT ∧ Preheat2_case c item
  | .Preheat3 => 3 ≤ c.PREHEAT_COUNT ∧ Preheat3_case c item
  | .Preheat4 => 4 ≤ c.PREHEAT_COUNT ∧ Preheat4_case c item
  | .Preheat5 => 5 ≤ c.PREHEAT_COUNT ∧ Preheat5_case c item
  | .Motion => Motion_case c item
  | .HomeOffsets => HomeOffsets_case c item
  | .MaxSpeed => MaxSpeed_case c item
  | .MaxAcceleration => MaxAcceleration_case c item
  | .MaxJerk => c.HAS_CLASSIC_JERK = true ∧ MaxJerk_case c item
  | .Steps => Steps_case c item
  | .Visual => Visual_case c item
  | .ColorSettings => ColorSettings_case c item
  | .Advanced => Advanced_case c item
  | .ProbeMenu => c.HAS_BED_PROBE = true ∧ ProbeMenu_case c item
  | .InfoMain => Info_case c item
  | .Info => Info_case c item
  | .Leveling => c.HAS_MESH = true ∧ Leveling_case c item
  | .LevelView => c.HAS_MESH = true ∧ LevelView_case c item
  | .LevelSettings => c.HAS_MESH = true ∧ LevelSettings_case c item
  | .MeshViewer => c.HAS_MESH = true ∧ MeshViewer_case c item
  | .LevelManual => c.HAS_MESH = true ∧ LevelManual_case c item
  | .UBLMesh => (c.AUTO_BED_LEVELING_UBL && !c.HAS_BED_PROBE) = true ∧ UBLMesh_case c item
  | .ManualMesh => c.PROBE_MANUALLY = true ∧ ManualMesh_case c item
  | .Tune => Tune_case c item
  | .PreheatHotend => PreheatHotend_case c item
  | .MainMenu => False

/-- The draw branches of `Menu_Item_Handler` (lines 1024-4261): what `draw == true` renders for
`item` of `menu`, `none` when the `switch` has no case for it. -/
def Item_row (c : Config) (menu : Menu) (item : Nat) (s : State) : Option RowView :=
  match menu with
  | .Prepare => Prepare_row c item s
  | .HomeMenu => HomeMenu_row c item s
  | .Move => Move_row c item s
  | .ManualLevel => ManualLevel_row c item s
  | .ZOffset => if c.HAS_ZOFFSET_ITEM = true then ZOffset_row c item s else none
  | .Preheat => if c.HAS_PREHEAT = true then Preheat_row c item s else none
  | .ChangeFilament => if c.FILAMENT_LOAD_UNLOAD_GCODES = true then ChangeFilament_row c item s else
    none
  | .Control => Control_row c item s
  | .TempMenu => TempMenu_row c item s
  | .PID => if (c.HAS_HOTEND || c.HAS_HEATED_BED) = true then PID_row c item s else none
  | .HotendPID => if c.HAS_HOTEND = true then HotendPID_row c item s else none
  | .BedPID => if c.HAS_HEATED_BED = true then BedPID_row c item s else none
  | .Preheat1 => if 1 ≤ c.PREHEAT_COUNT then Preheat1_row c item s else none
  | .Preheat2 => if 2 ≤ c.PREHEAT_COUNT then Preheat2_row c item s else none
  | .Preheat3 => if 3 ≤ c.PREHEAT_COUNT then Preheat3_row c item s else none
  | .Preheat4 => if 4 ≤ c.PREHEAT_COUNT then Preheat4_row c item s else none
  | .Preheat5 => if 5 ≤ c.PREHEAT_COUNT then Preheat5_row c item s else none
  | .Motion => Motion_row c item s
  | .HomeOffsets => HomeOffsets_row c item s
  | .MaxSpeed => MaxSpeed_row c item s
  | .MaxAcceleration => MaxAcceleration_row c item s
  | .MaxJerk => if c.HAS_CLASSIC_JERK = true then MaxJerk_row c item s else none
  | .Steps => Steps_row c item s
  | .Visual => Visual_row c item s
  | .ColorSettings => ColorSettings_row c item s
  | .Advanced => Advanced_row c item s
  | .ProbeMenu => if c.HAS_BED_PROBE = true then ProbeMenu_row c item s else none
  | .InfoMain => Info_row c item s
  | .Info => Info_row c item s
  | .Leveling => if c.HAS_MESH = true then Leveling_row c item s else none
  | .LevelView => if c.HAS_MESH = true then LevelView_row c item s else none
  | .LevelSettings => if c.HAS_MESH = true then LevelSettings_row c item s else none
  | .MeshViewer => if c.HAS_MESH = true then MeshViewer_row c item s else none
  | .LevelManual => if c.HAS_MESH = true then LevelManual_row c item s else none
  | .UBLMesh => if (c.AUTO_BED_LEVELING_UBL && !c.HAS_BED_PROBE) = true then UBLMesh_row c item s
    else none
  | .ManualMesh => if c.PROBE_MANUALLY = true then ManualMesh_row c item s else none
  | .Tune => Tune_row c item s
  | .PreheatHotend => PreheatHotend_row c item s
  | .MainMenu => none


/-! ## Item activation -/

/-- Lines 269-289, `Mesh_Settings::manual_move`. -/
def manual_move (e : Env) (m : Machine) (zmove : Bool) (s : State) : State :=
  let z (t : State) : ℚ :=
    if t.goto_mesh_value then
      t.vars (.mesh_z_values (toUnsigned 8 (t.vars .mesh_x)) (toUnsigned 8 (t.vars .mesh_y)))
    else e.cfg.Z_CLEARANCE_BETWEEN_PROBES
  if zmove then
    let s1 := s.call "planner.synchronize"
    (((s1.store .current_position_z (z s1)).call "planner.buffer_line").call "planner.synchronize")
  else
    let s1 := Popup_Handler .MoveWait s
    let s2 := s1.gcode "G0 F300 Z%s" [e.cfg.Z_CLEARANCE_BETWEEN_PROBES]
    let s3 := (s2.gcode "G42 F4000 I%i J%i" [s2.vars .mesh_x, s2.vars .mesh_y]).call
      "planner.synchronize"
    let s4 := ((s3.store .current_position_z (z s3)).call "planner.buffer_line").call
      "planner.synchronize"
    Redraw_Menu e m true false false s4

/-- The sequence (lines 1142-1148, 1809-1815, 5007-5013)
`if (celsius < target-2) { Popup_Handler(Heating); wait_for_hotend(0); } Popup_Handler(FilChange);
M600 B1 R<target>`. -/
def change_filament_now (m : Machine) (s : State) : State :=
  let s1 : State :=
    if m.hotend_celsius < s.vars .hotend_target - 2 then
      (Popup_Handler .Heating s).call "thermalManager.wait_for_hotend"
    else s
  let s2 := Popup_Handler .FilChange s1
  s2.gcode "M600 B1 R%i" [s2.vars .hotend_target]

/-- Case `Prepare` of `Menu_Item_Handler` (lines 1030-1155), `draw == false`. -/
def Prepare_activate (e : Env) (m : Machine) (item : Nat) (s : State) : State :=
  if item = PREPARE_BACK e.cfg then Draw_Main_Menu 1 s
  else if item = PREPARE_MOVE e.cfg then Draw_Menu e m .Move 0 0 s
  else if item = PREPARE_DISABLE e.cfg then s.gcode "M84" []
  else if item = PREPARE_HOME e.cfg then Draw_Menu e m .HomeMenu 0 0 s
  else if item = PREPARE_MANUALLEVEL e.cfg then
    let s1 : State :=
      if m.axes_should_home then (Popup_Handler .Home s).call "gcode.home_all_axes" else s
    let s2 : State :=
      if e.cfg.HAS_LEVELING then
        ({ s1 with level_state := s1.leveling_active, leveling_active := false }).call
          "set_bed_leveling_enabled(false)"
      else s1
    Draw_Menu e m .ManualLevel 0 0 s2
  else if e.cfg.HAS_ZOFFSET_ITEM = true ∧ item = PREPARE_ZOFFSET e.cfg then
    let s1 : State :=
      if e.cfg.HAS_LEVELING then
        ({ s with level_state := s.leveling_active, leveling_active := false }).call
          "set_bed_leveling_enabled(false)"
      else s
    Draw_Menu e m .ZOffset 0 0 s1
  else if e.cfg.HAS_PREHEAT = true ∧ item = PREPARE_PREHEAT e.cfg then Draw_Menu e m .Preheat 0 0 s
  else if e.cfg.HAS_PREHEAT = true ∧ item = PREPARE_COOLDOWN e.cfg then cooldown s
  else if e.cfg.ADVANCED_PAUSE_FEATURE = true ∧ item = PREPARE_CHANGEFIL e.cfg then
    if e.cfg.FILAMENT_LOAD_UNLOAD_GCODES then Draw_Menu e m .ChangeFilament 0 0 s
    else if s.vars .hotend_target < s.vars .extrude_min_temp then Popup_Handler .ETemp s
    else change_filament_now m s
  else s

/-- Case `Move` of `Menu_Item_Handler` (lines 1230-1330), `draw == false`. -/
def Move_activate (e : Env) (m : Machine) (item : Nat) (s : State) : State :=
  if item = MOVE_BACK e.cfg then
    let s1 : State :=
      if e.cfg.HAS_BED_PROBE then ({ s with probe_deployed := false }).call "probe.set_deployed"
      else s
    Draw_Menu e m .Prepare (PREPARE_MOVE e.cfg) 0 s1
  else if item = MOVE_X e.cfg then
    Modify_Value e.cfg .current_position_x 0 e.cfg.X_MIN_POS e.cfg.X_MAX_POS 10 none s
  else if item = MOVE_Y e.cfg then
    Modify_Value e.cfg .current_position_y 0 e.cfg.Y_MIN_POS e.cfg.Y_MAX_POS 10 none s
  else if item = MOVE_Z e.cfg then
    Modify_Value e.cfg .current_position_z 0 e.cfg.Z_MIN_POS e.cfg.Z_MAX_POS 10 none s
  else if e.cfg.HAS_HOTEND = true ∧ item = MOVE_E e.cfg then
    if s.vars .hotend_target < s.vars .extrude_min_temp then Popup_Handler .ETemp s
    else
      let s1 : State :=
        if m.hotend_celsius < s.vars .hotend_target - 2 then
          Redraw_Menu e m true false false
            ((Popup_Handler .Heating s).call "thermalManager.wait_for_hotend")
        else s
      let s2 := (s1.store .current_position_e 0).call "sync_plan_position"
      Modify_Value e.cfg .current_position_e 0 (-500) 500 10 none s2
  else if e.cfg.HAS_BED_PROBE = true ∧ item = MOVE_P e.cfg then
    ({ s with probe_deployed := !s.probe_deployed }).call "probe.set_deployed"
  else if item = MOVE_LIVE e.cfg then { s with livemove := !s.livemove }
  else s

/-- Case `ChangeFilament` of `Menu_Item_Handler` (lines 1743-1820), `draw == false`; the case
exists under `FILAMENT_LOAD_UNLOAD_GCODES` only. -/
def ChangeFilament_activate (e : Env) (m : Machine) (item : Nat) (s : State) : State :=
  if item = CHANGEFIL_BACK e.cfg then Draw_Menu e m .Prepare (PREPARE_CHANGEFIL e.cfg) 0 s
  else if item = CHANGEFIL_LOAD e.cfg then
    if s.vars .hotend_target < s.vars .extrude_min_temp then Popup_Handler .ETemp s
    else
      let s1 : State :=
        if m.hotend_celsius < s.vars .hotend_target - 2 then
          (Popup_Handler .Heating s).call "thermalManager.wait_for_hotend"
        else s
      Redraw_Menu e m true false false
        (((Popup_Handler .FilLoad s1).gcode "M701" []).call "planner.synchronize")
  else if item = CHANGEFIL_UNLOAD e.cfg then
    if s.vars .hotend_target < s.vars .extrude_min_temp then Popup_Handler .ETemp s
    else
      let s1 : State :=
        if m.hotend_celsius < s.vars .hotend_target - 2 then
          (Popup_Handler .Heating s).call "thermalManager.wait_for_hotend"
        else s
      Redraw_Menu e m true false false
        (((Popup_Handler .FilLoad s1).gcode "M702" []).call "planner.synchronize")
  else if item = CHANGEFIL_CHANGE e.cfg then
    if s.vars .hotend_target < s.vars .extrude_min_temp then Popup_Handler .ETemp s
    else change_filament_now m s
  else s

/-- Item `PREHEATHOTEND_CONTINUE` (lines 4157-4191). -/
def PreheatHotend_continue (e : Env) (m : Machine) (s : State) : State :=
  let s1 := (Popup_Handler .Heating s).call "thermalManager.wait_for_hotend"
  if s1.last_menu = .Prepare then
    let s2 := Popup_Handler .FilChange s1
    s2.gcode "M600 B1 R%i" [s2.vars .hotend_target]
  else if e.cfg.FILAMENT_LOAD_UNLOAD_GCODES = true ∧ s1.last_menu = .ChangeFilament then
    if s1.last_selection = CHANGEFIL_LOAD e.cfg then
      Redraw_Menu e m true true true
        (((Popup_Handler .FilLoad s1).gcode "M701" []).call "planner.synchronize")
    else if s1.last_selection = CHANGEFIL_UNLOAD e.cfg then
      Redraw_Menu e m true true true
        (((Popup_Handler .FilLoad s1).gcode "M702" []).call "planner.synchronize")
    else if s1.last_selection = CHANGEFIL_CHANGE e.cfg then
      let s2 := Popup_Handler .FilChange s1
      s2.gcode "M600 B1 R%i" [s2.vars .hotend_target]
    else s1
  else Redraw_Menu e m true true true s1

/-- Case `PreheatHotend` of `Menu_Item_Handler` (lines 4129-4259), `draw == false`. -/
def PreheatHotend_activate (e : Env) (m : Machine) (item : Nat) (s : State) : State :=
  if item = PREHEATHOTEND_BACK e.cfg then
    Redraw_Menu e m false true true (set_fan_speed 0 (setTargetHotend 0 s))
  else if item = PREHEATHOTEND_CONTINUE e.cfg then PreheatHotend_continue e m s
  else if 1 ≤ e.cfg.PREHEAT_COUNT ∧ item = PREHEATHOTEND_1 e.cfg then
    set_fan_speed (s.vars (.preset_fan 0)) (setTargetHotend (s.vars (.preset_hotend 0)) s)
  else if 2 ≤ e.cfg.PREHEAT_COUNT ∧ item = PREHEATHOTEND_2 e.cfg then
    set_fan_speed (s.vars (.preset_fan 1)) (setTargetHotend (s.vars (.preset_hotend 1)) s)
  else if 3 ≤ e.cfg.PREHEAT_COUNT ∧ item = PREHEATHOTEND_3 e.cfg then
    set_fan_speed (s.vars (.preset_fan 2)) (setTargetHotend (s.vars (.preset_hotend 2)) s)
  else if 4 ≤ e.cfg.PREHEAT_COUNT ∧ item = PREHEATHOTEND_4 e.cfg then
    set_fan_speed (s.vars (.preset_fan 3)) (setTargetHotend (s.vars (.preset_hotend 3)) s)
  else if 5 ≤ e.cfg.PREHEAT_COUNT ∧ item = PREHEATHOTEND_5 e.cfg then
    set_fan_speed (s.vars (.preset_fan 4)) (setTargetHotend (s.vars (.preset_hotend 4)) s)
  else if item = PREHEATHOTEND_CUSTOM e.cfg then
    Modify_Value e.cfg .hotend_target 3 e.cfg.EXTRUDE_MINTEMP (MAX_E_TEMP e.cfg) 1 none s
  else s

/-- The block under `PREHEAT_BEFORE_LEVELING` (lines 3336-3344, 3399-3407). -/
def preheat_before_leveling (e : Env) (s : State) : State :=
  let s1 := Popup_Handler .Heating s
  let s2 : State :=
    if s1.vars .hotend_target < e.cfg.LEVELING_NOZZLE_TEMP then
      setTargetHotend e.cfg.LEVELING_NOZZLE_TEMP s1
    else s1
  let s3 : State :=
    if s2.vars .bed_target < e.cfg.LEVELING_BED_TEMP then setTargetBed e.cfg.LEVELING_BED_TEMP s2
    else s2
  (s3.call "thermalManager.wait_for_hotend").call "thermalManager.wait_for_bed_heating"

/-- The pair `level_state = planner.leveling_active; set_bed_leveling_enabled(false);`. -/
def suspend_leveling (s : State) : State :=
  ({ s with level_state := s.leveling_active, leveling_active := false }).call
    "set_bed_leveling_enabled(false)"

/-- Item `LEVELING_GET_MESH` (lines 3326-3379). -/
def Leveling_get_mesh (e : Env) (m : Machine) (s : State) : State :=
  let s1 := (Popup_Handler .Home s).call "gcode.home_all_axes"
  if e.cfg.AUTO_BED_LEVELING_UBL then
    let s2 : State := if e.cfg.PREHEAT_BEFORE_LEVELING then preheat_before_leveling e s1 else s1
    if e.cfg.HAS_BED_PROBE then
      let s3 := (Popup_Handler .Level s2).gcode "G29 P1" []
      let s4 := (s3.gcode
        "G29 P3\nG29 P3\nG29 P3\nG29 P3\nG29 P3\nG29 P3\nG29 P3\nG29 P3\nG29 P3\nG29 P3\nG29 P3\nG29 P3\nG29 P3\nG29 P3\nG29 P3\nM420 S1"
        []).call "planner.synchronize"
      Popup_Handler .SaveLevel (Update_Status e.cfg "Probed all reachable points" s4)
    else
      let s3 : State := { suspend_leveling s2 with goto_mesh_value := true }
      let s4 := (s3.store .mesh_y 0).store .mesh_x 0
      Draw_Menu e m .UBLMesh 0 0 (manual_move e m false (Popup_Handler .MoveWait s4))
  else if e.cfg.HAS_BED_PROBE then
    Popup_Handler .SaveLevel
      (((Popup_Handler .Level s1).gcode "G29" []).call "planner.synchronize")
  else
    let s2 : State := { suspend_leveling s1 with gridpoint := 1 }
    Draw_Menu e m .ManualMesh 0 0
      (((Popup_Handler .MoveWait s2).gcode "G29" []).call "planner.synchronize")

/-- Item `LEVELING_MANUAL` (lines 3381-3412). -/
def Leveling_manual (e : Env) (m : Machine) (s : State) : State :=
  if e.cfg.AUTO_BED_LEVELING_BILINEAR = true ∧ m.leveling_is_valid = false then
    Confirm_Handler .InvalidMesh s
  else if e.cfg.AUTO_BED_LEVELING_UBL = true ∧ s.vars .storage_slot < 0 then
    Popup_Handler .MeshSlot s
  else
    let s1 : State :=
      if m.axes_should_home then (Popup_Handler .Home s).call "gcode.home_all_axes" else s
    let s2 : State := { suspend_leveling s1 with goto_mesh_value := false }
    let s3 : State := if e.cfg.PREHEAT_BEFORE_LEVELING then preheat_before_leveling e s2 else s2
    Draw_Menu e m .LevelManual 0 0 (manual_move e m false (Popup_Handler .MoveWait s3))

/-- Case `Leveling` of `Menu_Item_Handler` (lines 3266-3481), `draw == false`; the case exists
under `HAS_MESH` only. -/
def Leveling_activate (e : Env) (m : Machine) (item : Nat) (s : State) : State :=
  if item = LEVELING_BACK e.cfg then Draw_Main_Menu 3 s
  else if item = LEVELING_ACTIVE e.cfg then
    if s.leveling_active = false then
      let s1 : State :=
        ({ s with leveling_active := m.leveling_enable_result }).call
          "set_bed_leveling_enabled(true)"
      if s1.leveling_active = false then Confirm_Handler .LevelError s1 else s1
    else ({ s with leveling_active := false }).call "set_bed_leveling_enabled(false)"
  else if (e.cfg.HAS_BED_PROBE && e.cfg.AUTO_BED_LEVELING_UBL) = true ∧
      item = LEVELING_GET_TILT e.cfg then
    if s.vars .storage_slot < 0 then Popup_Handler .MeshSlot s
    else
      let s1 := Popup_Handler .Level ((Popup_Handler .Home s).call "gcode.home_all_axes")
      let s2 : State :=
        if s1.vars .tilt_grid > 1 then s1.gcode "G29 J%i" [s1.vars .tilt_grid]
        else s1.gcode "G29 J" []
      Redraw_Menu e m true false false (s2.call "planner.synchronize")
  else if item = LEVELING_GET_MESH e.cfg then Leveling_get_mesh e m s
  else if item = LEVELING_MANUAL e.cfg then Leveling_manual e m s
  else if item = LEVELING_VIEW e.cfg then
    if e.cfg.AUTO_BED_LEVELING_UBL = true ∧ s.vars .storage_slot < 0 then
      Popup_Handler .MeshSlot s
    else Draw_Menu e m .LevelView 0 0 s
  else if item = LEVELING_SETTINGS e.cfg then Draw_Menu e m .LevelSettings 0 0 s
  else if e.cfg.AUTO_BED_LEVELING_UBL = true ∧ item = LEVELING_SLOT e.cfg then
    Modify_Value e.cfg .storage_slot 5 0 ((m.calc_num_meshes : ℚ) - 1) 1 none s
  else if e.cfg.AUTO_BED_LEVELING_UBL = true ∧ item = LEVELING_LOAD e.cfg then
    if s.vars .storage_slot < 0 then Popup_Handler .MeshSlot s
    else AudioFeedback e.cfg true ((s.gcode "G29 L" []).call "planner.synchronize")
  else if e.cfg.AUTO_BED_LEVELING_UBL = true ∧ item = LEVELING_SAVE e.cfg then
    if s.vars .storage_slot < 0 then Popup_Handler .MeshSlot s
    else AudioFeedback e.cfg true ((s.gcode "G29 S" []).call "planner.synchronize")
  else s

/-- Case `HomeMenu` of `Menu_Item_Handler` (lines 1168-1219), `draw == false`. -/
def HomeMenu_activate (e : Env) (m : Machine) (item : Nat) (s : State) : State :=
  if item = HOME_BACK e.cfg then Draw_Menu e m .Prepare (PREPARE_HOME e.cfg) 0 s
  else if item = HOME_ALL e.cfg then e.rest .HomeMenu item m s
  else if item = HOME_X e.cfg then e.rest .HomeMenu item m s
  else if item = HOME_Y e.cfg then e.rest .HomeMenu item m s
  else if item = HOME_Z e.cfg then e.rest .HomeMenu item m s
  else if item = HOME_SET e.cfg then e.rest .HomeMenu item m s
  else s

/-- Item `MLEVEL_PROBE` (lines 1364-1381): the flag is toggled and, when it is set now, the
four corners are probed for their average. -/
def ManualLevel_probe (e : Env) (m : Machine) (s : State) : State :=
  let s1 : State := { s with use_probe := !s.use_probe }
  if s1.use_probe then
    let s2 : State := { Popup_Handler .Level s1 with corner_avg := 0 }
    let probe (t : State) : State :=
      ({ t with corner_avg := t.corner_avg + m.probe_at_point }).call "probe.probe_at_point"
    let s3 := probe (probe (probe (probe s2)))
    Redraw_Menu e m true false false { s3 with corner_avg := s3.corner_avg / 4 }
  else s1

/-- Case `ManualLevel` of `Menu_Item_Handler` (lines 1347-1494), `draw == false`. -/
def ManualLevel_activate (e : Env) (m : Machine) (item : Nat) (s : State) : State :=
  if item = MLEVEL_BACK e.cfg then
    Draw_Menu e m .Prepare (PREPARE_MANUALLEVEL e.cfg) 0
      (if e.cfg.HAS_LEVELING then restore_leveling m s else s)
  else if e.cfg.HAS_BED_PROBE = true ∧ item = MLEVEL_PROBE e.cfg then ManualLevel_probe e m s
  else if item = MLEVEL_BL e.cfg then e.rest .ManualLevel item m s
  else if item = MLEVEL_TL e.cfg then e.rest .ManualLevel item m s
  else if item = MLEVEL_TR e.cfg then e.rest .ManualLevel item m s
  else if item = MLEVEL_BR e.cfg then e.rest .ManualLevel item m s
  else if item = MLEVEL_C e.cfg then e.rest .ManualLevel item m s
  else if item = MLEVEL_ZPOS e.cfg then
    Modify_Value e.cfg (.named "mlev_z_pos") 0 0 MAX_Z_OFFSET 100 none s
  else s

/-- Item `ZOFFSET_MODE` (lines 1555-1575): before live adjustment is switched on the nozzle
is moved to the bed; then the flag is toggled. -/
def ZOffset_mode (e : Env) (m : Machine) (s : State) : State :=
  let s1 : State :=
    if s.liveadjust = false then
      let t1 : State :=
        if m.axes_should_home then (Popup_Handler .Home s).call "gcode.home_all_axes" else s
      let t2 := Popup_Handler .MoveWait t1
      let t3 : State :=
        if e.cfg.Z_SAFE_HOMING then
          (t2.call "planner.synchronize").gcode "G0 F4000 X%s Y%s"
            [e.cfg.Z_SAFE_HOMING_X_POINT, e.cfg.Z_SAFE_HOMING_Y_POINT]
        else t2.gcode "G0 F4000 X117.5 Y117.5" []
      Redraw_Menu e m true false false ((t3.gcode "G0 F300 Z0" []).call "planner.synchronize")
    else s
  { s1 with liveadjust := !s1.liveadjust }

/-- Case `ZOffset` of `Menu_Item_Handler` (lines 1518-1617), `draw == false`. -/
def ZOffset_activate (e : Env) (m : Machine) (item : Nat) (s : State) : State :=
  if item = ZOFFSET_BACK e.cfg then
    Draw_Menu e m .Prepare (PREPARE_ZOFFSET e.cfg) 0
      (if e.cfg.HAS_LEVELING then restore_leveling m { s with liveadjust := false }
       else { s with liveadjust := false })
  else if item = ZOFFSET_HOME e.cfg then e.rest .ZOffset item m s
  else if item = ZOFFSET_MODE e.cfg then ZOffset_mode e m s
  else if item = ZOFFSET_OFFSET e.cfg then
    Modify_Value e.cfg .zoffsetvalue 0 (MIN_Z_OFFSET e.cfg) MAX_Z_OFFSET 100 none s
  else if item = ZOFFSET_UP e.cfg then e.rest .ZOffset item m s
  else if item = ZOFFSET_DOWN e.cfg then e.rest .ZOffset item m s
  else if e.cfg.EEPROM_SETTINGS = true ∧ item = ZOFFSET_SAVE e.cfg then
    AudioFeedback e.cfg m.settings_save (s.call "settings.save")
  else s

/-- Case `Preheat` of `Menu_Item_Handler` (lines 1642-1724), `draw == false`. -/
def Preheat_activate (e : Env) (m : Machine) (item : Nat) (s : State) : State :=
  if item = PREHEAT_BACK e.cfg then Draw_Menu e m .Prepare (PREPARE_PREHEAT e.cfg) 0 s
  else if item = PREHEAT_MODE e.cfg then Modify_Option s.preheatmode .preheat_modes 2 s
  else if 1 ≤ e.cfg.PREHEAT_COUNT ∧ item = PREHEAT_1 e.cfg then e.rest .Preheat item m s
  else if 2 ≤ e.cfg.PREHEAT_COUNT ∧ item = PREHEAT_2 e.cfg then e.rest .Preheat item m s
  else if 3 ≤ e.cfg.PREHEAT_COUNT ∧ item = PREHEAT_3 e.cfg then e.rest .Preheat item m s
  else if 4 ≤ e.cfg.PREHEAT_COUNT ∧ item = PREHEAT_4 e.cfg then e.rest .Preheat item m s
  else if 5 ≤ e.cfg.PREHEAT_COUNT ∧ item = PREHEAT_5 e.cfg then e.rest .Preheat item m s
  else s

/-- Case `Control` of `Menu_Item_Handler` (lines 1836-1903), `draw == false`. -/
def Control_activate (e : Env) (m : Machine) (item : Nat) (s : State) : State :=
  if item = CONTROL_BACK e.cfg then Draw_Main_Menu 2 s
  else if item = CONTROL_TEMP e.cfg then Draw_Menu e m .TempMenu 0 0 s
  else if item = CONTROL_MOTION e.cfg then Draw_Menu e m .Motion 0 0 s
  else if item = CONTROL_VISUAL e.cfg then Draw_Menu e m .Visual 0 0 s
  else if item = CONTROL_ADVANCED e.cfg then Draw_Menu e m .Advanced 0 0 s
  else if e.cfg.EEPROM_SETTINGS = true ∧ item = CONTROL_SAVE e.cfg then
    AudioFeedback e.cfg m.settings_save (s.call "settings.save")
  else if e.cfg.EEPROM_SETTINGS = true ∧ item = CONTROL_RESTORE e.cfg then e.rest .Control item m s
  else if e.cfg.EEPROM_SETTINGS = true ∧ item = CONTROL_RESET e.cfg then e.rest .Control item m s
  else if item = CONTROL_INFO e.cfg then Draw_Menu e m .Info 0 0 s
  else s

/-- Case `TempMenu` of `Menu_Item_Handler` (lines 1928-2020), `draw == false`. -/
def TempMenu_activate (e : Env) (m : Machine) (item : Nat) (s : State) : State :=
  if item = TEMP_BACK e.cfg then Draw_Menu e m .Control (CONTROL_TEMP e.cfg) 0 s
  else if e.cfg.HAS_HOTEND = true ∧ item = TEMP_HOTEND e.cfg then
    Modify_Value e.cfg .hotend_target 3 MIN_E_TEMP (MAX_E_TEMP e.cfg) 1 none s
  else if e.cfg.HAS_HEATED_BED = true ∧ item = TEMP_BED e.cfg then
    Modify_Value e.cfg .bed_target (e.value_type .bed_target) MIN_BED_TEMP (MAX_BED_TEMP e.cfg) 1
      none s
  else if e.cfg.HAS_FAN = true ∧ item = TEMP_FAN e.cfg then
    Modify_Value e.cfg .fan_speed0 (e.value_type .fan_speed0) MIN_FAN_SPEED MAX_FAN_SPEED 1 none s
  else if (e.cfg.HAS_HOTEND || e.cfg.HAS_HEATED_BED) = true ∧ item = TEMP_PID e.cfg then
    Draw_Menu e m .PID 0 0 s
  else if 1 ≤ e.cfg.PREHEAT_COUNT ∧ item = TEMP_PREHEAT1 e.cfg then Draw_Menu e m .Preheat1 0 0 s
  else if 2 ≤ e.cfg.PREHEAT_COUNT ∧ item = TEMP_PREHEAT2 e.cfg then Draw_Menu e m .Preheat2 0 0 s
  else if 3 ≤ e.cfg.PREHEAT_COUNT ∧ item = TEMP_PREHEAT3 e.cfg then Draw_Menu e m .Preheat3 0 0 s
  else if 4 ≤ e.cfg.PREHEAT_COUNT ∧ item = TEMP_PREHEAT4 e.cfg then Draw_Menu e m .Preheat4 0 0 s
  else if 5 ≤ e.cfg.PREHEAT_COUNT ∧ item = TEMP_PREHEAT5 e.cfg then Draw_Menu e m .Preheat5 0 0 s
  else s

/-- Case `PID` of `Menu_Item_Handler` (lines 2043-2071), `draw == false`. -/
def PID_activate (e : Env) (m : Machine) (item : Nat) (s : State) : State :=
  if item = PID_BACK e.cfg then Draw_Menu e m .TempMenu (TEMP_PID e.cfg) 0 s
  else if e.cfg.HAS_HOTEND = true ∧ item = PID_HOTEND e.cfg then Draw_Menu e m .HotendPID 0 0 s
  else if e.cfg.HAS_HEATED_BED = true ∧ item = PID_BED e.cfg then Draw_Menu e m .BedPID 0 0 s
  else if item = PID_CYCLES e.cfg then Modify_Value e.cfg (.named "PID_cycles") 1 3 50 1 none s
  else s

/-- Case `HotendPID` of `Menu_Item_Handler` (lines 2097-2144), `draw == false`. -/
def HotendPID_activate (e : Env) (m : Machine) (item : Nat) (s : State) : State :=
  if item = HOTENDPID_BACK e.cfg then Draw_Menu e m .PID (PID_HOTEND e.cfg) 0 s
  else if item = HOTENDPID_TUNE e.cfg then e.rest .HotendPID item m s
  else if item = HOTENDPID_TEMP e.cfg then
    Modify_Value e.cfg (.named "PID_e_temp") 2 MIN_E_TEMP (MAX_E_TEMP e.cfg) 1 none s
  else if item = HOTENDPID_KP e.cfg then
    Modify_Value e.cfg .hotend_pid_Kp (e.value_type .hotend_pid_Kp) 0 5000 100 (some .updatePID) s
  else if item = HOTENDPID_KI e.cfg then
    Modify_Value e.cfg .hotend_pid_Ki (e.value_type .hotend_pid_Ki) 0 5000 100 (some .updatePID) s
  else if item = HOTENDPID_KD e.cfg then
    Modify_Value e.cfg .hotend_pid_Kd (e.value_type .hotend_pid_Kd) 0 5000 100 (some .updatePID) s
  else s

/-- Case `BedPID` of `Menu_Item_Handler` (lines 2170-2217), `draw == false`. -/
def BedPID_activate (e : Env) (m : Machine) (item : Nat) (s : State) : State :=
  if item = BEDPID_BACK e.cfg then Draw_Menu e m .PID (PID_BED e.cfg) 0 s
  else if item = BEDPID_TUNE e.cfg then e.rest .BedPID item m s
  else if item = BEDPID_TEMP e.cfg then
    Modify_Value e.cfg (.named "PID_bed_temp") 2 MIN_BED_TEMP (MAX_BED_TEMP e.cfg) 1 none s
  else if item = BEDPID_KP e.cfg then
    Modify_Value e.cfg .bed_pid_Kp (e.value_type .bed_pid_Kp) 0 5000 100 (some .updatePID) s
  else if item = BEDPID_KI e.cfg then
    Modify_Value e.cfg .bed_pid_Ki (e.value_type .bed_pid_Ki) 0 5000 100 (some .updatePID) s
  else if item = BEDPID_KD e.cfg then
    Modify_Value e.cfg .bed_pid_Kd (e.value_type .bed_pid_Kd) 0 5000 100 (some .updatePID) s
  else s

/-- Case `Preheat1` of `Menu_Item_Handler` (lines 2239-2270), `draw == false`. -/
def Preheat1_activate (e : Env) (m : Machine) (item : Nat) (s : State) : State :=
  if item = PREHEAT1_BACK e.cfg then Draw_Menu e m .TempMenu (TEMP_PREHEAT1 e.cfg) 0 s
  else if e.cfg.HAS_HOTEND = true ∧ item = PREHEAT1_HOTEND e.cfg then
    Modify_Value e.cfg (.preset_hotend 0) (e.value_type (.preset_hotend 0)) MIN_E_TEMP
      (MAX_E_TEMP e.cfg) 1 none s
  else if e.cfg.HAS_HEATED_BED = true ∧ item = PREHEAT1_BED e.cfg then
    Modify_Value e.cfg (.preset_bed 0) (e.value_type (.preset_bed 0)) MIN_BED_TEMP
      (MAX_BED_TEMP e.cfg) 1 none s
  else if e.cfg.HAS_FAN = true ∧ item = PREHEAT1_FAN e.cfg then
    Modify_Value e.cfg (.preset_fan 0) (e.value_type (.preset_fan 0)) MIN_FAN_SPEED MAX_FAN_SPEED 1
      none s
  else s

/-- Case `Preheat2` of `Menu_Item_Handler` (lines 2293-2324), `draw == false`. -/
def Preheat2_activate (e : Env) (m : Machine) (item : Nat) (s : State) : State :=
  if item = PREHEAT2_BACK e.cfg then Draw_Menu e m .TempMenu (TEMP_PREHEAT2 e.cfg) 0 s
  else if e.cfg.HAS_HOTEND = true ∧ item = PREHEAT2_HOTEND e.cfg then
    Modify_Value e.cfg (.preset_hotend 1) (e.value_type (.preset_hotend 1)) MIN_E_TEMP
      (MAX_E_TEMP e.cfg) 1 none s
  else if e.cfg.HAS_HEATED_BED = true ∧ item = PREHEAT2_BED e.cfg then
    Modify_Value e.cfg (.preset_bed 1) (e.value_type (.preset_bed 1)) MIN_BED_TEMP
      (MAX_BED_TEMP e.cfg) 1 none s
  else if e.cfg.HAS_FAN = true ∧ item = PREHEAT2_FAN e.cfg then
    Modify_Value e.cfg (.preset_fan 1) (e.value_type (.preset_fan 1)) MIN_FAN_SPEED MAX_FAN_SPEED 1
      none s
  else s

/-- Case `Preheat3` of `Menu_Item_Handler` (lines 2347-2378), `draw == false`. -/
def Preheat3_activate (e : Env) (m : Machine) (item : Nat) (s : State) : State :=
  if item = PREHEAT3_BACK e.cfg then Draw_Menu e m .TempMenu (TEMP_PREHEAT3 e.cfg) 0 s
  else if e.cfg.HAS_HOTEND = true ∧ item = PREHEAT3_HOTEND e.cfg then
    Modify_Value e.cfg (.preset_hotend 2) (e.value_type (.preset_hotend 2)) MIN_E_TEMP
      (MAX_E_TEMP e.cfg) 1 none s
  else if e.cfg.HAS_HEATED_BED = true ∧ item = PREHEAT3_BED e.cfg then
    Modify_Value e.cfg (.preset_bed 2) (e.value_type (.preset_bed 2)) MIN_BED_TEMP
      (MAX_BED_TEMP e.cfg) 1 none s
  else if e.cfg.HAS_FAN = true ∧ item = PREHEAT3_FAN e.cfg then
    Modify_Value e.cfg (.preset_fan 2) (e.value_type (.preset_fan 2)) MIN_FAN_SPEED MAX_FAN_SPEED 1
      none s
  else s

/-- Case `Preheat4` of `Menu_Item_Handler` (lines 2401-2432), `draw == false`. -/
def Preheat4_activate (e : Env) (m : Machine) (item : Nat) (s : State) : State :=
  if item = PREHEAT4_BACK e.cfg then Draw_Menu e m .TempMenu (TEMP_PREHEAT4 e.cfg) 0 s
  else if e.cfg.HAS_HOTEND = true ∧ item = PREHEAT4_HOTEND e.cfg then
    Modify_Value e.cfg (.preset_hotend 3) (e.value_type (.preset_hotend 3)) MIN_E_TEMP
      (MAX_E_TEMP e.cfg) 1 none s
  else if e.cfg.HAS_HEATED_BED = true ∧ item = PREHEAT4_BED e.cfg then
    Modify_Value e.cfg (.preset_bed 3) (e.value_type (.preset_bed 3)) MIN_BED_TEMP
      (MAX_BED_TEMP e.cfg) 1 none s
  else if e.cfg.HAS_FAN = true ∧ item = PREHEAT4_FAN e.cfg then
    Modify_Value e.cfg (.preset_fan 3) (e.value_type (.preset_fan 3)) MIN_FAN_SPEED MAX_FAN_SPEED 1
      none s
  else s

/-- Case `Preheat5` of `Menu_Item_Handler` (lines 2455-2486), `draw == false`. -/
def Preheat5_activate (e : Env) (m : Machine) (item : Nat) (s : State) : State :=
  if item = PREHEAT5_BACK e.cfg then Draw_Menu e m .TempMenu (TEMP_PREHEAT5 e.cfg) 0 s
  else if e.cfg.HAS_HOTEND = true ∧ item = PREHEAT5_HOTEND e.cfg then
    Modify_Value e.cfg (.preset_hotend 4) (e.value_type (.preset_hotend 4)) MIN_E_TEMP
      (MAX_E_TEMP e.cfg) 1 none s
  else if e.cfg.HAS_HEATED_BED = true ∧ item = PREHEAT5_BED e.cfg then
    Modify_Value e.cfg (.preset_bed 4) (e.value_type (.preset_bed 4)) MIN_BED_TEMP
      (MAX_BED_TEMP e.cfg) 1 none s
  else if e.cfg.HAS_FAN = true ∧ item = PREHEAT5_FAN e.cfg then
    Modify_Value e.cfg (.preset_fan 4) (e.value_type (.preset_fan 4)) MIN_FAN_SPEED MAX_FAN_SPEED 1
      none s
  else s

/-- Case `Motion` of `Menu_Item_Handler` (lines 2511-2562), `draw == false`. -/
def Motion_activate (e : Env) (m : Machine) (item : Nat) (s : State) : State :=
  if item = MOTION_BACK e.cfg then Draw_Menu e m .Control (CONTROL_MOTION e.cfg) 0 s
  else if item = MOTION_HOMEOFFSETS e.cfg then Draw_Menu e m .HomeOffsets 0 0 s
  else if item = MOTION_SPEED e.cfg then Draw_Menu e m .MaxSpeed 0 0 s
  else if item = MOTION_ACCEL e.cfg then Draw_Menu e m .MaxAcceleration 0 0 s
  else if e.cfg.HAS_CLASSIC_JERK = true ∧ item = MOTION_JERK e.cfg then Draw_Menu e m .MaxJerk 0 0 s
  else if item = MOTION_STEPS e.cfg then Draw_Menu e m .Steps 0 0 s
  else if e.cfg.HAS_HOTEND = true ∧ item = MOTION_FLOW e.cfg then
    Modify_Value e.cfg .flow_percentage0 (e.value_type .flow_percentage0) MIN_FLOW_RATE
      MAX_FLOW_RATE 1 none s
  else s

/-- Case `HomeOffsets` of `Menu_Item_Handler` (lines 2582-2599), `draw == false`. -/
def HomeOffsets_activate (e : Env) (m : Machine) (item : Nat) (s : State) : State :=
  if item = HOMEOFFSETS_BACK e.cfg then Draw_Menu e m .Motion (MOTION_HOMEOFFSETS e.cfg) 0 s
  else if item = HOMEOFFSETS_XOFFSET e.cfg then
    Modify_Value e.cfg (.named "home_offset.x") (e.value_type (.named "home_offset.x"))
      (-MAX_XY_OFFSET) MAX_XY_OFFSET 100 none s
  else if item = HOMEOFFSETS_YOFFSET e.cfg then
    Modify_Value e.cfg (.named "home_offset.y") (e.value_type (.named "home_offset.y"))
      (-MAX_XY_OFFSET) MAX_XY_OFFSET 100 none s
  else s

/-- Case `MaxSpeed` of `Menu_Item_Handler` (lines 2620-2656), `draw == false`. -/
def MaxSpeed_activate (e : Env) (m : Machine) (item : Nat) (s : State) : State :=
  if item = SPEED_BACK e.cfg then Draw_Menu e m .Motion (MOTION_SPEED e.cfg) 0 s
  else if item = SPEED_X e.cfg then
    Modify_Value e.cfg (.named "planner.settings.max_feedrate_mm_s[X_AXIS]")
      (e.value_type (.named "planner.settings.max_feedrate_mm_s[X_AXIS]")) 0
      (e.cfg.DEFAULT_MAX_FEEDRATE .X_AXIS * 2) 1 none s
  else if item = SPEED_Y e.cfg then
    Modify_Value e.cfg (.named "planner.settings.max_feedrate_mm_s[Y_AXIS]")
      (e.value_type (.named "planner.settings.max_feedrate_mm_s[Y_AXIS]")) 0
      (e.cfg.DEFAULT_MAX_FEEDRATE .Y_AXIS * 2) 1 none s
  else if item = SPEED_Z e.cfg then
    Modify_Value e.cfg (.named "planner.settings.max_feedrate_mm_s[Z_AXIS]")
      (e.value_type (.named "planner.settings.max_feedrate_mm_s[Z_AXIS]")) 0
      (e.cfg.DEFAULT_MAX_FEEDRATE .Z_AXIS * 2) 1 none s
  else if e.cfg.HAS_HOTEND = true ∧ item = SPEED_E e.cfg then
    Modify_Value e.cfg (.named "planner.settings.max_feedrate_mm_s[E_AXIS]")
      (e.value_type (.named "planner.settings.max_feedrate_mm_s[E_AXIS]")) 0
      (e.cfg.DEFAULT_MAX_FEEDRATE .E_AXIS * 2) 1 none s
  else s

/-- Case `MaxAcceleration` of `Menu_Item_Handler` (lines 2678-2714), `draw == false`. -/
def MaxAcceleration_activate (e : Env) (m : Machine) (item : Nat) (s : State) : State :=
  if item = ACCEL_BACK e.cfg then Draw_Menu e m .Motion (MOTION_ACCEL e.cfg) 0 s
  else if item = ACCEL_X e.cfg then
    Modify_Value e.cfg (.named "planner.settings.max_acceleration_mm_per_s2[X_AXIS]")
      (e.value_type (.named "planner.settings.max_acceleration_mm_per_s2[X_AXIS]")) 0
      (e.cfg.DEFAULT_MAX_ACCELERATION .X_AXIS * 2) 1 none s
  else if item = ACCEL_Y e.cfg then
    Modify_Value e.cfg (.named "planner.settings.max_acceleration_mm_per_s2[Y_AXIS]")
      (e.value_type (.named "planner.settings.max_acceleration_mm_per_s2[Y_AXIS]")) 0
      (e.cfg.DEFAULT_MAX_ACCELERATION .Y_AXIS * 2) 1 none s
  else if item = ACCEL_Z e.cfg then
    Modify_Value e.cfg (.named "planner.settings.max_acceleration_mm_per_s2[Z_AXIS]")
      (e.value_type (.named "planner.settings.max_acceleration_mm_per_s2[Z_AXIS]")) 0
      (e.cfg.DEFAULT_MAX_ACCELERATION .Z_AXIS * 2) 1 none s
  else if e.cfg.HAS_HOTEND = true ∧ item = ACCEL_E e.cfg then
    Modify_Value e.cfg (.named "planner.settings.max_acceleration_mm_per_s2[E_AXIS]")
      (e.value_type (.named "planner.settings.max_acceleration_mm_per_s2[E_AXIS]")) 0
      (e.cfg.DEFAULT_MAX_ACCELERATION .E_AXIS * 2) 1 none s
  else s

/-- Case `MaxJerk` of `Menu_Item_Handler` (lines 2737-2773), `draw == false`. -/
def MaxJerk_activate (e : Env) (m : Machine) (item : Nat) (s : State) : State :=
  if item = JERK_BACK e.cfg then Draw_Menu e m .Motion (MOTION_JERK e.cfg) 0 s
  else if item = JERK_X e.cfg then
    Modify_Value e.cfg (.named "planner.max_jerk[X_AXIS]")
      (e.value_type (.named "planner.max_jerk[X_AXIS]")) 0 (e.cfg.DEFAULT_JERK .X_AXIS * 2) 10 none
      s
  else if item = JERK_Y e.cfg then
    Modify_Value e.cfg (.named "planner.max_jerk[Y_AXIS]")
      (e.value_type (.named "planner.max_jerk[Y_AXIS]")) 0 (e.cfg.DEFAULT_JERK .Y_AXIS * 2) 10 none
      s
  else if item = JERK_Z e.cfg then
    Modify_Value e.cfg (.named "planner.max_jerk[Z_AXIS]")
      (e.value_type (.named "planner.max_jerk[Z_AXIS]")) 0 (e.cfg.DEFAULT_JERK .Z_AXIS * 2) 10 none
      s
  else if e.cfg.HAS_HOTEND = true ∧ item = JERK_E e.cfg then
    Modify_Value e.cfg (.named "planner.max_jerk[E_AXIS]")
      (e.value_type (.named "planner.max_jerk[E_AXIS]")) 0 (e.cfg.DEFAULT_JERK .E_AXIS * 2) 10 none
      s
  else s

/-- Case `Steps` of `Menu_Item_Handler` (lines 2796-2832), `draw == false`. -/
def Steps_activate (e : Env) (m : Machine) (item : Nat) (s : State) : State :=
  if item = STEPS_BACK e.cfg then Draw_Menu e m .Motion (MOTION_STEPS e.cfg) 0 s
  else if item = STEPS_X e.cfg then
    Modify_Value e.cfg (.named "planner.settings.axis_steps_per_mm[X_AXIS]")
      (e.value_type (.named "planner.settings.axis_steps_per_mm[X_AXIS]")) 0
      (e.cfg.DEFAULT_AXIS_STEPS_PER_UNIT .X_AXIS * 2) 10 none s
  else if item = STEPS_Y e.cfg then
    Modify_Value e.cfg (.named "planner.settings.axis_steps_per_mm[Y_AXIS]")
      (e.value_type (.named "planner.settings.axis_steps_per_mm[Y_AXIS]")) 0
      (e.cfg.DEFAULT_AXIS_STEPS_PER_UNIT .Y_AXIS * 2) 10 none s
  else if item = STEPS_Z e.cfg then
    Modify_Value e.cfg (.named "planner.settings.axis_steps_per_mm[Z_AXIS]")
      (e.value_type (.named "planner.settings.axis_steps_per_mm[Z_AXIS]")) 0
      (e.cfg.DEFAULT_AXIS_STEPS_PER_UNIT .Z_AXIS * 2) 10 none s
  else if e.cfg.HAS_HOTEND = true ∧ item = STEPS_E e.cfg then
    Modify_Value e.cfg (.named "planner.settings.axis_steps_per_mm[E_AXIS]")
      (e.value_type (.named "planner.settings.axis_steps_per_mm[E_AXIS]")) 0 1000 10 none s
  else s

/-- Case `Visual` of `Menu_Item_Handler` (lines 2855-2890), `draw == false`. -/
def Visual_activate (e : Env) (m : Machine) (item : Nat) (s : State) : State :=
  if item = VISUAL_BACK e.cfg then Draw_Menu e m .Control (CONTROL_VISUAL e.cfg) 0 s
  else if item = VISUAL_BACKLIGHT e.cfg then e.rest .Visual item m s
  else if item = VISUAL_BRIGHTNESS e.cfg then
    Modify_Value e.cfg (.named "ui.brightness") (e.value_type (.named "ui.brightness"))
      e.cfg.MIN_LCD_BRIGHTNESS e.cfg.MAX_LCD_BRIGHTNESS 1 (some .refresh_brightness) s
  else if item = VISUAL_TIME_FORMAT e.cfg then
    { s with eeprom_settings :=
      { s.eeprom_settings with
        time_format_textual := !s.eeprom_settings.time_format_textual } }
  else if item = VISUAL_COLOR_THEMES e.cfg then Draw_Menu e m .ColorSettings 0 0 s
  else s

/-- Case `ColorSettings` of `Menu_Item_Handler` (lines 2917-3015), `draw == false`. -/
def ColorSettings_activate (e : Env) (m : Machine) (item : Nat) (s : State) : State :=
  if item = COLORSETTINGS_BACK e.cfg then Draw_Menu e m .Visual (VISUAL_COLOR_THEMES e.cfg) 0 s
  else if item = COLORSETTINGS_CURSOR e.cfg then
    Modify_Option s.eeprom_settings.cursor_color .color_names e.cfg.Custom_Colors s
  else if item = COLORSETTINGS_SPLIT_LINE e.cfg then
    Modify_Option s.eeprom_settings.menu_split_line .color_names e.cfg.Custom_Colors s
  else if item = COLORSETTINGS_MENU_TOP_TXT e.cfg then
    Modify_Option s.eeprom_settings.menu_top_txt .color_names e.cfg.Custom_Colors s
  else if item = COLORSETTINGS_MENU_TOP_BG e.cfg then
    Modify_Option s.eeprom_settings.menu_top_bg .color_names e.cfg.Custom_Colors s
  else if item = COLORSETTINGS_HIGHLIGHT_BORDER e.cfg then
    Modify_Option s.eeprom_settings.highlight_box .color_names e.cfg.Custom_Colors s
  else if item = COLORSETTINGS_PROGRESS_PERCENT e.cfg then
    Modify_Option s.eeprom_settings.progress_percent .color_names e.cfg.Custom_Colors s
  else if item = COLORSETTINGS_PROGRESS_TIME e.cfg then
    Modify_Option s.eeprom_settings.progress_time .color_names e.cfg.Custom_Colors s
  else if item = COLORSETTINGS_PROGRESS_STATUS_BAR e.cfg then
    Modify_Option s.eeprom_settings.status_bar_text .color_names e.cfg.Custom_Colors s
  else if item = COLORSETTINGS_PROGRESS_STATUS_AREA e.cfg then
    Modify_Option s.eeprom_settings.status_area_text .color_names e.cfg.Custom_Colors s
  else if item = COLORSETTINGS_PROGRESS_COORDINATES e.cfg then
    Modify_Option s.eeprom_settings.coordinates_text .color_names e.cfg.Custom_Colors s
  else if item = COLORSETTINGS_PROGRESS_COORDINATES_LINE e.cfg then
    Modify_Option s.eeprom_settings.coordinates_split_line .color_names e.cfg.Custom_Colors s
  else s

/-- Case `Advanced` of `Menu_Item_Handler` (lines 3042-3146), `draw == false`. -/
def Advanced_activate (e : Env) (m : Machine) (item : Nat) (s : State) : State :=
  if item = ADVANCED_BACK e.cfg then Draw_Menu e m .Control (CONTROL_ADVANCED e.cfg) 0 s
  else if item = ADVANCED_BEEPER e.cfg then
    { s with eeprom_settings :=
      { s.eeprom_settings with beeperenable := !s.eeprom_settings.beeperenable } }
  else if e.cfg.HAS_BED_PROBE = true ∧ item = ADVANCED_PROBE e.cfg then
    Draw_Menu e m .ProbeMenu 0 0 s
  else if item = ADVANCED_CORNER e.cfg then Modify_Value e.cfg .corner_pos 0 1 100 10 none s
  else if e.cfg.LIN_ADVANCE = true ∧ item = ADVANCED_LA e.cfg then
    Modify_Value e.cfg (.named "planner.extruder_advance_K[0]")
      (e.value_type (.named "planner.extruder_advance_K[0]")) 0 10 100 none s
  else if e.cfg.ADVANCED_PAUSE_FEATURE = true ∧ item = ADVANCED_LOAD e.cfg then
    Modify_Value e.cfg (.named "fc_settings[0].load_length")
      (e.value_type (.named "fc_settings[0].load_length")) 0 e.cfg.EXTRUDE_MAXLENGTH 1 none s
  else if e.cfg.ADVANCED_PAUSE_FEATURE = true ∧ item = ADVANCED_UNLOAD e.cfg then
    Modify_Value e.cfg (.named "fc_settings[0].unload_length")
      (e.value_type (.named "fc_settings[0].unload_length")) 0 e.cfg.EXTRUDE_MAXLENGTH 1 none s
  else if e.cfg.PREVENT_COLD_EXTRUSION = true ∧ item = ADVANCED_COLD_EXTRUDE e.cfg then
    (Modify_Value e.cfg .extrude_min_temp (e.value_type .extrude_min_temp) 0 (MAX_E_TEMP e.cfg) 1
      none s).store (.named "thermalManager.allow_cold_extrude")
      (if s.vars .extrude_min_temp = 0 then 1 else 0)
  else if e.cfg.FILAMENT_RUNOUT_SENSOR = true ∧ item = ADVANCED_FILSENSORENABLED e.cfg then
    { s with runout_enabled := !s.runout_enabled }
  else if e.cfg.FILAMENT_RUNOUT_SENSOR = true ∧ e.cfg.HAS_FILAMENT_RUNOUT_DISTANCE = true ∧ item =
    ADVANCED_FILSENSORDISTANCE e.cfg then
    Modify_Value e.cfg (.named "runout.runout_distance()")
      (e.value_type (.named "runout.runout_distance()")) 0 999 10 none s
  else if e.cfg.POWER_LOSS_RECOVERY = true ∧ item = ADVANCED_POWER_LOSS e.cfg then
    s.call (if m.recovery_enabled then "recovery.enable(false)" else "recovery.enable(true)")
  else s

/-- Case `ProbeMenu` of `Menu_Item_Handler` (lines 3172-3208), `draw == false`. -/
def ProbeMenu_activate (e : Env) (m : Machine) (item : Nat) (s : State) : State :=
  if item = PROBE_BACK e.cfg then Draw_Menu e m .Advanced (ADVANCED_PROBE e.cfg) 0 s
  else if item = PROBE_XOFFSET e.cfg then
    Modify_Value e.cfg (.named "probe.offset.x") (e.value_type (.named "probe.offset.x"))
      (-MAX_XY_OFFSET) MAX_XY_OFFSET 10 none s
  else if item = PROBE_YOFFSET e.cfg then
    Modify_Value e.cfg (.named "probe.offset.y") (e.value_type (.named "probe.offset.y"))
      (-MAX_XY_OFFSET) MAX_XY_OFFSET 10 none s
  else if item = PROBE_TEST e.cfg then e.rest .ProbeMenu item m s
  else if item = PROBE_TEST_COUNT e.cfg then Modify_Value e.cfg (.named "testcount") 1 4 50 1 none s
  else s

/-- Case `Info` of `Menu_Item_Handler` (lines 3233-3233), `draw == false`. -/
def Info_activate (e : Env) (m : Machine) (menu : Menu) (item : Nat) (s : State) : State :=
  if item = INFO_BACK e.cfg then
    if menu = .Info then Draw_Menu e m .Control (CONTROL_INFO e.cfg) 0 s else Draw_Main_Menu 3 s
  else s

/-- Case `LevelView` of `Menu_Item_Handler` (lines 3492-3518), `draw == false`. -/
def LevelView_activate (e : Env) (m : Machine) (item : Nat) (s : State) : State :=
  if item = LEVELING_VIEW_BACK e.cfg then Draw_Menu e m .Leveling (LEVELING_VIEW e.cfg) 0 s
  else if item = LEVELING_VIEW_MESH e.cfg then Draw_Menu e m .MeshViewer 0 0 s
  else if item = LEVELING_VIEW_TEXT e.cfg then
    { s with viewer_print_value := !s.viewer_print_value }
  else if item = LEVELING_VIEW_ASYMMETRIC e.cfg then
    { s with viewer_asymmetric_range := !s.viewer_asymmetric_range }
  else s

/-- Case `LevelSettings` of `Menu_Item_Handler` (lines 3541-3591), `draw == false`. -/
def LevelSettings_activate (e : Env) (m : Machine) (item : Nat) (s : State) : State :=
  if item = LEVELING_SETTINGS_BACK e.cfg then Draw_Menu e m .Leveling (LEVELING_SETTINGS e.cfg) 0 s
  else if item = LEVELING_SETTINGS_FADE e.cfg then
    ((Modify_Value e.cfg (.named "planner.z_fade_height")
      (e.value_type (.named "planner.z_fade_height")) 0 e.cfg.Z_MAX_POS 1 none s).store
      (.named "planner.z_fade_height") (-1)).call "set_z_fade_height"
  else if e.cfg.AUTO_BED_LEVELING_UBL = true ∧ item = LEVELING_SETTINGS_TILT e.cfg then
    Modify_Value e.cfg .tilt_grid 1 1 8 1 none s
  else if e.cfg.AUTO_BED_LEVELING_UBL = true ∧ item = LEVELING_SETTINGS_PLANE e.cfg then
    e.rest .LevelSettings item m s
  else if e.cfg.AUTO_BED_LEVELING_UBL = true ∧ item = LEVELING_SETTINGS_ZERO e.cfg then
    e.rest .LevelSettings item m s
  else if e.cfg.AUTO_BED_LEVELING_UBL = true ∧ item = LEVELING_SETTINGS_UNDEF e.cfg then
    e.rest .LevelSettings item m s
  else s

/-- Case `MeshViewer` of `Menu_Item_Handler` (lines 3607-3607), `draw == false`. -/
def MeshViewer_activate (e : Env) (m : Machine) (item : Nat) (s : State) : State :=
  if item = MESHVIEW_BACK e.cfg then
    if s.drawing_mesh = false then
      Update_Status e.cfg "" (Draw_Menu e m .LevelView (LEVELING_VIEW_MESH e.cfg) 0 s)
    else s
  else s

/-- Case `LevelManual` of `Menu_Item_Handler` (lines 3636-3739), `draw == false`. -/
def LevelManual_activate (e : Env) (m : Machine) (item : Nat) (s : State) : State :=
  if item = LEVELING_M_BACK e.cfg then
    Draw_Menu e m .Leveling (LEVELING_MANUAL e.cfg) 0
      (if e.cfg.AUTO_BED_LEVELING_BILINEAR then (restore_leveling m s).call "refresh_bed_level"
       else restore_leveling m s)
  else if item = LEVELING_M_X e.cfg then
    Modify_Value e.cfg .mesh_x 1 0 ((e.cfg.GRID_MAX_POINTS_X : ℚ) - 1) 1 none s
  else if item = LEVELING_M_Y e.cfg then
    Modify_Value e.cfg .mesh_y 1 0 ((e.cfg.GRID_MAX_POINTS_Y : ℚ) - 1) 1 none s
  else if item = LEVELING_M_NEXT e.cfg then
    match Next_Point_store e.cfg.GRID_MAX_POINTS_X e.cfg.GRID_MAX_POINTS_Y s with
    | some s1 => manual_move e m false s1
    | none => s
  else if item = LEVELING_M_OFFSET e.cfg then
    Modify_Value e.cfg
      (.mesh_z_values (toUnsigned 8 (s.vars .mesh_x)) (toUnsigned 8 (s.vars .mesh_y))) 0
      (MIN_Z_OFFSET e.cfg) MAX_Z_OFFSET 100 none
      (if m.mesh_value_isnan (toUnsigned 8 (s.vars .mesh_x)) (toUnsigned 8 (s.vars .mesh_y)) then
         s.store (.mesh_z_values (toUnsigned 8 (s.vars .mesh_x)) (toUnsigned 8 (s.vars .mesh_y))) 0
       else s)
  else if item = LEVELING_M_UP e.cfg then e.rest .LevelManual item m s
  else if item = LEVELING_M_DOWN e.cfg then e.rest .LevelManual item m s
  else if item = LEVELING_M_GOTO_VALUE e.cfg then
    manual_move e m true
      (({ s with goto_mesh_value := !s.goto_mesh_value }).store .current_position_z 0)
  else if e.cfg.AUTO_BED_LEVELING_UBL = true ∧ item = LEVELING_M_UNDEF e.cfg then
    e.rest .LevelManual item m s
  else s

/-- Case `UBLMesh` of `Menu_Item_Handler` (lines 3764-3846), `draw == false`. -/
def UBLMesh_activate (e : Env) (m : Machine) (item : Nat) (s : State) : State :=
  if item = UBL_M_BACK e.cfg then
    Draw_Menu e m .Leveling (LEVELING_GET_MESH e.cfg) 0 (restore_leveling m s)
  else if item = UBL_M_NEXT e.cfg then
    match Next_Point_store e.cfg.GRID_MAX_POINTS_X e.cfg.GRID_MAX_POINTS_Y s with
    | some s1 => manual_move e m false s1
    | none =>
      Draw_Menu e m .Leveling (LEVELING_GET_MESH e.cfg) 0
        (AudioFeedback e.cfg true ((s.gcode "G29 S" []).call "planner.synchronize"))
  else if item = UBL_M_PREV e.cfg then e.rest .UBLMesh item m s
  else if item = UBL_M_OFFSET e.cfg then
    Modify_Value e.cfg
      (.mesh_z_values (toUnsigned 8 (s.vars .mesh_x)) (toUnsigned 8 (s.vars .mesh_y))) 0
      (MIN_Z_OFFSET e.cfg) MAX_Z_OFFSET 100 none
      (if m.mesh_value_isnan (toUnsigned 8 (s.vars .mesh_x)) (toUnsigned 8 (s.vars .mesh_y)) then
         s.store (.mesh_z_values (toUnsigned 8 (s.vars .mesh_x)) (toUnsigned 8 (s.vars .mesh_y))) 0
       else s)
  else if item = UBL_M_UP e.cfg then e.rest .UBLMesh item m s
  else if item = UBL_M_DOWN e.cfg then e.rest .UBLMesh item m s
  else s

/-- Case `ManualMesh` of `Menu_Item_Handler` (lines 3876-3948), `draw == false`. -/
def ManualMesh_activate (e : Env) (m : Machine) (item : Nat) (s : State) : State :=
  if item = MMESH_BACK e.cfg then
    Draw_Menu e m .Leveling (LEVELING_GET_MESH e.cfg) 0
      (restore_leveling m ((s.gcode "G29 A" []).call "planner.synchronize"))
  else if item = MMESH_NEXT e.cfg then
    if s.gridpoint < e.cfg.GRID_MAX_POINTS_X * e.cfg.GRID_MAX_POINTS_Y then
      Redraw_Menu e m true false false
        { ((Popup_Handler .MoveWait s).gcode "G29" []).call "planner.synchronize" with
          gridpoint := (s.gridpoint + 1) % 256 }
    else
      Draw_Menu e m .Leveling (LEVELING_GET_MESH e.cfg) 0
        (AudioFeedback e.cfg m.settings_save
          (((s.gcode "G29" []).call "planner.synchronize").call "settings.save"))
  else if item = MMESH_OFFSET e.cfg then
    Modify_Value e.cfg .current_position_z 0 (MIN_Z_OFFSET e.cfg) MAX_Z_OFFSET 100 none s
  else if item = MMESH_UP e.cfg then e.rest .ManualMesh item m s
  else if item = MMESH_DOWN e.cfg then e.rest .ManualMesh item m s
  else if item = MMESH_OLD e.cfg then
    if m.mesh_value_isnan
        (MMESH_OLD_point e.cfg.GRID_MAX_POINTS_X e.cfg.GRID_MAX_POINTS_Y s.gridpoint).1
        (MMESH_OLD_point e.cfg.GRID_MAX_POINTS_X e.cfg.GRID_MAX_POINTS_Y s.gridpoint).2 = false then
      (((s.store .current_position_z
          (s.vars (.mesh_z_values
            (MMESH_OLD_point e.cfg.GRID_MAX_POINTS_X e.cfg.GRID_MAX_POINTS_Y s.gridpoint).1
            (MMESH_OLD_point e.cfg.GRID_MAX_POINTS_X e.cfg.GRID_MAX_POINTS_Y s.gridpoint).2))).call
        "planner.synchronize").call "planner.buffer_line").call "planner.synchronize"
    else s
  else s

/-- Case `Tune` of `Menu_Item_Handler` (lines 3994-4118), `draw == false`. -/
def Tune_activate (e : Env) (m : Machine) (item : Nat) (s : State) : State :=
  if item = TUNE_BACK e.cfg then Draw_Print_Screen s
  else if item = TUNE_SPEED e.cfg then
    Modify_Value e.cfg (.named "feedrate_percentage") (e.value_type (.named "feedrate_percentage"))
      MIN_PRINT_SPEED MAX_PRINT_SPEED 1 none s
  else if e.cfg.HAS_HOTEND = true ∧ item = TUNE_FLOW e.cfg then
    Modify_Value e.cfg .flow_percentage0 (e.value_type .flow_percentage0) MIN_FLOW_RATE
      MAX_FLOW_RATE 1 none s
  else if e.cfg.HAS_HOTEND = true ∧ item = TUNE_HOTEND e.cfg then
    Modify_Value e.cfg .hotend_target 3 MIN_E_TEMP (MAX_E_TEMP e.cfg) 1 none s
  else if e.cfg.HAS_HEATED_BED = true ∧ item = TUNE_BED e.cfg then
    Modify_Value e.cfg .bed_target (e.value_type .bed_target) MIN_BED_TEMP (MAX_BED_TEMP e.cfg) 1
      none s
  else if e.cfg.HAS_FAN = true ∧ item = TUNE_FAN e.cfg then
    Modify_Value e.cfg .fan_speed0 (e.value_type .fan_speed0) MIN_FAN_SPEED MAX_FAN_SPEED 1 none s
  else if e.cfg.HAS_ZOFFSET_ITEM = true ∧ item = TUNE_ZOFFSET e.cfg then
    Modify_Value e.cfg .zoffsetvalue 0 (MIN_Z_OFFSET e.cfg) MAX_Z_OFFSET 100 none s
  else if e.cfg.HAS_ZOFFSET_ITEM = true ∧ item = TUNE_ZUP e.cfg then e.rest .Tune item m s
  else if e.cfg.HAS_ZOFFSET_ITEM = true ∧ item = TUNE_ZDOWN e.cfg then e.rest .Tune item m s
  else if e.cfg.FILAMENT_LOAD_UNLOAD_GCODES = true ∧ item = TUNE_CHANGEFIL e.cfg then
    Popup_Handler .ConfFilChange s
  else if e.cfg.FILAMENT_RUNOUT_SENSOR = true ∧ item = TUNE_FILSENSORENABLED e.cfg then
    { s with runout_enabled := !s.runout_enabled }
  else if item = TUNE_BACKLIGHT_OFF e.cfg then e.rest .Tune item m s
  else if item = TUNE_BACKLIGHT e.cfg then
    Modify_Value e.cfg (.named "ui.brightness") (e.value_type (.named "ui.brightness"))
      e.cfg.MIN_LCD_BRIGHTNESS e.cfg.MAX_LCD_BRIGHTNESS 1 (some .refresh_brightness) s
  else s


/-- Lines 1024-4261. -/
def Menu_Item_Handler (e : Env) (m : Machine) (menu : Menu) (item : Nat) (draw : Bool)
    (s : State) : State :=
  if draw then Item_draw e m menu item s
  else
    match menu with
    | .Prepare => Prepare_activate e m item s
    | .HomeMenu => HomeMenu_activate e m item s
    | .Move => Move_activate e m item s
    | .ManualLevel => ManualLevel_activate e m item s
    | .ZOffset => if e.cfg.HAS_ZOFFSET_ITEM = true then ZOffset_activate e m item s else s
    | .Preheat => if e.cfg.HAS_PREHEAT = true then Preheat_activate e m item s else s
    | .ChangeFilament =>
      if e.cfg.FILAMENT_LOAD_UNLOAD_GCODES then ChangeFilament_activate e m item s else s
    | .Control => Control_activate e m item s
    | .TempMenu => TempMenu_activate e m item s
    | .PID =>
      if (e.cfg.HAS_HOTEND || e.cfg.HAS_HEATED_BED) = true then PID_activate e m item s else s
    | .HotendPID => if e.cfg.HAS_HOTEND = true then HotendPID_activate e m item s else s
    | .BedPID => if e.cfg.HAS_HEATED_BED = true then BedPID_activate e m item s else s
    | .Preheat1 => if 1 ≤ e.cfg.PREHEAT_COUNT then Preheat1_activate e m item s else s
    | .Preheat2 => if 2 ≤ e.cfg.PREHEAT_COUNT then Preheat2_activate e m item s else s
    | .Preheat3 => if 3 ≤ e.cfg.PREHEAT_COUNT then Preheat3_activate e m item s else s
    | .Preheat4 => if 4 ≤ e.cfg.PREHEAT_COUNT then Preheat4_activate e m item s else s
    | .Preheat5 => if 5 ≤ e.cfg.PREHEAT_COUNT then Preheat5_activate e m item s else s
    | .Motion => Motion_activate e m item s
    | .HomeOffsets => HomeOffsets_activate e m item s
    | .MaxSpeed => MaxSpeed_activate e m item s
    | .MaxAcceleration => MaxAcceleration_activate e m item s
    | .MaxJerk => if e.cfg.HAS_CLASSIC_JERK = true then MaxJerk_activate e m item s else s
    | .Steps => Steps_activate e m item s
    | .Visual => Visual_activate e m item s
    | .ColorSettings => ColorSettings_activate e m item s
    | .Advanced => Advanced_activate e m item s
    | .ProbeMenu => if e.cfg.HAS_BED_PROBE = true then ProbeMenu_activate e m item s else s
    | .InfoMain => Info_activate e m .InfoMain item s
    | .Info => Info_activate e m .Info item s
    | .Leveling => if e.cfg.HAS_MESH then Leveling_activate e m item s else s
    | .LevelView => if e.cfg.HAS_MESH = true then LevelView_activate e m item s else s
    | .LevelSettings => if e.cfg.HAS_MESH = true then LevelSettings_activate e m item s else s
    | .MeshViewer => if e.cfg.HAS_MESH = true then MeshViewer_activate e m item s else s
    | .LevelManual => if e.cfg.HAS_MESH = true then LevelManual_activate e m item s else s
    | .UBLMesh =>
      if (e.cfg.AUTO_BED_LEVELING_UBL && !e.cfg.HAS_BED_PROBE) = true then UBLMesh_activate e m item
        s else s
    | .ManualMesh => if e.cfg.PROBE_MANUALLY = true then ManualMesh_activate e m item s else s
    | .Tune => Tune_activate e m item s
    | .PreheatHotend => PreheatHotend_activate e m item s
    | .MainMenu => s

/-! ## Input handlers -/

/-- Lines 4585-4617. -/
def Main_Menu_Control (e : Env) (m : Machine) (ev : ENCODER_DiffState) (s : State) : State :=
  match ev with
  | .ENCODER_DIFF_NO => s
  | .ENCODER_DIFF_CW => if s.selection < 3 then { s with selection := (s.selection + 1) % 256 } else s
  | .ENCODER_DIFF_CCW =>
    if s.selection > 0 then { s with selection := (s.selection + 255) % 256 } else s
  | .ENCODER_DIFF_ENTER =>
    if s.selection = 0 then Draw_SD_List (s.call "card.mount")
    else if s.selection = 1 then Draw_Menu e m .Prepare 0 0 s
    else if s.selection = 2 then Draw_Menu e m .Control 0 0 s
    else if s.selection = 3 then
      if e.cfg.HAS_MESH then Draw_Menu e m .Leveling 0 0 s else Draw_Menu e m .InfoMain 0 0 s
    else s

/-- Lines 4619-4645. -/
def Menu_Control (e : Env) (m : Machine) (ev : ENCODER_DiffState) (s : State) : State :=
  match ev with
  | .ENCODER_DIFF_NO => s
  | .ENCODER_DIFF_CW =>
    if s.selection < Get_Menu_Size e.cfg s.active_menu then
      let s1 : State := { s with selection := (s.selection + 1) % 256 }
      if s1.selection > s1.scrollpos + MROWS then
        let s2 : State := { s1 with scrollpos := (s1.scrollpos + 1) % 256 }
        Menu_Item_Handler e m s2.active_menu s2.selection true s2
      else s1
    else s
  | .ENCODER_DIFF_CCW =>
    if s.selection > 0 then
      let s1 : State := { s with selection := (s.selection + 255) % 256 }
      if s1.selection < s1.scrollpos then
        let s2 : State := { s1 with scrollpos := (s1.scrollpos + 255) % 256 }
        Menu_Item_Handler e m s2.active_menu s2.selection true s2
      else s1
    else s
  | .ENCODER_DIFF_ENTER => Menu_Item_Handler e m s.active_menu s.selection false s

/-- The `switch (valuetype)` of lines 4676-4683: the store through `valuepointer`. -/
def commit_value (s : State) : State :=
  let v : ℚ := s.tempvalue / s.valueunit
  match s.valuetype with
  | 0 => s.store s.valuepointer v
  | 1 => s.store s.valuepointer (toUnsigned 8 v)
  | 2 => s.store s.valuepointer (toUnsigned 16 v)
  | 3 => s.store s.valuepointer (toSigned 16 v)
  | 4 => s.store s.valuepointer (toUnsigned 32 v)
  | 5 => s.store s.valuepointer (toSigned 8 v)
  | _ => s

/-- Firmware function behind a registered callback. -/
def Callback.name : Callback → String
  | .updatePID => "thermalManager.updatePID"
  | .refresh_brightness => "ui.refresh_brightness"

/-- Lines 4657-4674 of `Value_Control`, on ENTER: the editor is left, a live Z offset is
applied, and a PID gain is scaled back to the firmware's unit. -/
def Value_Control_prepare (e : Env) (s : State) : State :=
  let s1 : State := { s with process := .Menu, encoder_rate_enabled := false }
  let s2 : State :=
    if s1.active_menu = .ZOffset ∧ s1.liveadjust = true then
      let t := s1.call "planner.synchronize"
      let t1 := t.store .current_position_z
        (t.vars .current_position_z + (t.tempvalue / t.valueunit - t.vars .zoffsetvalue))
      ((t1.call "planner.buffer_line").store .current_position_z 0).call "sync_plan_position"
    else if s1.active_menu = .Tune ∧ s1.selection = TUNE_ZOFFSET e.cfg then
      s1.gcode "M290 Z%s" [s1.tempvalue / s1.valueunit - s1.vars .zoffsetvalue]
    else s1
  let s3 : State :=
    if s2.valuepointer = .hotend_pid_Ki ∨ s2.valuepointer = .bed_pid_Ki then
      { s2 with tempvalue := e.cfg.scalePID_i s2.tempvalue }
    else s2
  if s3.valuepointer = .hotend_pid_Kd ∨ s3.valuepointer = .bed_pid_Kd then
    { s3 with tempvalue := e.cfg.scalePID_d s3.tempvalue }
  else s3

/-- Lines 4683-4700 of `Value_Control`, on ENTER, after the store: the `switch (active_menu)`
that carries out the move. -/
def Value_Control_move (e : Env) (m : Machine) (s5 : State) : State :=
  match s5.active_menu with
  | .Move => (s5.call "planner.synchronize").call "planner.buffer_line"
  | .ManualMesh =>
    if e.cfg.HAS_MESH then
      ((s5.call "planner.synchronize").call "planner.buffer_line").call "planner.synchronize"
    else s5
  | .UBLMesh => if e.cfg.HAS_MESH then manual_move e m true s5 else s5
  | .LevelManual =>
    if e.cfg.HAS_MESH then manual_move e m (s5.selection = LEVELING_M_OFFSET e.cfg) s5 else s5
  | _ => s5

/-- Lines 4683-4705 of `Value_Control`, on ENTER, after the store: the move is carried out and
the callback registered by `Modify_Value` is called last. -/
def Value_Control_finish (e : Env) (m : Machine) (s5 : State) : State :=
  let s6 := Value_Control_move e m s5
  let s7 : State :=
    if s6.valuepointer = .flow_percentage0 then s6.call "planner.refresh_e_factor" else s6
  match s7.funcpointer with
  | some f => s7.call f.name
  | none => s7

/-- Lines 4647-4717; `encoderMoveValue` is `EncoderRate.encoderMoveValue`. -/
def Value_Control (e : Env) (m : Machine) (ev : ENCODER_DiffState) (encoderMoveValue : ℚ)
    (s : State) : State :=
  let clamp (t : State) : State :=
    let t1 : State :=
      if t.tempvalue < t.valuemin * t.valueunit then { t with tempvalue := t.valuemin * t.valueunit }
      else t
    let t2 : State :=
      if t1.tempvalue > t1.valuemax * t1.valueunit then
        { t1 with tempvalue := t1.valuemax * t1.valueunit }
      else t1
    if t2.active_menu = .Move ∧ t2.livemove = true then
      (t2.store t2.valuepointer (t2.tempvalue / t2.valueunit)).call "planner.buffer_line"
    else t2
  match ev with
  | .ENCODER_DIFF_NO => s
  | .ENCODER_DIFF_CW => clamp { s with tempvalue := s.tempvalue + encoderMoveValue }
  | .ENCODER_DIFF_CCW => clamp { s with tempvalue := s.tempvalue - encoderMoveValue }
  | .ENCODER_DIFF_ENTER =>
    Value_Control_finish e m (commit_value (Value_Control_prepare e s))

/-- Lines 5057-5080. -/
def Confirm_Control (e : Env) (m : Machine) (ev : ENCODER_DiffState) (s : State) : State :=
  match ev with
  | .ENCODER_DIFF_ENTER =>
    match s.popup with
    | .Complete => Draw_Main_Menu 0 s
    | .FilInsert => { Popup_Handler .FilChange s with wait_for_user := false }
    | .HeaterTime => { Popup_Handler .Heating s with wait_for_user := false }
    | _ => { Redraw_Menu e m true true false s with wait_for_user := false }
  | _ => s

/-- Lines 4903-5055. -/
def Popup_Control (e : Env) (m : Machine) (ev : ENCODER_DiffState) (s : State) : State :=
  match ev with
  | .ENCODER_DIFF_NO => s
  | .ENCODER_DIFF_CW => if s.selection < 1 then { s with selection := (s.selection + 1) % 256 } else s
  | .ENCODER_DIFF_CCW =>
    if s.selection > 0 then { s with selection := (s.selection + 255) % 256 } else s
  | .ENCODER_DIFF_ENTER =>
    match s.popup with
    | .Pause =>
      let s1 : State :=
        if s.selection = 0 then
          if s.sdprint then
            let t : State :=
              if e.cfg.POWER_LOSS_RECOVERY = true ∧ m.recovery_enabled = true then
                s.call "recovery.save"
              else s
            if e.cfg.PARK_HEAD_ON_PAUSE then
              let t1 := Popup_Handler .Home t
              let t2 : State :=
                if e.cfg.SDSUPPORT = true ∧ m.is_sd_printing = true then t1.call "card.pauseSDPrint"
                else t1
              (((t2.call "planner.synchronize").gcode "M125" []).call "planner.synchronize")
            else
              let t1 := t.gcode "M25" []
              zero_fan_speeds (disable_all_heaters
                { t1 with pausetemp := t1.vars .hotend_target,
                          pausebed := t1.vars .bed_target,
                          pausefan := t1.vars .fan_speed0 })
          else if e.cfg.HOST_ACTION_COMMANDS then s.call "host_action_pause" else s
        else s
      Draw_Print_Screen s1
    | .Stop =>
      if s.selection = 0 then
        if s.sdprint then cooldown (s.call "ui.abort_print")
        else if e.cfg.HOST_ACTION_COMMANDS then s.call "host_action_cancel" else s
      else Draw_Print_Screen s
    | .Resume =>
      if s.selection = 0 then s.gcode "M1000" []
      else Draw_Main_Menu 0 (s.gcode "M1000 C" [])
    | .ETemp =>
      if s.selection = 0 then
        Draw_Menu e m .PreheatHotend 0 0
          (set_fan_speed MAX_FAN_SPEED (setTargetHotend e.cfg.EXTRUDE_MINTEMP s))
      else Redraw_Menu e m true true false s
    | .ManualProbing =>
      if e.cfg.HAS_BED_PROBE then
        if s.selection = 0 then
          let dif : ℚ := m.probe_at_point - s.corner_avg
          let t := s.call "probe.probe_at_point"
          if dif > 0 then
            Update_Status e.cfg ("Corner is " ++ e.cfg.dtostrf |dif| ++ "mm high") t
          else Update_Status e.cfg ("Corner is " ++ e.cfg.dtostrf |dif| ++ "mm low") t
        else Update_Status e.cfg "" (Redraw_Menu e m true true false s)
      else s
    | .ConfFilChange =>
      if e.cfg.ADVANCED_PAUSE_FEATURE then
        if s.selection = 0 then
          if s.vars .hotend_target < s.vars .extrude_min_temp then Popup_Handler .ETemp s
          else change_filament_now m s
        else Redraw_Menu e m true true false s
      else s
    | .PurgeMore =>
      if e.cfg.ADVANCED_PAUSE_FEATURE then
        if s.selection = 0 then
          Popup_Handler .FilChange { s with pause_menu_response := .PAUSE_RESPONSE_EXTRUDE_MORE }
        else
          let t : State := { s with pause_menu_response := .PAUSE_RESPONSE_RESUME_PRINT }
          if t.printing then Popup_Handler .Resuming t
          else Redraw_Menu e m true true (t.active_menu = .PreheatHotend) t
      else s
    | .SaveLevel =>
      if e.cfg.HAS_MESH then
        let s1 : State :=
          if s.selection = 0 then
            if e.cfg.AUTO_BED_LEVELING_UBL then
              AudioFeedback e.cfg true ((s.gcode "G29 S" []).call "planner.synchronize")
            else AudioFeedback e.cfg m.settings_save (s.call "settings.save")
          else s
        Draw_Menu e m .Leveling (LEVELING_GET_MESH e.cfg) 0 s1
      else s
    | .MeshSlot =>
      if e.cfg.AUTO_BED_LEVELING_UBL then
        let s1 : State := if s.selection = 0 then s.store .storage_slot 0 else s
        Redraw_Menu e m true true false s1
      else s
    | _ => s

/-- Lines 4719-4758; `encoderMoveValue` is `EncoderRate.encoderMoveValue`. -/
def Option_Control (e : Env) (m : Machine) (ev : ENCODER_DiffState) (encoderMoveValue : ℚ)
    (s : State) : State :=
  let clamp (t : State) : State :=
    let t1 : State := if t.tempvalue < t.valuemin then { t with tempvalue := t.valuemin } else t
    if t1.tempvalue > t1.valuemax then { t1 with tempvalue := t1.valuemax } else t1
  match ev with
  | .ENCODER_DIFF_NO => s
  | .ENCODER_DIFF_CW => clamp { s with tempvalue := s.tempvalue + encoderMoveValue }
  | .ENCODER_DIFF_CCW => clamp { s with tempvalue := s.tempvalue - encoderMoveValue }
  | .ENCODER_DIFF_ENTER =>
    let s1 : State := { s with process := .Menu, encoder_rate_enabled := false }
    if s1.valuepointer = .color_names then
      let v : Nat := toUnsigned 8 s1.tempvalue
      let es := s1.eeprom_settings
      let es1 : EEPROM_Settings :=
        if s1.selection = COLORSETTINGS_CURSOR e.cfg then { es with cursor_color := v }
        else if s1.selection = COLORSETTINGS_SPLIT_LINE e.cfg then { es with menu_split_line := v }
        else if s1.selection = COLORSETTINGS_MENU_TOP_BG e.cfg then { es with menu_top_bg := v }
        else if s1.selection = COLORSETTINGS_MENU_TOP_TXT e.cfg then { es with menu_top_txt := v }
        else if s1.selection = COLORSETTINGS_HIGHLIGHT_BORDER e.cfg then
          { es with highlight_box := v }
        else if s1.selection = COLORSETTINGS_PROGRESS_PERCENT e.cfg then
          { es with progress_percent := v }
        else if s1.selection = COLORSETTINGS_PROGRESS_TIME e.cfg then
          { es with progress_time := v }
        else if s1.selection = COLORSETTINGS_PROGRESS_STATUS_BAR e.cfg then
          { es with status_bar_text := v }
        else if s1.selection = COLORSETTINGS_PROGRESS_STATUS_AREA e.cfg then
          { es with status_area_text := v }
        else if s1.selection = COLORSETTINGS_PROGRESS_COORDINATES e.cfg then
          { es with coordinates_text := v }
        else if s1.selection = COLORSETTINGS_PROGRESS_COORDINATES_LINE e.cfg then
          { es with coordinates_split_line := v }
        else es
      Redraw_Screen e m { s1 with eeprom_settings := es1 }
    else if s1.valuepointer = .preheat_modes then
      { s1 with preheatmode := toUnsigned 8 s1.tempvalue }
    else s1

/-- Line 98: `#define MENU_CHAR_LIMIT 24`. -/
def MENU_CHAR_LIMIT : Int := 24

/-- Conversion of an integer to `int32_t`. -/
def toInt32 (z : Int) : Int := (z + 2 ^ 31) % 2 ^ 32 - 2 ^ 31

/-- The macro `PENDING(NOW, SOON)`, `(int32_t)(NOW - SOON) < 0`, on `millis_t` values. -/
def PENDING (now soon : Nat) : Bool := decide (toInt32 ((now : Int) - (soon : Int)) < 0)

/-- The macro `ELAPSED(NOW, SOON)`, the negation of `PENDING`. -/
def ELAPSED (now soon : Nat) : Bool := !PENDING now soon

/-- The loop `while (pos && filename[pos] != '.') pos--;` of line 4770, for a start index
that is not negative. -/
def dot_pos (name : List Char) : Nat → Nat
  | 0 => 0
  | p + 1 => if name.getD (p + 1) (Char.ofNat 0) ≠ '.' then dot_pos name p else p + 1

/-- Lines 4760-4849.  The no-event path scrolls the long name under the cursor on a 200 ms
timer; only the scroll counter `filescrl` and the timer are kept here.  For a name of 128
characters or more `pos` starts negative and the loop of line 4770 leaves the buffer; the
embedding then keeps `pos` as it is. -/
def File_Control (e : Env) (m : Machine) (ev : ENCODER_DiffState) (s : State) : State :=
  match ev with
  | .ENCODER_DIFF_NO =>
    if s.selection > 0 then
      let s1 := s.call "card.getfilename_sorted"
      let file := m.sorted_file (e.cfg.SD_ORDER (s.selection - 1) m.num_Files)
      let pos0 : Int := toInt8 file.1.length
      let pos : Int :=
        if file.2 = true ∨ pos0 < 0 then pos0 else (dot_pos file.1.data pos0.toNat : Nat)
      if pos > MENU_CHAR_LIMIT then
        if PENDING m.millis s1.file_time then s1
        else
          let pos1 : Int := toInt8 (pos - s1.filescrl)
          let n : Nat := if -pos1 ≥ MENU_CHAR_LIMIT then 0 else s1.filescrl
          { s1 with file_time := (m.millis + 200) % 2 ^ 32, filescrl := (n + 1) % 256 }
      else s1
    else s
  | .ENCODER_DIFF_CW =>
    if s.selection < m.num_Files then
      let s1 : State := { s with filescrl := 0, selection := (s.selection + 1) % 256 }
      if s1.selection > s1.scrollpos + MROWS then
        { s1 with scrollpos := (s1.scrollpos + 1) % 256 }
      else s1
    else s
  | .ENCODER_DIFF_CCW =>
    if s.selection > 0 then
      let s1 : State := { s with filescrl := 0, selection := (s.selection + 255) % 256 }
      if s1.selection < s1.scrollpos then { s1 with scrollpos := (s1.scrollpos + 255) % 256 }
      else s1
    else s
  | .ENCODER_DIFF_ENTER =>
    if s.selection = 0 then
      if m.workDirIsRoot then Draw_Main_Menu 0 { s with process := .Main }
      else Draw_SD_List (s.call "card.cdup")
    else
      let s1 := s.call "card.getfilename_sorted"
      if (m.sorted_file (e.cfg.SD_ORDER (s.selection - 1) m.num_Files)).2 then
        Draw_SD_List (s1.call "card.cd")
      else s1.call "card.openAndPrintFile"

/-- Lines 4851-4901. -/
def Print_Screen_Control (e : Env) (m : Machine) (ev : ENCODER_DiffState) (s : State) : State :=
  match ev with
  | .ENCODER_DIFF_NO => s
  | .ENCODER_DIFF_CW => if s.selection < 2 then { s with selection := (s.selection + 1) % 256 } else s
  | .ENCODER_DIFF_CCW =>
    if s.selection > 0 then { s with selection := (s.selection + 255) % 256 } else s
  | .ENCODER_DIFF_ENTER =>
    if s.selection = 0 then Draw_Menu e m .Tune 0 0 s
    else if s.selection = 1 then
      if s.paused then
        let s1 : State :=
          if s.sdprint then
            let t : State := { s with wait_for_user := false }
            if e.cfg.PARK_HEAD_ON_PAUSE then
              let t1 := t.call "card.startOrResumeFilePrinting"
              if e.cfg.POWER_LOSS_RECOVERY then t1.call "recovery.prepare" else t1
            else
              let t1 := (t.gcode "M140 S%i" [t.pausebed]).gcode "M109 S%i" [t.pausetemp]
              (((t1.store .fan_speed0 t1.pausefan).call "planner.synchronize").gcode "M24" [])
          else if e.cfg.HOST_ACTION_COMMANDS then s.call "host_action_resume" else s
        Draw_Print_Screen s1
      else Popup_Handler .Pause s
    else if s.selection = 2 then Popup_Handler .Stop s
    else s

/-! ## Print life cycle -/

/-- Lines 5159-5178. -/
def Start_Print (m : Machine) (sd : Bool) (s : State) : State :=
  let s1 : State := { s with sdprint := sd }
  if !s1.printing then
    let s2 : State := { s1 with printing := true, statusmsg := "" }
    let s3 : State :=
      if sd then
        let t : State :=
          if m.recovery_valid then (s2.call "card.diveToFile").call "card.selectFileByName" else s2
        { t with filename := m.longest_filename }
      else { s2 with filename := "Host Print" }
    Draw_Print_Screen { s3 with progress := 0, remaining_time := 0 }
  else s1

/-- Lines 5180-5188. -/
def Stop_Print (e : Env) (s : State) : State :=
  let s1 := cooldown { s with printing := false, sdprint := false }
  Draw_Print_confirm { s1 with progress := 100 * e.cfg.PROGRESS_SCALE, remaining_time := 0 }

/-- Lines 5223-5226 of `State_Update`: the print job started or ended. -/
def State_Update_job (e : Env) (m : Machine) (s : State) : State :=
  if (m.timer_running || m.timer_paused) != s.printing then
    if !s.printing then Start_Print m (m.file_open || m.recovery_valid) s else Stop_Print e s
  else s

/-- Lines 5227-5231 of `State_Update`: the pause state changed.  `Print_Screen_Icons` only
renders. -/
def State_Update_paused (e : Env) (m : Machine) (s : State) : State :=
  if m.timer_paused != s.paused then
    let t : State := { s with paused := m.timer_paused }
    if t.process = .Wait ∧ t.paused = false then Redraw_Menu e m true true false t else t
  else s

/-- Lines 5232-5234 of `State_Update`: the firmware waits for the user. -/
def State_Update_user (m : Machine) (s : State) : State :=
  if s.wait_for_user = true ∧ ¬ s.process = .Confirm ∧ m.timer_paused = false then
    Confirm_Handler .UserInput s
  else s

/-- Lines 5235-5245 of `State_Update`: the answer to the purge popup arrived. -/
def State_Update_purge (e : Env) (m : Machine) (s : State) : State :=
  if e.cfg.ADVANCED_PAUSE_FEATURE = true ∧ s.process = .Popup ∧ s.popup = .PurgeMore then
    if s.pause_menu_response = .PAUSE_RESPONSE_EXTRUDE_MORE then Popup_Handler .FilChange s
    else if s.pause_menu_response = .PAUSE_RESPONSE_RESUME_PRINT then
      if s.printing then Popup_Handler .Resuming s
      else Redraw_Menu e m true true (s.active_menu = .PreheatHotend) s
    else s
  else s

/-- Lines 5246-5252 of `State_Update`: the filament ran out. -/
def State_Update_runout (e : Env) (m : Machine) (s : State) : State :=
  if e.cfg.FILAMENT_RUNOUT_SENSOR = true ∧ m.filament_ran_out != s.ranout then
    let t : State := { s with ranout := m.filament_ran_out }
    if t.ranout then Popup_Handler .Runout t else t
  else s

/-- Lines 5222-5253. -/
def State_Update (e : Env) (m : Machine) (s : State) : State :=
  State_Update_runout e m
    (State_Update_purge e m
      (State_Update_user m
        (State_Update_paused e m
          (State_Update_job e m s))))

/-! ## The periodic update -/

/-- The block under `HAS_ZOFFSET_ITEM` of `Screen_Update` (lines 5295-5315): the displayed Z
offset and the firmware's offset follow one another. -/
def Screen_Update_zoffset (e : Env) (s : State) : State :=
  let last0 : ℚ := s.lastzoffset.getD (s.vars .zoffsetvalue)
  let s0 : State := { s with lastzoffset := some last0 }
  let s1 : State :=
    if s0.vars .zoffsetvalue ≠ last0 ∧ s0.printing = false then
      let t : State := { s0 with lastzoffset := some (s0.vars .zoffsetvalue) }
      if e.cfg.HAS_BED_PROBE then t.store .probe_offset_z (t.vars .zoffsetvalue)
      else (t.call "set_home_offset").store .home_offset_z (-(t.vars .zoffsetvalue))
    else s0
  let firmware : ℚ :=
    if e.cfg.HAS_BED_PROBE then s1.vars .probe_offset_z else -(s1.vars .home_offset_z)
  if some firmware ≠ s1.lastzoffset then
    { s1.store .zoffsetvalue firmware with lastzoffset := some firmware }
  else s1

/-- Lines 5255-5380.  `Update_Status_Bar`, `Draw_Status_Area`, the progress fields and the
refresh of the temperature rows only render (their statics cache what is on screen). -/
def Screen_Update (e : Env) (m : Machine) (s : State) : State :=
  let s1 : State :=
    if ELAPSED m.millis s.scrltime then
      let t : State := { s with scrltime := (m.millis + 200) % 2 ^ 32 }
      if t.process = .Print then Draw_Print_Filename false t else t
    else s
  let s2 : State :=
    if ELAPSED m.millis s1.statustime then { s1 with statustime := (m.millis + 500) % 2 ^ 32 }
    else s1
  let s3 : State :=
    if ELAPSED m.millis s2.printtime then { s2 with printtime := (m.millis + 1000) % 2 ^ 32 }
    else s2
  let s4 : State :=
    match s3.mounted with
    | none => { s3 with mounted := some m.card_mounted }
    | some b =>
      if b != m.card_mounted then
        let t : State := { s3 with mounted := some m.card_mounted }
        if t.process = .File then Draw_SD_List t else t
      else s3
  if e.cfg.HAS_ZOFFSET_ITEM then Screen_Update_zoffset e s4 else s4

/-- The `switch (process)` of `Update` (lines 5194-5219): the input handler of the current
process; there is no `case Wait`. -/
def Update_dispatch (e : Env) (m : Machine) (ev : ENCODER_DiffState) (encoderMoveValue : ℚ)
    (s : State) : State :=
  match s.process with
  | .Main => Main_Menu_Control e m ev s
  | .Menu => Menu_Control e m ev s
  | .Value => Value_Control e m ev encoderMoveValue s
  | .Option => Option_Control e m ev encoderMoveValue s
  | .File => File_Control e m ev s
  | .Print => Print_Screen_Control e m ev s
  | .Popup => Popup_Control e m ev s
  | .Confirm => Confirm_Control e m ev s
  | .Wait => s

/-- Lines 5190-5220; `ev` is the event the handler polls with `Encoder_ReceiveAnalyze()`. -/
def Update (e : Env) (m : Machine) (ev : ENCODER_DiffState) (encoderMoveValue : ℚ)
    (s : State) : State :=
  Update_dispatch e m ev encoderMoveValue (Screen_Update e m (State_Update e m s))

/-! ## Persistent settings -/

/-- The memory image of `eeprom_settings`.  The struct is declared in creality_dwin.h as a
struct of bit-fields, which fixes the field widths, and its byte layout is the compiler's;
both are parameters here: `corner_pos_bits`, `tilt_grid_size_bits` and `color_bits` (each of
the eleven colour fields) are the widths, `encode` gives the `size` bytes of the struct
holding given field values and `decode` reads the fields back from `size` bytes.  The field
`eeprom_data_size` is the constant of that name. -/
structure Layout where
  size : Nat
  eeprom_data_size : Nat
  corner_pos_bits : Nat
  tilt_grid_size_bits : Nat
  color_bits : Nat
  encode : EEPROM_Settings → List Nat
  decode : List Nat → EEPROM_Settings

/-- A memory image: every element is a byte. -/
def is_bytes (l : List Nat) : Prop := ∀ b ∈ l, b < 256

/-- The field values are values of the bit-fields: each is below two to the width of its
field. -/
def Layout.fits (L : Layout) (x : EEPROM_Settings) : Prop :=
  x.tilt_grid_size < 2 ^ L.tilt_grid_size_bits ∧ x.corner_pos < 2 ^ L.corner_pos_bits ∧
  ∀ f : ColorField, f.get x < 2 ^ L.color_bits

/-- The length `min(sizeof(eeprom_settings), eeprom_data_size)` of both `memcpy` calls. -/
def Layout.copy_len (L : Layout) : Nat := min L.size L.eeprom_data_size

/-- The call `memcpy(dst, src, n)` on byte lists. -/
def memcpy (dst src : List Nat) (n : Nat) : List Nat := src.take n ++ dst.drop n

/-- Lines 5397-5403; the result is the buffer and the state. -/
def Save_Settings (e : Env) (L : Layout) (buff : List Nat) (s : State) : List Nat × State :=
  let es1 : EEPROM_Settings :=
    if e.cfg.AUTO_BED_LEVELING_UBL then
      { s.eeprom_settings with
        tilt_grid_size := (toUnsigned 8 (s.vars .tilt_grid) + 2 ^ L.tilt_grid_size_bits - 1)
          % 2 ^ L.tilt_grid_size_bits }
    else s.eeprom_settings
  let es2 : EEPROM_Settings :=
    { es1 with corner_pos := toUnsigned L.corner_pos_bits (s.vars .corner_pos * 10) }
  (memcpy buff (L.encode es2) L.copy_len, { s with eeprom_settings := es2 })

/-- Line 5410: `if (eeprom_settings.corner_pos == 0) eeprom_settings.corner_pos = 325;`. -/
def corner_guard (x : EEPROM_Settings) : EEPROM_Settings :=
  if x.corner_pos = 0 then { x with corner_pos := 325 } else x

/-- Lines 5405-5418. -/
def Load_Settings (e : Env) (m : Machine) (L : Layout) (buff : List Nat) (s : State) : State :=
  let es1 : EEPROM_Settings := L.decode (memcpy (L.encode s.eeprom_settings) buff L.copy_len)
  let s1 : State := { s with eeprom_settings := es1 }
  let s2 : State :=
    if e.cfg.AUTO_BED_LEVELING_UBL then
      s1.store .tilt_grid (((es1.tilt_grid_size + 1) % 256 : Nat) : ℚ)
    else s1
  let s3 : State := { s2 with eeprom_settings := corner_guard s2.eeprom_settings }
  let s4 := s3.store .corner_pos ((s3.eeprom_settings.corner_pos : ℚ) / 10)
  let s5 := Redraw_Screen e m s4
  if s5.load_init then ({ s5 with load_init := false }).gcode "M1000 S" [] else s5

/-- The values `Reset_Settings` assigns (lines 5421-5437), over settings `x` for the field a
build without UBL does not have. -/
def reset_defaults (c : Config) (x : EEPROM_Settings) : EEPROM_Settings :=
  { time_format_textual := false, beeperenable := true,
    tilt_grid_size := if c.AUTO_BED_LEVELING_UBL then 0 else x.tilt_grid_size,
    corner_pos := 325, cursor_color := 0, menu_split_line := 0, menu_top_bg := 0,
    menu_top_txt := 0, highlight_box := 0, progress_percent := 0, progress_time := 0,
    status_bar_text := 0, status_area_text := 0, coordinates_text := 0,
    coordinates_split_line := 0 }

/-- Lines 5420-5443. -/
def Reset_Settings (e : Env) (m : Machine) (s : State) : State :=
  let es : EEPROM_Settings := reset_defaults e.cfg s.eeprom_settings
  let s1 : State := { s with eeprom_settings := es }
  let s2 : State :=
    if e.cfg.AUTO_BED_LEVELING_UBL then
      s1.store .tilt_grid (((es.tilt_grid_size + 1) % 256 : Nat) : ℚ)
    else s1
  Redraw_Screen e m (s2.store .corner_pos ((es.corner_pos : ℚ) / 10))

/-- `Save_Settings(buff)`, then `Reset_Settings()`, then `Load_Settings(buff)`. -/
def settings_round_trip (e : Env) (m : Machine) (L : Layout) (buff : List Nat) (s : State) :
    State :=
  Load_Settings e m L (Save_Settings e L buff s).1 (Reset_Settings e m (Save_Settings e L buff s).2)

/-- A layout is well formed when every image consists of `size` bytes, reading back the image
of field values that fit their bit-fields gives those values, and the field `corner_pos` is
wide enough for the value 325 that `Reset_Settings` and `Load_Settings` assign to it. -/
def Layout.wf (L : Layout) : Prop :=
  (∀ x, (L.encode x).length = L.size) ∧ (∀ x, is_bytes (L.encode x)) ∧
  (∀ x, L.fits x → L.decode (L.encode x) = x) ∧ 325 < 2 ^ L.corner_pos_bits

/-- The part `f` of the settings lies inside the copied prefix: it is read from the first
`copy_len` bytes of the image only. -/
def Layout.inside {α : Type} (L : Layout) (f : EEPROM_Settings → α) : Prop :=
  ∀ a b : List Nat, a.length = L.size → b.length = L.size → is_bytes a → is_bytes b →
    a.take L.copy_len = b.take L.copy_len → f (L.decode a) = f (L.decode b)

/-- The part `f` of the settings lies beyond the copied prefix: it is read from the bytes
after the first `copy_len` only. -/
def Layout.beyond {α : Type} (L : Layout) (f : EEPROM_Settings → α) : Prop :=
  ∀ a b : List Nat, a.length = L.size → b.length = L.size → is_bytes a → is_bytes b →
    a.drop L.copy_len = b.drop L.copy_len → f (L.decode a) = f (L.decode b)

/-- A layout of nine bytes and the 48-byte buffer of the header: byte 0 holds the two flags
(bits 0 and 1) and the 3-bit `tilt_grid_size` (bits 2 to 4), bytes 1 and 2 the 10-bit
`corner_pos` (low byte first), bytes 3 to 8 the eleven 4-bit colour fields, two to a byte, in
declaration order. -/
def layout0 : Layout :=
  { size := 9, eeprom_data_size := 48, corner_pos_bits := 10, tilt_grid_size_bits := 3,
    color_bits := 4,
    encode := fun x =>
      [ENABLED x.time_format_textual + 2 * ENABLED x.beeperenable + 4 * (x.tilt_grid_size % 8),
       x.corner_pos % 256, x.corner_pos / 256 % 4,
       x.cursor_color % 16 + 16 * (x.menu_split_line % 16),
       x.menu_top_bg % 16 + 16 * (x.menu_top_txt % 16),
       x.highlight_box % 16 + 16 * (x.progress_percent % 16),
       x.progress_time % 16 + 16 * (x.status_bar_text % 16),
       x.status_area_text % 16 + 16 * (x.coordinates_text % 16),
       x.coordinates_split_line % 16],
    decode := fun l =>
      { time_format_textual := decide (l.getD 0 0 % 2 = 1),
        beeperenable := decide (l.getD 0 0 / 2 % 2 = 1),
        tilt_grid_size := l.getD 0 0 / 4 % 8,
        corner_pos := l.getD 1 0 % 256 + 256 * (l.getD 2 0 % 4),
        cursor_color := l.getD 3 0 % 16, menu_split_line := l.getD 3 0 / 16 % 16,
        menu_top_bg := l.getD 4 0 % 16, menu_top_txt := l.getD 4 0 / 16 % 16,
        highlight_box := l.getD 5 0 % 16, progress_percent := l.getD 5 0 / 16 % 16,
        progress_time := l.getD 6 0 % 16, status_bar_text := l.getD 6 0 / 16 % 16,
        status_area_text := l.getD 7 0 % 16, coordinates_text := l.getD 7 0 / 16 % 16,
        coordinates_split_line := l.getD 8 0 % 16 } }

/-- The layout `layout0` with a buffer of three bytes only. -/
def layout_short : Layout := { layout0 with eeprom_data_size := 3 }

/-- An all-zero buffer of 48 bytes. -/
def buff0 : List Nat := List.replicate 48 0

/-! ## Runs of events -/

/-- Successive `Menu_Control` calls, one per polled event. -/
def Menu_Control_run (e : Env) (m : Machine) (evs : List ENCODER_DiffState) (s : State) : State :=
  evs.foldl (fun t ev => Menu_Control e m ev t) s

/-- Successive `Option_Control` calls, one per polled event and encoder rate. -/
def Option_Control_run (e : Env) (m : Machine) (evs : List (ENCODER_DiffState × ℚ))
    (s : State) : State :=
  evs.foldl (fun t ev => Option_Control e m ev.1 ev.2 t) s

/-- Successive `Value_Control` calls, one per polled event and encoder rate. -/
def Value_Control_run (e : Env) (m : Machine) (evs : List (ENCODER_DiffState × ℚ)) (s : State) :
    State :=
  evs.foldl (fun t ev => Value_Control e m ev.1 ev.2 t) s

/-! ## Observations -/

/-- The navigation variables of a state: `active_menu`, `last_menu`, `selection`,
`last_selection`, `scrollpos`, `process`, `last_process`, `popup`, `last_popup`. -/
def State.nav (s : State) :
    Menu × Menu × Nat × Nat × Nat × Process × Process × PopupID × PopupID :=
  (s.active_menu, s.last_menu, s.selection, s.last_selection, s.scrollpos, s.process,
    s.last_process, s.popup, s.last_popup)

/-- An encoder turn: clockwise or counter-clockwise. -/
def ENCODER_DiffState.isTurn (ev : ENCODER_DiffState) : Prop :=
  ev = .ENCODER_DIFF_CW ∨ ev = .ENCODER_DIFF_CCW

/-! ## Concrete configuration used for evaluation -/

/-- A configuration of the kind the display ships with: hotend, heated bed, fan, filament
change with load/unload G-codes, three preheat presets, no probe and no mesh. -/
def cfg0 : Config :=
  { HAS_HOTEND := true, HAS_HEATED_BED := true, HAS_FAN := true, HAS_BED_PROBE := false,
    BABYSTEPPING := true, HAS_WORKSPACE_OFFSET := false, ADVANCED_PAUSE_FEATURE := true,
    FILAMENT_LOAD_UNLOAD_GCODES := true, EEPROM_SETTINGS := true, HAS_CLASSIC_JERK := false,
    LIN_ADVANCE := false, PREVENT_COLD_EXTRUSION := true, FILAMENT_RUNOUT_SENSOR := true,
    HAS_FILAMENT_RUNOUT_DISTANCE := false, POWER_LOSS_RECOVERY := true, PRINTCOUNTER := false,
    HAS_MESH := false, HAS_LEVELING := false, AUTO_BED_LEVELING_UBL := false,
    PROBE_MANUALLY := false, PARK_HEAD_ON_PAUSE := false, HOST_ACTION_COMMANDS := false,
    SDSUPPORT := true, AUTO_BED_LEVELING_BILINEAR := false, PREHEAT_BEFORE_LEVELING := false,
    PREHEAT_COUNT := 3,
    X_MIN_POS := 0, X_MAX_POS := 235, Y_MIN_POS := 0, Y_MAX_POS := 235,
    Z_MIN_POS := 0, Z_MAX_POS := 250, EXTRUDE_MINTEMP := 170, HEATER_0_MAXTEMP := 275,
    HOTEND_OVERSHOOT := 15, Z_CLEARANCE_BETWEEN_PROBES := 5, MANUAL_PROBE_START_Z := 0,
    LEVELING_NOZZLE_TEMP := 120, LEVELING_BED_TEMP := 50,
    GRID_MAX_POINTS_X := 3, GRID_MAX_POINTS_Y := 3, SD_ORDER := fun n _ => n,
    unscalePID_i := fun x => x, unscalePID_d := fun x => x,
    scalePID_i := fun x => x, scalePID_d := fun x => x,
    dtostrf := fun _ => "0.000", LONG_FILENAME_LENGTH := 128, PROGRESS_SCALE := 1,
    BED_MAXTEMP := 120, EXTRUDE_MAXLENGTH := 1000, MIN_LCD_BRIGHTNESS := 1,
    MAX_LCD_BRIGHTNESS := 255, Custom_Colors := 10,
    DEFAULT_MAX_FEEDRATE := fun _ => 500, DEFAULT_MAX_ACCELERATION := fun _ => 500,
    DEFAULT_AXIS_STEPS_PER_UNIT := fun _ => 80, DEFAULT_JERK := fun _ => 10,
    PREHEAT_LABEL := fun _ => "PLA", Z_SAFE_HOMING := false,
    Z_SAFE_HOMING_X_POINT := 0, Z_SAFE_HOMING_Y_POINT := 0 }

/-- The configuration `cfg0` with the unembedded item branches doing nothing. -/
def env0 : Env :=
  { cfg := cfg0, rest := fun _ _ _ s => s, value_type := fun _ => 0 }

/-- An idle machine: no print job, cold hotend. -/
def m0 : Machine :=
  { timer_running := false, timer_paused := false, file_open := false, recovery_valid := false,
    recovery_enabled := false, filament_ran_out := false, axes_should_home := false,
    is_sd_printing := false, hotend_celsius := 20, longest_filename := "part.gcode",
    probe_at_point := 0, settings_save := true, millis := 0, card_mounted := true,
    num_Files := 0, workDirIsRoot := true, sorted_file := fun _ => ("", false),
    lcd_serial_waits := 0, mesh_status_lo := "0.000", mesh_status_hi := "0.000",
    leveling_is_valid := false, leveling_enable_result := false, calc_num_meshes := 0,
    mesh_value_isnan := fun _ _ => false }

/-- The variables as initialised at lines 148-183 (`popup` and `last_popup` are not initialised
by the source), with an extrude minimum of 170 degrees and the filament sensor enabled. -/
def init : State :=
  { active_menu := .MainMenu, last_menu := .MainMenu, selection := 0, last_selection := 0,
    scrollpos := 0, process := .Main, last_process := .Main, popup := .Pause, last_popup := .Pause,
    funcpointer := none, valuepointer := .null, tempvalue := 0, valuemin := 0, valuemax := 0,
    valueunit := 0, valuetype := 0, statusmsg := "", filename := "", printing := false,
    paused := false, sdprint := false, livemove := false, liveadjust := false, preheatmode := 0,
    pausetemp := 0, pausebed := 0, pausefan := 0, corner_avg := 0, probe_deployed := false,
    namescrl := 0, level_state := false, use_probe := false, ranout := false,
    load_init := true, goto_mesh_value := false, viewer_print_value := false,
    drawing_mesh := false, viewer_asymmetric_range := false,
    gridpoint := 0, filescrl := 0, file_time := 0, scrltime := 0, statustime := 0,
    printtime := 0, mounted := none, lastzoffset := none,
    eeprom_settings :=
      { time_format_textual := false, beeperenable := true, tilt_grid_size := 0,
        corner_pos := 0, cursor_color := 0, menu_split_line := 0, menu_top_bg := 0,
        menu_top_txt := 0, highlight_box := 0, progress_percent := 0, progress_time := 0,
        status_bar_text := 0, status_area_text := 0, coordinates_text := 0,
        coordinates_split_line := 0 },
    wait_for_user := false, pause_menu_response := .PAUSE_RESPONSE_WAIT_FOR,
    leveling_active := false, runout_enabled := true, encoder_rate_enabled := false,
    progress := 0,
    remaining_time := 0,
    vars := fun p => if p = .extrude_min_temp then 170 else 0,
    cmds := [], calls := [] }

/-- The state reached from `init` by choosing Prepare on the main screen, Move in Prepare, and
turning the encoder to row 4 of Move ("Extruder" under `cfg0`). -/
def at_move_extruder : State :=
  Menu_Control_run env0 m0
    [.ENCODER_DIFF_CW, .ENCODER_DIFF_CW, .ENCODER_DIFF_CW, .ENCODER_DIFF_CW]
    (Menu_Control env0 m0 .ENCODER_DIFF_ENTER
      (Menu_Control env0 m0 .ENCODER_DIFF_CW
        (Main_Menu_Control env0 m0 .ENCODER_DIFF_ENTER
          (Main_Menu_Control env0 m0 .ENCODER_DIFF_CW init))))

/-- The Info menu (`Draw_Menu(Info)`, one row) with the "Purge more filament?" popup opened over
it by `Popup_Handler(PurgeMore)` and the encoder turned once clockwise, to Cancel. -/
def at_info_purge_cancel : State :=
  Popup_Control env0 m0 .ENCODER_DIFF_CW
    (Popup_Handler .PurgeMore (Draw_Menu env0 m0 .Info 0 0 init))

/-- The outcome of an extrusion action intercepted for a cold nozzle, seen from the state `s`
it was activated in: the ETemp popup is on screen, no G-code has been submitted and the value
editor's variables are as they were. -/
def ETemp_intercepted (s t : State) : Prop :=
  t.process = .Popup ∧ t.popup = .ETemp ∧ t.cmds = s.cmds ∧
  t.valuepointer = s.valuepointer ∧ t.funcpointer = s.funcpointer ∧
  t.tempvalue = s.tempvalue ∧ t.valuemin = s.valuemin ∧ t.valuemax = s.valuemax ∧
  t.valueunit = s.valueunit ∧ t.valuetype = s.valuetype ∧
  t.encoder_rate_enabled = s.encoder_rate_enabled ∧ t.vars = s.vars

/-- The preference state: the stored settings and the live `corner_pos` and
`mesh_conf.tilt_grid`. -/
def State.prefs (s : State) : EEPROM_Settings × ℚ × ℚ :=
  (s.eeprom_settings, s.vars .corner_pos, s.vars .tilt_grid)

/-- Settings as the colour menu and a save leave them: textual time format, a tilt grid of
three points (field value 2), a corner position of 32.5 mm (325), colours 1 to 11. -/
def prefs1 : State :=
  ({ init with
      eeprom_settings :=
        { time_format_textual := true, beeperenable := false, tilt_grid_size := 2,
          corner_pos := 325, cursor_color := 1, menu_split_line := 2, menu_top_bg := 3,
          menu_top_txt := 4, highlight_box := 5, progress_percent := 6, progress_time := 7,
          status_bar_text := 8, status_area_text := 9, coordinates_text := 10,
          coordinates_split_line := 11 } } : State).store .corner_pos (65 / 2)

/-- The settings `Load_Settings` reads from the image after its `memcpy` in the round trip,
before the `corner_pos` guard of line 5410: the first `copy_len` bytes are those of the saved
settings, the remaining bytes those of the defaults `Reset_Settings` assigned. -/
def loaded_raw (e : Env) (L : Layout) (buff : List Nat) (s : State) : EEPROM_Settings :=
  L.decode
    ((L.encode (Save_Settings e L buff s).2.eeprom_settings).take L.copy_len ++
      (L.encode (reset_defaults e.cfg (Save_Settings e L buff s).2.eeprom_settings)).drop
        L.copy_len)

/-! ## The file name window -/

/-- Conversion of an `int` to `size_t` (32 bits). -/
def toSizeT (z : Int) : Nat := (z % 2 ^ 32).toNat

/-- The values the index takes in `LOOP_S_L_N(i, S, N)`, which stands for
`for (uint8_t i = (S); i < (N); i++)`; `LOOP_L_N(i, N)` is `LOOP_S_L_N(i, 0, N)`.  The bounds
used in the source are at most 30. -/
def LOOP_S_L_N (S N : Int) : List Nat :=
  List.range' (S % 256).toNat (N.toNat - (S % 256).toNat)

/-- What one pass through the scrolling branch of `Draw_Print_Filename` (lines 670-684) does
with its two buffers. -/
structure NameWindow where
  /-- Number of bytes of `dispname`, the `len+1` of line 674. -/
  size : Nat
  /-- The indices at which `filename` is read, in order. -/
  reads : List Int
  /-- The indices at which `dispname` is written, in order. -/
  writes : List Int
  /-- The characters written to `dispname` before the terminator: the text drawn. -/
  text : List Char

/-- Lines 670-680 for a file name `filename` (without its terminator) and scroll counter
`namescrl`, in the branch `pos > 30`. -/
def Print_Filename_window (filename : List Char) (namescrl : Nat) : NameWindow :=
  let pos : Int := toInt8 (toInt8 filename.length - namescrl)
  let len : Nat := if toSizeT pos > 30 then 30 else toSizeT pos
  if pos ≥ 0 then
    let idx := LOOP_S_L_N 0 len
    { size := len + 1,
      reads := idx.map (fun (i : Nat) => (i : Int) + namescrl),
      writes := idx.map (fun (i : Nat) => (i : Int)) ++ [(len : Int)],
      text := idx.map (fun (i : Nat) => filename.getD (i + namescrl) default) }
  else
    let pad := LOOP_S_L_N 0 (30 + pos)
    let idx := LOOP_S_L_N (30 + pos) 30
    { size := len + 1,
      reads := idx.map (fun (i : Nat) => (i : Int) - (30 + pos)),
      writes := pad.map (fun (i : Nat) => (i : Int)) ++ idx.map (fun (i : Nat) => (i : Int)) ++ [(len : Int)],
      text := pad.map (fun (_ : Nat) => ' ') ++
        idx.map (fun (i : Nat) => filename.getD ((i : Int) - (30 + pos)).toNat default) }

/-- The window `Draw_Print_Filename(reset)` builds in state `s`; `none` when the call does not
reach the scrolling branch (another screen is shown, or the name is short). -/
def Draw_Print_Filename_window (reset : Bool) (s : State) : Option NameWindow :=
  if s.process = .Print ∧ toInt8 s.filename.length > 30 then
    some (Print_Filename_window s.filename.data (if reset then 0 else s.namescrl))
  else none

/-- The call `Draw_Print_Filename(true)` followed by `n` calls `Draw_Print_Filename()`. -/
def Draw_Print_Filename_run (n : Nat) (s : State) : State :=
  (Draw_Print_Filename false)^[n] (Draw_Print_Filename true s)

/-- All reads of `filename` (of `length` characters) and all writes of `dispname` made for a
window stay inside the two buffers. -/
def NameWindow.inBounds (w : NameWindow) (length : Nat) : Prop :=
  (∀ r ∈ w.reads, 0 ≤ r ∧ r < length) ∧ (∀ x ∈ w.writes, 0 ≤ x ∧ x < w.size)

instance (w : NameWindow) (length : Nat) : Decidable (w.inBounds length) := by
  unfold NameWindow.inBounds; infer_instance

/-- A print screen showing a file name of 40 characters. -/
def at_print_40 : State :=
  { init with process := .Print, filename := "0123456789abcdefghijklmnopqrstuvwxyzABCD" }

/-- The window built by invocation number `j` of the sequence `Draw_Print_Filename(true)`,
`Draw_Print_Filename()`, `Draw_Print_Filename()`, ... started in state `s`; invocation 0 is the
resetting one. -/
def Draw_Print_Filename_nth (j : Nat) (s : State) : Option NameWindow :=
  match j with
  | 0 => Draw_Print_Filename_window true s
  | i + 1 => Draw_Print_Filename_window false (Draw_Print_Filename_run i s)

/-! ## Runs of update ticks -/

/-- Successive `Update` calls, one per tick: the machine state sampled during the tick, the
encoder event polled and the encoder rate. -/
def Update_run (e : Env) (ticks : List (Machine × ENCODER_DiffState × ℚ)) (s : State) : State :=
  ticks.foldl (fun t k => Update e k.1 k.2.1 k.2.2 t) s

/-- The configuration `cfg0` without the load/unload G-codes: "Change Filament" in Prepare acts
at once. -/
def cfg1 : Config := { cfg0 with FILAMENT_LOAD_UNLOAD_GCODES := false }

/-- The configuration `cfg1` with the unembedded item branches doing nothing. -/
def env1 : Env := { cfg := cfg1, rest := fun _ _ _ s => s, value_type := fun _ => 0 }

/-- Ticks on an idle machine: Prepare is chosen on the main screen, the cursor is moved to row 8
("Change Filament") and pressed with a cold nozzle, which opens the ETemp popup; Cancel is
chosen there; the cursor is moved back to row 0 ("Back") and pressed. -/
def stale_selection_ticks : List (Machine × ENCODER_DiffState × ℚ) :=
  [(m0, .ENCODER_DIFF_CW, 1), (m0, .ENCODER_DIFF_ENTER, 1)] ++
  List.replicate 8 (m0, .ENCODER_DIFF_CW, 1) ++
  [(m0, .ENCODER_DIFF_ENTER, 1), (m0, .ENCODER_DIFF_CW, 1), (m0, .ENCODER_DIFF_ENTER, 1)] ++
  List.replicate 8 (m0, .ENCODER_DIFF_CCW, 1) ++
  [(m0, .ENCODER_DIFF_ENTER, 1)]

/-- The main screen reached from `init` through `stale_selection_ticks`. -/
def at_main_stale : State := Update_run env1 stale_selection_ticks init

/-- The state two ticks after the firmware set `wait_for_user` in `at_main_stale`: a tick
without an event, which opens the UserInput dialog, and a tick with ENTER, which acknowledges
it. -/
def after_user_input : State :=
  Update env1 m0 .ENCODER_DIFF_ENTER 1
    (Update env1 m0 .ENCODER_DIFF_NO 1 { at_main_stale with wait_for_user := true })

/-- The value editor opened on "Move X" by ticks from `init`: Prepare, Move, row 1, ENTER; the
firmware has then set `wait_for_user`. -/
def at_value_waiting : State :=
  { Update_run env0
      [(m0, .ENCODER_DIFF_CW, 1), (m0, .ENCODER_DIFF_ENTER, 1), (m0, .ENCODER_DIFF_CW, 1),
       (m0, .ENCODER_DIFF_ENTER, 1), (m0, .ENCODER_DIFF_CW, 1), (m0, .ENCODER_DIFF_ENTER, 1)]
      init with wait_for_user := true }

/-- A wait screen: the Home popup over the main screen. -/
def at_wait : State := Popup_Handler .Home init

/-- What an action refused by a guard leaves alone, seen from the state `s` it was activated
in: no G-code and no firmware call is added, and the firmware variables, the leveling switch and
the mesh editor's variables are as they were. -/
def untouched (s t : State) : Prop :=
  t.cmds = s.cmds ∧ t.calls = s.calls ∧ t.vars = s.vars ∧
  t.leveling_active = s.leveling_active ∧ t.level_state = s.level_state ∧
  t.goto_mesh_value = s.goto_mesh_value ∧ t.gridpoint = s.gridpoint

/-- A configuration with a probe and unified bed leveling. -/
def cfg2 : Config :=
  { cfg0 with HAS_BED_PROBE := true, HAS_MESH := true, HAS_LEVELING := true,
              AUTO_BED_LEVELING_UBL := true }

/-- The configuration `cfg2` with the unembedded item branches doing nothing. -/
def env2 : Env := { cfg := cfg2, rest := fun _ _ _ s => s, value_type := fun _ => 0 }

/-- The Leveling menu with the cursor on "Load Mesh" (row 8 under `cfg2`) and no mesh slot
selected (`ubl.storage_slot` is -1). -/
def at_leveling_load : State :=
  Draw_Menu env2 m0 .Leveling 8 0 (init.store .storage_slot (-1))

/-- A configuration with a probe and bilinear bed leveling. -/
def cfg3 : Config :=
  { cfg0 with HAS_BED_PROBE := true, HAS_MESH := true, HAS_LEVELING := true,
              AUTO_BED_LEVELING_BILINEAR := true }

/-- The configuration `cfg3` with the unembedded item branches doing nothing. -/
def env3 : Env := { cfg := cfg3, rest := fun _ _ _ s => s, value_type := fun _ => 0 }

/-- The Leveling menu of `cfg3` with the cursor on "Manual Tuning" (row 3). -/
def at_leveling_manual : State := Draw_Menu env3 m0 .Leveling 3 0 init

/-- The variables `State_Update` compares the machine state with, and the firmware flags it
reads: `printing`, `paused`, the static `ranout`, `wait_for_user`, `pause_menu_response`. -/
def State.job (s : State) : Bool × Bool × Bool × Bool × PauseMenuResponse :=
  (s.printing, s.paused, s.ranout, s.wait_for_user, s.pause_menu_response)

/-- The main screen with the firmware waiting for the user. -/
def at_main_waiting : State := { init with wait_for_user := true }

/-- The idle machine with the filament sensor reporting a runout. -/
def m_runout : Machine := { m0 with filament_ran_out := true }

/-! ## Value sessions -/

/-- The working value as `Value_Control` scales it before the store (lines 4671-4674). -/
def rescale (c : Config) (p : ValuePtr) (w : ℚ) : ℚ :=
  let w1 : ℚ := if p = .hotend_pid_Ki ∨ p = .bed_pid_Ki then c.scalePID_i w else w
  if p = .hotend_pid_Kd ∨ p = .bed_pid_Kd then c.scalePID_d w1 else w1

/-- The conversion of a `float` to the variable's type in the store of lines 4675-4682. -/
def convert_value (type : Nat) (v : ℚ) : ℚ :=
  match type with
  | 1 => toUnsigned 8 v
  | 2 => toUnsigned 16 v
  | 3 => toSigned 16 v
  | 4 => toUnsigned 32 v
  | 5 => toSigned 8 v
  | _ => v

/-- The editor's variables that no drawing touches. -/
def State.edit (s : State) : ValuePtr × Option Callback × Nat × ℚ × ℚ × Nat × ℚ × Bool × Bool :=
  (s.valuepointer, s.funcpointer, s.valuetype, s.valuemin, s.valuemax, s.valueunit,
    s.tempvalue, s.liveadjust, s.livemove)

/-- The value `NOLESS(x, lo); NOMORE(x, hi);` leaves in `x`. -/
def clamped (lo hi x : ℚ) : ℚ :=
  if (if x < lo then lo else x) > hi then hi else (if x < lo then lo else x)

/-- The variables of a value-edit session that encoder turns leave alone. -/
def State.session (s : State) :
    ValuePtr × Option Callback × Nat × ℚ × ℚ × Nat × Bool × Menu × Nat × Process :=
  (s.valuepointer, s.funcpointer, s.valuetype, s.valuemin, s.valuemax, s.valueunit,
    s.liveadjust, s.active_menu, s.selection, s.process)

/-- Ticks on an idle machine: Prepare is chosen on the main screen and the cursor is moved to
row 8 ("Change Filament" under `cfg0`), which scrolls the window to rows 3..8. -/
def scrolled_ticks : List (Machine × ENCODER_DiffState × ℚ) :=
  [(m0, .ENCODER_DIFF_CW, 1), (m0, .ENCODER_DIFF_ENTER, 1)] ++
  List.replicate 8 (m0, .ENCODER_DIFF_CW, 1)

/-- The Prepare menu reached from `init` through `scrolled_ticks`. -/
def at_prepare_scrolled : State := Update_run env0 scrolled_ticks init

/-- The state two ticks after the firmware set `wait_for_user` in `at_prepare_scrolled`: a tick
without an event, which opens the UserInput dialog, and a tick with ENTER, which acknowledges
it. -/
def after_scrolled_acknowledge : State :=
  Update env0 m0 .ENCODER_DIFF_ENTER 1
    (Update env0 m0 .ENCODER_DIFF_NO 1 { at_prepare_scrolled with wait_for_user := true })

/-- The Leveling menu of `cfg3` with the "Save mesh?" popup opened over it and the encoder
turned once clockwise, to Cancel. -/
def at_save_level_cancel : State :=
  Popup_Control env3 m0 .ENCODER_DIFF_CW (Popup_Handler .SaveLevel at_leveling_manual)

/-! ## Resumption through the preheat menu -/

/-- The rows whose extrusion action is intercepted for a cold nozzle and resumed from the
PreheatHotend menu: Load Filament and Unload Filament of ChangeFilament, Extruder of Move. -/
def extrusion_row (c : Config) (X : Menu) (S : Nat) : Prop :=
  (c.FILAMENT_LOAD_UNLOAD_GCODES = true ∧ X = .ChangeFilament ∧
    (S = CHANGEFIL_LOAD c ∨ S = CHANGEFIL_UNLOAD c)) ∨
  (c.HAS_HOTEND = true ∧ X = .Move ∧ S = MOVE_E c)

/-- Successive calls of the handler of the current process, one per polled event and encoder
rate. -/
def Update_dispatch_run (e : Env) (m : Machine) (evs : List (ENCODER_DiffState × ℚ))
    (s : State) : State :=
  evs.foldl (fun t ev => Update_dispatch e m ev.1 ev.2 t) s

/-- The PreheatHotend menu as the user finds it after confirming the ETemp popup that
intercepted the activation of the current row of `s`. -/
def preheat_opened (e : Env) (m : Machine) (s : State) : State :=
  Update_dispatch e m .ENCODER_DIFF_ENTER 0 (Update_dispatch e m .ENCODER_DIFF_ENTER 0 s)

/-- The PreheatHotend menu after the events `evs` that follow the confirmation of the ETemp
popup. -/
def preheat_after_ETemp (e : Env) (m : Machine) (evs : List (ENCODER_DiffState × ℚ))
    (s : State) : State :=
  Update_dispatch_run e m evs (preheat_opened e m s)

/-- The event `ev` polled in state `t` activates row Cancel (index 0) or row Continue (index 1)
of the PreheatHotend menu. -/
def resumes (e : Env) (ev : ENCODER_DiffState) (t : State) : Prop :=
  t.process = .Menu ∧ ev = .ENCODER_DIFF_ENTER ∧
  (t.selection = PREHEATHOTEND_BACK e.cfg ∨ t.selection = PREHEATHOTEND_CONTINUE e.cfg)

instance (e : Env) (ev : ENCODER_DiffState) (t : State) : Decidable (resumes e ev t) := by
  unfold resumes
  infer_instance

/-- None of the events `evs`, handled one after the other from state `t` on, activates Cancel
or Continue of the PreheatHotend menu. -/
def no_resume (e : Env) (m : Machine) : List (ENCODER_DiffState × ℚ) → State → Bool
  | [], _ => true
  | ev :: evs, t => !decide (resumes e ev.1 t) && no_resume e m evs (Update_dispatch e m ev.1 ev.2 t)

/-- What a user may do in the PreheatHotend menu of `cfg0` before resuming: turn to the first
preset (row 2) and activate it, turn to Custom (row 5), open the editor, raise the target by
ten degrees and confirm, then turn back to Continue (row 1). -/
def preheat_detour : List (ENCODER_DiffState × ℚ) :=
  [(.ENCODER_DIFF_CW, 1), (.ENCODER_DIFF_CW, 1), (.ENCODER_DIFF_ENTER, 1),
   (.ENCODER_DIFF_CW, 1), (.ENCODER_DIFF_CW, 1), (.ENCODER_DIFF_CW, 1), (.ENCODER_DIFF_ENTER, 1),
   (.ENCODER_DIFF_CW, 10), (.ENCODER_DIFF_NO, 1), (.ENCODER_DIFF_ENTER, 1),
   (.ENCODER_DIFF_CCW, 1), (.ENCODER_DIFF_CCW, 1), (.ENCODER_DIFF_CCW, 1),
   (.ENCODER_DIFF_CCW, 1)]

/-- The Load Filament row of the ChangeFilament menu of `cfg0`, cold nozzle. -/
def at_changefil_load : State := Draw_Menu env0 m0 .ChangeFilament 1 0 init

/-! ## The status message buffer -/

/-- The terminating byte of a C string. -/
def NUL : Char := Char.ofNat 0

/-- Lines 5146-5154 of `Update_Status`, on bytes: the stores into `char statusmsg[64]`
(line 166) in the order they are made, as pairs of index and byte; none when the text starts
with `<F>`.  `text` holds the characters before the terminating NUL, so `strlen(text)` is its
length. -/
def Update_Status_stores (text : List Char) : List (Nat × Char) :=
  if text.take 3 = ['<', 'F', '>'] then []
  else
    (List.range (min 64 text.length)).map (fun (i : Nat) => (i, text.getD i NUL)) ++
      [(min 64 text.length, NUL)]

/-- The bytes of an array after a sequence of stores; a store at an index outside the array
does not land in it. -/
def stored (buf : List Char) (ws : List (Nat × Char)) : List Char :=
  ws.foldl (fun b w => b.set w.1 w.2) buf

/-- The C string an array holds: the bytes before the first NUL, and nothing when no byte of the
array is NUL. -/
def c_string (buf : List Char) : Option (List Char) :=
  if NUL ∈ buf then some (buf.takeWhile (fun ch => ch ≠ NUL)) else none

/-- A text of 64 characters. -/
def text64 : List Char := List.replicate 64 'a'

/-- The array `statusmsg` as initialised (all bytes NUL). -/
def statusmsg0 : List Char := List.replicate 64 NUL

/-! ## Agreement of the draw and the activate branches -/

/-- The case label of the `switch (selection)` of `Option_Control` (lines 4727-4737) that
writes the colour field. -/
def ColorField.selection (c : Config) (f : ColorField) : Nat :=
  match f with
  | .cursor_color => COLORSETTINGS_CURSOR c
  | .menu_split_line => COLORSETTINGS_SPLIT_LINE c
  | .menu_top_bg => COLORSETTINGS_MENU_TOP_BG c
  | .menu_top_txt => COLORSETTINGS_MENU_TOP_TXT c
  | .highlight_box => COLORSETTINGS_HIGHLIGHT_BORDER c
  | .progress_percent => COLORSETTINGS_PROGRESS_PERCENT c
  | .progress_time => COLORSETTINGS_PROGRESS_TIME c
  | .status_bar_text => COLORSETTINGS_PROGRESS_STATUS_BAR c
  | .status_area_text => COLORSETTINGS_PROGRESS_STATUS_AREA c
  | .coordinates_text => COLORSETTINGS_PROGRESS_COORDINATES c
  | .coordinates_split_line => COLORSETTINGS_PROGRESS_COORDINATES_LINE c

/-- The activation `t` in state `s` of a row that draws the flag `b` beside its label switches
that flag: the new value is the negation of the value drawn.  Two flags belong to the
firmware: `recovery.enabled` is switched by the call `recovery.enable(!recovery.enabled)`, and
`planner.leveling_active` by `set_bed_leveling_enabled`, which switches leveling off, or on
with the result the firmware reports (when leveling stays off the row shows the `LevelError`
dialog). -/
def Checkbox_agrees (m : Machine) (b : Flag) (s t : State) : Prop :=
  match b with
  | .recovery_enabled =>
    t = s.call (if m.recovery_enabled then "recovery.enable(false)" else "recovery.enable(true)")
  | .leveling_active =>
    (s.leveling_active = true → t.leveling_active = false) ∧
    (s.leveling_active = false → t.leveling_active = m.leveling_enable_result)
  | _ => b.get m t = !b.get m s

/-- The activation `t` of row `item` in state `s` edits what the draw branch `r` of the row
shows: a value row opens the value editor on the variable drawn (the extruder row shows the
`ETemp` popup instead while the hotend target is below `extrude_min_temp`); a colour row opens
the option editor on the value of the colour field drawn, with the range of the colour table,
at the row on which `Option_Control` writes that field; the preheat mode row opens the option
editor on the value of `preheatmode`; a checkbox row switches the flag drawn. -/
def Row_agrees (e : Env) (m : Machine) (item : Nat) (r : Option RowView) (s t : State) : Prop :=
  (∀ l v, r = some ⟨l, some (.value v)⟩ →
    (t.process = .Value ∧ t.valuepointer = v) ∨
    (v = .current_position_e ∧ s.vars .hotend_target < s.vars .extrude_min_temp ∧
      t = Popup_Handler .ETemp s)) ∧
  (∀ l f, r = some ⟨l, some (.color f)⟩ →
    item = f.selection e.cfg ∧
    t = Modify_Option (f.get s.eeprom_settings) .color_names e.cfg.Custom_Colors s ∧
    t.process = .Option ∧ t.valuepointer = .color_names ∧
    t.tempvalue = f.get s.eeprom_settings ∧ t.valuemin = 0 ∧
    t.valuemax = e.cfg.Custom_Colors ∧ t.selection = s.selection ∧
    t.eeprom_settings = s.eeprom_settings) ∧
  (∀ l, r = some ⟨l, some .preheat_mode⟩ →
    t = Modify_Option s.preheatmode .preheat_modes 2 s ∧
    t.process = .Option ∧ t.valuepointer = .preheat_modes ∧ t.tempvalue = s.preheatmode ∧
    t.valuemin = 0 ∧ t.valuemax = 2) ∧
  (∀ l b, r = some ⟨l, some (.checkbox b)⟩ → Checkbox_agrees m b s t)

/-! ## Links between menus -/

/-- A configuration with bilinear bed leveling on a grid of 4 by 4 points. -/
def cfg4 : Config := { cfg3 with GRID_MAX_POINTS_X := 4, GRID_MAX_POINTS_Y := 4 }

/-- The configuration `cfg4` with the unembedded item branches doing nothing. -/
def env4 : Env := { cfg := cfg4, rest := fun _ _ _ s => s, value_type := fun _ => 0 }

/-- The manual tuning menu of `cfg4` with the cursor on "Next Point" (row 3) and the mesh point
set to `(0, 3)`, the left end of the last row, as rows "Mesh Point X" and "Mesh Point Y" set
it. -/
def at_mesh_last_row : State := (Draw_Menu env4 m0 .LevelManual 3 0 init).store .mesh_y 3

/-- A configuration with unified bed leveling, no probe, and a grid of 2 by 2 points. -/
def cfg5 : Config :=
  { cfg0 with HAS_MESH := true, HAS_LEVELING := true, AUTO_BED_LEVELING_UBL := true,
              GRID_MAX_POINTS_X := 2, GRID_MAX_POINTS_Y := 2 }

/-- The configuration `cfg5` with the unembedded item branches doing nothing. -/
def env5 : Env := { cfg := cfg5, rest := fun _ _ _ s => s, value_type := fun _ => 0 }

/-- The mesh menu `UBLMesh` of `cfg5` as "Create New Mesh" opens it, at the mesh point `(0, 0)`,
with the cursor moved to "Next Point" (row 1) and that row activated twice. -/
def after_two_next : State :=
  Menu_Item_Handler env5 m0 .UBLMesh 1 false
    (Menu_Item_Handler env5 m0 .UBLMesh 1 false (Draw_Menu env5 m0 .UBLMesh 1 0 init))

/-! ## Basic facts -/

/-- A property of both branches of a conditional holds of the conditional. -/
theorem ite_cases {α : Type} {p : Prop} [Decidable p] (P : α → Prop) {a b : α}
    (ha : p → P a) (hb : ¬ p → P b) : P (if p then a else b) := by
  by_cases h : p
  · rw [if_pos h]
    exact ha h
  · rw [if_neg h]
    exact hb h

theorem ENABLED_le (b : Bool) : ENABLED b ≤ 1 := by
  cases b <;> simp [ENABLED]

/-- Every value `Get_Menu_Size` returns fits its `uint8_t` return type with room to spare. -/
theorem Get_Menu_Size_le (c : Config) (menu : Menu) : Get_Menu_Size c menu ≤ 20 := by
  have h1 := ENABLED_le c.HAS_HOTEND
  have h2 := ENABLED_le c.HAS_HEATED_BED
  have h3 := ENABLED_le c.HAS_FAN
  have h4 := ENABLED_le c.HAS_BED_PROBE
  have h5 := ENABLED_le c.HAS_ZOFFSET_ITEM
  have h6 := ENABLED_le c.HAS_PREHEAT
  have h7 := ENABLED_le c.ADVANCED_PAUSE_FEATURE
  have h8 := ENABLED_le c.FILAMENT_LOAD_UNLOAD_GCODES
  have h9 := ENABLED_le c.EEPROM_SETTINGS
  have h10 := ENABLED_le c.HAS_CLASSIC_JERK
  have h11 := ENABLED_le c.LIN_ADVANCE
  have h12 := ENABLED_le c.PREVENT_COLD_EXTRUSION
  have h13 := ENABLED_le c.FILAMENT_RUNOUT_SENSOR
  have h14 := ENABLED_le c.HAS_FILAMENT_RUNOUT_DISTANCE
  have h15 := ENABLED_le c.POWER_LOSS_RECOVERY
  have h16 := ENABLED_le c.AUTO_BED_LEVELING_UBL
  have h17 := ENABLED_le (c.HAS_HOTEND || c.HAS_HEATED_BED)
  have h18 := ENABLED_le (c.HAS_BED_PROBE && c.AUTO_BED_LEVELING_UBL)
  have p1 := ENABLED_le (decide (1 ≤ c.PREHEAT_COUNT))
  have p2 := ENABLED_le (decide (2 ≤ c.PREHEAT_COUNT))
  have p3 := ENABLED_le (decide (3 ≤ c.PREHEAT_COUNT))
  have p4 := ENABLED_le (decide (4 ≤ c.PREHEAT_COUNT))
  have p5 := ENABLED_le (decide (5 ≤ c.PREHEAT_COUNT))
  cases menu <;> simp only [Get_Menu_Size, PREPARE_TOTAL, PREPARE_CHANGEFIL, PREPARE_COOLDOWN,
    PREPARE_PREHEAT, PREPARE_ZOFFSET, PREPARE_MANUALLEVEL, PREPARE_HOME, PREPARE_DISABLE,
    PREPARE_MOVE, PREPARE_BACK, HOME_TOTAL, HOME_SET, HOME_Z, HOME_Y, HOME_X, HOME_ALL, HOME_BACK,
    MOVE_TOTAL, MOVE_LIVE, MOVE_P, MOVE_E, MOVE_Z, MOVE_Y, MOVE_X, MOVE_BACK,
    MLEVEL_TOTAL, MLEVEL_ZPOS, MLEVEL_C, MLEVEL_BR, MLEVEL_TR, MLEVEL_TL, MLEVEL_BL, MLEVEL_PROBE,
    MLEVEL_BACK, ZOFFSET_TOTAL, ZOFFSET_SAVE, ZOFFSET_DOWN, ZOFFSET_UP, ZOFFSET_OFFSET,
    ZOFFSET_MODE, ZOFFSET_HOME, ZOFFSET_BACK, PREHEAT_TOTAL, PREHEAT_5, PREHEAT_4, PREHEAT_3,
    PREHEAT_2, PREHEAT_1, PREHEAT_MODE, PREHEAT_BACK, CHANGEFIL_TOTAL, CHANGEFIL_CHANGE,
    CHANGEFIL_UNLOAD, CHANGEFIL_LOAD, CHANGEFIL_BACK, CONTROL_TOTAL, CONTROL_INFO, CONTROL_RESET,
    CONTROL_RESTORE, CONTROL_SAVE, CONTROL_ADVANCED, CONTROL_VISUAL, CONTROL_MOTION, CONTROL_TEMP,
    CONTROL_BACK, TEMP_TOTAL, TEMP_PREHEAT5, TEMP_PREHEAT4, TEMP_PREHEAT3, TEMP_PREHEAT2,
    TEMP_PREHEAT1, TEMP_PID, TEMP_FAN, TEMP_BED, TEMP_HOTEND, TEMP_BACK, PID_TOTAL, PID_CYCLES,
    PID_BED, PID_HOTEND, PID_BACK, HOTENDPID_TOTAL, HOTENDPID_KD, HOTENDPID_KI, HOTENDPID_KP,
    HOTENDPID_TEMP, HOTENDPID_TUNE, HOTENDPID_BACK, BEDPID_TOTAL, BEDPID_KD, BEDPID_KI, BEDPID_KP,
    BEDPID_TEMP, BEDPID_TUNE, BEDPID_BACK, PREHEAT1_TOTAL, PREHEAT1_FAN, PREHEAT1_BED,
    PREHEAT1_HOTEND, PREHEAT1_BACK, PREHEAT2_TOTAL, PREHEAT2_FAN, PREHEAT2_BED, PREHEAT2_HOTEND,
    PREHEAT2_BACK, PREHEAT3_TOTAL, PREHEAT3_FAN, PREHEAT3_BED, PREHEAT3_HOTEND, PREHEAT3_BACK,
    PREHEAT4_TOTAL, PREHEAT4_FAN, PREHEAT4_BED, PREHEAT4_HOTEND, PREHEAT4_BACK, PREHEAT5_TOTAL,
    PREHEAT5_FAN, PREHEAT5_BED, PREHEAT5_HOTEND, PREHEAT5_BACK, MOTION_TOTAL, MOTION_FLOW,
    MOTION_STEPS, MOTION_JERK, MOTION_ACCEL, MOTION_SPEED, MOTION_HOMEOFFSETS, MOTION_BACK,
    HOMEOFFSETS_TOTAL, HOMEOFFSETS_YOFFSET, HOMEOFFSETS_XOFFSET, HOMEOFFSETS_BACK, SPEED_TOTAL,
    SPEED_E, SPEED_Z, SPEED_Y, SPEED_X, SPEED_BACK, ACCEL_TOTAL, ACCEL_E, ACCEL_Z, ACCEL_Y,
    ACCEL_X, ACCEL_BACK, JERK_TOTAL, JERK_E, JERK_Z, JERK_Y, JERK_X, JERK_BACK, STEPS_TOTAL,
    STEPS_E, STEPS_Z, STEPS_Y, STEPS_X, STEPS_BACK, VISUAL_TOTAL, VISUAL_COLOR_THEMES,
    VISUAL_TIME_FORMAT, VISUAL_BRIGHTNESS, VISUAL_BACKLIGHT, VISUAL_BACK, COLORSETTINGS_TOTAL,
    COLORSETTINGS_PROGRESS_COORDINATES_LINE, COLORSETTINGS_PROGRESS_COORDINATES,
    COLORSETTINGS_PROGRESS_STATUS_AREA, COLORSETTINGS_PROGRESS_STATUS_BAR,
    COLORSETTINGS_PROGRESS_TIME, COLORSETTINGS_PROGRESS_PERCENT, COLORSETTINGS_HIGHLIGHT_BORDER,
    COLORSETTINGS_MENU_TOP_BG, COLORSETTINGS_MENU_TOP_TXT, COLORSETTINGS_SPLIT_LINE,
    COLORSETTINGS_CURSOR, COLORSETTINGS_BACK, ADVANCED_TOTAL, ADVANCED_POWER_LOSS,
    ADVANCED_FILSENSORDISTANCE, ADVANCED_FILSENSORENABLED, ADVANCED_COLD_EXTRUDE, ADVANCED_UNLOAD,
    ADVANCED_LOAD, ADVANCED_LA, ADVANCED_CORNER, ADVANCED_PROBE, ADVANCED_BEEPER, ADVANCED_BACK,
    PROBE_TOTAL, PROBE_TEST_COUNT, PROBE_TEST, PROBE_YOFFSET, PROBE_XOFFSET, PROBE_BACK,
    INFO_TOTAL, INFO_BACK, LEVELING_TOTAL, LEVELING_SAVE, LEVELING_LOAD, LEVELING_SLOT,
    LEVELING_SETTINGS, LEVELING_VIEW, LEVELING_MANUAL, LEVELING_GET_MESH, LEVELING_GET_TILT,
    LEVELING_ACTIVE, LEVELING_BACK, LEVELING_VIEW_TOTAL, LEVELING_VIEW_ASYMMETRIC,
    LEVELING_VIEW_TEXT, LEVELING_VIEW_MESH, LEVELING_VIEW_BACK, LEVELING_SETTINGS_TOTAL,
    LEVELING_SETTINGS_UNDEF, LEVELING_SETTINGS_ZERO, LEVELING_SETTINGS_PLANE,
    LEVELING_SETTINGS_TILT, LEVELING_SETTINGS_FADE, LEVELING_SETTINGS_BACK, MESHVIEW_TOTAL,
    MESHVIEW_BACK, LEVELING_M_TOTAL, LEVELING_M_UNDEF, LEVELING_M_GOTO_VALUE, LEVELING_M_DOWN,
    LEVELING_M_UP, LEVELING_M_OFFSET, LEVELING_M_NEXT, LEVELING_M_Y, LEVELING_M_X, LEVELING_M_BACK,
    UBL_M_TOTAL, UBL_M_DOWN, UBL_M_UP, UBL_M_OFFSET, UBL_M_PREV, UBL_M_NEXT, UBL_M_BACK,
    MMESH_TOTAL, MMESH_OLD, MMESH_DOWN, MMESH_UP, MMESH_OFFSET, MMESH_NEXT, MMESH_BACK,
    TUNE_TOTAL, TUNE_BACKLIGHT, TUNE_BACKLIGHT_OFF, TUNE_FILSENSORENABLED, TUNE_CHANGEFIL,
    TUNE_ZDOWN, TUNE_ZUP, TUNE_ZOFFSET, TUNE_FAN, TUNE_BED, TUNE_HOTEND, TUNE_FLOW, TUNE_SPEED,
    TUNE_BACK, PREHEATHOTEND_TOTAL, PREHEATHOTEND_CUSTOM, PREHEATHOTEND_5, PREHEATHOTEND_4,
    PREHEATHOTEND_3, PREHEATHOTEND_2, PREHEATHOTEND_1, PREHEATHOTEND_CONTINUE,
    PREHEATHOTEND_BACK] <;> (try split) <;> omega

theorem nav_eq {a b : State} (h : a.nav = b.nav) :
    a.active_menu = b.active_menu ∧ a.last_menu = b.last_menu ∧ a.selection = b.selection ∧
    a.last_selection = b.last_selection ∧ a.scrollpos = b.scrollpos ∧ a.process = b.process ∧
    a.last_process = b.last_process ∧ a.popup = b.popup ∧ a.last_popup = b.last_popup := by
  simpa [State.nav] using h

theorem Draw_Print_Filename_nav (reset : Bool) (s : State) :
    (Draw_Print_Filename reset s).nav = s.nav := by
  unfold Draw_Print_Filename
  cases reset <;> simp only [State.nav] <;> split_ifs <;> rfl

theorem Update_Status_nav (c : Config) (text : String) (s : State) :
    (Update_Status c text s).nav = s.nav := by
  unfold Update_Status
  split
  · rw [Draw_Print_Filename_nav]; simp only [State.nav]
  · simp only [State.nav]

theorem Set_Mesh_Viewer_Status_nav (e : Env) (m : Machine) (s : State) :
    (Set_Mesh_Viewer_Status e m s).nav = s.nav := by
  have h := Update_Status_nav e.cfg
    ("Red " ++ m.mesh_status_lo ++ "..0.." ++ m.mesh_status_hi ++ " Green") s
  simp only [State.nav] at h ⊢
  simpa only [Set_Mesh_Viewer_Status] using h

theorem Item_draw_nav (e : Env) (m : Machine) (menu : Menu) (item : Nat) (s : State) :
    (Item_draw e m menu item s).nav = s.nav := by
  unfold Item_draw
  cases menu <;> simp only []
  · split
    · simp only [State.nav, State.store, State.call]
    · simp only
  · split
    · rw [Set_Mesh_Viewer_Status_nav]; simp only [State.nav, Draw_Bed_Mesh]
    · simp only
  · split
    · simp only [State.nav, State.store, State.call]
    · simp only

theorem draw_rows_nav (e : Env) (m : Machine) (menu : Menu) (g : Nat → Nat) (l : List Nat)
    (s : State) : (l.foldl (fun t i => Item_draw e m menu (g i) t) s).nav = s.nav := by
  induction l generalizing s with
  | nil => rfl
  | cons i l ih => rw [List.foldl_cons, ih, Item_draw_nav]

theorem Draw_Menu_nav (e : Env) (m : Machine) (menu : Menu) (select scroll : Nat) (s : State) :
    (Draw_Menu e m menu select scroll s).nav =
      (menu,
       (if s.active_menu ≠ menu then s.active_menu else s.last_menu),
       min select (Get_Menu_Size e.cfg menu),
       (if s.active_menu ≠ menu ∧ s.process = .Menu then s.selection else s.last_selection),
       (if ((min select (Get_Menu_Size e.cfg menu) : Nat) : Int) - (scroll : Int) > (MROWS : Int)
          then (min select (Get_Menu_Size e.cfg menu) - MROWS) % 256 else scroll),
       Process.Menu, s.last_process, s.popup, s.last_popup) := by
  unfold Draw_Menu
  simp only []
  rw [draw_rows_nav e m menu (fun i => (i + _) % 256)]
  by_cases h : s.active_menu = menu <;> by_cases h2 : s.process = .Menu <;>
    simp [State.nav, h, h2]

theorem MROWS_eq : MROWS = 5 := rfl

theorem Menu_Item_Handler_draw_nav (e : Env) (m : Machine) (menu : Menu) (item : Nat)
    (s : State) : (Menu_Item_Handler e m menu item true s).nav = s.nav := by
  simp only [Menu_Item_Handler, if_true]
  exact Item_draw_nav e m menu item s

theorem Menu_Item_Handler_draw_active_menu (e : Env) (m : Machine) (menu : Menu) (item : Nat)
    (s : State) : (Menu_Item_Handler e m menu item true s).active_menu = s.active_menu :=
  (nav_eq (Menu_Item_Handler_draw_nav e m menu item s)).1

theorem Menu_Item_Handler_draw_selection (e : Env) (m : Machine) (menu : Menu) (item : Nat)
    (s : State) : (Menu_Item_Handler e m menu item true s).selection = s.selection :=
  (nav_eq (Menu_Item_Handler_draw_nav e m menu item s)).2.2.1

theorem Menu_Item_Handler_draw_scrollpos (e : Env) (m : Machine) (menu : Menu) (item : Nat)
    (s : State) : (Menu_Item_Handler e m menu item true s).scrollpos = s.scrollpos :=
  (nav_eq (Menu_Item_Handler_draw_nav e m menu item s)).2.2.2.2.1

/-- The cursor and window after a clockwise turn handled by `Menu_Control`. -/
theorem Menu_Control_CW (e : Env) (m : Machine) (s : State) :
    (Menu_Control e m .ENCODER_DIFF_CW s).active_menu = s.active_menu ∧
    (Menu_Control e m .ENCODER_DIFF_CW s).selection =
      (if s.selection < Get_Menu_Size e.cfg s.active_menu then (s.selection + 1) % 256
       else s.selection) ∧
    (Menu_Control e m .ENCODER_DIFF_CW s).scrollpos =
      (if s.selection < Get_Menu_Size e.cfg s.active_menu ∧
          (s.selection + 1) % 256 > s.scrollpos + MROWS then (s.scrollpos + 1) % 256
       else s.scrollpos) := by
  by_cases c1 : s.selection < Get_Menu_Size e.cfg s.active_menu
  · by_cases c2 : (s.selection + 1) % 256 > s.scrollpos + MROWS
    · simp only [Menu_Control, c1, c2, if_true, Menu_Item_Handler_draw_active_menu,
        Menu_Item_Handler_draw_selection, Menu_Item_Handler_draw_scrollpos, and_self]
    · simp only [Menu_Control, c1, c2, if_true, if_false, and_false, and_self]
  · simp only [Menu_Control, c1, if_false, false_and, and_self]

/-- The cursor and window after a counter-clockwise turn handled by `Menu_Control`. -/
theorem Menu_Control_CCW (e : Env) (m : Machine) (s : State) :
    (Menu_Control e m .ENCODER_DIFF_CCW s).active_menu = s.active_menu ∧
    (Menu_Control e m .ENCODER_DIFF_CCW s).selection =
      (if s.selection > 0 then (s.selection + 255) % 256 else s.selection) ∧
    (Menu_Control e m .ENCODER_DIFF_CCW s).scrollpos =
      (if s.selection > 0 ∧ (s.selection + 255) % 256 < s.scrollpos then
         (s.scrollpos + 255) % 256
       else s.scrollpos) := by
  by_cases c1 : s.selection > 0
  · by_cases c2 : (s.selection + 255) % 256 < s.scrollpos
    · simp only [Menu_Control, c1, c2, if_true, Menu_Item_Handler_draw_active_menu,
        Menu_Item_Handler_draw_selection, Menu_Item_Handler_draw_scrollpos, and_self]
    · simp only [Menu_Control, c1, c2, if_true, if_false, and_false, and_self]
  · simp only [Menu_Control, c1, if_false, false_and, and_self]

/-- One encoder turn handled by `Menu_Control` keeps the menu, keeps the cursor at most at
`Get_Menu_Size` and inside the window, and moves the window by at most one row. -/
theorem Menu_Control_turn (e : Env) (m : Machine) (ev : ENCODER_DiffState) (s : State)
    (hev : ev.isTurn)
    (h1 : s.selection ≤ Get_Menu_Size e.cfg s.active_menu)
    (h2 : s.scrollpos ≤ s.selection) (h3 : s.selection ≤ s.scrollpos + MROWS) :
    (Menu_Control e m ev s).active_menu = s.active_menu ∧
    (Menu_Control e m ev s).selection ≤ Get_Menu_Size e.cfg s.active_menu ∧
    (Menu_Control e m ev s).scrollpos ≤ (Menu_Control e m ev s).selection ∧
    (Menu_Control e m ev s).selection ≤ (Menu_Control e m ev s).scrollpos + MROWS ∧
    (Menu_Control e m ev s).scrollpos ≤ s.scrollpos + 1 ∧
    s.scrollpos ≤ (Menu_Control e m ev s).scrollpos + 1 := by
  have hs := Get_Menu_Size_le e.cfg s.active_menu
  rcases hev with rfl | rfl
  · obtain ⟨a1, a2, a3⟩ := Menu_Control_CW e m s
    rw [a1, a2, a3]
    rw [MROWS_eq] at h3 ⊢
    refine ⟨rfl, ?_⟩
    split_ifs <;> omega
  · obtain ⟨a1, a2, a3⟩ := Menu_Control_CCW e m s
    rw [a1, a2, a3]
    rw [MROWS_eq] at h3 ⊢
    refine ⟨rfl, ?_⟩
    split_ifs <;> omega

/-- Encoder turns handled by `Menu_Control` keep the menu, the bound on the cursor and the
window around it. -/
theorem Menu_Control_run_turns (e : Env) (m : Machine) (evs : List ENCODER_DiffState)
    (s : State) (hev : ∀ ev ∈ evs, ev.isTurn)
    (h1 : s.selection ≤ Get_Menu_Size e.cfg s.active_menu)
    (h2 : s.scrollpos ≤ s.selection) (h3 : s.selection ≤ s.scrollpos + MROWS) :
    (Menu_Control_run e m evs s).active_menu = s.active_menu ∧
    (Menu_Control_run e m evs s).selection ≤ Get_Menu_Size e.cfg s.active_menu ∧
    (Menu_Control_run e m evs s).scrollpos ≤ (Menu_Control_run e m evs s).selection ∧
    (Menu_Control_run e m evs s).selection ≤ (Menu_Control_run e m evs s).scrollpos + MROWS := by
  induction evs generalizing s with
  | nil => exact ⟨rfl, h1, h2, h3⟩
  | cons ev evs ih =>
    obtain ⟨a1, a2, a3, a4, -, -⟩ :=
      Menu_Control_turn e m ev s (hev ev (List.mem_cons_self ev evs)) h1 h2 h3
    have ih2 := ih (Menu_Control e m ev s)
      (fun x hx => hev x (List.mem_cons_of_mem ev hx)) (by rw [a1]; exact a2) a3 a4
    simp only [Menu_Control_run, List.foldl_cons] at ih2 ⊢
    rw [a1] at ih2
    exact ih2

/-- The state `Draw_Menu` establishes satisfies the cursor bound and the window bounds when
the requested scroll position is 0. -/
theorem Draw_Menu_start (e : Env) (m : Machine) (menu : Menu) (select : Nat) (s : State) :
    (Draw_Menu e m menu select 0 s).active_menu = menu ∧
    (Draw_Menu e m menu select 0 s).selection ≤ Get_Menu_Size e.cfg menu ∧
    (Draw_Menu e m menu select 0 s).scrollpos ≤ (Draw_Menu e m menu select 0 s).selection ∧
    (Draw_Menu e m menu select 0 s).selection ≤ (Draw_Menu e m menu select 0 s).scrollpos + MROWS := by
  have h := Draw_Menu_nav e m menu select 0 s
  simp only [State.nav, Prod.mk.injEq] at h
  obtain ⟨a1, -, a3, -, a5, -⟩ := h
  have hs := Get_Menu_Size_le e.cfg menu
  rw [a1, a3, a5, MROWS_eq]
  refine ⟨rfl, Nat.min_le_right _ _, ?_, ?_⟩ <;> split_ifs <;> omega

/-- Claim C1, as the code has it: from the state `Draw_Menu(M)` establishes, after any finite
sequence of clockwise / counter-clockwise events handled by `Menu_Control` the menu is still
`M` and the cursor satisfies `0 <= selection <= Get_Menu_Size(M)`; the value `Get_Menu_Size`
returns is the index of the last item, which the cursor can reach. -/
theorem C1_selection_le_menu_size (e : Env) (m : Machine) (M : Menu) (s : State)
    (evs : List ENCODER_DiffState) (hev : ∀ ev ∈ evs, ev.isTurn) :
    (Menu_Control_run e m evs (Draw_Menu e m M 0 0 s)).active_menu = M ∧
    0 ≤ (Menu_Control_run e m evs (Draw_Menu e m M 0 0 s)).selection ∧
    (Menu_Control_run e m evs (Draw_Menu e m M 0 0 s)).selection ≤ Get_Menu_Size e.cfg M := by
  obtain ⟨b1, b2, b3, b4⟩ := Draw_Menu_start e m M 0 s
  obtain ⟨a1, a2, -, -⟩ := Menu_Control_run_turns e m evs (Draw_Menu e m M 0 0 s) hev
    (by rw [b1]; exact b2) b3 b4
  rw [b1] at a1 a2
  exact ⟨a1, Nat.zero_le _, a2⟩

/-- Witness of C1: two clockwise turns and one counter-clockwise turn in the Homing menu. -/
theorem C1_selection_le_menu_size_witness :
    (∀ ev ∈ [ENCODER_DiffState.ENCODER_DIFF_CW, .ENCODER_DIFF_CW, .ENCODER_DIFF_CCW], ev.isTurn) ∧
    (Menu_Control_run env0 m0 [.ENCODER_DIFF_CW, .ENCODER_DIFF_CW, .ENCODER_DIFF_CCW]
      (Draw_Menu env0 m0 .HomeMenu 0 0 init)).active_menu = .HomeMenu ∧
    0 ≤ (Menu_Control_run env0 m0 [.ENCODER_DIFF_CW, .ENCODER_DIFF_CW, .ENCODER_DIFF_CCW]
      (Draw_Menu env0 m0 .HomeMenu 0 0 init)).selection ∧
    (Menu_Control_run env0 m0 [.ENCODER_DIFF_CW, .ENCODER_DIFF_CW, .ENCODER_DIFF_CCW]
      (Draw_Menu env0 m0 .HomeMenu 0 0 init)).selection ≤ Get_Menu_Size env0.cfg .HomeMenu :=
  ⟨by simp [ENCODER_DiffState.isTurn],
   C1_selection_le_menu_size env0 m0 .HomeMenu init _ (by simp [ENCODER_DiffState.isTurn])⟩

/-- Counterexample to C1 as stated: in the Homing menu (`Get_Menu_Size` returns
`HOME_TOTAL = HOME_SET = 5`) five clockwise turns take the cursor to row 5, the
"Set Home Position" item, so `selection < Get_Menu_Size(M)` fails. -/
theorem C1_counterexample :
    (Menu_Control_run env0 m0
      [.ENCODER_DIFF_CW, .ENCODER_DIFF_CW, .ENCODER_DIFF_CW, .ENCODER_DIFF_CW, .ENCODER_DIFF_CW]
      (Draw_Menu env0 m0 .HomeMenu 0 0 init)).selection = 5 ∧
    Get_Menu_Size env0.cfg .HomeMenu = 5 ∧
    ¬ ((Menu_Control_run env0 m0
      [.ENCODER_DIFF_CW, .ENCODER_DIFF_CW, .ENCODER_DIFF_CW, .ENCODER_DIFF_CW, .ENCODER_DIFF_CW]
      (Draw_Menu env0 m0 .HomeMenu 0 0 init)).selection < Get_Menu_Size env0.cfg .HomeMenu) := by
  decide

/-- Claim C2: from the state `Draw_Menu(M, select)` establishes with scroll 0, after any finite
sequence of clockwise / counter-clockwise events handled by `Menu_Control` the window satisfies
`scrollpos <= selection <= scrollpos + MROWS`, and one more such event changes `scrollpos` by at
most 1. -/
theorem C2_viewport (e : Env) (m : Machine) (M : Menu) (select : Nat) (s : State)
    (evs : List ENCODER_DiffState) (hev : ∀ ev ∈ evs, ev.isTurn) :
    (Menu_Control_run e m evs (Draw_Menu e m M select 0 s)).scrollpos ≤
      (Menu_Control_run e m evs (Draw_Menu e m M select 0 s)).selection ∧
    (Menu_Control_run e m evs (Draw_Menu e m M select 0 s)).selection ≤
      (Menu_Control_run e m evs (Draw_Menu e m M select 0 s)).scrollpos + MROWS ∧
    ∀ ev : ENCODER_DiffState, ev.isTurn →
      (Menu_Control e m ev (Menu_Control_run e m evs (Draw_Menu e m M select 0 s))).scrollpos ≤
        (Menu_Control_run e m evs (Draw_Menu e m M select 0 s)).scrollpos + 1 ∧
      (Menu_Control_run e m evs (Draw_Menu e m M select 0 s)).scrollpos ≤
        (Menu_Control e m ev (Menu_Control_run e m evs (Draw_Menu e m M select 0 s))).scrollpos + 1 := by
  obtain ⟨b1, b2, b3, b4⟩ := Draw_Menu_start e m M select s
  obtain ⟨a1, a2, a3, a4⟩ := Menu_Control_run_turns e m evs (Draw_Menu e m M select 0 s) hev
    (by rw [b1]; exact b2) b3 b4
  refine ⟨a3, a4, fun ev hturn => ?_⟩
  obtain ⟨-, -, -, -, c5, c6⟩ := Menu_Control_turn e m ev _ hturn (by rw [a1]; exact a2) a3 a4
  exact ⟨c5, c6⟩

/-- Witness of C2: the Tune menu entered at row 9, then one turn back and two turns on. -/
theorem C2_viewport_witness :
    (∀ ev ∈ [ENCODER_DiffState.ENCODER_DIFF_CCW, .ENCODER_DIFF_CW, .ENCODER_DIFF_CW], ev.isTurn) ∧
    (Menu_Control_run env0 m0 [.ENCODER_DIFF_CCW, .ENCODER_DIFF_CW, .ENCODER_DIFF_CW]
      (Draw_Menu env0 m0 .Tune 9 0 init)).scrollpos ≤
      (Menu_Control_run env0 m0 [.ENCODER_DIFF_CCW, .ENCODER_DIFF_CW, .ENCODER_DIFF_CW]
        (Draw_Menu env0 m0 .Tune 9 0 init)).selection :=
  ⟨by simp [ENCODER_DiffState.isTurn],
   (C2_viewport env0 m0 .Tune 9 init _ (by simp [ENCODER_DiffState.isTurn])).1⟩

/-! ## Value editor -/

theorem toUnsigned_unit (unit : ℚ) (h : unit = 1 ∨ unit = 10 ∨ unit = 100) :
    ((toUnsigned 8 unit : Nat) : ℚ) = unit := by
  rcases h with rfl | rfl | rfl <;> norm_num [toUnsigned, truncQ] <;> simp

/-- The editor variables after a clockwise turn handled by `Value_Control`. -/
theorem Value_Control_CW (e : Env) (m : Machine) (step : ℚ) (s : State) :
    (Value_Control e m .ENCODER_DIFF_CW step s).valuemin = s.valuemin ∧
    (Value_Control e m .ENCODER_DIFF_CW step s).valuemax = s.valuemax ∧
    (Value_Control e m .ENCODER_DIFF_CW step s).valueunit = s.valueunit ∧
    (Value_Control e m .ENCODER_DIFF_CW step s).tempvalue =
      (if (if s.tempvalue + step < s.valuemin * s.valueunit then s.valuemin * s.valueunit
           else s.tempvalue + step) > s.valuemax * s.valueunit then s.valuemax * s.valueunit
       else (if s.tempvalue + step < s.valuemin * s.valueunit then s.valuemin * s.valueunit
             else s.tempvalue + step)) := by
  simp only [Value_Control]
  split_ifs <;> simp_all [State.store, State.call]

/-- The editor variables after a counter-clockwise turn handled by `Value_Control`. -/
theorem Value_Control_CCW (e : Env) (m : Machine) (step : ℚ) (s : State) :
    (Value_Control e m .ENCODER_DIFF_CCW step s).valuemin = s.valuemin ∧
    (Value_Control e m .ENCODER_DIFF_CCW step s).valuemax = s.valuemax ∧
    (Value_Control e m .ENCODER_DIFF_CCW step s).valueunit = s.valueunit ∧
    (Value_Control e m .ENCODER_DIFF_CCW step s).tempvalue =
      (if (if s.tempvalue - step < s.valuemin * s.valueunit then s.valuemin * s.valueunit
           else s.tempvalue - step) > s.valuemax * s.valueunit then s.valuemax * s.valueunit
       else (if s.tempvalue - step < s.valuemin * s.valueunit then s.valuemin * s.valueunit
             else s.tempvalue - step)) := by
  simp only [Value_Control]
  split_ifs <;> simp_all [State.store, State.call]

/-- The editor variables `Modify_Value` sets up. -/
theorem Modify_Value_fields (c : Config) (value : ValuePtr) (type : Nat) (min max unit : ℚ)
    (f : Option Callback) (s : State) :
    (Modify_Value c value type min max unit f s).valuemin = min ∧
    (Modify_Value c value type min max unit f s).valuemax = max ∧
    (Modify_Value c value type min max unit f s).valueunit = toUnsigned 8 unit ∧
    (Modify_Value c value type min max unit f s).process = .Value := by
  simp [Modify_Value, Setup_Value]

/-- Encoder turns handled by `Value_Control` leave the bounds and the unit of the session as
they are, and after at least one turn the working value is within the scaled bounds. -/
theorem Value_Control_run_turns (e : Env) (m : Machine) (evs : List (ENCODER_DiffState × ℚ))
    (s : State) (hev : ∀ ev ∈ evs, ev.1.isTurn ∧ 0 < ev.2)
    (hb : s.valuemin * s.valueunit ≤ s.valuemax * s.valueunit) :
    (Value_Control_run e m evs s).valuemin = s.valuemin ∧
    (Value_Control_run e m evs s).valuemax = s.valuemax ∧
    (Value_Control_run e m evs s).valueunit = s.valueunit ∧
    (evs ≠ [] →
      s.valuemin * s.valueunit ≤ (Value_Control_run e m evs s).tempvalue ∧
      (Value_Control_run e m evs s).tempvalue ≤ s.valuemax * s.valueunit) := by
  induction evs using List.reverseRecOn with
  | nil => exact ⟨rfl, rfl, rfl, fun h => absurd rfl h⟩
  | append_singleton evs ev ih =>
    obtain ⟨i1, i2, i3, -⟩ := ih (fun x hx => hev x (List.mem_append_left _ hx))
    have hturn := (hev ev (List.mem_append_right _ (List.mem_singleton_self ev))).1
    simp only [Value_Control_run, List.foldl_append, List.foldl_cons, List.foldl_nil] at i1 i2 i3 ⊢
    rcases hturn with h | h
    · rw [h]
      obtain ⟨a1, a2, a3, a4⟩ := Value_Control_CW e m ev.2 (List.foldl
        (fun t ev => Value_Control e m ev.1 ev.2 t) s evs)
      rw [a1, a2, a3, a4, i1, i2, i3]
      refine ⟨rfl, rfl, rfl, fun _ => ?_⟩
      split_ifs <;> constructor <;> linarith
    · rw [h]
      obtain ⟨a1, a2, a3, a4⟩ := Value_Control_CCW e m ev.2 (List.foldl
        (fun t ev => Value_Control e m ev.1 ev.2 t) s evs)
      rw [a1, a2, a3, a4, i1, i2, i3]
      refine ⟨rfl, rfl, rfl, fun _ => ?_⟩
      split_ifs <;> constructor <;> linarith

/-- Claim C3: in a value-edit session opened by `Modify_Value` with `min <= max` and a unit of
1, 10 or 100, after every sequence of clockwise / counter-clockwise events with positive step
sizes handled by `Value_Control` (at least one event) the working value satisfies
`min*unit <= tempvalue <= max*unit`; from any state such a sequence reaches, a clockwise step
that would reach or pass `max*unit` leaves the value exactly at `max*unit` and a further
clockwise step keeps it there, and likewise for counter-clockwise steps and `min*unit`. -/
theorem C3_value_clamp (e : Env) (m : Machine) (value : ValuePtr) (type : Nat)
    (min max unit : ℚ) (f : Option Callback) (s : State)
    (evs : List (ENCODER_DiffState × ℚ))
    (hmm : min ≤ max) (hunit : unit = 1 ∨ unit = 10 ∨ unit = 100)
    (hev : ∀ ev ∈ evs, ev.1.isTurn ∧ 0 < ev.2) :
    (evs ≠ [] →
      min * unit ≤
        (Value_Control_run e m evs (Modify_Value e.cfg value type min max unit f s)).tempvalue ∧
      (Value_Control_run e m evs (Modify_Value e.cfg value type min max unit f s)).tempvalue
        ≤ max * unit) ∧
    (∀ step step2 : ℚ, 0 < step → 0 < step2 →
      max * unit ≤
        (Value_Control_run e m evs (Modify_Value e.cfg value type min max unit f s)).tempvalue
          + step →
      (Value_Control e m .ENCODER_DIFF_CW step
        (Value_Control_run e m evs (Modify_Value e.cfg value type min max unit f s))).tempvalue
        = max * unit ∧
      (Value_Control e m .ENCODER_DIFF_CW step2 (Value_Control e m .ENCODER_DIFF_CW step
        (Value_Control_run e m evs (Modify_Value e.cfg value type min max unit f s)))).tempvalue
        = max * unit) ∧
    (∀ step step2 : ℚ, 0 < step → 0 < step2 →
      (Value_Control_run e m evs (Modify_Value e.cfg value type min max unit f s)).tempvalue
          - step ≤ min * unit →
      (Value_Control e m .ENCODER_DIFF_CCW step
        (Value_Control_run e m evs (Modify_Value e.cfg value type min max unit f s))).tempvalue
        = min * unit ∧
      (Value_Control e m .ENCODER_DIFF_CCW step2 (Value_Control e m .ENCODER_DIFF_CCW step
        (Value_Control_run e m evs (Modify_Value e.cfg value type min max unit f s)))).tempvalue
        = min * unit) := by
  obtain ⟨m1, m2, m3, -⟩ := Modify_Value_fields e.cfg value type min max unit f s
  have hu := toUnsigned_unit unit hunit
  have hpos : (0 : ℚ) ≤ unit := by rcases hunit with h | h | h <;> rw [h] <;> norm_num
  have hb : min * unit ≤ max * unit := mul_le_mul_of_nonneg_right hmm hpos
  obtain ⟨r1, r2, r3, r4⟩ := Value_Control_run_turns e m evs
    (Modify_Value e.cfg value type min max unit f s) hev (by rw [m1, m2, m3, hu]; exact hb)
  rw [m1, m2, m3, hu] at r4
  rw [m1] at r1
  rw [m2] at r2
  rw [m3] at r3
  refine ⟨r4, ?_, ?_⟩
  · intro step step2 h1 h2 h3
    obtain ⟨a1, a2, a3, a4⟩ := Value_Control_CW e m step
      (Value_Control_run e m evs (Modify_Value e.cfg value type min max unit f s))
    obtain ⟨b1, b2, b3, b4⟩ := Value_Control_CW e m step2 (Value_Control e m .ENCODER_DIFF_CW step
      (Value_Control_run e m evs (Modify_Value e.cfg value type min max unit f s)))
    rw [r1, r2, r3, hu] at a4
    rw [a1, a2, a3, r1, r2, r3, hu] at b4
    have e1 : (Value_Control e m .ENCODER_DIFF_CW step
        (Value_Control_run e m evs (Modify_Value e.cfg value type min max unit f s))).tempvalue
        = max * unit := by
      rw [a4]
      split_ifs <;> linarith
    refine ⟨e1, ?_⟩
    rw [b4, e1]
    split_ifs <;> linarith
  · intro step step2 h1 h2 h3
    obtain ⟨a1, a2, a3, a4⟩ := Value_Control_CCW e m step
      (Value_Control_run e m evs (Modify_Value e.cfg value type min max unit f s))
    obtain ⟨b1, b2, b3, b4⟩ := Value_Control_CCW e m step2 (Value_Control e m .ENCODER_DIFF_CCW step
      (Value_Control_run e m evs (Modify_Value e.cfg value type min max unit f s)))
    rw [r1, r2, r3, hu] at a4
    rw [a1, a2, a3, r1, r2, r3, hu] at b4
    have e1 : (Value_Control e m .ENCODER_DIFF_CCW step
        (Value_Control_run e m evs (Modify_Value e.cfg value type min max unit f s))).tempvalue
        = min * unit := by
      rw [a4]
      split_ifs <;> linarith
    refine ⟨e1, ?_⟩
    rw [b4, e1]
    split_ifs <;> linarith

/-- Witness of C3: editing "Move X" (0..235 mm, unit 10) with a small and a very large
clockwise step. -/
theorem C3_value_clamp_witness :
    ((0 : ℚ) ≤ 235) ∧
    (∀ ev ∈ [(ENCODER_DiffState.ENCODER_DIFF_CW, (5 : ℚ)), (.ENCODER_DIFF_CW, 3000)],
      ev.1.isTurn ∧ 0 < ev.2) ∧
    (0 : ℚ) * 10 ≤ (Value_Control_run env0 m0
      [(ENCODER_DiffState.ENCODER_DIFF_CW, (5 : ℚ)), (.ENCODER_DIFF_CW, 3000)]
      (Modify_Value env0.cfg .current_position_x 0 0 235 10 none init)).tempvalue ∧
    (Value_Control_run env0 m0
      [(ENCODER_DiffState.ENCODER_DIFF_CW, (5 : ℚ)), (.ENCODER_DIFF_CW, 3000)]
      (Modify_Value env0.cfg .current_position_x 0 0 235 10 none init)).tempvalue ≤ 235 * 10 :=
  ⟨by norm_num, by simp [ENCODER_DiffState.isTurn],
   (C3_value_clamp env0 m0 .current_position_x 0 0 235 10 none init _ (by norm_num)
      (by simp) (by simp [ENCODER_DiffState.isTurn])).1 (by simp)⟩

/-! ## History and restore -/

theorem Draw_Menu_fields (e : Env) (m : Machine) (menu : Menu) (select scroll : Nat) (s : State) :
    (Draw_Menu e m menu select scroll s).active_menu = menu ∧
    (Draw_Menu e m menu select scroll s).selection = min select (Get_Menu_Size e.cfg menu) ∧
    (Draw_Menu e m menu select scroll s).scrollpos =
      (if ((min select (Get_Menu_Size e.cfg menu) : Nat) : Int) - (scroll : Int) > (MROWS : Int)
        then (min select (Get_Menu_Size e.cfg menu) - MROWS) % 256 else scroll) ∧
    (Draw_Menu e m menu select scroll s).process = .Menu ∧
    (Draw_Menu e m menu select scroll s).last_menu =
      (if s.active_menu ≠ menu then s.active_menu else s.last_menu) ∧
    (Draw_Menu e m menu select scroll s).last_selection =
      (if s.active_menu ≠ menu ∧ s.process = .Menu then s.selection else s.last_selection) ∧
    (Draw_Menu e m menu select scroll s).last_process = s.last_process ∧
    (Draw_Menu e m menu select scroll s).popup = s.popup := by
  have h := Draw_Menu_nav e m menu select scroll s
  simp only [State.nav, Prod.mk.injEq] at h
  obtain ⟨a1, a2, a3, a4, a5, a6, a7, a8, -⟩ := h
  exact ⟨a1, a3, a5, a6, a2, a4, a7, a8⟩

/-- The navigation variables after `Draw_Popup` entered from process Menu. -/
theorem Draw_Popup_from_Menu (mode : Process) (s : State) (hp : s.process = .Menu) :
    (Draw_Popup mode s).process = mode ∧
    (Draw_Popup mode s).last_process = .Menu ∧
    (Draw_Popup mode s).active_menu = s.active_menu ∧
    (Draw_Popup mode s).last_menu = s.last_menu ∧
    (Draw_Popup mode s).scrollpos = s.scrollpos ∧
    (Draw_Popup mode s).selection = (if mode = .Popup then 0 else s.selection) ∧
    (Draw_Popup mode s).last_selection =
      (if mode = .Popup then s.selection else s.last_selection) := by
  by_cases h : mode = .Popup <;> simp [Draw_Popup, hp, h]

/-- The state `Redraw_Menu(true, lastselection, lastmenu)` draws when the history says the
dialog was opened from process Menu. -/
theorem Redraw_Menu_last_Menu (e : Env) (m : Machine) (ls lm : Bool) (t : State)
    (h : t.last_process = .Menu) :
    (Redraw_Menu e m true ls lm t).process = .Menu ∧
    (Redraw_Menu e m true ls lm t).active_menu = (if lm then t.last_menu else t.active_menu) ∧
    (Redraw_Menu e m true ls lm t).selection =
      min (if ls then t.last_selection else t.selection)
        (Get_Menu_Size e.cfg (if lm then t.last_menu else t.active_menu)) ∧
    (Redraw_Menu e m true ls lm t).scrollpos =
      (if ((min (if ls then t.last_selection else t.selection)
              (Get_Menu_Size e.cfg (if lm then t.last_menu else t.active_menu)) : Nat) : Int)
            - ((if lm then 0 else t.scrollpos : Nat) : Int) > (MROWS : Int)
        then (min (if ls then t.last_selection else t.selection)
              (Get_Menu_Size e.cfg (if lm then t.last_menu else t.active_menu)) - MROWS) % 256
        else (if lm then 0 else t.scrollpos)) := by
  have hr : Redraw_Menu e m true ls lm t =
      Draw_Menu e m (if lm then t.last_menu else t.active_menu)
        (if ls then t.last_selection else t.selection) (if lm then 0 else t.scrollpos) t := by
    simp only [Redraw_Menu, h, if_true]
  obtain ⟨b1, b2, b3, b4, -⟩ := Draw_Menu_fields e m (if lm then t.last_menu else t.active_menu)
    (if ls then t.last_selection else t.selection) (if lm then 0 else t.scrollpos) t
  rw [hr]
  exact ⟨b4, b1, b2, b3⟩

/-- The navigation variables after `Popup_Handler` opened a dialog from process Menu. -/
theorem Popup_Handler_from_Menu (p : PopupID) (mode : Process) (s : State)
    (hp : s.process = .Menu) (hm : Popup_Handler_mode p = some mode) :
    (Popup_Handler p s).process = mode ∧
    (Popup_Handler p s).last_process = .Menu ∧
    (Popup_Handler p s).active_menu = s.active_menu ∧
    (Popup_Handler p s).last_menu = s.last_menu ∧
    (Popup_Handler p s).scrollpos = s.scrollpos ∧
    (Popup_Handler p s).selection = (if mode = .Popup then 0 else s.selection) ∧
    (Popup_Handler p s).last_selection =
      (if mode = .Popup then s.selection else s.last_selection) ∧
    (Popup_Handler p s).popup = p := by
  have hph : Popup_Handler p s = Draw_Popup mode { s with popup := p, last_popup := p } := by
    simp only [Popup_Handler, hm]
  rw [hph]
  obtain ⟨a1, a2, a3, a4, a5, a6, a7⟩ :=
    Draw_Popup_from_Menu mode { s with popup := p, last_popup := p } hp
  refine ⟨a1, a2, a3, a4, a5, a6, a7, ?_⟩
  by_cases h : mode = .Popup <;> simp [Draw_Popup, hp, h]

/-- Claim C4, as the code has it.  A dialog is opened by `Popup_Handler` while process is Menu
at menu X and row S, with `S <= Get_Menu_Size(X)`.  For a Popup-kind dialog
`Redraw_Menu(true, true, false)` results in process Menu, menu X, row S; for a Wait-kind dialog
`Redraw_Menu(true, false, false)` does.  `Redraw_Menu(true, true, true)` results in process
Menu with `active_menu = last_menu`, the menu that was active before X: `Draw_Popup` takes no
snapshot of the menu. -/
theorem C4_restore_after_dialog (e : Env) (m : Machine) (p : PopupID) (s : State)
    (hp : s.process = .Menu) (hS : s.selection ≤ Get_Menu_Size e.cfg s.active_menu) :
    (Popup_Handler_mode p = some .Popup →
      (Redraw_Menu e m true true false (Popup_Handler p s)).process = .Menu ∧
      (Redraw_Menu e m true true false (Popup_Handler p s)).active_menu = s.active_menu ∧
      (Redraw_Menu e m true true false (Popup_Handler p s)).selection = s.selection) ∧
    (Popup_Handler_mode p = some .Wait →
      (Redraw_Menu e m true false false (Popup_Handler p s)).process = .Menu ∧
      (Redraw_Menu e m true false false (Popup_Handler p s)).active_menu = s.active_menu ∧
      (Redraw_Menu e m true false false (Popup_Handler p s)).selection = s.selection) ∧
    (∀ mode, Popup_Handler_mode p = some mode →
      (Redraw_Menu e m true true true (Popup_Handler p s)).process = .Menu ∧
      (Redraw_Menu e m true true true (Popup_Handler p s)).active_menu = s.last_menu) := by
  refine ⟨fun h => ?_, fun h => ?_, fun mode h => ?_⟩
  · obtain ⟨-, a2, a3, -, -, -, a7, -⟩ := Popup_Handler_from_Menu p .Popup s hp h
    obtain ⟨b1, b2, b3, -⟩ := Redraw_Menu_last_Menu e m true false (Popup_Handler p s) a2
    refine ⟨b1, ?_, ?_⟩
    · rw [b2]; exact a3
    · rw [b3]
      simp only [if_true, Bool.false_eq_true, if_false]
      rw [a7, a3]
      simp only [if_true]
      exact Nat.min_eq_left hS
  · obtain ⟨-, a2, a3, -, -, a6, -, -⟩ := Popup_Handler_from_Menu p .Wait s hp h
    obtain ⟨b1, b2, b3, -⟩ := Redraw_Menu_last_Menu e m false false (Popup_Handler p s) a2
    refine ⟨b1, ?_, ?_⟩
    · rw [b2]; exact a3
    · rw [b3]
      simp only [Bool.false_eq_true, if_false]
      rw [a6, a3]
      simp only [reduceCtorEq, if_false]
      exact Nat.min_eq_left hS
  · obtain ⟨-, a2, -, a4, -⟩ := Popup_Handler_from_Menu p mode s hp h
    obtain ⟨b1, b2, -⟩ := Redraw_Menu_last_Menu e m true true (Popup_Handler p s) a2
    refine ⟨b1, ?_⟩
    rw [b2]
    simp only [if_true]
    exact a4

/-- Witness of C4: the ETemp popup opened over row 4 of the Move menu. -/
theorem C4_restore_after_dialog_witness :
    (Draw_Menu env0 m0 .Move 4 0 init).process = .Menu ∧
    (Draw_Menu env0 m0 .Move 4 0 init).selection ≤
      Get_Menu_Size env0.cfg (Draw_Menu env0 m0 .Move 4 0 init).active_menu ∧
    (Redraw_Menu env0 m0 true true false
      (Popup_Handler .ETemp (Draw_Menu env0 m0 .Move 4 0 init))).selection =
      (Draw_Menu env0 m0 .Move 4 0 init).selection :=
  ⟨by decide, by decide,
   ((C4_restore_after_dialog env0 m0 .ETemp (Draw_Menu env0 m0 .Move 4 0 init)
      (by decide) (by decide)).1 (by decide)).2.2⟩

/-- Counterexample to C4 as stated: at row 4 of the Move menu, reached from the main screen
through Prepare, the history holds `last_menu = Prepare`.  After the ETemp popup (Popup kind)
or the Homing wait screen (Wait kind) is opened there, `Redraw_Menu(true, true, true)` draws the
Prepare menu, not Move. -/
theorem C4_counterexample :
    at_move_extruder.process = .Menu ∧ at_move_extruder.active_menu = .Move ∧
    at_move_extruder.selection = 4 ∧
    Popup_Handler_mode .ETemp = some .Popup ∧
    (Redraw_Menu env0 m0 true true true (Popup_Handler .ETemp at_move_extruder)).active_menu
      = .Prepare ∧
    Popup_Handler_mode .Home = some .Wait ∧
    (Redraw_Menu env0 m0 true true true (Popup_Handler .Home at_move_extruder)).active_menu
      = .Prepare ∧
    (Redraw_Menu env0 m0 true true true (Popup_Handler .Home at_move_extruder)).selection = 1 := by
  decide

/-- Claim C5, as the code has it: when `last_process = Menu`, `Redraw_Menu(true, false, false)`
results in process Menu with `active_menu` unchanged and `selection` clamped to
`Get_Menu_Size(active_menu)`; `selection` and `scrollpos` keep the values they had immediately
before the call whenever `selection <= Get_Menu_Size(active_menu)` and
`selection <= scrollpos + MROWS`, whatever `last_menu` and `last_selection` hold. -/
theorem C5_redraw_current_menu (e : Env) (m : Machine) (s : State)
    (h : s.last_process = .Menu) :
    (Redraw_Menu e m true false false s).process = .Menu ∧
    (Redraw_Menu e m true false false s).active_menu = s.active_menu ∧
    (Redraw_Menu e m true false false s).selection =
      min s.selection (Get_Menu_Size e.cfg s.active_menu) ∧
    (s.selection ≤ Get_Menu_Size e.cfg s.active_menu → s.selection ≤ s.scrollpos + MROWS →
      (Redraw_Menu e m true false false s).selection = s.selection ∧
      (Redraw_Menu e m true false false s).scrollpos = s.scrollpos) := by
  obtain ⟨b1, b2, b3, b4⟩ := Redraw_Menu_last_Menu e m false false s h
  simp only [Bool.false_eq_true, if_false] at b2 b3 b4
  refine ⟨b1, b2, b3, fun h1 h2 => ?_⟩
  rw [b3, b4, Nat.min_eq_left h1]
  refine ⟨rfl, ?_⟩
  rw [if_neg]
  omega

/-- Witness of C5: the Homing wait screen opened over row 4 of the Move menu. -/
theorem C5_redraw_current_menu_witness :
    (Popup_Handler .Home at_move_extruder).last_process = .Menu ∧
    (Redraw_Menu env0 m0 true false false (Popup_Handler .Home at_move_extruder)).active_menu
      = (Popup_Handler .Home at_move_extruder).active_menu :=
  ⟨by decide, (C5_redraw_current_menu env0 m0 (Popup_Handler .Home at_move_extruder)
    (by decide)).2.1⟩

/-- Counterexample to C5 as stated: the Info menu has the single row 0
(`Get_Menu_Size(Info) = INFO_TOTAL = 0`).  With a popup opened over it and Cancel selected,
`selection` is 1 immediately before the call and `Redraw_Menu(true, false, false)` leaves it
at 0. -/
theorem C5_counterexample :
    at_info_purge_cancel.last_process = .Menu ∧
    at_info_purge_cancel.active_menu = .Info ∧
    at_info_purge_cancel.selection = 1 ∧
    (Redraw_Menu env0 m0 true false false at_info_purge_cancel).selection = 0 ∧
    ¬ ((Redraw_Menu env0 m0 true false false at_info_purge_cancel).selection
        = at_info_purge_cancel.selection) := by
  decide

/-! ## Temperature precondition -/

theorem Popup_Handler_ETemp_intercepted (s : State) :
    ETemp_intercepted s (Popup_Handler .ETemp s) := by
  simp only [ETemp_intercepted, Popup_Handler, Popup_Handler_mode, Draw_Popup]
  split_ifs <;> simp

/-- Claim C7: with the hotend target below `extrude_min_temp`, activating Load Filament, Unload
Filament or Change Filament of the ChangeFilament menu, Extruder of the Move menu, or
Change Filament of the Prepare menu built without the submenu, results in process Popup with
popup ETemp, submits no G-code and leaves the value editor closed. -/
theorem C7_cold_extrusion_intercepted (e : Env) (m : Machine) (s : State)
    (hcold : s.vars .hotend_target < s.vars .extrude_min_temp) :
    (e.cfg.FILAMENT_LOAD_UNLOAD_GCODES = true →
      ETemp_intercepted s
        (Menu_Item_Handler e m .ChangeFilament (CHANGEFIL_LOAD e.cfg) false s) ∧
      ETemp_intercepted s
        (Menu_Item_Handler e m .ChangeFilament (CHANGEFIL_UNLOAD e.cfg) false s) ∧
      ETemp_intercepted s
        (Menu_Item_Handler e m .ChangeFilament (CHANGEFIL_CHANGE e.cfg) false s)) ∧
    (e.cfg.HAS_HOTEND = true →
      ETemp_intercepted s (Menu_Item_Handler e m .Move (MOVE_E e.cfg) false s)) ∧
    (e.cfg.ADVANCED_PAUSE_FEATURE = true → e.cfg.FILAMENT_LOAD_UNLOAD_GCODES = false →
      ETemp_intercepted s (Menu_Item_Handler e m .Prepare (PREPARE_CHANGEFIL e.cfg) false s)) := by
  have key := Popup_Handler_ETemp_intercepted s
  refine ⟨fun h => ⟨?_, ?_, ?_⟩, fun h => ?_, fun h1 h2 => ?_⟩
  · have : Menu_Item_Handler e m .ChangeFilament (CHANGEFIL_LOAD e.cfg) false s
        = Popup_Handler .ETemp s := by
      simp [Menu_Item_Handler, ChangeFilament_activate, h, hcold]
    rw [this]; exact key
  · have : Menu_Item_Handler e m .ChangeFilament (CHANGEFIL_UNLOAD e.cfg) false s
        = Popup_Handler .ETemp s := by
      simp [Menu_Item_Handler, ChangeFilament_activate, h, hcold]
    rw [this]; exact key
  · have : Menu_Item_Handler e m .ChangeFilament (CHANGEFIL_CHANGE e.cfg) false s
        = Popup_Handler .ETemp s := by
      simp [Menu_Item_Handler, ChangeFilament_activate, h, hcold]
    rw [this]; exact key
  · have : Menu_Item_Handler e m .Move (MOVE_E e.cfg) false s = Popup_Handler .ETemp s := by
      simp [Menu_Item_Handler, Move_activate, h, hcold, ENABLED]
    rw [this]; exact key
  · have hz := ENABLED_le e.cfg.HAS_ZOFFSET_ITEM
    have hq := ENABLED_le e.cfg.HAS_PREHEAT
    have hA : ENABLED e.cfg.ADVANCED_PAUSE_FEATURE = 1 := by simp [ENABLED, h1]
    have n0 : PREPARE_CHANGEFIL e.cfg ≠ PREPARE_BACK e.cfg := by
      simp only [PREPARE_CHANGEFIL, PREPARE_COOLDOWN, PREPARE_PREHEAT, PREPARE_ZOFFSET,
        PREPARE_MANUALLEVEL, PREPARE_HOME, PREPARE_DISABLE, PREPARE_MOVE, PREPARE_BACK]
      omega
    have n1 : PREPARE_CHANGEFIL e.cfg ≠ PREPARE_MOVE e.cfg := by
      simp only [PREPARE_CHANGEFIL, PREPARE_COOLDOWN, PREPARE_PREHEAT, PREPARE_ZOFFSET,
        PREPARE_MANUALLEVEL, PREPARE_HOME, PREPARE_DISABLE, PREPARE_MOVE, PREPARE_BACK]
      omega
    have n2 : PREPARE_CHANGEFIL e.cfg ≠ PREPARE_DISABLE e.cfg := by
      simp only [PREPARE_CHANGEFIL, PREPARE_COOLDOWN, PREPARE_PREHEAT, PREPARE_ZOFFSET,
        PREPARE_MANUALLEVEL, PREPARE_HOME, PREPARE_DISABLE, PREPARE_MOVE, PREPARE_BACK]
      omega
    have n3 : PREPARE_CHANGEFIL e.cfg ≠ PREPARE_HOME e.cfg := by
      simp only [PREPARE_CHANGEFIL, PREPARE_COOLDOWN, PREPARE_PREHEAT, PREPARE_ZOFFSET,
        PREPARE_MANUALLEVEL, PREPARE_HOME, PREPARE_DISABLE, PREPARE_MOVE, PREPARE_BACK]
      omega
    have n4 : PREPARE_CHANGEFIL e.cfg ≠ PREPARE_MANUALLEVEL e.cfg := by
      simp only [PREPARE_CHANGEFIL, PREPARE_COOLDOWN, PREPARE_PREHEAT, PREPARE_ZOFFSET,
        PREPARE_MANUALLEVEL, PREPARE_HOME, PREPARE_DISABLE, PREPARE_MOVE, PREPARE_BACK]
      omega
    have n5 : PREPARE_CHANGEFIL e.cfg ≠ PREPARE_ZOFFSET e.cfg := by
      simp only [PREPARE_CHANGEFIL, PREPARE_COOLDOWN, PREPARE_PREHEAT, PREPARE_ZOFFSET,
        PREPARE_MANUALLEVEL, PREPARE_HOME, PREPARE_DISABLE, PREPARE_MOVE, PREPARE_BACK]
      omega
    have n6 : PREPARE_CHANGEFIL e.cfg ≠ PREPARE_PREHEAT e.cfg := by
      simp only [PREPARE_CHANGEFIL, PREPARE_COOLDOWN, PREPARE_PREHEAT, PREPARE_ZOFFSET,
        PREPARE_MANUALLEVEL, PREPARE_HOME, PREPARE_DISABLE, PREPARE_MOVE, PREPARE_BACK]
      omega
    have n7 : PREPARE_CHANGEFIL e.cfg ≠ PREPARE_COOLDOWN e.cfg := by
      simp only [PREPARE_CHANGEFIL, PREPARE_COOLDOWN, PREPARE_PREHEAT, PREPARE_ZOFFSET,
        PREPARE_MANUALLEVEL, PREPARE_HOME, PREPARE_DISABLE, PREPARE_MOVE, PREPARE_BACK]
      omega
    have : Menu_Item_Handler e m .Prepare (PREPARE_CHANGEFIL e.cfg) false s
        = Popup_Handler .ETemp s := by
      simp only [Menu_Item_Handler, Prepare_activate, n0, n1, n2, n3, n4, n5, n6, n7, h1, h2,
        hcold, if_true, if_false, and_false, and_self, Bool.false_eq_true]
    rw [this]; exact key

/-- Witness of C7: the initial state has a hotend target of 0 and an extrude minimum of 170. -/
theorem C7_cold_extrusion_intercepted_witness :
    (init.vars .hotend_target < init.vars .extrude_min_temp) ∧
    ETemp_intercepted init (Menu_Item_Handler env0 m0 .Move (MOVE_E env0.cfg) false init) :=
  ⟨by simp [init],
   (C7_cold_extrusion_intercepted env0 m0 init (by simp [init])).2.1 rfl⟩

/-- Claim C8: when process is Popup and the popup is ETemp, ENTER with selection 0 (Confirm)
handled by `Popup_Control` results in process Menu, menu PreheatHotend, selection 0. -/
theorem C8_ETemp_confirm (e : Env) (m : Machine) (s : State)
    (_hproc : s.process = .Popup) (hpop : s.popup = .ETemp) (hsel : s.selection = 0) :
    (Popup_Control e m .ENCODER_DIFF_ENTER s).process = .Menu ∧
    (Popup_Control e m .ENCODER_DIFF_ENTER s).active_menu = .PreheatHotend ∧
    (Popup_Control e m .ENCODER_DIFF_ENTER s).selection = 0 := by
  have hr : Popup_Control e m .ENCODER_DIFF_ENTER s =
      Draw_Menu e m .PreheatHotend 0 0
        (set_fan_speed MAX_FAN_SPEED (setTargetHotend e.cfg.EXTRUDE_MINTEMP s)) := by
    simp only [Popup_Control, hpop, hsel, if_true]
  obtain ⟨b1, b2, -, b4, -⟩ := Draw_Menu_fields e m .PreheatHotend 0 0
    (set_fan_speed MAX_FAN_SPEED (setTargetHotend e.cfg.EXTRUDE_MINTEMP s))
  rw [hr]
  exact ⟨b4, b1, by rw [b2]; exact Nat.zero_min _⟩

/-- Witness of C8: the ETemp popup opened over the Extruder row of the Move menu. -/
theorem C8_ETemp_confirm_witness :
    (Popup_Handler .ETemp at_move_extruder).process = .Popup ∧
    (Popup_Handler .ETemp at_move_extruder).popup = .ETemp ∧
    (Popup_Handler .ETemp at_move_extruder).selection = 0 ∧
    (Popup_Control env0 m0 .ENCODER_DIFF_ENTER
      (Popup_Handler .ETemp at_move_extruder)).active_menu = .PreheatHotend :=
  ⟨by decide, by decide, by decide,
   (C8_ETemp_confirm env0 m0 (Popup_Handler .ETemp at_move_extruder)
      (by decide) (by decide) (by decide)).2.1⟩

/-! ## Print life cycle -/

theorem Draw_Print_Filename_fields (reset : Bool) (s : State) :
    (Draw_Print_Filename reset s).process = s.process ∧
    (Draw_Print_Filename reset s).selection = s.selection ∧
    (Draw_Print_Filename reset s).popup = s.popup ∧
    (Draw_Print_Filename reset s).printing = s.printing ∧
    (Draw_Print_Filename reset s).sdprint = s.sdprint ∧
    (Draw_Print_Filename reset s).paused = s.paused ∧
    (Draw_Print_Filename reset s).wait_for_user = s.wait_for_user ∧
    (Draw_Print_Filename reset s).ranout = s.ranout ∧
    (Draw_Print_Filename reset s).statusmsg = s.statusmsg ∧
    (Draw_Print_Filename reset s).filename = s.filename := by
  simp only [Draw_Print_Filename]
  split_ifs <;> simp

theorem Draw_Print_Screen_fields (s : State) :
    (Draw_Print_Screen s).process = .Print ∧
    (Draw_Print_Screen s).selection = 0 ∧
    (Draw_Print_Screen s).popup = s.popup ∧
    (Draw_Print_Screen s).printing = s.printing ∧
    (Draw_Print_Screen s).sdprint = s.sdprint ∧
    (Draw_Print_Screen s).statusmsg = s.statusmsg ∧
    (Draw_Print_Screen s).wait_for_user = s.wait_for_user ∧
    (Draw_Print_Screen s).ranout = s.ranout := by
  obtain ⟨a1, a2, a3, a4, a5, -, a7, a8, a9, -⟩ :=
    Draw_Print_Filename_fields true { s with process := .Print, selection := 0 }
  exact ⟨a1, a2, a3, a4, a5, a9, a7, a8⟩

/-- The variables `Start_Print` leaves behind when no print was running. -/
theorem Start_Print_fields (m : Machine) (sd : Bool) (s : State) (h : s.printing = false) :
    (Start_Print m sd s).printing = true ∧
    (Start_Print m sd s).sdprint = sd ∧
    (Start_Print m sd s).process = .Print ∧
    (Start_Print m sd s).selection = 0 ∧
    (Start_Print m sd s).statusmsg = "" ∧
    (Start_Print m sd s).wait_for_user = s.wait_for_user ∧
    (Start_Print m sd s).ranout = s.ranout := by
  simp only [Start_Print, h, Bool.not_false, if_true]
  refine ⟨?_, ?_, ?_, ?_, ?_, ?_, ?_⟩
  · rw [(Draw_Print_Screen_fields _).2.2.2.1]; split_ifs <;> simp [State.call]
  · rw [(Draw_Print_Screen_fields _).2.2.2.2.1]; split_ifs <;> simp [State.call]
  · rw [(Draw_Print_Screen_fields _).1]
  · rw [(Draw_Print_Screen_fields _).2.1]
  · rw [(Draw_Print_Screen_fields _).2.2.2.2.2.1]; split_ifs <;> simp [State.call]
  · rw [(Draw_Print_Screen_fields _).2.2.2.2.2.2.1]; split_ifs <;> simp [State.call]
  · rw [(Draw_Print_Screen_fields _).2.2.2.2.2.2.2]; split_ifs <;> simp [State.call]

theorem cooldown_fields (s : State) :
    (cooldown s).printing = s.printing ∧ (cooldown s).sdprint = s.sdprint ∧
    (cooldown s).wait_for_user = s.wait_for_user ∧ (cooldown s).ranout = s.ranout := by
  simp [cooldown, disable_all_heaters, zero_fan_speeds, State.store, State.call]

/-- The variables `Stop_Print` leaves behind. -/
theorem Stop_Print_fields (e : Env) (s : State) :
    (Stop_Print e s).printing = false ∧
    (Stop_Print e s).sdprint = false ∧
    (Stop_Print e s).process = .Confirm ∧
    (Stop_Print e s).popup = .Complete ∧
    (Stop_Print e s).wait_for_user = s.wait_for_user ∧
    (Stop_Print e s).ranout = s.ranout := by
  obtain ⟨c1, c2, c3, c4⟩ := cooldown_fields { s with printing := false, sdprint := false }
  unfold Stop_Print Draw_Print_confirm
  refine ⟨?_, ?_, rfl, rfl, ?_, ?_⟩
  · show (Draw_Print_Screen _).printing = false
    rw [(Draw_Print_Screen_fields _).2.2.2.1]
    exact c1
  · show (Draw_Print_Screen _).sdprint = false
    rw [(Draw_Print_Screen_fields _).2.2.2.2.1]
    exact c2
  · show (Draw_Print_Screen _).wait_for_user = s.wait_for_user
    rw [(Draw_Print_Screen_fields _).2.2.2.2.2.2.1]
    exact c3
  · show (Draw_Print_Screen _).ranout = s.ranout
    rw [(Draw_Print_Screen_fields _).2.2.2.2.2.2.2]
    exact c4

/-- The pause step of `State_Update` outside process Wait. -/
theorem State_Update_paused_fields (e : Env) (m : Machine) (s : State) (h : s.process ≠ .Wait) :
    (State_Update_paused e m s).process = s.process ∧
    (State_Update_paused e m s).selection = s.selection ∧
    (State_Update_paused e m s).popup = s.popup ∧
    (State_Update_paused e m s).printing = s.printing ∧
    (State_Update_paused e m s).sdprint = s.sdprint ∧
    (State_Update_paused e m s).statusmsg = s.statusmsg ∧
    (State_Update_paused e m s).wait_for_user = s.wait_for_user ∧
    (State_Update_paused e m s).ranout = s.ranout := by
  simp only [State_Update_paused]
  split_ifs <;> simp_all

theorem State_Update_user_idle (m : Machine) (s : State) (h : s.wait_for_user = false) :
    State_Update_user m s = s := by
  simp [State_Update_user, h]

theorem State_Update_purge_idle (e : Env) (m : Machine) (s : State) (h : s.process ≠ .Popup) :
    State_Update_purge e m s = s := by
  simp [State_Update_purge, h]

theorem State_Update_runout_idle (e : Env) (m : Machine) (s : State)
    (h : m.filament_ran_out = s.ranout) : State_Update_runout e m s = s := by
  simp [State_Update_runout, h]

/-- Claim C9: with `printing` false, process Main, the print-job timer running,
`wait_for_user` false and the runout flag unchanged, one `State_Update` call runs
`Start_Print`: afterwards `printing` is true, `sdprint` holds the argument of `Start_Print`, the
status message is cleared, process is Print and selection is 0. -/
theorem C9_print_started (e : Env) (m : Machine) (s : State)
    (hp : s.printing = false) (_hproc : s.process = .Main) (hrun : m.timer_running = true)
    (hw : s.wait_for_user = false) (hr : m.filament_ran_out = s.ranout) :
    (State_Update e m s).printing = true ∧
    (State_Update e m s).sdprint = (m.file_open || m.recovery_valid) ∧
    (State_Update e m s).statusmsg = "" ∧
    (State_Update e m s).process = .Print ∧
    (State_Update e m s).selection = 0 := by
  have hjob : State_Update_job e m s = Start_Print m (m.file_open || m.recovery_valid) s := by
    simp [State_Update_job, hp, hrun]
  obtain ⟨p1, p2, p3, p4, p5, p6, p7⟩ := Start_Print_fields m (m.file_open || m.recovery_valid) s hp
  rw [← hjob] at p1 p2 p3 p4 p5 p6 p7
  obtain ⟨q1, q2, -, q4, q5, q6, q7, q8⟩ := State_Update_paused_fields e m
    (State_Update_job e m s) (by rw [p3]; decide)
  have hu := State_Update_user_idle m (State_Update_paused e m (State_Update_job e m s))
    (by rw [q7, p6, hw])
  have hg := State_Update_purge_idle e m (State_Update_paused e m (State_Update_job e m s))
    (by rw [q1, p3]; decide)
  have ho := State_Update_runout_idle e m (State_Update_paused e m (State_Update_job e m s))
    (by rw [q8, p7, hr])
  simp only [State_Update, hu, hg, ho]
  exact ⟨by rw [q4, p1], by rw [q5, p2], by rw [q6, p5], by rw [q1, p3], by rw [q2, p4]⟩

/-- Witness of C9: the initial state (main screen, idle) when a host print starts. -/
theorem C9_print_started_witness :
    init.printing = false ∧ init.process = .Main ∧
    ({ m0 with timer_running := true } : Machine).timer_running = true ∧
    init.wait_for_user = false ∧
    ({ m0 with timer_running := true } : Machine).filament_ran_out = init.ranout ∧
    (State_Update env0 { m0 with timer_running := true } init).process = .Print :=
  ⟨rfl, rfl, rfl, rfl, rfl,
   (C9_print_started env0 { m0 with timer_running := true } init rfl rfl rfl rfl rfl).2.2.2.1⟩

/-- Claim C10: with `printing` true, the print-job timer neither running nor paused,
`wait_for_user` false and the runout flag unchanged, one `State_Update` call runs
`Stop_Print`: afterwards `printing` and `sdprint` are false and the print-finished confirmation
is on screen (process Confirm, popup Complete, hence not process Main), whatever process the
front-end was in. -/
theorem C10_print_finished (e : Env) (m : Machine) (s : State)
    (hp : s.printing = true) (hrun : m.timer_running = false) (hpa : m.timer_paused = false)
    (hw : s.wait_for_user = false) (hr : m.filament_ran_out = s.ranout) :
    (State_Update e m s).printing = false ∧
    (State_Update e m s).sdprint = false ∧
    (State_Update e m s).process = .Confirm ∧
    (State_Update e m s).popup = .Complete ∧
    (State_Update e m s).process ≠ .Main := by
  have hjob : State_Update_job e m s = Stop_Print e s := by
    simp [State_Update_job, hp, hrun, hpa]
  obtain ⟨p1, p2, p3, p4, p5, p6⟩ := Stop_Print_fields e s
  rw [← hjob] at p1 p2 p3 p4 p5 p6
  obtain ⟨q1, -, q3, q4, q5, -, q7, q8⟩ := State_Update_paused_fields e m
    (State_Update_job e m s) (by rw [p3]; decide)
  have hu := State_Update_user_idle m (State_Update_paused e m (State_Update_job e m s))
    (by rw [q7, p5, hw])
  have hg := State_Update_purge_idle e m (State_Update_paused e m (State_Update_job e m s))
    (by rw [q1, p3]; decide)
  have ho := State_Update_runout_idle e m (State_Update_paused e m (State_Update_job e m s))
    (by rw [q8, p6, hr])
  simp only [State_Update, hu, hg, ho]
  exact ⟨by rw [q4, p1], by rw [q5, p2], by rw [q1, p3], by rw [q3, p4],
    by rw [q1, p3]; decide⟩

/-- Witness of C10: a print that was started from the main screen and then ends. -/
theorem C10_print_finished_witness :
    (State_Update env0 { m0 with timer_running := true } init).printing = true ∧
    m0.timer_running = false ∧ m0.timer_paused = false ∧
    (State_Update env0 { m0 with timer_running := true } init).wait_for_user = false ∧
    m0.filament_ran_out = (State_Update env0 { m0 with timer_running := true } init).ranout ∧
    (State_Update env0 m0
      (State_Update env0 { m0 with timer_running := true } init)).process = .Confirm :=
  ⟨by decide, rfl, rfl, by decide, by decide,
   (C10_print_finished env0 m0 (State_Update env0 { m0 with timer_running := true } init)
      (by decide) rfl rfl (by decide) (by decide)).2.2.1⟩

/-! ## Persistent settings -/

theorem Draw_Print_Filename_prefs (reset : Bool) (s : State) :
    (Draw_Print_Filename reset s).prefs = s.prefs := by
  unfold Draw_Print_Filename
  cases reset <;> simp only [State.prefs] <;> split_ifs <;> rfl

theorem Update_Status_prefs (c : Config) (text : String) (s : State) :
    (Update_Status c text s).prefs = s.prefs := by
  unfold Update_Status
  split
  · rw [Draw_Print_Filename_prefs]; simp only [State.prefs]
  · simp only [State.prefs]

theorem Set_Mesh_Viewer_Status_prefs (e : Env) (m : Machine) (s : State) :
    (Set_Mesh_Viewer_Status e m s).prefs = s.prefs := by
  have h := Update_Status_prefs e.cfg
    ("Red " ++ m.mesh_status_lo ++ "..0.." ++ m.mesh_status_hi ++ " Green") s
  simp only [State.prefs] at h ⊢
  simpa only [Set_Mesh_Viewer_Status] using h

theorem Item_draw_prefs (e : Env) (m : Machine) (menu : Menu) (item : Nat) (s : State) :
    (Item_draw e m menu item s).prefs = s.prefs := by
  unfold Item_draw
  cases menu <;> simp only []
  · split
    · simp [State.prefs, State.store, State.call]
    · simp only
  · split
    · rw [Set_Mesh_Viewer_Status_prefs]; simp only [State.prefs, Draw_Bed_Mesh]
    · simp only
  · split
    · simp [State.prefs, State.store, State.call]
    · simp only

theorem draw_rows_prefs (e : Env) (m : Machine) (menu : Menu) (g : Nat → Nat) (l : List Nat)
    (s : State) : (l.foldl (fun t i => Item_draw e m menu (g i) t) s).prefs = s.prefs := by
  induction l generalizing s with
  | nil => rfl
  | cons i l ih => rw [List.foldl_cons, ih, Item_draw_prefs]

theorem Draw_Menu_prefs (e : Env) (m : Machine) (menu : Menu) (select scroll : Nat) (s : State) :
    (Draw_Menu e m menu select scroll s).prefs = s.prefs := by
  unfold Draw_Menu
  simp only []
  rw [draw_rows_prefs e m menu (fun i => (i + _) % 256)]
  split_ifs <;> rfl

theorem Draw_Print_Screen_prefs (s : State) : (Draw_Print_Screen s).prefs = s.prefs := by
  simp only [Draw_Print_Screen, Draw_Print_Filename, State.prefs]
  split_ifs <;> rfl

/-- Redrawing the screen leaves the preference state and the `init` flag of `Load_Settings`
alone. -/
theorem Redraw_Screen_prefs (e : Env) (m : Machine) (s : State) :
    (Redraw_Screen e m s).prefs = s.prefs := by
  simp only [Redraw_Screen, Redraw_Menu, Bool.false_eq_true, if_false]
  split
  · exact Draw_Menu_prefs e m _ _ _ s
  · rfl
  · exact Draw_Print_Screen_prefs s
  · rfl
  · rfl

theorem prefs_eq {a b : State} (h : a.prefs = b.prefs) :
    a.eeprom_settings = b.eeprom_settings ∧ a.vars .corner_pos = b.vars .corner_pos ∧
    a.vars .tilt_grid = b.vars .tilt_grid := by
  simpa [State.prefs] using h

theorem memcpy_memcpy (dst buff src : List Nat) (n : Nat) (h : n ≤ src.length) :
    memcpy dst (memcpy buff src n) n = src.take n ++ dst.drop n := by
  simp only [memcpy]
  rw [List.take_append_of_le_length (by rw [List.length_take]; omega)]
  rw [List.take_take, Nat.min_self]

theorem memcpy_length (dst src : List Nat) (n : Nat) (h1 : n ≤ src.length)
    (h2 : dst.length = src.length) : (src.take n ++ dst.drop n).length = src.length := by
  rw [List.length_append, List.length_take, List.length_drop]
  omega

theorem Reset_Settings_eeprom (e : Env) (m : Machine) (s : State) :
    (Reset_Settings e m s).eeprom_settings = reset_defaults e.cfg s.eeprom_settings := by
  unfold Reset_Settings
  rw [(prefs_eq (Redraw_Screen_prefs e m _)).1]
  simp only [State.store]
  split_ifs <;> rfl

/-- The preference state `Load_Settings` leaves behind. -/
theorem Load_Settings_prefs (e : Env) (m : Machine) (L : Layout) (buff : List Nat) (s : State) :
    (Load_Settings e m L buff s).eeprom_settings =
      corner_guard (L.decode (memcpy (L.encode s.eeprom_settings) buff L.copy_len)) ∧
    (Load_Settings e m L buff s).vars .corner_pos =
      ((corner_guard (L.decode (memcpy (L.encode s.eeprom_settings) buff L.copy_len))).corner_pos
        : ℚ) / 10 ∧
    (e.cfg.AUTO_BED_LEVELING_UBL = true →
      (Load_Settings e m L buff s).vars .tilt_grid =
        (((L.decode (memcpy (L.encode s.eeprom_settings) buff L.copy_len)).tilt_grid_size + 1)
          % 256 : Nat)) := by
  have hp : ∀ t : State, (if t.load_init = true then
      ({ t with load_init := false } : State).gcode "M1000 S" [] else t).prefs = t.prefs := by
    intro t
    split_ifs <;> rfl
  unfold Load_Settings
  simp only []
  obtain ⟨a1, a2, a3⟩ := prefs_eq ((hp _).trans (Redraw_Screen_prefs e m _))
  rw [a1, a2, a3]
  by_cases h : e.cfg.AUTO_BED_LEVELING_UBL = true
  · simp [State.store, h]
  · simp [State.store, h]

theorem Nat_floor_cast (k : Nat) : truncQ (k : ℚ) = (k : Int) := by
  simp [truncQ]

theorem toUnsigned_natCast (w k : Nat) (h : k < 2 ^ w) : toUnsigned w (k : ℚ) = k := by
  unfold toUnsigned
  rw [Nat_floor_cast]
  have h2 : ((k : Int) % (2 ^ w : Int)) = (k : Int) := by
    apply Int.emod_eq_of_lt (Int.natCast_nonneg k)
    exact_mod_cast h
  rw [h2]
  exact Int.toNat_natCast k

theorem toUnsigned_lt (w : Nat) (q : ℚ) : toUnsigned w q < 2 ^ w := by
  unfold toUnsigned
  have hpos : (0 : Int) < 2 ^ w := by positivity
  have h1 := Int.emod_lt_of_pos (truncQ q) hpos
  have h0 := Int.emod_nonneg (truncQ q) hpos.ne'
  have h2 : ((2 ^ w : Nat) : Int) = 2 ^ w := by push_cast; rfl
  omega

theorem is_bytes_mix (a b : List Nat) (n : Nat) (ha : is_bytes a) (hb : is_bytes b) :
    is_bytes (a.take n ++ b.drop n) := by
  intro x hx
  rcases List.mem_append.1 hx with h | h
  · exact ha x (List.mem_of_mem_take h)
  · exact hb x (List.mem_of_mem_drop h)

/-- What `Save_Settings` stores fits the bit-fields when the settings did. -/
theorem Save_Settings_fits (e : Env) (L : Layout) (buff : List Nat) (s : State)
    (hfit : L.fits s.eeprom_settings) : L.fits (Save_Settings e L buff s).2.eeprom_settings := by
  obtain ⟨h1, -, h3⟩ := hfit
  have hpos : 0 < 2 ^ L.tilt_grid_size_bits := by positivity
  by_cases hu : e.cfg.AUTO_BED_LEVELING_UBL = true
  · refine ⟨?_, toUnsigned_lt _ _, fun f => ?_⟩
    · simp only [Save_Settings, hu, if_true]
      exact Nat.mod_lt _ hpos
    · cases f <;> simp only [Save_Settings, hu, if_true, ColorField.get] <;>
        first
        | exact h3 .cursor_color | exact h3 .menu_split_line | exact h3 .menu_top_bg
        | exact h3 .menu_top_txt | exact h3 .highlight_box | exact h3 .progress_percent
        | exact h3 .progress_time | exact h3 .status_bar_text | exact h3 .status_area_text
        | exact h3 .coordinates_text | exact h3 .coordinates_split_line
  · refine ⟨?_, toUnsigned_lt _ _, fun f => ?_⟩
    · simp only [Save_Settings, hu, if_false]
      exact h1
    · cases f <;> simp only [Save_Settings, hu, if_false, ColorField.get] <;>
        first
        | exact h3 .cursor_color | exact h3 .menu_split_line | exact h3 .menu_top_bg
        | exact h3 .menu_top_txt | exact h3 .highlight_box | exact h3 .progress_percent
        | exact h3 .progress_time | exact h3 .status_bar_text | exact h3 .status_area_text
        | exact h3 .coordinates_text | exact h3 .coordinates_split_line

/-- The defaults of `Reset_Settings` fit the bit-fields of a well-formed layout. -/
theorem reset_defaults_fits (c : Config) (L : Layout) (x : EEPROM_Settings) (hL : L.wf)
    (hfit : L.fits x) : L.fits (reset_defaults c x) := by
  refine ⟨?_, hL.2.2.2, fun f => ?_⟩
  · simp only [reset_defaults]
    split_ifs
    · positivity
    · exact hfit.1
  · cases f <;> simp only [reset_defaults, ColorField.get] <;> positivity

/-- The preference state after `Save_Settings`, `Reset_Settings`, `Load_Settings`. -/
theorem settings_round_trip_prefs (e : Env) (m : Machine) (L : Layout) (buff : List Nat)
    (s : State) (hL : L.wf) :
    (settings_round_trip e m L buff s).eeprom_settings = corner_guard (loaded_raw e L buff s) ∧
    (settings_round_trip e m L buff s).vars .corner_pos =
      ((corner_guard (loaded_raw e L buff s)).corner_pos : ℚ) / 10 ∧
    (e.cfg.AUTO_BED_LEVELING_UBL = true →
      (settings_round_trip e m L buff s).vars .tilt_grid =
        (((loaded_raw e L buff s).tilt_grid_size + 1) % 256 : Nat)) := by
  have hraw : L.decode (memcpy (L.encode (Reset_Settings e m (Save_Settings e L buff s).2).eeprom_settings)
      (Save_Settings e L buff s).1 L.copy_len) = loaded_raw e L buff s := by
    rw [Reset_Settings_eeprom]
    have h1 : (Save_Settings e L buff s).1 =
        memcpy buff (L.encode (Save_Settings e L buff s).2.eeprom_settings) L.copy_len := rfl
    rw [h1, memcpy_memcpy _ _ _ _ (by rw [hL.1]; exact Nat.min_le_left _ _)]
    rfl
  obtain ⟨a1, a2, a3⟩ := Load_Settings_prefs e m L (Save_Settings e L buff s).1
    (Reset_Settings e m (Save_Settings e L buff s).2)
  rw [hraw] at a1 a2 a3
  exact ⟨a1, a2, a3⟩

/-- When the buffer holds the whole struct, the image read back is the saved one. -/
theorem loaded_raw_whole (e : Env) (L : Layout) (buff : List Nat) (s : State) (hL : L.wf)
    (hfit : L.fits s.eeprom_settings) (h : L.size ≤ L.eeprom_data_size) :
    loaded_raw e L buff s = (Save_Settings e L buff s).2.eeprom_settings := by
  unfold loaded_raw
  have hn : L.copy_len = L.size := Nat.min_eq_left h
  rw [hn, List.take_of_length_le (by rw [hL.1]), List.drop_of_length_le (by rw [hL.1]),
    List.append_nil, hL.2.2.1 _ (Save_Settings_fits e L buff s hfit)]

theorem loaded_raw_inside {α : Type} (e : Env) (L : Layout) (buff : List Nat) (s : State)
    (hL : L.wf) (hfit : L.fits s.eeprom_settings) (f : EEPROM_Settings → α) (hf : L.inside f) :
    f (loaded_raw e L buff s) = f (Save_Settings e L buff s).2.eeprom_settings := by
  have hn : L.copy_len ≤ L.size := Nat.min_le_left _ _
  have h := hf
    ((L.encode (Save_Settings e L buff s).2.eeprom_settings).take L.copy_len ++
      (L.encode (reset_defaults e.cfg (Save_Settings e L buff s).2.eeprom_settings)).drop
        L.copy_len)
    (L.encode (Save_Settings e L buff s).2.eeprom_settings)
    (by rw [memcpy_length _ _ _ (by rw [hL.1]; exact hn) (by rw [hL.1, hL.1]), hL.1])
    (hL.1 _) (is_bytes_mix _ _ _ (hL.2.1 _) (hL.2.1 _)) (hL.2.1 _)
    (by rw [List.take_append_of_le_length (by rw [List.length_take, hL.1]; omega),
          List.take_take, Nat.min_self])
  rw [hL.2.2.1 _ (Save_Settings_fits e L buff s hfit)] at h
  exact h

theorem loaded_raw_beyond {α : Type} (e : Env) (L : Layout) (buff : List Nat) (s : State)
    (hL : L.wf) (hfit : L.fits s.eeprom_settings) (f : EEPROM_Settings → α) (hf : L.beyond f) :
    f (loaded_raw e L buff s) =
      f (reset_defaults e.cfg (Save_Settings e L buff s).2.eeprom_settings) := by
  have hn : L.copy_len ≤ L.size := Nat.min_le_left _ _
  have h := hf
    ((L.encode (Save_Settings e L buff s).2.eeprom_settings).take L.copy_len ++
      (L.encode (reset_defaults e.cfg (Save_Settings e L buff s).2.eeprom_settings)).drop
        L.copy_len)
    (L.encode (reset_defaults e.cfg (Save_Settings e L buff s).2.eeprom_settings))
    (by rw [memcpy_length _ _ _ (by rw [hL.1]; exact hn) (by rw [hL.1, hL.1]), hL.1])
    (hL.1 _) (is_bytes_mix _ _ _ (hL.2.1 _) (hL.2.1 _)) (hL.2.1 _)
    (by rw [List.drop_append_of_le_length (by rw [List.length_take, hL.1]; omega),
          List.drop_take]
        simp)
  rw [hL.2.2.1 _ (reset_defaults_fits e.cfg L _ hL (Save_Settings_fits e L buff s hfit))] at h
  exact h

theorem Save_Settings_corner_pos (e : Env) (L : Layout) (buff : List Nat) (s : State) :
    (Save_Settings e L buff s).2.eeprom_settings.corner_pos =
      toUnsigned L.corner_pos_bits (s.vars .corner_pos * 10) := rfl

theorem Save_Settings_tilt (e : Env) (L : Layout) (buff : List Nat) (s : State)
    (h : e.cfg.AUTO_BED_LEVELING_UBL = true) :
    (Save_Settings e L buff s).2.eeprom_settings.tilt_grid_size =
      (toUnsigned 8 (s.vars .tilt_grid) + 2 ^ L.tilt_grid_size_bits - 1)
        % 2 ^ L.tilt_grid_size_bits := by
  simp [Save_Settings, h]

theorem corner_guard_fields (x : EEPROM_Settings) :
    (corner_guard x).corner_pos = (if x.corner_pos = 0 then 325 else x.corner_pos) ∧
    (corner_guard x).tilt_grid_size = x.tilt_grid_size := by
  unfold corner_guard
  split_ifs <;> simp_all

theorem layout0_encode_bytes (x : EEPROM_Settings) : is_bytes (layout0.encode x) := by
  intro b hb
  have h1 := ENABLED_le x.time_format_textual
  have h2 := ENABLED_le x.beeperenable
  simp only [layout0, List.mem_cons, List.mem_singleton, List.not_mem_nil, or_false] at hb
  rcases hb with h | h | h | h | h | h | h | h | h <;> omega

theorem layout0_decode_encode (x : EEPROM_Settings) (hfit : layout0.fits x) :
    layout0.decode (layout0.encode x) = x := by
  obtain ⟨h1, h2, h3⟩ := hfit
  have c1 := h3 .cursor_color
  have c2 := h3 .menu_split_line
  have c3 := h3 .menu_top_bg
  have c4 := h3 .menu_top_txt
  have c5 := h3 .highlight_box
  have c6 := h3 .progress_percent
  have c7 := h3 .progress_time
  have c8 := h3 .status_bar_text
  have c9 := h3 .status_area_text
  have c10 := h3 .coordinates_text
  have c11 := h3 .coordinates_split_line
  rcases x with ⟨a, b, x1, x2, x3, x4, x5, x6, x7, x8, x9, x10, x11, x12, x13⟩
  simp only [layout0, ColorField.get] at h1 h2 c1 c2 c3 c4 c5 c6 c7 c8 c9 c10 c11
  norm_num at h1 h2 c1 c2 c3 c4 c5 c6 c7 c8 c9 c10 c11
  simp only [layout0, List.getD_cons_zero, List.getD_cons_succ, EEPROM_Settings.mk.injEq]
  refine ⟨?_, ?_, ?_, ?_, ?_, ?_, ?_, ?_, ?_, ?_, ?_, ?_, ?_, ?_, ?_⟩
  · cases a <;> cases b <;> simp [ENABLED] <;> omega
  · cases a <;> cases b <;> simp [ENABLED] <;> omega
  · cases a <;> cases b <;> simp [ENABLED] <;> omega
  all_goals omega

theorem layout0_wf : layout0.wf :=
  ⟨fun _ => rfl, layout0_encode_bytes, layout0_decode_encode, by norm_num [layout0]⟩

theorem layout_short_wf : layout_short.wf :=
  ⟨fun _ => rfl, layout0_encode_bytes, layout0_decode_encode, by norm_num [layout_short, layout0]⟩

theorem prefs1_fits : layout_short.fits prefs1.eeprom_settings :=
  ⟨by decide, by decide, fun f => by cases f <;> decide⟩

theorem init_fits : layout0.fits init.eeprom_settings :=
  ⟨by decide, by decide, fun f => by cases f <;> decide⟩

/-- Claim C6, as the code has it.  For a well-formed layout of the settings struct (images of
bytes, bit-fields of the given widths) and settings whose fields hold values of their
bit-fields, `Save_Settings(buff)`, `Reset_Settings()`, `Load_Settings(buff)` leave the
settings that `Load_Settings` read back (`loaded_raw`) with a `corner_pos` of 0 replaced by
325, the live `corner_pos` at a tenth of that field and (with UBL) the live tilt grid at
`tilt_grid_size + 1`.  When the buffer holds the whole struct the settings read back are the
saved ones; in any case every part of the settings read from the copied prefix is the saved
one and every part read from the bytes beyond it is the `Reset_Settings` default.  With the
whole struct copied, a live `corner_pos` whose tenfold is a positive integer that fits the
field, and a live tilt grid between 1 and the field's range, come back unchanged. -/
theorem C6_settings_round_trip (e : Env) (m : Machine) (L : Layout) (buff : List Nat)
    (s : State) (hL : L.wf) (hfit : L.fits s.eeprom_settings) :
    (settings_round_trip e m L buff s).eeprom_settings = corner_guard (loaded_raw e L buff s) ∧
    (settings_round_trip e m L buff s).vars .corner_pos =
      ((corner_guard (loaded_raw e L buff s)).corner_pos : ℚ) / 10 ∧
    (e.cfg.AUTO_BED_LEVELING_UBL = true →
      (settings_round_trip e m L buff s).vars .tilt_grid =
        (((loaded_raw e L buff s).tilt_grid_size + 1) % 256 : Nat)) ∧
    (L.size ≤ L.eeprom_data_size →
      loaded_raw e L buff s = (Save_Settings e L buff s).2.eeprom_settings) ∧
    (∀ (α : Type) (f : EEPROM_Settings → α), L.inside f →
      f (loaded_raw e L buff s) = f (Save_Settings e L buff s).2.eeprom_settings) ∧
    (∀ (α : Type) (f : EEPROM_Settings → α), L.beyond f →
      f (loaded_raw e L buff s) =
        f (reset_defaults e.cfg (Save_Settings e L buff s).2.eeprom_settings)) ∧
    (L.size ≤ L.eeprom_data_size → ∀ k : Nat, 0 < k → k < 2 ^ L.corner_pos_bits →
      s.vars .corner_pos * 10 = k →
      (settings_round_trip e m L buff s).vars .corner_pos = s.vars .corner_pos) ∧
    (e.cfg.AUTO_BED_LEVELING_UBL = true → L.size ≤ L.eeprom_data_size →
      ∀ t : Nat, 1 ≤ t → t ≤ 2 ^ L.tilt_grid_size_bits → t < 256 → s.vars .tilt_grid = t →
      (settings_round_trip e m L buff s).vars .tilt_grid = t) := by
  obtain ⟨a1, a2, a3⟩ := settings_round_trip_prefs e m L buff s hL
  refine ⟨a1, a2, a3, loaded_raw_whole e L buff s hL hfit,
    fun α f hf => loaded_raw_inside e L buff s hL hfit f hf,
    fun α f hf => loaded_raw_beyond e L buff s hL hfit f hf, ?_, ?_⟩
  · intro hw k hk0 hk hc
    rw [a2, (corner_guard_fields _).1, loaded_raw_whole e L buff s hL hfit hw,
      Save_Settings_corner_pos, hc, toUnsigned_natCast _ _ hk, if_neg (by omega)]
    rw [← hc]
    ring
  · intro hu hw t ht1 ht2 ht3 hv
    rw [a3 hu, loaded_raw_whole e L buff s hL hfit hw, Save_Settings_tilt e L buff s hu, hv,
      toUnsigned_natCast 8 t (by norm_num; exact ht3)]
    have h1 : (t + 2 ^ L.tilt_grid_size_bits - 1) % 2 ^ L.tilt_grid_size_bits = t - 1 := by
      have : t + 2 ^ L.tilt_grid_size_bits - 1 = (t - 1) + 2 ^ L.tilt_grid_size_bits := by omega
      rw [this, Nat.add_mod_right]
      exact Nat.mod_eq_of_lt (by omega)
    rw [h1]
    have h2 : (t - 1 + 1) % 256 = t := by omega
    rw [h2]

/-- Witness of C6: the nine-byte bit-field layout with a buffer of three bytes, which holds
`corner_pos` (bytes 1 and 2) and not `cursor_color` (byte 3), on settings with every field
set. -/
theorem C6_settings_round_trip_witness :
    layout_short.wf ∧ layout_short.fits prefs1.eeprom_settings ∧
    (settings_round_trip env0 m0 layout_short buff0 prefs1).eeprom_settings =
      corner_guard (loaded_raw env0 layout_short buff0 prefs1) ∧
    (fun x : EEPROM_Settings => x.corner_pos) (loaded_raw env0 layout_short buff0 prefs1) =
      (Save_Settings env0 layout_short buff0 prefs1).2.eeprom_settings.corner_pos ∧
    (fun x : EEPROM_Settings => x.cursor_color) (loaded_raw env0 layout_short buff0 prefs1) =
      (reset_defaults env0.cfg
        (Save_Settings env0 layout_short buff0 prefs1).2.eeprom_settings).cursor_color :=
  ⟨layout_short_wf, prefs1_fits,
   (C6_settings_round_trip env0 m0 layout_short buff0 prefs1 layout_short_wf prefs1_fits).1,
   (C6_settings_round_trip env0 m0 layout_short buff0 prefs1 layout_short_wf
     prefs1_fits).2.2.2.2.1 Nat
     (fun x => x.corner_pos) (by
       intro a b _ _ _ _ h
       rw [show layout_short.copy_len = 3 from rfl] at h
       have h1 : (a.take 3).getD 1 0 = (b.take 3).getD 1 0 := by rw [h]
       have h2 : (a.take 3).getD 2 0 = (b.take 3).getD 2 0 := by rw [h]
       simp only [List.getD_eq_getElem?_getD, List.getElem?_take] at h1 h2
       norm_num at h1 h2
       simp only [layout_short, layout0, List.getD_eq_getElem?_getD]
       rw [h1, h2]),
   (C6_settings_round_trip env0 m0 layout_short buff0 prefs1 layout_short_wf
     prefs1_fits).2.2.2.2.2.1 Nat
     (fun x => x.cursor_color) (by
       intro a b _ _ _ _ h
       rw [show layout_short.copy_len = 3 from rfl] at h
       have h3 : (a.drop 3).getD 0 0 = (b.drop 3).getD 0 0 := by rw [h]
       simp only [List.getD_eq_getElem?_getD, List.getElem?_drop] at h3
       norm_num at h3
       simp only [layout_short, layout0, List.getD_eq_getElem?_getD]
       rw [h3])⟩

/-- Counterexample to C6 as stated: with the whole struct copied, a live `corner_pos` of 0
(the value the variable has before any settings were loaded) is saved as the field value 0,
and comes back as the field value 325 and the live value 32.5. -/
theorem C6_counterexample :
    layout0.size ≤ layout0.eeprom_data_size ∧
    init.vars .corner_pos = 0 ∧
    (Save_Settings env0 layout0 buff0 init).2.eeprom_settings.corner_pos = 0 ∧
    (settings_round_trip env0 m0 layout0 buff0 init).eeprom_settings.corner_pos = 325 ∧
    (settings_round_trip env0 m0 layout0 buff0 init).vars .corner_pos = 65 / 2 ∧
    ¬ ((settings_round_trip env0 m0 layout0 buff0 init).eeprom_settings.corner_pos =
        (Save_Settings env0 layout0 buff0 init).2.eeprom_settings.corner_pos) := by
  have hs : (Save_Settings env0 layout0 buff0 init).2.eeprom_settings.corner_pos = 0 := by
    rw [Save_Settings_corner_pos]
    have : init.vars .corner_pos * 10 = ((0 : Nat) : ℚ) := by simp [init]
    rw [this, toUnsigned_natCast _ _ (by norm_num [layout0])]
  obtain ⟨a1, a2, -⟩ := settings_round_trip_prefs env0 m0 layout0 buff0 init layout0_wf
  have hraw := loaded_raw_whole env0 layout0 buff0 init layout0_wf init_fits (by decide)
  have hc : (settings_round_trip env0 m0 layout0 buff0 init).eeprom_settings.corner_pos
      = 325 := by
    rw [a1, (corner_guard_fields _).1, hraw, hs]
    rfl
  refine ⟨by decide, by simp [init], hs, hc, ?_, ?_⟩
  · rw [a2, (corner_guard_fields _).1, hraw, hs]
    norm_num
  · rw [hc, hs]
    decide

/-! ## File name window -/

theorem map_getD_range (l : List Char) (k n : Nat) (h : k + n ≤ l.length) :
    (List.range' 0 n).map (fun i => l.getD (i + k) default) = (l.drop k).take n := by
  apply List.ext_getElem
  · simp; omega
  · intro i h1 h2
    simp at h1
    simp only [List.getElem_map, List.getElem_range', List.getD_eq_getElem?_getD,
      List.getElem_take, List.getElem_drop]
    rw [List.getElem?_eq_getElem (show 0 + 1 * i + k < l.length by omega)]
    simp [Nat.add_comm]

theorem map_getD_range_shift (l : List Char) (a n : Nat) (h : n ≤ l.length) :
    (List.range' a n).map (fun (i : Nat) => l.getD ((i : Int) - (a : Int)).toNat default) =
      l.take n := by
  apply List.ext_getElem
  · simp; omega
  · intro i h1 h2
    simp at h1
    simp only [List.getElem_map, List.getElem_range', List.getD_eq_getElem?_getD,
      List.getElem_take]
    have e : (((a + 1 * i : Nat) : Int) - (a : Int)).toNat = i := by omega
    rw [e, List.getElem?_eq_getElem (show i < l.length by omega)]
    rfl

theorem map_const_range (a n : Nat) (c : Char) :
    (List.range' a n).map (fun (_ : Nat) => c) = List.replicate n c := by
  apply List.ext_getElem
  · simp
  · intro i h1 h2
    simp

theorem toInt8_small (z : Int) (h1 : -128 ≤ z) (h2 : z ≤ 127) : toInt8 z = z := by
  unfold toInt8; omega

theorem Print_Filename_window_text_40 (fn : List Char) (hl : fn.length = 40) (k : Nat)
    (hk : k ≤ 70) :
    (Print_Filename_window fn k).text =
      if k ≤ 40 then (fn.drop k).take 30
      else List.replicate (70 - k) ' ' ++ fn.take (k - 40) := by
  have hpos : toInt8 (toInt8 (fn.length : Int) - (k : Int)) = 40 - (k : Int) := by
    rw [hl]; unfold toInt8; omega
  unfold Print_Filename_window
  simp only [hpos]
  by_cases h40 : k ≤ 40
  · have hge : (40 : Int) - (k : Int) ≥ 0 := by omega
    rw [if_pos hge, if_pos h40]
    have hsz : toSizeT (40 - (k : Int)) = 40 - k := by unfold toSizeT; omega
    simp only [hsz, LOOP_S_L_N]
    by_cases h10 : k ≤ 10
    · have : (if 40 - k > 30 then 30 else 40 - k) = 30 := by split_ifs <;> omega
      simp only [this]
      exact map_getD_range fn k 30 (by omega)
    · have : (if 40 - k > 30 then 30 else 40 - k) = 40 - k := by split_ifs <;> omega
      simp only [this]
      have h := map_getD_range fn k (40 - k) (by omega)
      simp only [Int.zero_emod, Int.toNat_zero, Int.toNat_ofNat, Nat.sub_zero] at h ⊢
      rw [h, List.take_of_length_le (by simp; omega), List.take_of_length_le (by simp; omega)]
  · have hge : ¬ ((40 : Int) - (k : Int) ≥ 0) := by omega
    rw [if_neg hge, if_neg h40]
    simp only [LOOP_S_L_N]
    have e1 : ((30 : Int) + (40 - (k : Int))).toNat = 70 - k := by omega
    have e2 : (((30 : Int) + (40 - (k : Int))) % 256).toNat = 70 - k := by omega
    have e3 : ((30 : Int)).toNat - (70 - k) = k - 40 := by
      have : ((30 : Int)).toNat = 30 := rfl
      omega
    have e4 : (30 : Int) + (40 - (k : Int)) = ((70 - k : Nat) : Int) := by omega
    simp only [e1, e2, e3, Int.zero_emod, Int.toNat_zero, Nat.sub_zero]
    rw [map_const_range, e4, map_getD_range_shift fn (70 - k) (k - 40) (by omega)]
theorem Draw_Print_Filename_reset (s : State) (hp : s.process = .Print)
    (h30 : toInt8 s.filename.length > 30) :
    Draw_Print_Filename true s = { s with namescrl := 1 } := by
  have h1 : ¬ (-toInt8 (toInt8 (s.filename.length : Int) - ((0 : Nat) : Int)) ≥ 30) := by
    unfold toInt8 at h30 ⊢; omega
  simp only [Draw_Print_Filename, if_true, hp, h30, h1, if_false]

theorem Draw_Print_Filename_step (s : State) (hp : s.process = .Print)
    (h30 : toInt8 s.filename.length > 30)
    (hn : (s.namescrl : Int) ≤ toInt8 s.filename.length + 30) :
    Draw_Print_Filename false s =
      { s with namescrl :=
          if (s.namescrl : Int) = toInt8 s.filename.length + 30 then 1 else s.namescrl + 1 } := by
  have hP : toInt8 (s.filename.length : Int) ≤ 127 := by unfold toInt8; omega
  have hpos : toInt8 (toInt8 (s.filename.length : Int) - (s.namescrl : Int)) =
      toInt8 (s.filename.length : Int) - (s.namescrl : Int) := toInt8_small _ (by omega) (by omega)
  by_cases hw : (s.namescrl : Int) = toInt8 s.filename.length + 30
  · have h1 : -(toInt8 (s.filename.length : Int) - (s.namescrl : Int)) ≥ 30 := by omega
    rw [if_pos hw]
    simp only [Draw_Print_Filename, Bool.false_eq_true, if_false, hp, h30, if_true, hpos, h1]
  · have h1 : ¬ (-(toInt8 (s.filename.length : Int) - (s.namescrl : Int)) ≥ 30) := by omega
    have h2 : (s.namescrl + 1) % 256 = s.namescrl + 1 := by omega
    rw [if_neg hw]
    simp only [Draw_Print_Filename, Bool.false_eq_true, if_false, hp, h30, if_true, hpos, h1,
      h2]

/-- The scroll counter stays within `pos + 30` during a run, and nothing else changes. -/
theorem Draw_Print_Filename_run_inv (s : State) (hp : s.process = .Print)
    (h30 : toInt8 s.filename.length > 30) (n : Nat) :
    ∃ c : Nat, Draw_Print_Filename_run n s = { s with namescrl := c } ∧
      (c : Int) ≤ toInt8 s.filename.length + 30 := by
  induction n with
  | zero =>
    exact ⟨1, by simp only [Draw_Print_Filename_run, Function.iterate_zero, id_eq,
      Draw_Print_Filename_reset s hp h30], by omega⟩
  | succ n ih =>
    obtain ⟨c, hc, hb⟩ := ih
    have hs : Draw_Print_Filename_run (n + 1) s =
        Draw_Print_Filename false (Draw_Print_Filename_run n s) := by
      simp only [Draw_Print_Filename_run, Function.iterate_succ_apply']
    rw [hs, hc, Draw_Print_Filename_step { s with namescrl := c } hp h30 hb]
    refine ⟨_, rfl, ?_⟩
    show ((if (c : Int) = toInt8 s.filename.length + 30 then 1 else c + 1 : Nat) : Int) ≤ _
    split_ifs <;> omega

theorem Draw_Print_Filename_run_40 (s : State) (hp : s.process = .Print)
    (hl : s.filename.length = 40) (n : Nat) (hn : n ≤ 69) :
    Draw_Print_Filename_run n s = { s with namescrl := n + 1 } := by
  have h8 : toInt8 (s.filename.length : Int) = 40 := by rw [hl]; rfl
  have h30 : toInt8 s.filename.length > 30 := by rw [h8]; omega
  induction n with
  | zero =>
    simp only [Draw_Print_Filename_run, Function.iterate_zero, id_eq,
      Draw_Print_Filename_reset s hp h30]
  | succ n ih =>
    have hs : Draw_Print_Filename_run (n + 1) s =
        Draw_Print_Filename false (Draw_Print_Filename_run n s) := by
      simp only [Draw_Print_Filename_run, Function.iterate_succ_apply']
    rw [hs, ih (by omega),
      Draw_Print_Filename_step { s with namescrl := n + 1 } hp h30 (by simp only [h8]; omega)]
    have hne : ¬ (((n + 1 : Nat) : Int) = toInt8 (s.filename.length : Int) + 30) := by
      rw [h8]; omega
    simp only [hne, if_false]

theorem Print_Filename_window_inBounds (fn : List Char) (n : Nat)
    (h30 : toInt8 fn.length > 30) (hn : (n : Int) ≤ toInt8 fn.length + 30) :
    (Print_Filename_window fn n).inBounds fn.length := by
  have hP : toInt8 (fn.length : Int) ≤ 127 := by unfold toInt8; omega
  have hL : toInt8 (fn.length : Int) ≤ fn.length := by unfold toInt8; omega
  have hpos : toInt8 (toInt8 (fn.length : Int) - (n : Int)) =
      toInt8 (fn.length : Int) - (n : Int) := toInt8_small _ (by omega) (by omega)
  unfold Print_Filename_window NameWindow.inBounds
  simp only [hpos]
  generalize toInt8 (fn.length : Int) = P at *
  by_cases hge : P - (n : Int) ≥ 0
  · rw [if_pos hge]
    have hsz : toSizeT (P - (n : Int)) = (P - (n : Int)).toNat := by unfold toSizeT; omega
    simp only [hsz, LOOP_S_L_N, List.mem_map, List.mem_range', List.mem_append,
      List.mem_singleton]
    constructor
    · rintro r ⟨i, ⟨j, hj, rfl⟩, rfl⟩
      split_ifs at hj <;> omega
    · rintro x (⟨i, ⟨j, hj, rfl⟩, rfl⟩ | rfl)
      · split_ifs at hj ⊢ <;> omega
      · split_ifs <;> omega
  · rw [if_neg hge]
    have hsz : toSizeT (P - (n : Int)) > 30 := by unfold toSizeT; omega
    simp only [hsz, if_true, LOOP_S_L_N, List.mem_map, List.mem_range', List.mem_append,
      List.mem_singleton]
    constructor
    · rintro r ⟨i, ⟨j, hj, rfl⟩, rfl⟩
      omega
    · rintro x ((⟨i, ⟨j, hj, rfl⟩, rfl⟩ | ⟨i, ⟨j, hj, rfl⟩, rfl⟩) | rfl) <;> omega

theorem Draw_Print_Filename_nth_eq (s : State) (hp : s.process = .Print)
    (h30 : toInt8 s.filename.length > 30) (j : Nat) :
    ∃ c : Nat, Draw_Print_Filename_nth j s = some (Print_Filename_window s.filename.data c) ∧
      (c : Int) ≤ toInt8 s.filename.length + 30 := by
  cases j with
  | zero =>
    refine ⟨0, ?_, by omega⟩
    simp only [Draw_Print_Filename_nth, Draw_Print_Filename_window, hp, h30, true_and, if_true]
  | succ i =>
    obtain ⟨c, hc, hb⟩ := Draw_Print_Filename_run_inv s hp h30 i
    refine ⟨c, ?_, hb⟩
    simp only [Draw_Print_Filename_nth, hc, Draw_Print_Filename_window, hp, h30, true_and,
      if_true, Bool.false_eq_true, if_false]

theorem Draw_Print_Filename_idle (r : Bool) (s : State)
    (h : ¬ (s.process = .Print ∧ toInt8 s.filename.length > 30)) :
    Draw_Print_Filename r s = (if r = true then { s with namescrl := 0 } else s) := by
  unfold Draw_Print_Filename
  cases r <;> simp only [Bool.false_eq_true, if_false, if_true] <;> split_ifs <;>
    first | rfl | (exfalso; exact h ⟨by assumption, by assumption⟩)

theorem Draw_Print_Filename_nth_none (s : State) (j : Nat)
    (h : ¬ (s.process = .Print ∧ toInt8 s.filename.length > 30)) :
    Draw_Print_Filename_nth j s = none := by
  have hrun : ∀ n, ∃ c, Draw_Print_Filename_run n s = { s with namescrl := c } := by
    intro n
    induction n with
    | zero =>
      exact ⟨0, by simp only [Draw_Print_Filename_run, Function.iterate_zero, id_eq,
        Draw_Print_Filename_idle true s h, if_true]⟩
    | succ n ih =>
      obtain ⟨c, hc⟩ := ih
      refine ⟨c, ?_⟩
      have hs : Draw_Print_Filename_run (n + 1) s =
          Draw_Print_Filename false (Draw_Print_Filename_run n s) := by
        simp only [Draw_Print_Filename_run, Function.iterate_succ_apply']
      rw [hs, hc, Draw_Print_Filename_idle false { s with namescrl := c } h]
      simp only [Bool.false_eq_true, if_false]
  cases j with
  | zero => simp only [Draw_Print_Filename_nth, Draw_Print_Filename_window, h, if_false]
  | succ i =>
    obtain ⟨c, hc⟩ := hrun i
    simp only [Draw_Print_Filename_nth, hc, Draw_Print_Filename_window, h, if_false]

/-- C11 (amended): with a file name of 40 characters on the print screen, invocation `j` of
`Draw_Print_Filename` after a reset (the resetting call is invocation 0) draws the 30
characters from offset `j` for `j ≤ 10`, the remaining `40 - j` characters for `10 < j ≤ 40`,
and for `40 < j ≤ 70` a run of `70 - j` blanks followed by the first `j - 40` characters; the
scroll counter is `j + 1` after invocation `j < 70` and 1 after invocation 70, which draws the
same window as invocation 0. -/
theorem C11_filename_scroll (s : State) (hp : s.process = .Print)
    (hl : s.filename.length = 40) (j : Nat) (hj : j ≤ 70) :
    (Draw_Print_Filename_nth j s).map NameWindow.text =
      some (if j ≤ 40 then (s.filename.data.drop j).take 30
            else List.replicate (70 - j) ' ' ++ s.filename.data.take (j - 40)) ∧
    (Draw_Print_Filename_run j s).namescrl = (if j = 70 then 1 else j + 1) := by
  have hl2 : s.filename.data.length = 40 := hl
  have h8 : toInt8 (s.filename.length : Int) = 40 := by rw [hl]; rfl
  have h30 : toInt8 s.filename.length > 30 := by rw [h8]; omega
  constructor
  · cases j with
    | zero =>
      simp only [Draw_Print_Filename_nth, Draw_Print_Filename_window, hp, h30, true_and,
        if_true, Option.map_some']
      rw [Print_Filename_window_text_40 _ hl2 0 (by omega)]
    | succ i =>
      simp only [Draw_Print_Filename_nth, Draw_Print_Filename_run_40 s hp hl i (by omega),
        Draw_Print_Filename_window, hp, h30, true_and, if_true, Bool.false_eq_true, if_false,
        Option.map_some']
      rw [Print_Filename_window_text_40 _ hl2 (i + 1) (by omega)]
  · by_cases h70 : j = 70
    · subst h70
      have hs : Draw_Print_Filename_run 70 s =
          Draw_Print_Filename false (Draw_Print_Filename_run 69 s) := by
        simp only [Draw_Print_Filename_run, Function.iterate_succ_apply']
      rw [hs, Draw_Print_Filename_run_40 s hp hl 69 (by omega),
        Draw_Print_Filename_step { s with namescrl := 69 + 1 } hp h30 (by simp only [h8]; omega)]
      simp only [h8]
      rfl
    · rw [Draw_Print_Filename_run_40 s hp hl j (by omega), if_neg h70]

set_option maxRecDepth 100000 in
theorem C11_filename_scroll_witness :
    at_print_40.process = .Print ∧ at_print_40.filename.length = 40 ∧
    (Draw_Print_Filename_nth 50 at_print_40).map NameWindow.text =
      some (List.replicate 20 ' ' ++ "0123456789".data) ∧
    (Draw_Print_Filename_run 50 at_print_40).namescrl = 51 :=
  ⟨rfl, rfl, (C11_filename_scroll at_print_40 rfl rfl 50 (by decide)).1,
   (C11_filename_scroll at_print_40 rfl rfl 50 (by decide)).2⟩

set_option maxRecDepth 100000 in
/-- C11 as stated fails: after the ten steps that show offsets 1 to 10 of a 40-character name
the scroll counter is 11, not 0, and the next invocation draws the 29 characters from
offset 11. -/
theorem C11_counterexample :
    at_print_40.process = .Print ∧ at_print_40.filename.length = 40 ∧
    (Draw_Print_Filename_run 10 at_print_40).namescrl = 11 ∧
    (Draw_Print_Filename_nth 11 at_print_40).map NameWindow.text =
      some "bcdefghijklmnopqrstuvwxyzABCD".data := by
  refine ⟨rfl, rfl, by decide, by rfl⟩

/-- C12: every window `Draw_Print_Filename` builds in a sequence of invocations after a reset
reads the file name at indices below its length only and writes `dispname` at indices below
its `len+1` bytes only, whatever the length of the name. -/
theorem C12_filename_window_in_bounds (s : State) (j : Nat) (w : NameWindow)
    (hw : Draw_Print_Filename_nth j s = some w) : w.inBounds s.filename.length := by
  by_cases h : s.process = .Print ∧ toInt8 s.filename.length > 30
  · obtain ⟨c, hc, hb⟩ := Draw_Print_Filename_nth_eq s h.1 h.2 j
    rw [hc] at hw
    cases hw
    exact Print_Filename_window_inBounds s.filename.data c h.2 hb
  · rw [Draw_Print_Filename_nth_none s j h] at hw
    cases hw

set_option maxRecDepth 100000 in
theorem C12_filename_window_in_bounds_witness :
    Draw_Print_Filename_nth 50 at_print_40 =
      some (Print_Filename_window at_print_40.filename.data 50) ∧
    (Print_Filename_window at_print_40.filename.data 50).inBounds at_print_40.filename.length :=
  ⟨by rfl, C12_filename_window_in_bounds at_print_40 50 _ (by rfl)⟩

/-! ## Dispatch and input handlers -/

set_option maxRecDepth 100000 in
/-- C13 (code defect): the state `after_user_input` is reached from the initial state through
`Update` ticks; it shows the main screen with `selection = 8`, which is none of the four icons
0..3.  `Confirm_Control` restores `last_selection`, which `Draw_Popup` saved for the earlier
ETemp popup and not for the UserInput dialog, and `Draw_Main_Menu` takes it unclamped. -/
theorem C13_main_selection_out_of_range :
    at_main_stale.process = .Main ∧ at_main_stale.selection = 1 ∧
    at_main_stale.last_selection = 8 ∧
    after_user_input.process = .Main ∧ after_user_input.selection = 8 ∧
    ¬ after_user_input.selection ≤ 3 := by
  decide!

/-- C15: when `process` is `Wait`, the dispatch of `Update` runs no handler: whatever the
pending encoder event, the state (and so `process`, `active_menu`, `selection`, `scrollpos`
and `popup`) is left as it is. -/
theorem C15_wait_dispatch (e : Env) (m : Machine) (ev : ENCODER_DiffState) (rate : ℚ)
    (s : State) (h : s.process = .Wait) : Update_dispatch e m ev rate s = s := by
  unfold Update_dispatch
  rw [h]

theorem C15_wait_dispatch_witness :
    at_wait.process = .Wait ∧
    Update_dispatch env0 m0 .ENCODER_DIFF_ENTER 1 at_wait = at_wait :=
  ⟨by decide, C15_wait_dispatch env0 m0 .ENCODER_DIFF_ENTER 1 at_wait (by decide)⟩

theorem File_Control_NO_nav (e : Env) (m : Machine) (s : State) :
    (File_Control e m .ENCODER_DIFF_NO s).nav = s.nav ∧
    (File_Control e m .ENCODER_DIFF_NO s).tempvalue = s.tempvalue := by
  simp only [File_Control]
  split_ifs <;> exact ⟨rfl, rfl⟩

/-- C16: an invocation of any of the eight input handlers whose polled event is
`ENCODER_DIFF_NO` leaves the navigation variables (`process`, `active_menu`, `selection`,
`scrollpos`, `last_menu`, `last_selection`, `last_process`, `popup`, `last_popup`) and the
editor's working value `tempvalue` unchanged. -/
theorem C16_no_event (e : Env) (m : Machine) (rate : ℚ) (s : State) :
    ((Main_Menu_Control e m .ENCODER_DIFF_NO s).nav = s.nav ∧
      (Main_Menu_Control e m .ENCODER_DIFF_NO s).tempvalue = s.tempvalue) ∧
    ((Menu_Control e m .ENCODER_DIFF_NO s).nav = s.nav ∧
      (Menu_Control e m .ENCODER_DIFF_NO s).tempvalue = s.tempvalue) ∧
    ((Value_Control e m .ENCODER_DIFF_NO rate s).nav = s.nav ∧
      (Value_Control e m .ENCODER_DIFF_NO rate s).tempvalue = s.tempvalue) ∧
    ((Option_Control e m .ENCODER_DIFF_NO rate s).nav = s.nav ∧
      (Option_Control e m .ENCODER_DIFF_NO rate s).tempvalue = s.tempvalue) ∧
    ((File_Control e m .ENCODER_DIFF_NO s).nav = s.nav ∧
      (File_Control e m .ENCODER_DIFF_NO s).tempvalue = s.tempvalue) ∧
    ((Print_Screen_Control e m .ENCODER_DIFF_NO s).nav = s.nav ∧
      (Print_Screen_Control e m .ENCODER_DIFF_NO s).tempvalue = s.tempvalue) ∧
    ((Popup_Control e m .ENCODER_DIFF_NO s).nav = s.nav ∧
      (Popup_Control e m .ENCODER_DIFF_NO s).tempvalue = s.tempvalue) ∧
    ((Confirm_Control e m .ENCODER_DIFF_NO s).nav = s.nav ∧
      (Confirm_Control e m .ENCODER_DIFF_NO s).tempvalue = s.tempvalue) :=
  ⟨⟨rfl, rfl⟩, ⟨rfl, rfl⟩, ⟨rfl, rfl⟩, ⟨rfl, rfl⟩, File_Control_NO_nav e m s, ⟨rfl, rfl⟩,
   ⟨rfl, rfl⟩, ⟨rfl, rfl⟩⟩

/-- C18: rendering an item, `Menu_Item_Handler(menu, item, draw = true)`, leaves the navigation
variables `active_menu`, `last_menu`, `selection`, `last_selection`, `scrollpos`, `process`,
`last_process`, `popup` and `last_popup` as they were, for every menu, item index and state. -/
theorem C18_draw_keeps_navigation (e : Env) (m : Machine) (menu : Menu) (item : Nat)
    (s : State) :
    (Menu_Item_Handler e m menu item true s).active_menu = s.active_menu ∧
    (Menu_Item_Handler e m menu item true s).last_menu = s.last_menu ∧
    (Menu_Item_Handler e m menu item true s).selection = s.selection ∧
    (Menu_Item_Handler e m menu item true s).last_selection = s.last_selection ∧
    (Menu_Item_Handler e m menu item true s).scrollpos = s.scrollpos ∧
    (Menu_Item_Handler e m menu item true s).process = s.process ∧
    (Menu_Item_Handler e m menu item true s).last_process = s.last_process ∧
    (Menu_Item_Handler e m menu item true s).popup = s.popup ∧
    (Menu_Item_Handler e m menu item true s).last_popup = s.last_popup :=
  nav_eq (Menu_Item_Handler_draw_nav e m menu item s)

theorem State_Update_opens_UserInput (e : Env) (m : Machine) (s : State)
    (hw : s.wait_for_user = true)
    (hj : (m.timer_running || m.timer_paused) = s.printing) (hp : m.timer_paused = s.paused)
    (hnp : m.timer_paused = false) (hr : m.filament_ran_out = s.ranout)
    (hP : s.process ≠ .Confirm ∧ s.process ≠ .Popup ∧ s.process ≠ .Wait) :
    State_Update e m s =
      { s with popup := .UserInput, last_process := s.process, process := .Confirm } := by
  have h1 : State_Update_job e m s = s := by simp [State_Update_job, hj]
  have h2 : State_Update_paused e m s = s := by simp [State_Update_paused, hp]
  have h3 : State_Update_user m s =
      { s with popup := .UserInput, last_process := s.process, process := .Confirm } := by
    simp [State_Update_user, hw, hP.1, hnp, Confirm_Handler, Draw_Popup, hP.2.1, hP.2.2]
  unfold State_Update
  rw [h1, h2, h3]
  have h4 : State_Update_purge e m
      { s with popup := .UserInput, last_process := s.process, process := .Confirm } =
      { s with popup := .UserInput, last_process := s.process, process := .Confirm } := by
    simp [State_Update_purge]
  rw [h4]
  simp [State_Update_runout, hr]

/-- C20 (code defect): when `State_Update` opens the UserInput dialog over a process `P` that is
not a dialog, the acknowledging ENTER brings the UI back to `P` for `P` in Main, Menu, File and
Print, but leaves it in `Confirm` for `P` in Value and Option, which `Redraw_Menu` has no case
for. -/
theorem C20_user_input_acknowledge (e : Env) (m : Machine) (s : State)
    (hw : s.wait_for_user = true)
    (hj : (m.timer_running || m.timer_paused) = s.printing) (hp : m.timer_paused = s.paused)
    (hnp : m.timer_paused = false) (hr : m.filament_ran_out = s.ranout)
    (hP : s.process ≠ .Confirm ∧ s.process ≠ .Popup ∧ s.process ≠ .Wait) :
    (State_Update e m s).process = .Confirm ∧ (State_Update e m s).popup = .UserInput ∧
    (Confirm_Control e m .ENCODER_DIFF_ENTER (State_Update e m s)).process =
      (if s.process = .Value ∨ s.process = .Option then .Confirm else s.process) := by
  rw [State_Update_opens_UserInput e m s hw hj hp hnp hr hP]
  refine ⟨rfl, rfl, ?_⟩
  simp only [Confirm_Control, Redraw_Menu, if_true]
  obtain ⟨h1, h2, h3⟩ := hP
  cases hs : s.process
  · simp [Draw_Main_Menu]
  · simp only [reduceCtorEq, or_self, if_false]
    exact (Draw_Menu_fields e m _ _ _ _).2.2.2.1
  · simp
  · simp
  · simp [Draw_SD_List]
  · simp only [reduceCtorEq, or_self, if_false]
    exact (Draw_Print_Screen_fields _).1
  · exact absurd hs h2
  · exact absurd hs h1
  · exact absurd hs h3

set_option maxRecDepth 100000 in
theorem C20_user_input_acknowledge_witness :
    at_value_waiting.process = .Value ∧
    (State_Update env0 m0 at_value_waiting).process = .Confirm ∧
    (State_Update env0 m0 at_value_waiting).popup = .UserInput ∧
    (Confirm_Control env0 m0 .ENCODER_DIFF_ENTER (State_Update env0 m0 at_value_waiting)).process =
      (if at_value_waiting.process = .Value ∨ at_value_waiting.process = .Option then .Confirm
       else at_value_waiting.process) ∧
    (Confirm_Control env0 m0 .ENCODER_DIFF_ENTER (State_Update env0 m0 at_value_waiting)).process =
      .Confirm :=
  ⟨by decide!,
   (C20_user_input_acknowledge env0 m0 at_value_waiting rfl (by decide!) (by decide!) rfl
      (by decide!) (by decide!)).1,
   (C20_user_input_acknowledge env0 m0 at_value_waiting rfl (by decide!) (by decide!) rfl
      (by decide!) (by decide!)).2.1,
   (C20_user_input_acknowledge env0 m0 at_value_waiting rfl (by decide!) (by decide!) rfl
      (by decide!) (by decide!)).2.2,
   by decide!⟩

/-! ## Leveling menu -/

theorem Popup_Handler_MeshSlot (s : State) :
    (Popup_Handler .MeshSlot s).process = .Popup ∧ (Popup_Handler .MeshSlot s).popup = .MeshSlot ∧
    untouched s (Popup_Handler .MeshSlot s) := by
  simp only [Popup_Handler, Popup_Handler_mode, Draw_Popup, untouched]
  split_ifs <;> simp

theorem Confirm_Handler_InvalidMesh (s : State) :
    (Confirm_Handler .InvalidMesh s).process = .Confirm ∧
    (Confirm_Handler .InvalidMesh s).popup = .InvalidMesh ∧
    untouched s (Confirm_Handler .InvalidMesh s) := by
  simp only [Confirm_Handler, Draw_Popup, untouched]
  split_ifs <;> simp

theorem Leveling_activate_MeshSlot (e : Env) (m : Machine) (s : State) (item : Nat)
    (hU : e.cfg.AUTO_BED_LEVELING_UBL = true) (hs : s.vars .storage_slot < 0)
    (hi : (e.cfg.HAS_BED_PROBE = true ∧ item = LEVELING_GET_TILT e.cfg) ∨
      (item = LEVELING_MANUAL e.cfg ∧
        ¬ (e.cfg.AUTO_BED_LEVELING_BILINEAR = true ∧ m.leveling_is_valid = false)) ∨
      item = LEVELING_VIEW e.cfg ∨ item = LEVELING_LOAD e.cfg ∨ item = LEVELING_SAVE e.cfg) :
    Leveling_activate e m item s = Popup_Handler .MeshSlot s := by
  rcases hi with ⟨hp, rfl⟩ | ⟨rfl, hb⟩ | rfl | rfl | rfl
  · simp [Leveling_activate, hU, hp, ENABLED, hs]
  · cases hp : e.cfg.HAS_BED_PROBE <;>
      simp [Leveling_activate, Leveling_manual, hU, hp, ENABLED, hs, hb]
  · cases hp : e.cfg.HAS_BED_PROBE <;> simp [Leveling_activate, hU, hp, ENABLED, hs]
  · cases hp : e.cfg.HAS_BED_PROBE <;> simp [Leveling_activate, hU, hp, ENABLED, hs]
  · cases hp : e.cfg.HAS_BED_PROBE <;> simp [Leveling_activate, hU, hp, ENABLED, hs]

theorem Leveling_activate_InvalidMesh (e : Env) (m : Machine) (s : State)
    (hB : e.cfg.AUTO_BED_LEVELING_BILINEAR = true) (hv : m.leveling_is_valid = false) :
    Leveling_activate e m (LEVELING_MANUAL e.cfg) s = Confirm_Handler .InvalidMesh s := by
  cases hp : e.cfg.HAS_BED_PROBE <;> cases hu : e.cfg.AUTO_BED_LEVELING_UBL <;>
    simp [Leveling_activate, Leveling_manual, hB, hv, hp, hu, ENABLED]

/-- C19 (amended): in the Leveling menu, activating Autotilt Current Mesh, Manual Tuning, Mesh
Viewer, Load Mesh or Save Mesh while no mesh slot is selected (`ubl.storage_slot < 0`, unified
bed leveling) opens the MeshSlot dialog in process `Popup`, and activating Manual Tuning while
no valid mesh exists (bilinear leveling) opens the InvalidMesh dialog in process `Confirm`; in
both cases no G-code is submitted, no firmware call is made and the firmware variables, the
leveling switch and the mesh editor's variables are unchanged. -/
theorem C19_leveling_guards (e : Env) (m : Machine) (s : State) (item : Nat)
    (hm : e.cfg.HAS_MESH = true) :
    (e.cfg.AUTO_BED_LEVELING_UBL = true → s.vars .storage_slot < 0 →
      ((e.cfg.HAS_BED_PROBE = true ∧ item = LEVELING_GET_TILT e.cfg) ∨
        (item = LEVELING_MANUAL e.cfg ∧
          ¬ (e.cfg.AUTO_BED_LEVELING_BILINEAR = true ∧ m.leveling_is_valid = false)) ∨
        item = LEVELING_VIEW e.cfg ∨ item = LEVELING_LOAD e.cfg ∨ item = LEVELING_SAVE e.cfg) →
      (Menu_Item_Handler e m .Leveling item false s).process = .Popup ∧
      (Menu_Item_Handler e m .Leveling item false s).popup = .MeshSlot ∧
      untouched s (Menu_Item_Handler e m .Leveling item false s)) ∧
    (e.cfg.AUTO_BED_LEVELING_BILINEAR = true → m.leveling_is_valid = false →
      (Menu_Item_Handler e m .Leveling (LEVELING_MANUAL e.cfg) false s).process = .Confirm ∧
      (Menu_Item_Handler e m .Leveling (LEVELING_MANUAL e.cfg) false s).popup = .InvalidMesh ∧
      untouched s (Menu_Item_Handler e m .Leveling (LEVELING_MANUAL e.cfg) false s)) := by
  constructor
  · intro hU hs hi
    simp only [Menu_Item_Handler, Bool.false_eq_true, if_false, hm, if_true]
    rw [Leveling_activate_MeshSlot e m s item hU hs hi]
    exact Popup_Handler_MeshSlot s
  · intro hB hv
    simp only [Menu_Item_Handler, Bool.false_eq_true, if_false, hm, if_true]
    rw [Leveling_activate_InvalidMesh e m s hB hv]
    exact Confirm_Handler_InvalidMesh s

set_option maxRecDepth 100000 in
theorem C19_leveling_guards_witness :
    (cfg2.HAS_MESH = true ∧ cfg2.AUTO_BED_LEVELING_UBL = true ∧
      at_leveling_load.vars .storage_slot < 0 ∧ 8 = LEVELING_LOAD cfg2 ∧
      (Menu_Item_Handler env2 m0 .Leveling 8 false at_leveling_load).process = .Popup ∧
      (Menu_Item_Handler env2 m0 .Leveling 8 false at_leveling_load).popup = .MeshSlot ∧
      untouched at_leveling_load (Menu_Item_Handler env2 m0 .Leveling 8 false at_leveling_load)) ∧
    (cfg3.HAS_MESH = true ∧ cfg3.AUTO_BED_LEVELING_BILINEAR = true ∧
      m0.leveling_is_valid = false ∧
      (Menu_Item_Handler env3 m0 .Leveling (LEVELING_MANUAL cfg3) false
        at_leveling_manual).process = .Confirm ∧
      (Menu_Item_Handler env3 m0 .Leveling (LEVELING_MANUAL cfg3) false
        at_leveling_manual).popup = .InvalidMesh ∧
      untouched at_leveling_manual
        (Menu_Item_Handler env3 m0 .Leveling (LEVELING_MANUAL cfg3) false at_leveling_manual)) :=
  ⟨⟨rfl, rfl, by decide!, by decide,
    (C19_leveling_guards env2 m0 at_leveling_load 8 rfl).1 rfl (by decide!)
      (Or.inr (Or.inr (Or.inr (Or.inl (by decide)))))⟩,
   ⟨rfl, rfl, rfl, (C19_leveling_guards env3 m0 at_leveling_manual 3 rfl).2 rfl rfl⟩⟩

set_option maxRecDepth 100000 in
/-- C19 as stated fails: with unified bed leveling and no mesh slot selected, activating Load
Mesh leaves the UI in process `Popup` (the MeshSlot dialog), not in `Confirm`. -/
theorem C19_counterexample :
    cfg2.HAS_MESH = true ∧ cfg2.AUTO_BED_LEVELING_UBL = true ∧
    at_leveling_load.process = .Menu ∧ at_leveling_load.active_menu = .Leveling ∧
    at_leveling_load.selection = LEVELING_LOAD cfg2 ∧
    at_leveling_load.vars .storage_slot < 0 ∧
    (Menu_Control env2 m0 .ENCODER_DIFF_ENTER at_leveling_load).process = .Popup ∧
    (Menu_Control env2 m0 .ENCODER_DIFF_ENTER at_leveling_load).process ≠ .Confirm := by
  decide!

/-! ## Steady signals -/

theorem job_eq {a b : State} (h : a.job = b.job) :
    a.printing = b.printing ∧ a.paused = b.paused ∧ a.ranout = b.ranout ∧
    a.wait_for_user = b.wait_for_user ∧ a.pause_menu_response = b.pause_menu_response := by
  simpa [State.job] using h

theorem Draw_Print_Filename_job (reset : Bool) (s : State) :
    (Draw_Print_Filename reset s).job = s.job := by
  unfold Draw_Print_Filename
  cases reset <;> simp only [State.job] <;> split_ifs <;> rfl

theorem Update_Status_job (c : Config) (text : String) (s : State) :
    (Update_Status c text s).job = s.job := by
  unfold Update_Status
  split
  · rw [Draw_Print_Filename_job]; simp only [State.job]
  · simp only [State.job]

theorem Set_Mesh_Viewer_Status_job (e : Env) (m : Machine) (s : State) :
    (Set_Mesh_Viewer_Status e m s).job = s.job := by
  have h := Update_Status_job e.cfg
    ("Red " ++ m.mesh_status_lo ++ "..0.." ++ m.mesh_status_hi ++ " Green") s
  simp only [State.job] at h ⊢
  simpa only [Set_Mesh_Viewer_Status] using h

theorem Item_draw_job (e : Env) (m : Machine) (menu : Menu) (item : Nat) (s : State) :
    (Item_draw e m menu item s).job = s.job := by
  unfold Item_draw
  cases menu <;> simp only []
  · split
    · simp only [State.job, State.store, State.call]
    · simp only
  · split
    · rw [Set_Mesh_Viewer_Status_job]; simp only [State.job, Draw_Bed_Mesh]
    · simp only
  · split
    · simp only [State.job, State.store, State.call]
    · simp only

theorem draw_rows_job (e : Env) (m : Machine) (menu : Menu) (g : Nat → Nat) (l : List Nat)
    (s : State) : (l.foldl (fun t i => Item_draw e m menu (g i) t) s).job = s.job := by
  induction l generalizing s with
  | nil => rfl
  | cons i l ih => rw [List.foldl_cons, ih, Item_draw_job]

theorem Draw_Menu_job (e : Env) (m : Machine) (menu : Menu) (select scroll : Nat) (s : State) :
    (Draw_Menu e m menu select scroll s).job = s.job := by
  unfold Draw_Menu
  simp only []
  rw [draw_rows_job e m menu (fun i => (i + _) % 256)]
  split_ifs <;> rfl

theorem Draw_Print_Screen_job (s : State) : (Draw_Print_Screen s).job = s.job := by
  unfold Draw_Print_Screen
  rw [Draw_Print_Filename_job]
  rfl

theorem Redraw_Menu_job (e : Env) (m : Machine) (lp ls lm : Bool) (s : State) :
    (Redraw_Menu e m lp ls lm s).job = s.job := by
  unfold Redraw_Menu
  split
  · exact Draw_Menu_job e m _ _ _ s
  · rfl
  · exact Draw_Print_Screen_job s
  · rfl
  · rfl

theorem Draw_Popup_job (mode : Process) (s : State) : (Draw_Popup mode s).job = s.job := by
  simp only [Draw_Popup, State.job]
  split_ifs <;> rfl

theorem Popup_Handler_job (p : PopupID) (s : State) : (Popup_Handler p s).job = s.job := by
  unfold Popup_Handler
  simp only []
  split
  · rw [Draw_Popup_job]; rfl
  · rfl

theorem Confirm_Handler_job (p : PopupID) (s : State) : (Confirm_Handler p s).job = s.job := by
  unfold Confirm_Handler
  simp only []
  split <;> first | (rw [Draw_Popup_job]; rfl) | rfl
theorem Start_Print_job (m : Machine) (sd : Bool) (s : State) (h : s.printing = false) :
    (Start_Print m sd s).job =
      (true, s.paused, s.ranout, s.wait_for_user, s.pause_menu_response) := by
  simp only [Start_Print, h, Bool.not_false, if_true]
  rw [Draw_Print_Screen_job]
  cases sd <;> simp only [State.job, Bool.false_eq_true, if_false, if_true]
  split_ifs <;> simp [State.call]

theorem Stop_Print_job (e : Env) (s : State) :
    (Stop_Print e s).job =
      (false, s.paused, s.ranout, s.wait_for_user, s.pause_menu_response) := by
  have h := Draw_Print_Screen_job
    { cooldown { s with printing := false, sdprint := false } with
        progress := 100 * e.cfg.PROGRESS_SCALE, remaining_time := 0 }
  simp only [State.job, Prod.mk.injEq] at h ⊢
  obtain ⟨h1, h2, h3, h4, h5⟩ := h
  unfold Stop_Print Draw_Print_confirm
  simp only []
  refine ⟨?_, ?_, ?_, ?_, ?_⟩
  · rw [h1]; simp [cooldown, disable_all_heaters, zero_fan_speeds, State.store, State.call]
  · rw [h2]; simp [cooldown, disable_all_heaters, zero_fan_speeds, State.store, State.call]
  · rw [h3]; simp [cooldown, disable_all_heaters, zero_fan_speeds, State.store, State.call]
  · rw [h4]; simp [cooldown, disable_all_heaters, zero_fan_speeds, State.store, State.call]
  · rw [h5]; simp [cooldown, disable_all_heaters, zero_fan_speeds, State.store, State.call]

theorem State_Update_job_job (e : Env) (m : Machine) (s : State) :
    (State_Update_job e m s).job =
      (m.timer_running || m.timer_paused, s.paused, s.ranout, s.wait_for_user,
        s.pause_menu_response) := by
  unfold State_Update_job
  by_cases h : ((m.timer_running || m.timer_paused) != s.printing) = true
  · rw [if_pos h]
    cases hp : s.printing
    · rw [if_pos (by simp), Start_Print_job m _ s hp]
      simp only [hp, bne_iff_ne, ne_eq, Bool.not_eq_false] at h
      rw [h]
    · rw [if_neg (by simp), Stop_Print_job]
      simp only [hp, bne_iff_ne, ne_eq, Bool.not_eq_true] at h
      rw [h]
  · rw [if_neg h]
    simp only [bne_iff_ne, ne_eq, not_not] at h
    simp only [State.job, h]

theorem State_Update_paused_job (e : Env) (m : Machine) (s : State) :
    (State_Update_paused e m s).job =
      (s.printing, m.timer_paused, s.ranout, s.wait_for_user, s.pause_menu_response) := by
  unfold State_Update_paused
  by_cases h : (m.timer_paused != s.paused) = true
  · rw [if_pos h]
    simp only []
    split
    · rw [Redraw_Menu_job]; rfl
    · rfl
  · rw [if_neg h]
    simp only [bne_iff_ne, ne_eq, not_not] at h
    simp only [State.job, h]

theorem State_Update_user_job (m : Machine) (s : State) :
    (State_Update_user m s).job = s.job := by
  unfold State_Update_user
  split
  · exact Confirm_Handler_job _ s
  · rfl

theorem State_Update_user_process (m : Machine) (s : State) (hw : s.wait_for_user = true)
    (hp : m.timer_paused = false) : (State_Update_user m s).process = .Confirm := by
  unfold State_Update_user
  by_cases hc : s.process = .Confirm
  · simp [hc]
  · simp only [hw, hc, hp, not_false_eq_true, and_self, if_true, Confirm_Handler, Draw_Popup]
    split_ifs <;> rfl

theorem State_Update_purge_job (e : Env) (m : Machine) (s : State) :
    (State_Update_purge e m s).job = s.job := by
  unfold State_Update_purge
  split_ifs
  · exact Popup_Handler_job _ s
  · exact Popup_Handler_job _ s
  · exact Redraw_Menu_job e m _ _ _ s
  · rfl
  · rfl

theorem State_Update_runout_cases (e : Env) (m : Machine) (s : State) :
    State_Update_runout e m s = s ∨
    State_Update_runout e m s = { s with ranout := false } ∨
    (e.cfg.FILAMENT_RUNOUT_SENSOR = true ∧ m.filament_ran_out = true ∧ s.ranout = false ∧
      State_Update_runout e m s = Popup_Handler .Runout { s with ranout := true }) := by
  unfold State_Update_runout
  by_cases h : e.cfg.FILAMENT_RUNOUT_SENSOR = true ∧ (m.filament_ran_out != s.ranout) = true
  · rw [if_pos h]
    obtain ⟨h1, h2⟩ := h
    cases hr : m.filament_ran_out
    · right; left; simp
    · right; right
      rw [hr] at h2
      refine ⟨h1, rfl, by simpa using h2, by simp⟩
  · rw [if_neg h]; left; rfl

theorem State_Update_runout_job (e : Env) (m : Machine) (s : State) :
    (State_Update_runout e m s).job =
      (s.printing, s.paused,
        (if e.cfg.FILAMENT_RUNOUT_SENSOR = true then m.filament_ran_out else s.ranout),
        s.wait_for_user, s.pause_menu_response) := by
  unfold State_Update_runout
  by_cases h : e.cfg.FILAMENT_RUNOUT_SENSOR = true ∧ (m.filament_ran_out != s.ranout) = true
  · rw [if_pos h]
    simp only [h.1, if_true]
    split
    · rw [Popup_Handler_job]; rfl
    · rfl
  · rw [if_neg h]
    by_cases h1 : e.cfg.FILAMENT_RUNOUT_SENSOR = true
    · have h2 : m.filament_ran_out = s.ranout := by simpa [h1, bne_iff_ne] using h
      simp only [State.job, h1, if_true, h2]
    · simp [State.job, h1]

theorem Popup_Handler_popup (p : PopupID) (s : State) : (Popup_Handler p s).popup = p := by
  unfold Popup_Handler
  simp only [Draw_Popup]
  split <;> (try split_ifs) <;> rfl

theorem Popup_Handler_Runout_process (s : State) :
    (Popup_Handler .Runout s).process = .Wait := by
  simp only [Popup_Handler, Popup_Handler_mode, Draw_Popup]
  split_ifs <;> rfl

theorem job_fields {a : State} {t : Bool × Bool × Bool × Bool × PauseMenuResponse}
    (h : a.job = t) :
    a.printing = t.1 ∧ a.paused = t.2.1 ∧ a.ranout = t.2.2.1 ∧ a.wait_for_user = t.2.2.2.1 ∧
    a.pause_menu_response = t.2.2.2.2 := by
  subst h
  exact ⟨rfl, rfl, rfl, rfl, rfl⟩

theorem Redraw_Menu_process_Popup (e : Env) (m : Machine) (ls lm : Bool) (x : State)
    (h : (Redraw_Menu e m true ls lm x).process = .Popup) :
    x.last_process ≠ .Menu ∧ x.last_process ≠ .Main ∧ x.last_process ≠ .Print ∧
    x.last_process ≠ .File := by
  unfold Redraw_Menu at h
  simp only [if_true] at h
  refine ⟨?_, ?_, ?_, ?_⟩ <;> intro hl <;> simp only [hl] at h
  · rw [(Draw_Menu_fields e m _ _ _ _).2.2.2.1] at h
    cases h
  · simp [Draw_Main_Menu] at h
  · rw [(Draw_Print_Screen_fields _).1] at h
    cases h
  · simp [Draw_SD_List] at h

theorem Redraw_Menu_no_screen (e : Env) (m : Machine) (ls lm : Bool) (y : State)
    (h : y.last_process ≠ .Menu ∧ y.last_process ≠ .Main ∧ y.last_process ≠ .Print ∧
      y.last_process ≠ .File) : Redraw_Menu e m true ls lm y = y := by
  unfold Redraw_Menu
  simp only [if_true]
  obtain ⟨h1, h2, h3, h4⟩ := h
  cases hl : y.last_process <;> simp only [hl] at h1 h2 h3 h4 ⊢ <;> contradiction

theorem State_Update_purge_idle_of (e : Env) (m : Machine) (x : State)
    (h : ¬ (x.process = .Popup ∧ x.popup = .PurgeMore)) : State_Update_purge e m x = x := by
  unfold State_Update_purge
  rw [if_neg (fun hc => h hc.2)]

/-- When the purge step leaves the PurgeMore popup on screen, it has changed nothing, and it
changes no state that agrees with this one in the variables the step reads. -/
theorem State_Update_purge_stable (e : Env) (m : Machine) (x : State)
    (hc : (State_Update_purge e m x).process = .Popup ∧
      (State_Update_purge e m x).popup = .PurgeMore) :
    State_Update_purge e m x = x ∧
    ∀ y : State, y.pause_menu_response = x.pause_menu_response → y.printing = x.printing →
      y.last_process = x.last_process → State_Update_purge e m y = y := by
  by_cases h : e.cfg.ADVANCED_PAUSE_FEATURE = true ∧ x.process = .Popup ∧ x.popup = .PurgeMore
  · have key : x.pause_menu_response ≠ .PAUSE_RESPONSE_EXTRUDE_MORE ∧
        (x.pause_menu_response = .PAUSE_RESPONSE_RESUME_PRINT →
          x.printing = false ∧ x.last_process ≠ .Menu ∧ x.last_process ≠ .Main ∧
            x.last_process ≠ .Print ∧ x.last_process ≠ .File) := by
      unfold State_Update_purge at hc
      rw [if_pos h] at hc
      constructor
      · intro h1
        rw [if_pos h1, Popup_Handler_popup] at hc
        exact absurd hc.2 (by decide)
      · intro h2
        have h1 : x.pause_menu_response ≠ .PAUSE_RESPONSE_EXTRUDE_MORE := by rw [h2]; decide
        rw [if_neg h1, if_pos h2] at hc
        cases h3 : x.printing
        · simp only [h3, Bool.false_eq_true, if_false] at hc
          exact ⟨rfl, Redraw_Menu_process_Popup e m _ _ x hc.1⟩
        · simp only [h3, if_true, Popup_Handler_popup] at hc
          exact absurd hc.2 (by decide)
    have stable : ∀ y : State, y.pause_menu_response = x.pause_menu_response →
        y.printing = x.printing → y.last_process = x.last_process →
        State_Update_purge e m y = y := by
      intro y e1 e2 e3
      unfold State_Update_purge
      split_ifs with c1 c2 c3 c4
      · exact absurd (e1 ▸ c2) key.1
      · rw [e1] at c3; rw [e2, (key.2 c3).1] at c4; cases c4
      · rw [e1] at c3
        exact Redraw_Menu_no_screen e m _ _ y (by rw [e3]; exact (key.2 c3).2)
      · rfl
      · rfl
    exact ⟨stable x rfl rfl rfl, stable⟩
  · have hx : State_Update_purge e m x = x := by
      unfold State_Update_purge; rw [if_neg h]
    rw [hx] at hc
    cases he : e.cfg.ADVANCED_PAUSE_FEATURE
    · refine ⟨hx, fun y _ _ _ => ?_⟩
      unfold State_Update_purge
      rw [if_neg (by simp [he])]
    · exact absurd ⟨he, hc⟩ h

/-- A second `State_Update` with the same machine state changes nothing, unless the first one
opened the UserInput dialog and then the Runout popup over it. -/
theorem State_Update_idempotent (e : Env) (m : Machine) (s : State)
    (h : ¬ (e.cfg.FILAMENT_RUNOUT_SENSOR = true ∧ s.wait_for_user = true ∧
      m.timer_paused = false ∧ m.filament_ran_out = true ∧ s.ranout = false)) :
    State_Update e m (State_Update e m s) = State_Update e m s := by
  -- the stages of the first call
  obtain ⟨j1, j2, j3, j4, j5⟩ := job_fields (State_Update_job_job e m s)
  obtain ⟨p1, p2, p3, p4, p5⟩ :=
    job_fields (State_Update_paused_job e m (State_Update_job e m s))
  obtain ⟨u1, u2, u3, u4, u5⟩ :=
    job_eq (State_Update_user_job m (State_Update_paused e m (State_Update_job e m s)))
  obtain ⟨g1, g2, g3, g4, g5⟩ := job_eq (State_Update_purge_job e m
    (State_Update_user m (State_Update_paused e m (State_Update_job e m s))))
  obtain ⟨r1, r2, r3, r4, r5⟩ := job_fields (State_Update_runout_job e m (State_Update_purge e m
    (State_Update_user m (State_Update_paused e m (State_Update_job e m s)))))
  have hrun := State_Update_runout_cases e m (State_Update_purge e m
    (State_Update_user m (State_Update_paused e m (State_Update_job e m s))))
  have hup := State_Update_user_process m (State_Update_paused e m (State_Update_job e m s))
  simp only [] at j1 j2 j3 j4 j5 p1 p2 p3 p4 p5 r1 r2 r3 r4 r5
  have ht : State_Update e m s = State_Update_runout e m (State_Update_purge e m
    (State_Update_user m (State_Update_paused e m (State_Update_job e m s)))) := rfl
  rw [ht]
  generalize State_Update_user m (State_Update_paused e m (State_Update_job e m s)) = u at *
  have hst := State_Update_purge_stable e m u
  have hidle := State_Update_purge_idle_of e m u
  generalize State_Update_purge e m u = g at *
  generalize State_Update_runout e m g = t at *
  -- the second call
  have hJ : State_Update_job e m t = t := by
    unfold State_Update_job
    rw [if_neg]
    rw [r1, g1, u1, p1, j1]
    simp
  have hP : State_Update_paused e m t = t := by
    unfold State_Update_paused
    rw [if_neg]
    rw [r2, g2, u2, p2]
    simp
  have hU : State_Update_user m t = t := by
    unfold State_Update_user
    rw [if_neg]
    rintro ⟨hw, hnc, hnp⟩
    apply hnc
    have hws : s.wait_for_user = true := by rw [← j4, ← p4, ← u4, ← g4, ← r4]; exact hw
    have hup2 : u.process = .Confirm := hup (by rw [p4, j4]; exact hws) hnp
    have hgu : g = u := hidle (by rw [hup2]; simp)
    rcases hrun with h0 | h0 | ⟨f1, f2, f3, _⟩
    · rw [h0, hgu]; exact hup2
    · rw [h0, hgu]; exact hup2
    · exact absurd ⟨f1, hws, hnp, f2, by rw [← j3, ← p3, ← u3, ← g3]; exact f3⟩ h
  have hG : State_Update_purge e m t = t := by
    by_cases hc : t.process = .Popup ∧ t.popup = .PurgeMore
    · rcases hrun with h0 | h0 | ⟨_, _, _, h0⟩
      · rw [h0] at hc
        obtain ⟨hgu, hstab⟩ := hst hc
        exact hstab t (by rw [r5, g5]) (by rw [r1, g1]) (by rw [h0, hgu])
      · have hc2 : g.process = .Popup ∧ g.popup = .PurgeMore := by rw [h0] at hc; exact hc
        obtain ⟨hgu, hstab⟩ := hst hc2
        exact hstab t (by rw [r5, g5]) (by rw [r1, g1]) (by rw [h0, hgu])
      · rw [h0, Popup_Handler_popup] at hc
        exact absurd hc.2 (by decide)
    · unfold State_Update_purge
      rw [if_neg (fun hx => hc hx.2)]
  have hR : State_Update_runout e m t = t := by
    unfold State_Update_runout
    rw [if_neg]
    rintro ⟨f1, f2⟩
    rw [r3, if_pos f1] at f2
    simp at f2
  unfold State_Update
  rw [hJ, hP, hU, hG, hR]

/-- C17 (amended): a second `State_Update` call with the same external machine state leaves the
whole state, and so the navigation state, exactly as the first call left it, except when
`wait_for_user` is set with the timer not paused and the filament-runout flag has just risen:
the check of `wait_for_user` is level-triggered and gated by `process` only. -/
theorem C17_state_update_steady (e : Env) (m : Machine) (s : State)
    (h : ¬ (e.cfg.FILAMENT_RUNOUT_SENSOR = true ∧ s.wait_for_user = true ∧
      m.timer_paused = false ∧ m.filament_ran_out = true ∧ s.ranout = false)) :
    State_Update e m (State_Update e m s) = State_Update e m s :=
  State_Update_idempotent e m s h

theorem C17_state_update_steady_witness :
    ¬ (env0.cfg.FILAMENT_RUNOUT_SENSOR = true ∧ init.wait_for_user = true ∧
      m_runout.timer_paused = false ∧ m_runout.filament_ran_out = true ∧ init.ranout = false) ∧
    State_Update env0 m_runout (State_Update env0 m_runout init) =
      State_Update env0 m_runout init :=
  ⟨by decide, C17_state_update_steady env0 m_runout init (by decide)⟩

set_option maxRecDepth 100000 in
/-- C17 as stated fails: with `wait_for_user` set and the runout flag raised, the first
`State_Update` ends on the Runout wait screen and a second call with the same machine state
opens the UserInput dialog. -/
theorem C17_counterexample :
    (State_Update env0 m_runout at_main_waiting).process = .Wait ∧
    (State_Update env0 m_runout at_main_waiting).popup = .Runout ∧
    (State_Update env0 m_runout (State_Update env0 m_runout at_main_waiting)).process =
      .Confirm ∧
    (State_Update env0 m_runout (State_Update env0 m_runout at_main_waiting)).popup =
      .UserInput := by
  decide!

/-! ## Value commit -/

theorem edit_fields {a : State}
    {t : ValuePtr × Option Callback × Nat × ℚ × ℚ × Nat × ℚ × Bool × Bool} (h : a.edit = t) :
    a.valuepointer = t.1 ∧ a.funcpointer = t.2.1 ∧ a.valuetype = t.2.2.1 ∧
    a.valuemin = t.2.2.2.1 ∧ a.valuemax = t.2.2.2.2.1 ∧ a.valueunit = t.2.2.2.2.2.1 ∧
    a.tempvalue = t.2.2.2.2.2.2.1 ∧ a.liveadjust = t.2.2.2.2.2.2.2.1 ∧
    a.livemove = t.2.2.2.2.2.2.2.2 := by
  subst h
  exact ⟨rfl, rfl, rfl, rfl, rfl, rfl, rfl, rfl, rfl⟩

theorem Draw_Print_Filename_edit (reset : Bool) (s : State) :
    (Draw_Print_Filename reset s).edit = s.edit := by
  unfold Draw_Print_Filename
  cases reset <;> simp only [State.edit] <;> split_ifs <;> rfl

theorem Update_Status_edit (c : Config) (text : String) (s : State) :
    (Update_Status c text s).edit = s.edit := by
  unfold Update_Status
  split
  · rw [Draw_Print_Filename_edit]; simp only [State.edit]
  · simp only [State.edit]

theorem Set_Mesh_Viewer_Status_edit (e : Env) (m : Machine) (s : State) :
    (Set_Mesh_Viewer_Status e m s).edit = s.edit := by
  have h := Update_Status_edit e.cfg
    ("Red " ++ m.mesh_status_lo ++ "..0.." ++ m.mesh_status_hi ++ " Green") s
  simp only [State.edit] at h ⊢
  simpa only [Set_Mesh_Viewer_Status] using h

theorem Item_draw_edit (e : Env) (m : Machine) (menu : Menu) (item : Nat) (s : State) :
    (Item_draw e m menu item s).edit = s.edit := by
  unfold Item_draw
  cases menu <;> simp only []
  · split
    · simp only [State.edit, State.store, State.call]
    · simp only
  · split
    · rw [Set_Mesh_Viewer_Status_edit]; simp only [State.edit, Draw_Bed_Mesh]
    · simp only
  · split
    · simp only [State.edit, State.store, State.call]
    · simp only

theorem draw_rows_edit (e : Env) (m : Machine) (menu : Menu) (g : Nat → Nat) (l : List Nat)
    (s : State) : (l.foldl (fun t i => Item_draw e m menu (g i) t) s).edit = s.edit := by
  induction l generalizing s with
  | nil => rfl
  | cons i l ih => rw [List.foldl_cons, ih, Item_draw_edit]

theorem Draw_Menu_edit (e : Env) (m : Machine) (menu : Menu) (select scroll : Nat) (s : State) :
    (Draw_Menu e m menu select scroll s).edit = s.edit := by
  unfold Draw_Menu
  simp only []
  rw [draw_rows_edit e m menu (fun i => (i + _) % 256)]
  split_ifs <;> rfl

theorem Redraw_Menu_edit (e : Env) (m : Machine) (lp ls lm : Bool) (s : State) :
    (Redraw_Menu e m lp ls lm s).edit = s.edit := by
  unfold Redraw_Menu
  split
  · exact Draw_Menu_edit e m _ _ _ s
  · rfl
  · unfold Draw_Print_Screen
    rw [Draw_Print_Filename_edit]
    rfl
  · rfl
  · rfl

theorem Popup_Handler_edit (p : PopupID) (s : State) : (Popup_Handler p s).edit = s.edit := by
  unfold Popup_Handler
  simp only [Draw_Popup]
  split <;> (try split_ifs) <;> rfl

theorem Draw_Print_Filename_vars (reset : Bool) (s : State) :
    (Draw_Print_Filename reset s).vars = s.vars := by
  unfold Draw_Print_Filename
  cases reset <;> simp only [] <;> split_ifs <;> rfl

theorem Update_Status_vars (c : Config) (text : String) (s : State) :
    (Update_Status c text s).vars = s.vars := by
  unfold Update_Status
  split
  · rw [Draw_Print_Filename_vars]
  · simp only

theorem Set_Mesh_Viewer_Status_vars (e : Env) (m : Machine) (s : State) :
    (Set_Mesh_Viewer_Status e m s).vars = s.vars := by
  have h := Update_Status_vars e.cfg
    ("Red " ++ m.mesh_status_lo ++ "..0.." ++ m.mesh_status_hi ++ " Green") s
  simpa only [Set_Mesh_Viewer_Status] using h

/-- Rows of menus other than Move and ManualMesh leave the firmware variables alone. -/
theorem Item_draw_vars (e : Env) (m : Machine) (menu : Menu) (item : Nat) (s : State)
    (h : menu ≠ .Move ∧ menu ≠ .ManualMesh) : (Item_draw e m menu item s).vars = s.vars := by
  unfold Item_draw
  cases menu <;> simp only []
  · exact absurd rfl h.1
  · split
    · rw [Set_Mesh_Viewer_Status_vars]
      simp only [Draw_Bed_Mesh]
    · rfl
  · exact absurd rfl h.2

theorem draw_rows_vars (e : Env) (m : Machine) (menu : Menu) (g : Nat → Nat) (l : List Nat)
    (s : State) (h : menu ≠ .Move ∧ menu ≠ .ManualMesh) :
    (l.foldl (fun t i => Item_draw e m menu (g i) t) s).vars = s.vars := by
  induction l generalizing s with
  | nil => rfl
  | cons i l ih => rw [List.foldl_cons, ih, Item_draw_vars e m menu _ s h]

theorem Draw_Menu_vars (e : Env) (m : Machine) (menu : Menu) (select scroll : Nat) (s : State)
    (h : menu ≠ .Move ∧ menu ≠ .ManualMesh) :
    (Draw_Menu e m menu select scroll s).vars = s.vars := by
  unfold Draw_Menu
  simp only []
  rw [draw_rows_vars e m menu (fun i => (i + _) % 256) _ _ h]
  split_ifs <;> rfl

theorem Redraw_Menu_vars (e : Env) (m : Machine) (lp ls : Bool) (s : State)
    (h : s.active_menu ≠ .Move ∧ s.active_menu ≠ .ManualMesh) :
    (Redraw_Menu e m lp ls false s).vars = s.vars := by
  unfold Redraw_Menu
  split
  · exact Draw_Menu_vars e m _ _ _ s h
  · rfl
  · unfold Draw_Print_Screen
    rw [Draw_Print_Filename_vars]
  · rfl
  · rfl
theorem session_fields {a : State}
    {t : ValuePtr × Option Callback × Nat × ℚ × ℚ × Nat × Bool × Menu × Nat × Process}
    (h : a.session = t) :
    a.valuepointer = t.1 ∧ a.funcpointer = t.2.1 ∧ a.valuetype = t.2.2.1 ∧
    a.valuemin = t.2.2.2.1 ∧ a.valuemax = t.2.2.2.2.1 ∧ a.valueunit = t.2.2.2.2.2.1 ∧
    a.liveadjust = t.2.2.2.2.2.2.1 ∧ a.active_menu = t.2.2.2.2.2.2.2.1 ∧
    a.selection = t.2.2.2.2.2.2.2.2.1 ∧ a.process = t.2.2.2.2.2.2.2.2.2 := by
  subst h
  exact ⟨rfl, rfl, rfl, rfl, rfl, rfl, rfl, rfl, rfl, rfl⟩

theorem Value_Control_turn (e : Env) (m : Machine) (ev : ENCODER_DiffState) (step : ℚ)
    (s : State) (h : ev.isTurn) :
    (Value_Control e m ev step s).session = s.session ∧
    ∃ x, (Value_Control e m ev step s).tempvalue =
      clamped (s.valuemin * s.valueunit) (s.valuemax * s.valueunit) x := by
  rcases h with rfl | rfl
  · refine ⟨?_, s.tempvalue + step, ?_⟩
    · simp only [Value_Control, State.session]
      split_ifs <;> rfl
    · simp only [Value_Control, clamped]
      split_ifs <;> rfl
  · refine ⟨?_, s.tempvalue - step, ?_⟩
    · simp only [Value_Control, State.session]
      split_ifs <;> rfl
    · simp only [Value_Control, clamped]
      split_ifs <;> rfl

theorem Value_Control_prepare_fields (e : Env) (s : State) :
    (Value_Control_prepare e s).process = .Menu ∧
    (Value_Control_prepare e s).valuepointer = s.valuepointer ∧
    (Value_Control_prepare e s).funcpointer = s.funcpointer ∧
    (Value_Control_prepare e s).valuetype = s.valuetype ∧
    (Value_Control_prepare e s).valueunit = s.valueunit ∧
    (Value_Control_prepare e s).active_menu = s.active_menu ∧
    (Value_Control_prepare e s).selection = s.selection ∧
    (Value_Control_prepare e s).tempvalue = rescale e.cfg s.valuepointer s.tempvalue := by
  simp only [Value_Control_prepare, rescale]
  split_ifs <;> simp_all [State.store, State.call, State.gcode]

theorem commit_value_eq (s : State) (h : s.valuetype ≤ 5) :
    commit_value s =
      s.store s.valuepointer (convert_value s.valuetype (s.tempvalue / s.valueunit)) := by
  unfold commit_value convert_value
  generalize s.valuetype = n at h
  interval_cases n <;> rfl

theorem Popup_Handler_MoveWait_fields (s : State) (hp : s.process = .Menu) :
    (Popup_Handler .MoveWait s).last_process = .Menu ∧
    (Popup_Handler .MoveWait s).active_menu = s.active_menu ∧
    (Popup_Handler .MoveWait s).vars = s.vars ∧
    (Popup_Handler .MoveWait s).edit = s.edit := by
  simp [Popup_Handler, Popup_Handler_mode, Draw_Popup, hp, State.edit]

theorem manual_move_fields (e : Env) (m : Machine) (zmove : Bool) (s : State)
    (hp : s.process = .Menu) (hm : s.active_menu = .UBLMesh ∨ s.active_menu = .LevelManual) :
    (manual_move e m zmove s).process = .Menu ∧
    (manual_move e m zmove s).edit = s.edit ∧
    ∀ p, p ≠ .current_position_z → (manual_move e m zmove s).vars p = s.vars p := by
  cases zmove
  · obtain ⟨a1, a2, a3, a4⟩ := Popup_Handler_MoveWait_fields s hp
    simp only [manual_move, Bool.false_eq_true, if_false]
    have hl : ∀ t : State, t.last_process = .Menu →
        Redraw_Menu e m true false false t = Draw_Menu e m t.active_menu t.selection t.scrollpos t := by
      intro t ht
      simp only [Redraw_Menu, if_true, ht, Bool.false_eq_true, if_false]
    rw [hl _ (by simpa [State.store, State.call, State.gcode] using a1)]
    refine ⟨(Draw_Menu_fields e m _ _ _ _).2.2.2.1, ?_, ?_⟩
    · rw [Draw_Menu_edit]
      simpa [State.edit, State.store, State.call, State.gcode] using a4
    · intro p hpz
      rw [Draw_Menu_vars e m _ _ _ _ (by
        simp only [State.store, State.call, State.gcode, a2]
        rcases hm with h | h <;> rw [h] <;> exact ⟨by decide, by decide⟩)]
      simp [State.store, State.call, State.gcode, hpz, a3]
  · simp only [manual_move, if_true]
    refine ⟨?_, ?_, ?_⟩
    · simpa [State.store, State.call] using hp
    · simp [State.edit, State.store, State.call]
    · intro p hpz
      simp [State.store, State.call, hpz]
/-- The move `Value_Control` carries out after the store (lines 4683-4700) keeps the menu
process, the editor's variables and every firmware variable other than the Z position that
`manual_move` rewrites in the mesh menus. -/
theorem Value_Control_move_fields (e : Env) (m : Machine) (s5 : State) (hp : s5.process = .Menu)
    (p : ValuePtr)
    (hz : p = .current_position_z →
      s5.active_menu ≠ .UBLMesh ∧ s5.active_menu ≠ .LevelManual) :
    (Value_Control_move e m s5).process = .Menu ∧
    (Value_Control_move e m s5).vars p = s5.vars p ∧
    (Value_Control_move e m s5).funcpointer = s5.funcpointer ∧
    (Value_Control_move e m s5).valuepointer = s5.valuepointer := by
  have hmm : ∀ zmove : Bool, s5.active_menu = .UBLMesh ∨ s5.active_menu = .LevelManual →
      (manual_move e m zmove s5).process = .Menu ∧
      (manual_move e m zmove s5).vars p = s5.vars p ∧
      (manual_move e m zmove s5).funcpointer = s5.funcpointer ∧
      (manual_move e m zmove s5).valuepointer = s5.valuepointer := by
    intro zmove hm
    obtain ⟨a1, a2, a3⟩ := manual_move_fields e m zmove s5 hp hm
    obtain ⟨b1, b2, -⟩ := edit_fields a2
    refine ⟨a1, a3 p ?_, b2, b1⟩
    intro hpz
    rcases hm with h | h
    · exact (hz hpz).1 h
    · exact (hz hpz).2 h
  unfold Value_Control_move
  split
  · exact ⟨hp, rfl, rfl, rfl⟩
  · split
    · exact ⟨hp, rfl, rfl, rfl⟩
    · exact ⟨hp, rfl, rfl, rfl⟩
  · split
    · exact hmm _ (Or.inl (by assumption))
    · exact ⟨hp, rfl, rfl, rfl⟩
  · split
    · exact hmm _ (Or.inr (by assumption))
    · exact ⟨hp, rfl, rfl, rfl⟩
  · exact ⟨hp, rfl, rfl, rfl⟩

theorem Value_Control_finish_eq (e : Env) (m : Machine) (s5 : State) (hp : s5.process = .Menu)
    (p : ValuePtr)
    (hz : p = .current_position_z →
      s5.active_menu ≠ .UBLMesh ∧ s5.active_menu ≠ .LevelManual) :
    ∃ s7 : State, s7.process = .Menu ∧ s7.vars p = s5.vars p ∧
      Value_Control_finish e m s5 =
        (match s5.funcpointer with
          | some f => s7.call f.name
          | none => s7) := by
  obtain ⟨c1, c2, c3, c4⟩ := Value_Control_move_fields e m s5 hp p hz
  unfold Value_Control_finish
  simp only []
  generalize Value_Control_move e m s5 = s6 at *
  by_cases hf : s6.valuepointer = .flow_percentage0
  · refine ⟨s6.call "planner.refresh_e_factor", c1, c2, ?_⟩
    rw [if_pos hf]
    show (match s6.funcpointer with
      | some f => _
      | none => _) = _
    rw [c3]
  · refine ⟨s6, c1, c2, ?_⟩
    rw [if_neg hf, c3]
/-- Claim C22, as the code has it: for every dialog kind `mode`, `Draw_Popup` sets
`process = mode`; entered from a process that is not Popup, Confirm or Wait it stores the
current process in `last_process`, entered from one of these it leaves `last_process` unchanged;
it stores the current selection in `last_selection` only when the kind is Popup and the current
process is Menu or Wait, and otherwise leaves `last_selection` unchanged; it never writes
`last_menu`. -/
theorem C22_popup_snapshot (mode : Process) (s : State) :
    (Draw_Popup mode s).process = mode ∧
    (Draw_Popup mode s).last_process =
      (if s.process = .Confirm ∨ s.process = .Popup ∨ s.process = .Wait then s.last_process
       else s.process) ∧
    (Draw_Popup mode s).last_selection =
      (if (s.process = .Menu ∨ s.process = .Wait) ∧ mode = .Popup then s.selection
       else s.last_selection) ∧
    (Draw_Popup mode s).last_menu = s.last_menu ∧
    (Draw_Popup mode s).active_menu = s.active_menu := by
  cases hp : s.process <;> cases mode <;> simp [Draw_Popup, hp]

/-- Counterexample to C22 as stated: at row 4 of the Move menu (process Menu, history
`last_menu = Prepare`, `last_selection = 1`) a Confirm-kind or Wait-kind dialog leaves
`last_selection` at 1, not 4, and every kind of dialog leaves `last_menu` at Prepare, not
Move. -/
theorem C22_counterexample :
    at_move_extruder.process = .Menu ∧ at_move_extruder.active_menu = .Move ∧
    at_move_extruder.selection = 4 ∧
    (Draw_Popup .Confirm at_move_extruder).last_selection = 1 ∧
    (Draw_Popup .Wait at_move_extruder).last_selection = 1 ∧
    (Draw_Popup .Popup at_move_extruder).last_menu = .Prepare ∧
    (Draw_Popup .Confirm at_move_extruder).last_menu = .Prepare ∧
    (Draw_Popup .Wait at_move_extruder).last_menu = .Prepare := by
  decide

/-- Claim C23, as the code has it: after `Draw_Menu(menu, select, scroll)` the cursor satisfies
`selection <= Get_Menu_Size(menu)` and `selection <= scrollpos + MROWS` for every input, and
`scrollpos <= selection` holds exactly when `scroll <= min(select, Get_Menu_Size(menu))`: a
requested scroll position beyond the clamped selection is kept. -/
theorem C23_draw_menu_bounds (e : Env) (m : Machine) (menu : Menu) (select scroll : Nat)
    (s : State) :
    (Draw_Menu e m menu select scroll s).selection ≤ Get_Menu_Size e.cfg menu ∧
    (Draw_Menu e m menu select scroll s).selection ≤
      (Draw_Menu e m menu select scroll s).scrollpos + MROWS ∧
    ((Draw_Menu e m menu select scroll s).scrollpos ≤ (Draw_Menu e m menu select scroll s).selection
      ↔ scroll ≤ min select (Get_Menu_Size e.cfg menu)) := by
  obtain ⟨-, a2, a3, -⟩ := Draw_Menu_fields e m menu select scroll s
  have hs := Get_Menu_Size_le e.cfg menu
  rw [a2, a3, MROWS_eq]
  refine ⟨Nat.min_le_right _ _, ?_, ?_⟩ <;> split_ifs <;> omega

set_option maxRecDepth 100000 in
/-- C23 (code defect), the code at the failing input: `Draw_Menu(Prepare, 0, 3)` leaves
`selection = 0` above the window that starts at `scrollpos = 3`.  The call is reached from the
initial state: with the cursor on row 8 of Prepare (`scrollpos = 3`) the UserInput dialog is
opened and acknowledged, and `Confirm_Control` redraws the menu at the stale
`last_selection = 0` with the current `scrollpos`. -/
theorem C23_counterexample :
    (Draw_Menu env0 m0 .Prepare 0 3 init).selection = 0 ∧
    (Draw_Menu env0 m0 .Prepare 0 3 init).scrollpos = 3 ∧
    at_prepare_scrolled.process = .Menu ∧ at_prepare_scrolled.active_menu = .Prepare ∧
    at_prepare_scrolled.selection = 8 ∧ at_prepare_scrolled.scrollpos = 3 ∧
    after_scrolled_acknowledge.process = .Menu ∧
    after_scrolled_acknowledge.active_menu = .Prepare ∧
    after_scrolled_acknowledge.selection = 0 ∧ after_scrolled_acknowledge.scrollpos = 3 ∧
    ¬ after_scrolled_acknowledge.scrollpos ≤ after_scrolled_acknowledge.selection := by
  decide!

/-- Claim C24: built with a mesh (`HAS_MESH`), when process is Popup and the popup is SaveLevel,
ENTER handled by `Popup_Control` results, for either selection and whatever the history holds,
in process Menu, menu Leveling, `selection = LEVELING_GET_MESH` and `scrollpos = 0`. -/
theorem C24_save_level_destination (e : Env) (m : Machine) (s : State)
    (hmesh : e.cfg.HAS_MESH = true) (_hproc : s.process = .Popup) (hpop : s.popup = .SaveLevel) :
    (Popup_Control e m .ENCODER_DIFF_ENTER s).process = .Menu ∧
    (Popup_Control e m .ENCODER_DIFF_ENTER s).active_menu = .Leveling ∧
    (Popup_Control e m .ENCODER_DIFF_ENTER s).selection = LEVELING_GET_MESH e.cfg ∧
    (Popup_Control e m .ENCODER_DIFF_ENTER s).scrollpos = 0 := by
  have hr : ∃ t, Popup_Control e m .ENCODER_DIFF_ENTER s =
      Draw_Menu e m .Leveling (LEVELING_GET_MESH e.cfg) 0 t := by
    simp only [Popup_Control, hpop, hmesh, if_true]
    exact ⟨_, rfl⟩
  obtain ⟨t, ht⟩ := hr
  obtain ⟨b1, b2, b3, b4, -⟩ := Draw_Menu_fields e m .Leveling (LEVELING_GET_MESH e.cfg) 0 t
  have h1 := ENABLED_le (e.cfg.HAS_BED_PROBE && e.cfg.AUTO_BED_LEVELING_UBL)
  have hmin : min (LEVELING_GET_MESH e.cfg) (Get_Menu_Size e.cfg .Leveling) =
      LEVELING_GET_MESH e.cfg := by
    apply Nat.min_eq_left
    simp only [Get_Menu_Size, hmesh, if_true, LEVELING_TOTAL, LEVELING_SAVE, LEVELING_LOAD,
      LEVELING_SLOT, LEVELING_SETTINGS, LEVELING_VIEW, LEVELING_MANUAL, LEVELING_GET_MESH]
    omega
  rw [ht, b1, b2, b3, b4, hmin]
  refine ⟨rfl, rfl, rfl, ?_⟩
  rw [if_neg]
  simp only [LEVELING_GET_MESH, LEVELING_GET_TILT, LEVELING_ACTIVE, LEVELING_BACK, MROWS_eq]
  omega

set_option maxRecDepth 100000 in
/-- Witness of C24: Cancel chosen in the "Save mesh?" popup over row 3 of the Leveling menu of
`cfg3`; the menu comes back at row 2, "Create New Mesh". -/
theorem C24_save_level_destination_witness :
    env3.cfg.HAS_MESH = true ∧ at_save_level_cancel.process = .Popup ∧
    at_save_level_cancel.popup = .SaveLevel ∧ at_save_level_cancel.selection = 1 ∧
    (Popup_Control env3 m0 .ENCODER_DIFF_ENTER at_save_level_cancel).active_menu = .Leveling ∧
    (Popup_Control env3 m0 .ENCODER_DIFF_ENTER at_save_level_cancel).selection = 2 :=
  ⟨by decide, by decide, by decide, by decide,
   (C24_save_level_destination env3 m0 at_save_level_cancel (by decide) (by decide)
      (by decide)).2.1,
   (C24_save_level_destination env3 m0 at_save_level_cancel (by decide) (by decide)
      (by decide)).2.2.1⟩

/-! ## Resumption through the preheat menu -/

/-- The history after `Popup_Handler` opened a dialog of kind `mode`. -/
theorem Popup_Handler_history (p : PopupID) (mode : Process) (s : State)
    (hm : Popup_Handler_mode p = some mode) :
    (Popup_Handler p s).process = mode ∧
    (Popup_Handler p s).last_process =
      (if s.process = .Confirm ∨ s.process = .Popup ∨ s.process = .Wait then s.last_process
       else s.process) ∧
    (Popup_Handler p s).last_selection =
      (if (s.process = .Menu ∨ s.process = .Wait) ∧ mode = .Popup then s.selection
       else s.last_selection) ∧
    (Popup_Handler p s).last_menu = s.last_menu ∧
    (Popup_Handler p s).active_menu = s.active_menu := by
  have hph : Popup_Handler p s = Draw_Popup mode { s with popup := p, last_popup := p } := by
    simp only [Popup_Handler, hm]
  rw [hph]
  cases hp : s.process <;> cases mode <;> simp [Draw_Popup, hp]

/-- An encoder turn handled by `Menu_Control` keeps the menu, the process and the history. -/
theorem Menu_Control_turn_history (e : Env) (m : Machine) (ev : ENCODER_DiffState) (s : State)
    (hev : ev.isTurn) :
    (Menu_Control e m ev s).active_menu = s.active_menu ∧
    (Menu_Control e m ev s).last_menu = s.last_menu ∧
    (Menu_Control e m ev s).last_selection = s.last_selection ∧
    (Menu_Control e m ev s).process = s.process ∧
    (Menu_Control e m ev s).last_process = s.last_process := by
  rcases hev with rfl | rfl
  · by_cases c1 : s.selection < Get_Menu_Size e.cfg s.active_menu
    · by_cases c2 : (s.selection + 1) % 256 > s.scrollpos + MROWS
      · simp only [Menu_Control, c1, c2, if_true]
        have h := fun st : State => nav_eq (Menu_Item_Handler_draw_nav e m s.active_menu ((s.selection + 1) % 256) st)
        exact ⟨(h _).1, (h _).2.1, (h _).2.2.2.1, (h _).2.2.2.2.2.1, (h _).2.2.2.2.2.2.1⟩
      · simp only [Menu_Control, c1, c2, if_true, if_false, and_self]
    · simp only [Menu_Control, c1, if_false, and_self]
  · by_cases c1 : s.selection > 0
    · by_cases c2 : (s.selection + 255) % 256 < s.scrollpos
      · simp only [Menu_Control, c1, c2, if_true]
        have h := fun st : State => nav_eq (Menu_Item_Handler_draw_nav e m s.active_menu ((s.selection + 255) % 256) st)
        exact ⟨(h _).1, (h _).2.1, (h _).2.2.2.1, (h _).2.2.2.2.2.1, (h _).2.2.2.2.2.2.1⟩
      · simp only [Menu_Control, c1, c2, if_true, if_false, and_self]
    · simp only [Menu_Control, c1, if_false, and_self]

/-- Encoder turns handled by `Menu_Control` keep the menu, the process and the history. -/
theorem Menu_Control_run_history (e : Env) (m : Machine) (evs : List ENCODER_DiffState)
    (s : State) (hev : ∀ ev ∈ evs, ev.isTurn) :
    (Menu_Control_run e m evs s).active_menu = s.active_menu ∧
    (Menu_Control_run e m evs s).last_menu = s.last_menu ∧
    (Menu_Control_run e m evs s).last_selection = s.last_selection ∧
    (Menu_Control_run e m evs s).process = s.process ∧
    (Menu_Control_run e m evs s).last_process = s.last_process := by
  induction evs generalizing s with
  | nil => exact ⟨rfl, rfl, rfl, rfl, rfl⟩
  | cons ev evs ih =>
    obtain ⟨a1, a2, a3, a4, a5⟩ :=
      Menu_Control_turn_history e m ev s (hev ev (List.mem_cons_self ev evs))
    have ih2 := ih (Menu_Control e m ev s) (fun x hx => hev x (List.mem_cons_of_mem ev hx))
    simp only [Menu_Control_run, List.foldl_cons] at ih2 ⊢
    rw [a1, a2, a3, a4, a5] at ih2
    exact ih2

/-- Firmware calls, G-code submissions and stores leave the navigation variables alone. -/
theorem call_nav (s : State) (n : String) : (s.call n).nav = s.nav := by
  simp only [State.call, State.nav]

theorem gcode_nav (s : State) (fmt : String) (args : List ℚ) : (s.gcode fmt args).nav = s.nav := by
  simp only [State.gcode, State.nav]

theorem store_nav (s : State) (p : ValuePtr) (v : ℚ) : (s.store p v).nav = s.nav := by
  simp only [State.store, State.nav]

theorem setTargetHotend_nav (t : ℚ) (s : State) : (setTargetHotend t s).nav = s.nav := by
  simp only [setTargetHotend, store_nav, call_nav]

theorem set_fan_speed_nav (v : ℚ) (s : State) : (set_fan_speed v s).nav = s.nav := by
  simp only [set_fan_speed, store_nav, call_nav]

/-- The call `Redraw_Menu(false, lastselection, lastmenu)` while process is Menu. -/
theorem Redraw_Menu_now_Menu (e : Env) (m : Machine) (ls lm : Bool) (t : State)
    (h : t.process = .Menu) :
    Redraw_Menu e m false ls lm t =
      Draw_Menu e m (if lm then t.last_menu else t.active_menu)
        (if ls then t.last_selection else t.selection) (if lm then 0 else t.scrollpos) t := by
  simp only [Redraw_Menu, h, Bool.false_eq_true, if_false]

/-- An extrusion row is a row of its menu. -/
theorem extrusion_row_le (c : Config) (X : Menu) (S : Nat) (h : extrusion_row c X S) :
    S ≤ Get_Menu_Size c X := by
  have h1 := ENABLED_le c.HAS_HOTEND
  rcases h with ⟨hf, rfl, rfl | rfl⟩ | ⟨hh, rfl, rfl⟩
  · simp [Get_Menu_Size, hf]
  · simp [Get_Menu_Size, hf]
  · simp only [Get_Menu_Size, MOVE_TOTAL, MOVE_LIVE, MOVE_P, MOVE_E]
    omega

/-- From the PreheatHotend menu whose history names an extrusion row `S` of menu `X`, both
Cancel (row 0) and Continue (row 1) end in process Menu at row `S` of `X`. -/
theorem PreheatHotend_resume (e : Env) (m : Machine) (X : Menu) (S item : Nat) (t : State)
    (hrow : extrusion_row e.cfg X S)
    (hp : t.process = .Menu) (hlm : t.last_menu = X) (hls : t.last_selection = S)
    (hitem : item = PREHEATHOTEND_BACK e.cfg ∨ item = PREHEATHOTEND_CONTINUE e.cfg) :
    (PreheatHotend_activate e m item t).process = .Menu ∧
    (PreheatHotend_activate e m item t).active_menu = X ∧
    (PreheatHotend_activate e m item t).selection = S := by
  have hle := extrusion_row_le e.cfg X S hrow
  rcases hitem with rfl | rfl
  · have hr : PreheatHotend_activate e m (PREHEATHOTEND_BACK e.cfg) t =
        Redraw_Menu e m false true true (set_fan_speed 0 (setTargetHotend 0 t)) := by
      simp only [PreheatHotend_activate, if_true]
    obtain ⟨-, w2, -, w4, -, w6, -⟩ :=
      nav_eq ((set_fan_speed_nav 0 (setTargetHotend 0 t)).trans (setTargetHotend_nav 0 t))
    generalize set_fan_speed 0 (setTargetHotend 0 t) = w at hr w2 w4 w6
    rw [hr, Redraw_Menu_now_Menu e m true true w (w6.trans hp)]
    obtain ⟨b1, b2, -, b4, -⟩ := Draw_Menu_fields e m
      (if true = true then w.last_menu else w.active_menu)
      (if true = true then w.last_selection else w.selection)
      (if true = true then 0 else w.scrollpos) w
    simp only [if_true, w2, w4, hlm, hls] at b1 b2 b4 ⊢
    exact ⟨b4, b1, by rw [b2]; exact Nat.min_eq_left hle⟩
  · have hr : PreheatHotend_activate e m (PREHEATHOTEND_CONTINUE e.cfg) t =
        PreheatHotend_continue e m t := by
      simp [PreheatHotend_activate]
    obtain ⟨a1, a2, a3, a4, -⟩ := Popup_Handler_history .Heating .Wait t rfl
    simp only [hp, reduceCtorEq, or_self, if_false, and_false, hlm, hls] at a2 a3 a4
    obtain ⟨u, hu⟩ : ∃ u, u = (Popup_Handler .Heating t).call "thermalManager.wait_for_hotend" :=
      ⟨_, rfl⟩
    obtain ⟨-, n2, -, n4, -, n6, n7, -⟩ :=
      nav_eq (call_nav (Popup_Handler .Heating t) "thermalManager.wait_for_hotend")
    rw [← hu] at n2 n4 n6 n7
    have k1 : u.last_menu = X := n2.trans a4
    have k2 : u.last_selection = S := n4.trans a3
    have k3 : u.last_process = .Menu := n7.trans a2
    have k4 : u.process = .Wait := n6.trans a1
    have key : ∀ v : State, v.last_process = .Menu → v.last_menu = X → v.last_selection = S →
        (Redraw_Menu e m true true true v).process = .Menu ∧
        (Redraw_Menu e m true true true v).active_menu = X ∧
        (Redraw_Menu e m true true true v).selection = S := by
      intro v v1 v2 v3
      obtain ⟨b1, b2, b3, -⟩ := Redraw_Menu_last_Menu e m true true v v1
      simp only [if_true, v2, v3] at b2 b3
      exact ⟨b1, b2, by rw [b3]; exact Nat.min_eq_left hle⟩
    have fil : ∀ (g : String),
        (((Popup_Handler .FilLoad u).gcode g []).call "planner.synchronize").last_process = .Menu ∧
        (((Popup_Handler .FilLoad u).gcode g []).call "planner.synchronize").last_menu = X ∧
        (((Popup_Handler .FilLoad u).gcode g []).call "planner.synchronize").last_selection = S := by
      intro g
      obtain ⟨-, c2, c3, c4, -⟩ := Popup_Handler_history .FilLoad .Wait u rfl
      simp only [k4, reduceCtorEq, or_true, if_true, and_false, if_false, k1, k2, k3] at c2 c3 c4
      obtain ⟨-, d2, -, d4, -, -, d7, -⟩ :=
        nav_eq ((call_nav ((Popup_Handler .FilLoad u).gcode g []) "planner.synchronize").trans
          (gcode_nav (Popup_Handler .FilLoad u) g []))
      exact ⟨d7.trans c2, d2.trans c4, d4.trans c3⟩
    rw [hr]
    rcases hrow with ⟨hf, rfl, rfl | rfl⟩ | ⟨hh, rfl, rfl⟩
    · have hq : PreheatHotend_continue e m t = Redraw_Menu e m true true true
          (((Popup_Handler .FilLoad u).gcode "M701" []).call "planner.synchronize") := by
        simp only [PreheatHotend_continue, ← hu, k1, k2, hf, reduceCtorEq, if_false, and_self,
          if_true]
      rw [hq]
      exact key _ (fil _).1 (fil _).2.1 (fil _).2.2
    · have hq : PreheatHotend_continue e m t = Redraw_Menu e m true true true
          (((Popup_Handler .FilLoad u).gcode "M702" []).call "planner.synchronize") := by
        have hne : CHANGEFIL_UNLOAD e.cfg ≠ CHANGEFIL_LOAD e.cfg := by simp
        simp only [PreheatHotend_continue, ← hu, k1, k2, hf, hne, reduceCtorEq, if_false,
          and_self, if_true]
      rw [hq]
      exact key _ (fil _).1 (fil _).2.1 (fil _).2.2
    · have hq : PreheatHotend_continue e m t = Redraw_Menu e m true true true u := by
        simp only [PreheatHotend_continue, ← hu, k1, reduceCtorEq, if_false, and_false]
      rw [hq]
      exact key u k3 k1 k2

/-- An encoder turn handled by `Value_Control` leaves the navigation variables alone. -/
theorem Value_Control_turn_nav (e : Env) (m : Machine) (ev : ENCODER_DiffState) (step : ℚ)
    (s : State) (h : ev.isTurn) : (Value_Control e m ev step s).nav = s.nav := by
  rcases h with rfl | rfl
  · simp only [Value_Control, State.nav]
    split_ifs <;> rfl
  · simp only [Value_Control, State.nav]
    split_ifs <;> rfl

/-- The first part of the ENTER branch of `Value_Control` changes `process` only, among the
navigation variables. -/
theorem Value_Control_prepare_nav (e : Env) (s : State) :
    (Value_Control_prepare e s).nav = ({ s with process := .Menu } : State).nav := by
  simp only [Value_Control_prepare, State.nav]
  split_ifs <;> rfl

theorem commit_value_nav (s : State) : (commit_value s).nav = s.nav := by
  unfold commit_value
  split <;> rfl

/-- In the PreheatHotend menu the ENTER that ends a value session returns to the menu and
keeps the history. -/
theorem Value_Control_enter_PreheatHotend (e : Env) (m : Machine) (rate : ℚ) (s : State)
    (hm : s.active_menu = .PreheatHotend) :
    (Value_Control e m .ENCODER_DIFF_ENTER rate s).active_menu = .PreheatHotend ∧
    (Value_Control e m .ENCODER_DIFF_ENTER rate s).process = .Menu ∧
    (Value_Control e m .ENCODER_DIFF_ENTER rate s).last_menu = s.last_menu ∧
    (Value_Control e m .ENCODER_DIFF_ENTER rate s).last_selection = s.last_selection := by
  obtain ⟨a1, a2, -, a4, -, a6, -⟩ :=
    nav_eq ((commit_value_nav (Value_Control_prepare e s)).trans (Value_Control_prepare_nav e s))
  simp only [] at a1 a2 a4 a6
  have hv : Value_Control e m .ENCODER_DIFF_ENTER rate s =
      Value_Control_finish e m (commit_value (Value_Control_prepare e s)) := rfl
  rw [hv]
  generalize commit_value (Value_Control_prepare e s) = s5 at a1 a2 a4 a6
  have hmove : Value_Control_move e m s5 = s5 := by
    simp only [Value_Control_move, a1, hm]
  have hfin : (Value_Control_finish e m s5).nav = s5.nav := by
    simp only [Value_Control_finish, hmove]
    split_ifs <;> split <;> simp only [call_nav]
  obtain ⟨b1, b2, -, b4, -, b6, -⟩ := nav_eq hfin
  exact ⟨b1.trans (a1.trans hm), b6.trans a6, b2.trans a2, b4.trans a4⟩

/-- In the PreheatHotend menu, whose history names row `S` of menu `X`, an event that does not
activate Cancel or Continue leaves the user in that menu, in the menu itself or in the editor
of the Custom row, with the same history: no row other than these two opens a dialog or
another menu. -/
theorem PreheatHotend_step (e : Env) (m : Machine) (ev : ENCODER_DiffState) (rate : ℚ)
    (X : Menu) (S : Nat) (t : State)
    (h1 : t.active_menu = .PreheatHotend) (h2 : t.process = .Menu ∨ t.process = .Value)
    (h3 : t.last_menu = X) (h4 : t.last_selection = S) (hno : ¬ resumes e ev t) :
    (Update_dispatch e m ev rate t).active_menu = .PreheatHotend ∧
    ((Update_dispatch e m ev rate t).process = .Menu ∨
      (Update_dispatch e m ev rate t).process = .Value) ∧
    (Update_dispatch e m ev rate t).last_menu = X ∧
    (Update_dispatch e m ev rate t).last_selection = S := by
  rcases h2 with hp | hp
  · have hd : Update_dispatch e m ev rate t = Menu_Control e m ev t := by
      simp only [Update_dispatch, hp]
    rw [hd]
    cases ev
    case ENCODER_DIFF_NO => exact ⟨h1, Or.inl hp, h3, h4⟩
    case ENCODER_DIFF_CW =>
      obtain ⟨a1, a2, a3, a4, -⟩ := Menu_Control_turn_history e m .ENCODER_DIFF_CW t (Or.inl rfl)
      exact ⟨a1.trans h1, Or.inl (a4.trans hp), a2.trans h3, a3.trans h4⟩
    case ENCODER_DIFF_CCW =>
      obtain ⟨a1, a2, a3, a4, -⟩ := Menu_Control_turn_history e m .ENCODER_DIFF_CCW t (Or.inr rfl)
      exact ⟨a1.trans h1, Or.inl (a4.trans hp), a2.trans h3, a3.trans h4⟩
    case ENCODER_DIFF_ENTER =>
      have ha : Menu_Control e m .ENCODER_DIFF_ENTER t =
          PreheatHotend_activate e m t.selection t := by
        simp only [Menu_Control, Menu_Item_Handler, h1, Bool.false_eq_true, if_false]
      have hb : ¬ t.selection = PREHEATHOTEND_BACK e.cfg := fun h => hno ⟨hp, rfl, Or.inl h⟩
      have hc : ¬ t.selection = PREHEATHOTEND_CONTINUE e.cfg := fun h => hno ⟨hp, rfl, Or.inr h⟩
      have hpre : ∀ a b : ℚ,
          (set_fan_speed a (setTargetHotend b t)).active_menu = .PreheatHotend ∧
          ((set_fan_speed a (setTargetHotend b t)).process = .Menu ∨
            (set_fan_speed a (setTargetHotend b t)).process = .Value) ∧
          (set_fan_speed a (setTargetHotend b t)).last_menu = X ∧
          (set_fan_speed a (setTargetHotend b t)).last_selection = S := by
        intro a b
        obtain ⟨w1, w2, -, w4, -, w6, -⟩ :=
          nav_eq ((set_fan_speed_nav a (setTargetHotend b t)).trans (setTargetHotend_nav b t))
        exact ⟨w1.trans h1, Or.inl (w6.trans hp), w2.trans h3, w4.trans h4⟩
      rw [ha]
      unfold PreheatHotend_activate
      rw [if_neg hb, if_neg hc]
      refine ite_cases (fun u : State => u.active_menu = .PreheatHotend ∧
        (u.process = .Menu ∨ u.process = .Value) ∧ u.last_menu = X ∧ u.last_selection = S)
        (fun _ => hpre _ _) (fun _ => ?_)
      refine ite_cases (fun u : State => u.active_menu = .PreheatHotend ∧
        (u.process = .Menu ∨ u.process = .Value) ∧ u.last_menu = X ∧ u.last_selection = S)
        (fun _ => hpre _ _) (fun _ => ?_)
      refine ite_cases (fun u : State => u.active_menu = .PreheatHotend ∧
        (u.process = .Menu ∨ u.process = .Value) ∧ u.last_menu = X ∧ u.last_selection = S)
        (fun _ => hpre _ _) (fun _ => ?_)
      refine ite_cases (fun u : State => u.active_menu = .PreheatHotend ∧
        (u.process = .Menu ∨ u.process = .Value) ∧ u.last_menu = X ∧ u.last_selection = S)
        (fun _ => hpre _ _) (fun _ => ?_)
      refine ite_cases (fun u : State => u.active_menu = .PreheatHotend ∧
        (u.process = .Menu ∨ u.process = .Value) ∧ u.last_menu = X ∧ u.last_selection = S)
        (fun _ => hpre _ _) (fun _ => ?_)
      refine ite_cases (fun u : State => u.active_menu = .PreheatHotend ∧
        (u.process = .Menu ∨ u.process = .Value) ∧ u.last_menu = X ∧ u.last_selection = S)
        (fun _ => ?_) (fun _ => ⟨h1, Or.inl hp, h3, h4⟩)
      exact ⟨h1, Or.inr rfl, h3, h4⟩
  · have hd : Update_dispatch e m ev rate t = Value_Control e m ev rate t := by
      simp only [Update_dispatch, hp]
    rw [hd]
    cases ev
    case ENCODER_DIFF_NO => exact ⟨h1, Or.inr hp, h3, h4⟩
    case ENCODER_DIFF_CW =>
      obtain ⟨a1, a2, -, a4, -, a6, -⟩ :=
        nav_eq (Value_Control_turn_nav e m .ENCODER_DIFF_CW rate t (Or.inl rfl))
      exact ⟨a1.trans h1, Or.inr (a6.trans hp), a2.trans h3, a4.trans h4⟩
    case ENCODER_DIFF_CCW =>
      obtain ⟨a1, a2, -, a4, -, a6, -⟩ :=
        nav_eq (Value_Control_turn_nav e m .ENCODER_DIFF_CCW rate t (Or.inr rfl))
      exact ⟨a1.trans h1, Or.inr (a6.trans hp), a2.trans h3, a4.trans h4⟩
    case ENCODER_DIFF_ENTER =>
      obtain ⟨a1, a2, a3, a4⟩ := Value_Control_enter_PreheatHotend e m rate t h1
      exact ⟨a1, Or.inl a2, a3.trans h3, a4.trans h4⟩

/-- Events in the PreheatHotend menu of which none activates Cancel or Continue leave the user
in that menu, or in the editor of its Custom row, with the same history. -/
theorem PreheatHotend_run (e : Env) (m : Machine) (evs : List (ENCODER_DiffState × ℚ))
    (X : Menu) (S : Nat) (t : State)
    (h1 : t.active_menu = .PreheatHotend) (h2 : t.process = .Menu ∨ t.process = .Value)
    (h3 : t.last_menu = X) (h4 : t.last_selection = S) (hno : no_resume e m evs t = true) :
    (Update_dispatch_run e m evs t).active_menu = .PreheatHotend ∧
    ((Update_dispatch_run e m evs t).process = .Menu ∨
      (Update_dispatch_run e m evs t).process = .Value) ∧
    (Update_dispatch_run e m evs t).last_menu = X ∧
    (Update_dispatch_run e m evs t).last_selection = S := by
  induction evs generalizing t with
  | nil => exact ⟨h1, h2, h3, h4⟩
  | cons ev evs ih =>
    simp only [no_resume, Bool.and_eq_true, Bool.not_eq_true', decide_eq_false_iff_not] at hno
    obtain ⟨b1, b2, b3, b4⟩ := PreheatHotend_step e m ev.1 ev.2 X S t h1 h2 h3 h4 hno.1
    exact ih (Update_dispatch e m ev.1 ev.2 t) b1 b2 b3 b4 hno.2

theorem no_resume_take (e : Env) (m : Machine) (evs : List (ENCODER_DiffState × ℚ)) (k : Nat)
    (q : State) (h : no_resume e m evs q = true) : no_resume e m (evs.take k) q = true := by
  induction evs generalizing q k with
  | nil => rw [List.take_nil]; rfl
  | cons ev evs ih =>
    cases k with
    | zero => rfl
    | succ k =>
      simp only [List.take_succ_cons, no_resume, Bool.and_eq_true] at h ⊢
      exact ⟨h.1, ih k _ h.2⟩

/-- Claim C25: an extrusion action activated at row S of menu X (Load or Unload Filament of
ChangeFilament, Extruder of Move) with a cold nozzle is intercepted by the ETemp popup; after
the user confirms it the PreheatHotend menu is shown.  Whatever the user does there before
activating Cancel (row 0) or Continue (row 1) for the first time (turning the encoder,
activating presets, editing the Custom temperature), no dialog opens and the menu stays;
and when the user then, the editor being closed, activates Cancel or Continue, the handler
ends in process Menu with `active_menu = X` and `selection = S`. -/
theorem C25_resume_after_preheat (e : Env) (m : Machine) (s : State)
    (evs : List (ENCODER_DiffState × ℚ)) (item : Nat) (rate : ℚ)
    (hp : s.process = .Menu)
    (hrow : extrusion_row e.cfg s.active_menu s.selection)
    (hcold : s.vars .hotend_target < s.vars .extrude_min_temp)
    (hev : no_resume e m evs (preheat_opened e m s) = true)
    (hclosed : (preheat_after_ETemp e m evs s).process = .Menu)
    (hitem : item = PREHEATHOTEND_BACK e.cfg ∨ item = PREHEATHOTEND_CONTINUE e.cfg)
    (hsel : (preheat_after_ETemp e m evs s).selection = item) :
    (Update_dispatch e m .ENCODER_DIFF_ENTER 0 s).process = .Popup ∧
    (Update_dispatch e m .ENCODER_DIFF_ENTER 0 s).popup = .ETemp ∧
    (preheat_opened e m s).process = .Menu ∧
    (preheat_opened e m s).active_menu = .PreheatHotend ∧
    (∀ k, (preheat_after_ETemp e m (evs.take k) s).active_menu = .PreheatHotend ∧
      ((preheat_after_ETemp e m (evs.take k) s).process = .Menu ∨
        (preheat_after_ETemp e m (evs.take k) s).process = .Value)) ∧
    (Update_dispatch e m .ENCODER_DIFF_ENTER rate (preheat_after_ETemp e m evs s)).process
      = .Menu ∧
    (Update_dispatch e m .ENCODER_DIFF_ENTER rate (preheat_after_ETemp e m evs s)).active_menu
      = s.active_menu ∧
    (Update_dispatch e m .ENCODER_DIFF_ENTER rate (preheat_after_ETemp e m evs s)).selection
      = s.selection := by
  have h0 : Update_dispatch e m .ENCODER_DIFF_ENTER 0 s =
      Menu_Control e m .ENCODER_DIFF_ENTER s := by
    simp only [Update_dispatch, hp]
  have h1 : Menu_Control e m .ENCODER_DIFF_ENTER s = Popup_Handler .ETemp s := by
    rcases hrow with ⟨hf, hX, hS | hS⟩ | ⟨hh, hX, hS⟩
    · simp [Menu_Control, Menu_Item_Handler, ChangeFilament_activate, hX, hS, hf, hcold]
    · simp [Menu_Control, Menu_Item_Handler, ChangeFilament_activate, hX, hS, hf, hcold]
    · simp [Menu_Control, Menu_Item_Handler, Move_activate, hX, hS, hh, hcold, ENABLED]
  have hX : s.active_menu ≠ .PreheatHotend := by
    rcases hrow with ⟨-, hX, -⟩ | ⟨-, hX, -⟩ <;> rw [hX] <;> simp
  obtain ⟨a1, a2, a3, -, -, a6, a7, a8⟩ := Popup_Handler_from_Menu .ETemp .Popup s hp rfl
  simp only [if_true] at a6 a7
  have hopen : preheat_opened e m s =
      Popup_Control e m .ENCODER_DIFF_ENTER (Popup_Handler .ETemp s) := by
    simp only [preheat_opened, h0, h1]
    simp only [Update_dispatch, a1]
  rw [h0, h1]
  generalize Popup_Handler .ETemp s = p at a1 a2 a3 a6 a7 a8 hopen
  have h2 : Popup_Control e m .ENCODER_DIFF_ENTER p =
      Draw_Menu e m .PreheatHotend 0 0
        (set_fan_speed MAX_FAN_SPEED (setTargetHotend e.cfg.EXTRUDE_MINTEMP p)) := by
    simp only [Popup_Control, a8, a6, if_true]
  obtain ⟨w1, -, -, w4, -, w6, -⟩ :=
    nav_eq ((set_fan_speed_nav MAX_FAN_SPEED (setTargetHotend e.cfg.EXTRUDE_MINTEMP p)).trans
      (setTargetHotend_nav e.cfg.EXTRUDE_MINTEMP p))
  generalize set_fan_speed MAX_FAN_SPEED (setTargetHotend e.cfg.EXTRUDE_MINTEMP p) = w
    at h2 w1 w4 w6
  obtain ⟨b1, -, -, b4, b5, b6, -⟩ := Draw_Menu_fields e m .PreheatHotend 0 0 w
  rw [← h2, ← hopen] at b1 b4 b5 b6
  have wX : w.active_menu ≠ .PreheatHotend := by rw [w1, a3]; exact hX
  have wP : ¬ (w.active_menu ≠ .PreheatHotend ∧ w.process = .Menu) := by
    rw [w6, a1]; simp
  rw [if_pos wX, w1, a3] at b5
  rw [if_neg wP, w4, a7] at b6
  have hpre : ∀ l, preheat_after_ETemp e m l s =
      Update_dispatch_run e m l (preheat_opened e m s) := fun _ => rfl
  generalize preheat_opened e m s = q at hev hpre b1 b4 b5 b6
  have hbefore : ∀ k, no_resume e m (evs.take k) q = true := fun k =>
    no_resume_take e m evs k q hev
  obtain ⟨c1, -, c2, c3⟩ :=
    PreheatHotend_run e m evs s.active_menu s.selection q b1 (Or.inl b4) b5 b6 hev
  refine ⟨a1, a8, b4, b1, fun k => ?_, ?_⟩
  · rw [hpre]
    obtain ⟨d1, d2, -, -⟩ := PreheatHotend_run e m (evs.take k) s.active_menu s.selection q b1
      (Or.inl b4) b5 b6 (hbefore k)
    exact ⟨d1, d2⟩
  rw [← hpre] at c1 c2 c3
  generalize preheat_after_ETemp e m evs s = r at hsel hclosed c1 c2 c3
  have h3 : Update_dispatch e m .ENCODER_DIFF_ENTER rate r = PreheatHotend_activate e m item r := by
    simp only [Update_dispatch, hclosed, Menu_Control, Menu_Item_Handler, c1, hsel,
      Bool.false_eq_true, if_false]
  rw [h3]
  exact PreheatHotend_resume e m s.active_menu s.selection item r hrow hclosed c2 c3 hitem

set_option maxRecDepth 100000 in
/-- Witness of C25: Load Filament (row 1 of ChangeFilament) pressed with a cold nozzle, ETemp
confirmed; the user activates the first preset, edits the Custom temperature and turns back
to Continue (row 1); ENTER: the ChangeFilament menu is back at row 1. -/
theorem C25_resume_after_preheat_witness :
    at_changefil_load.process = .Menu ∧ at_changefil_load.active_menu = .ChangeFilament ∧
    at_changefil_load.selection = 1 ∧
    (preheat_after_ETemp env0 m0 preheat_detour at_changefil_load).selection = 1 ∧
    (preheat_after_ETemp env0 m0 (preheat_detour.take 8) at_changefil_load).process = .Value ∧
    (Update_dispatch env0 m0 .ENCODER_DIFF_ENTER 1
      (preheat_after_ETemp env0 m0 preheat_detour at_changefil_load)).active_menu
      = at_changefil_load.active_menu ∧
    (Update_dispatch env0 m0 .ENCODER_DIFF_ENTER 1
      (preheat_after_ETemp env0 m0 preheat_detour at_changefil_load)).selection
      = at_changefil_load.selection :=
  ⟨by decide, by decide, by decide, by decide!, by decide!,
   (C25_resume_after_preheat env0 m0 at_changefil_load preheat_detour 1 1 (by decide)
      (Or.inl ⟨rfl, by decide, Or.inl (by decide)⟩) (by decide!) (by decide!) (by decide!)
      (Or.inr rfl) (by decide!)).2.2.2.2.2.2.1,
   (C25_resume_after_preheat env0 m0 at_changefil_load preheat_detour 1 1 (by decide)
      (Or.inl ⟨rfl, by decide, Or.inl (by decide)⟩) (by decide!) (by decide!) (by decide!)
      (Or.inr rfl) (by decide!)).2.2.2.2.2.2.2⟩

/-! ## The status message buffer -/

theorem stored_range (text buf : List Char) (n : Nat) (h1 : n ≤ text.length)
    (h2 : n ≤ buf.length) :
    stored buf ((List.range n).map (fun (i : Nat) => (i, text.getD i NUL))) =
      text.take n ++ buf.drop n := by
  induction n with
  | zero => simp [stored]
  | succ n ih =>
    have ih2 := ih (by omega) (by omega)
    simp only [stored] at ih2 ⊢
    rw [List.range_succ, List.map_append, List.foldl_append, ih2]
    simp only [List.map_cons, List.map_nil, List.foldl_cons, List.foldl_nil]
    apply List.ext_getElem
    · simp; omega
    · intro i hi1 hi2
      simp only [List.getElem_set, List.getElem_append, List.length_take, List.getElem_take,
        List.getElem_drop]
      have hn : min n text.length = n := by omega
      have hn1 : min (n + 1) text.length = n + 1 := by omega
      simp only [hn, hn1]
      by_cases c1 : n = i
      · subst c1
        have hlt : n < text.length := by omega
        simp [List.getElem?_eq_getElem hlt]
      · by_cases c2 : i < n
        · simp [c1, c2, show i < n + 1 by omega]
        · have c3 : ¬ i < n + 1 := by omega
          simp only [c1, c2, c3, if_false, dite_false]
          congr 1
          omega

theorem stored_concat (buf : List Char) (ws : List (Nat × Char)) (w : Nat × Char) :
    stored buf (ws ++ [w]) = (stored buf ws).set w.1 w.2 := by
  simp [stored, List.foldl_append]

/-- Claim C30, as the code has it.  For a text that does not begin with `<F>`: when it has
fewer than 64 characters, every store is at an index 0..63 and the array holds the text,
NUL-terminated; when it has 64 characters or more, the terminating store is at index 64, one
past the array of 64 bytes, and the array holds the first 64 characters with no NUL among
them. -/
theorem C30_statusmsg_stores (text buf : List Char) (hF : text.take 3 ≠ ['<', 'F', '>'])
    (hN : NUL ∉ text) (hb : buf.length = 64) :
    (text.length < 64 →
      (∀ w ∈ Update_Status_stores text, w.1 < 64) ∧
      c_string (stored buf (Update_Status_stores text)) = some text) ∧
    (64 ≤ text.length →
      (64, NUL) ∈ Update_Status_stores text ∧
      stored buf (Update_Status_stores text) = text.take 64 ∧
      c_string (stored buf (Update_Status_stores text)) = none) := by
  have hs : Update_Status_stores text =
      (List.range (min 64 text.length)).map (fun (i : Nat) => (i, text.getD i NUL)) ++
        [(min 64 text.length, NUL)] := by
    simp only [Update_Status_stores, hF, if_false]
  rw [hs, stored_concat, stored_range text buf _ (Nat.min_le_right _ _) (by omega)]
  refine ⟨fun hl => ?_, fun hl => ?_⟩
  · have hm : min 64 text.length = text.length := by omega
    rw [hm]
    refine ⟨?_, ?_⟩
    · intro w hw
      simp only [List.mem_append, List.mem_map, List.mem_range, List.mem_singleton] at hw
      rcases hw with ⟨i, hi, rfl⟩ | rfl
      · show i < 64
        omega
      · exact hl
    · have hd : buf.drop text.length = buf[text.length] :: buf.drop (text.length + 1) := by
        rw [List.drop_eq_getElem_cons]
      have hset : (List.take text.length text ++ List.drop text.length buf).set text.length NUL
          = text ++ NUL :: buf.drop (text.length + 1) := by
        rw [List.take_length, List.set_append_right _ _ (le_refl _), Nat.sub_self, hd]
        rfl
      simp only [hset, c_string]
      rw [if_pos (by simp)]
      congr 1
      rw [List.takeWhile_append_of_pos]
      · simp
      · intro ch hch
        simp only [ne_eq, decide_not, Bool.not_eq_eq_eq_not, Bool.not_true, decide_eq_false_iff_not]
        rintro rfl
        exact hN hch
  · have hm : min 64 text.length = 64 := by omega
    rw [hm]
    have hdrop : buf.drop 64 = [] := by
      rw [List.drop_eq_nil_iff]; omega
    have hset : (List.take 64 text ++ List.drop 64 buf).set 64 NUL = text.take 64 := by
      rw [hdrop, List.append_nil]
      apply List.set_eq_of_length_le
      simp
    refine ⟨by simp, hset, ?_⟩
    rw [hset]
    simp only [c_string]
    rw [if_neg]
    intro hmem
    exact hN (List.mem_of_mem_take hmem)

set_option maxRecDepth 100000 in
/-- Witness of C30: the text `Ready`. -/
theorem C30_statusmsg_stores_witness :
    c_string (stored statusmsg0 (Update_Status_stores ['R', 'e', 'a', 'd', 'y'])) =
      some ['R', 'e', 'a', 'd', 'y'] :=
  ((C30_statusmsg_stores ['R', 'e', 'a', 'd', 'y'] statusmsg0 (by decide) (by decide)
      (by decide)).1 (by decide)).2

set_option maxRecDepth 100000 in
/-- C30 (code defect), the code at the failing input: for a text of 64 characters the last
store of `Update_Status` is `statusmsg[64] = NUL`, outside the array of 64 bytes, and the array
holds 64 characters without a terminating NUL. -/
theorem C30_counterexample :
    text64.length = 64 ∧ text64.take 3 ≠ ['<', 'F', '>'] ∧
    (Update_Status_stores text64).getLast? = some (64, NUL) ∧
    ¬ (∀ w ∈ Update_Status_stores text64, w.1 < 64) ∧
    stored statusmsg0 (Update_Status_stores text64) = text64 ∧
    c_string (stored statusmsg0 (Update_Status_stores text64)) = none := by
  decide!

/-! ## Mesh points -/

theorem serpentine_row_length (X y : Nat) : (serpentine_row X y).length = X := by
  unfold serpentine_row; split_ifs <;> simp

theorem serpentine_order_length (X Y : Nat) : (serpentine_order X Y).length = X * Y := by
  induction Y with
  | zero => simp [serpentine_order]
  | succ Y ih => simp [serpentine_order, ih, serpentine_row_length, Nat.mul_succ]

theorem serpentine_row_get (X y j : Nat) (hj : j < X) :
    (serpentine_row X y)[j]? = some (if y % 2 = 0 then j else X - 1 - j, y) := by
  unfold serpentine_row
  split_ifs with h
  · simp [List.getElem?_map, List.getElem?_range hj]
  · have : (List.range X).reverse[j]? = some (X - 1 - j) := by
      rw [List.getElem?_reverse (by simpa using hj)]
      simp only [List.length_range]
      rw [List.getElem?_range (by omega)]
    rw [List.getElem?_map, this]
    rfl

/-- The point of index `k` (from 0) in the serpentine order. -/
theorem serpentine_order_get (X Y k : Nat) (hk : k < X * Y) :
    (serpentine_order X Y)[k]? = some (if (k / X) % 2 = 0 then k % X else X - 1 - k % X, k / X) := by
  induction Y with
  | zero => simp at hk
  | succ Y ih =>
    have hX : 0 < X := by
      rcases Nat.eq_zero_or_pos X with h | h
      · subst h; simp at hk
      · exact h
    simp only [serpentine_order]
    by_cases c : k < X * Y
    · rw [List.getElem?_append_left (by rw [serpentine_order_length]; exact c)]
      exact ih c
    · have hlen : (serpentine_order X Y).length ≤ k := by
        rw [serpentine_order_length]; omega
      rw [List.getElem?_append_right hlen, serpentine_order_length]
      have hj : k - X * Y < X := by
        rw [Nat.mul_succ] at hk; omega
      have hdiv : k / X = Y := by
        apply Nat.div_eq_of_lt_le
        · rw [Nat.mul_comm]; omega
        · rw [Nat.mul_comm, Nat.mul_succ]; rw [Nat.mul_succ] at hk; omega
      have hmod : k % X = k - X * Y := by
        have := Nat.div_add_mod k X
        rw [hdiv] at this
        omega
      rw [serpentine_row_get X Y _ hj, hdiv, hmod]

/-- One step of "Next Point" from the point of index `k` of the serpentine order leads to the
point of index `k + 1`, as long as the point of index `k` is not the stopping point. -/
theorem Next_Point_step_serpentine (X Y q r : Nat) (hX2 : X < 256) (hY2 : Y < 256)
    (hr : r < X) (hq : q < Y)
    (hstop : ¬ ((if q % 2 = 0 then r else X - 1 - r) = X - 1 ∧ q = Y - 1)) :
    Next_Point_step X Y (if q % 2 = 0 then r else X - 1 - r, q) =
      (if r + 1 < X then (if q % 2 = 0 then r + 1 else X - 1 - (r + 1), q)
       else (if (q + 1) % 2 = 0 then 0 else X - 1, q + 1)) := by
  simp only [Next_Point_step, Next_Point]
  split_ifs at hstop ⊢ <;>
    first
    | omega
    | (simp only [Option.getD_some, Option.getD_none, Prod.mk.injEq, and_true]; omega)

/-- The last index the walk of "Next Point" reaches in the serpentine order: the end of the
order when the number of rows is odd, the first point of the last row when it is even. -/
theorem Next_Point_walk_serpentine (X Y k : Nat) (hX : 0 < X) (hX2 : X < 256) (hY : 0 < Y)
    (hY2 : Y < 256) (hk : k ≤ (if Y % 2 = 1 then X * Y - 1 else X * (Y - 1))) :
    Next_Point_walk X Y k =
      (if (k / X) % 2 = 0 then k % X else X - 1 - k % X, k / X) := by
  induction k with
  | zero => simp [Next_Point_walk]
  | succ k ih =>
    have hk0 : k < (if Y % 2 = 1 then X * Y - 1 else X * (Y - 1)) := by omega
    have ih2 := ih (by omega)
    have hw : Next_Point_walk X Y (k + 1) = Next_Point_step X Y (Next_Point_walk X Y k) := by
      simp only [Next_Point_walk, Function.iterate_succ_apply']
    have hr : k % X < X := Nat.mod_lt _ hX
    have hdm := Nat.div_add_mod k X
    have hXY : X * (Y - 1) + X = X * Y := by
      rw [← Nat.mul_succ]; congr 1; omega
    have hq : k / X < Y := by
      apply (Nat.div_lt_iff_lt_mul hX).mpr
      rw [Nat.mul_comm]
      split_ifs at hk0 <;> omega
    have hqY : Y % 2 = 0 → k / X < Y - 1 := by
      intro hy
      apply (Nat.div_lt_iff_lt_mul hX).mpr
      rw [Nat.mul_comm]
      rw [if_neg (by omega)] at hk0
      exact hk0
    have hstop : ¬ ((if (k / X) % 2 = 0 then k % X else X - 1 - k % X) = X - 1 ∧
        k / X = Y - 1) := by
      rintro ⟨h1, h2⟩
      by_cases hy : Y % 2 = 0
      · have := hqY hy; omega
      · rw [if_pos (by omega)] at hk0
        have hq2 : (k / X) % 2 = 0 := by omega
        rw [if_pos hq2] at h1
        rw [h2, h1] at hdm
        omega
    rw [hw, ih2, Next_Point_step_serpentine X Y (k / X) (k % X) hX2 hY2 hr hq hstop]
    by_cases hr1 : k % X + 1 < X
    · have hd : (k + 1) / X = k / X := by
        apply Nat.div_eq_of_lt_le
        · rw [Nat.mul_comm]; omega
        · rw [Nat.mul_comm, Nat.mul_succ]; omega
      have hm : (k + 1) % X = k % X + 1 := by
        have := Nat.div_add_mod (k + 1) X
        rw [hd] at this; omega
      rw [if_pos hr1, hd, hm]
    · have hd : (k + 1) / X = k / X + 1 := by
        apply Nat.div_eq_of_lt_le
        · rw [Nat.mul_comm, Nat.mul_succ]; omega
        · rw [Nat.mul_comm, Nat.mul_succ, Nat.mul_succ]; omega
      have hm : (k + 1) % X = 0 := by
        have := Nat.div_add_mod (k + 1) X
        rw [hd, Nat.mul_succ] at this; omega
      rw [if_neg hr1, hd, hm]
      split_ifs <;> simp

theorem div_mod_of_row (X q r : Nat) (hr : r < X) : (X * q + r) / X = q ∧ (X * q + r) % X = r := by
  have hX : 0 < X := by omega
  constructor
  · rw [Nat.mul_add_div hX, Nat.div_eq_of_lt hr, Nat.add_zero]
  · rw [Nat.mul_add_mod, Nat.mod_eq_of_lt hr]

/-- The serpentine order lists points of the grid only, and every point of the grid. -/
theorem mem_serpentine_order (X Y : Nat) (p : Nat × Nat) :
    p ∈ serpentine_order X Y ↔ p.1 < X ∧ p.2 < Y := by
  rw [List.mem_iff_getElem?]
  constructor
  · rintro ⟨k, hk⟩
    have hlt : k < X * Y := by
      have := (List.getElem?_eq_some_iff.mp hk).1
      rwa [serpentine_order_length] at this
    have hX : 0 < X := by
      rcases Nat.eq_zero_or_pos X with h | h
      · subst h; simp at hlt
      · exact h
    rw [serpentine_order_get X Y k hlt] at hk
    have hr : k % X < X := Nat.mod_lt _ hX
    have hq : k / X < Y := by
      apply (Nat.div_lt_iff_lt_mul hX).mpr
      rw [Nat.mul_comm]; exact hlt
    obtain ⟨x, y⟩ := p
    simp only [Option.some.injEq, Prod.mk.injEq] at hk
    obtain ⟨h1, h2⟩ := hk
    subst h2
    refine ⟨?_, hq⟩
    show x < X
    rw [← h1]
    split_ifs <;> omega
  · rintro ⟨h1, h2⟩
    obtain ⟨x, y⟩ := p
    simp only at h1 h2
    have hr : (if y % 2 = 0 then x else X - 1 - x) < X := by split_ifs <;> omega
    obtain ⟨d1, d2⟩ := div_mod_of_row X y _ hr
    refine ⟨X * y + (if y % 2 = 0 then x else X - 1 - x), ?_⟩
    have hlt : X * y + (if y % 2 = 0 then x else X - 1 - x) < X * Y := by
      have : X * (y + 1) ≤ X * Y := Nat.mul_le_mul_left X h2
      rw [Nat.mul_succ] at this
      omega
    rw [serpentine_order_get X Y _ hlt, d1, d2]
    simp only [Option.some.injEq, Prod.mk.injEq, and_true]
    split_ifs <;> omega

/-- The serpentine order lists no point twice. -/
theorem serpentine_order_nodup (X Y : Nat) : (serpentine_order X Y).Nodup := by
  rw [List.nodup_iff_getElem?_ne_getElem?]
  intro i j hij hj
  rw [serpentine_order_length] at hj
  have hX : 0 < X := by
    rcases Nat.eq_zero_or_pos X with h | h
    · subst h; simp at hj
    · exact h
  rw [serpentine_order_get X Y i (by omega), serpentine_order_get X Y j hj]
  intro h
  simp only [Option.some.injEq, Prod.mk.injEq] at h
  obtain ⟨h1, h2⟩ := h
  have hi := Nat.div_add_mod i X
  have hj2 := Nat.div_add_mod j X
  have ri : i % X < X := Nat.mod_lt _ hX
  have rj : j % X < X := Nat.mod_lt _ hX
  rw [h2] at h1 hi
  have : i % X = j % X := by split_ifs at h1 <;> omega
  omega

/-- At the stopping point "Next Point" keeps the point. -/
theorem Next_Point_step_stop (X Y : Nat) (hX : 0 < X) (hY : 0 < Y) :
    Next_Point_step X Y (X - 1, Y - 1) = (X - 1, Y - 1) := by
  have c : ¬ (((X - 1 : Nat) : Int) ≠ (X : Int) - 1 ∨ ((Y - 1 : Nat) : Int) ≠ (Y : Int) - 1) := by
    omega
  simp only [Next_Point_step, Next_Point, if_neg c, Option.getD_none]

/-- The index at which the walk of "Next Point" reaches the stopping point. -/
theorem Next_Point_walk_stop (X Y : Nat) (hX : 0 < X) (hX2 : X < 256) (hY : 0 < Y)
    (hY2 : Y < 256) :
    Next_Point_walk X Y (if Y % 2 = 1 then X * Y - 1 else X * (Y - 1)) = (X - 1, Y - 1) := by
  rw [Next_Point_walk_serpentine X Y _ hX hX2 hY hY2 (le_refl _)]
  have hXY : X * (Y - 1) + X = X * Y := by
    rw [← Nat.mul_succ]; congr 1; omega
  by_cases hy : Y % 2 = 1
  · rw [if_pos hy]
    have h : X * Y - 1 = X * (Y - 1) + (X - 1) := by omega
    obtain ⟨d1, d2⟩ := div_mod_of_row X (Y - 1) (X - 1) (by omega)
    rw [h, d1, d2, if_pos (by omega)]
  · rw [if_neg hy]
    obtain ⟨d1, d2⟩ := div_mod_of_row X (Y - 1) 0 hX
    rw [Nat.add_zero] at d1 d2
    rw [d1, d2, if_neg (by omega), Nat.sub_zero]

/-- Once the walk has reached the stopping point it stays there. -/
theorem Next_Point_walk_after_stop (X Y : Nat) (hX : 0 < X) (hX2 : X < 256) (hY : 0 < Y)
    (hY2 : Y < 256) (n : Nat) (hn : (if Y % 2 = 1 then X * Y - 1 else X * (Y - 1)) ≤ n) :
    Next_Point_walk X Y n = (X - 1, Y - 1) := by
  induction n with
  | zero =>
    have h0 : (if Y % 2 = 1 then X * Y - 1 else X * (Y - 1)) = 0 := by omega
    rw [← h0]
    exact Next_Point_walk_stop X Y hX hX2 hY hY2
  | succ n ih =>
    by_cases c : (if Y % 2 = 1 then X * Y - 1 else X * (Y - 1)) ≤ n
    · have hw : Next_Point_walk X Y (n + 1) = Next_Point_step X Y (Next_Point_walk X Y n) := by
        simp only [Next_Point_walk, Function.iterate_succ_apply']
      rw [hw, ih c, Next_Point_step_stop X Y hX hY]
    · have h0 : (if Y % 2 = 1 then X * Y - 1 else X * (Y - 1)) = n + 1 := by omega
      rw [← h0]
      exact Next_Point_walk_stop X Y hX hX2 hY hY2

theorem Next_Point_visited_get (X Y n i : Nat) (hi : i ≤ n) :
    (Next_Point_visited X Y n)[i]? = some (Next_Point_walk X Y i) := by
  simp only [Next_Point_visited, List.getElem?_map]
  rw [List.getElem?_range (by omega)]
  rfl

theorem Next_Point_visited_length (X Y n : Nat) : (Next_Point_visited X Y n).length = n + 1 := by
  simp [Next_Point_visited]

/-- Claim C26, as the code has it: on a square grid of `n` by `n` points the point computed by
"Goto Mesh Value" from `gridpoint = g`, `1 <= g <= n * n`, lies inside the grid and is the g-th
point of the serpentine probing order.  The rows are counted with `GRID_MAX_POINTS_Y` and the
columns with `GRID_MAX_POINTS_X`, so this needs the two to be equal. -/
theorem C26_goto_point_square (n g : Nat) (h1 : 1 ≤ g) (h2 : g ≤ n * n) (h3 : g < 256) :
    (MMESH_OLD_point n n g).1 < n ∧ (MMESH_OLD_point n n g).2 < n ∧
    (serpentine_order n n)[g - 1]? = some (MMESH_OLD_point n n g) := by
  have hn : 0 < n := by
    rcases Nat.eq_zero_or_pos n with h | h
    · subst h; omega
    · exact h
  have hk : g - 1 < n * n := by omega
  have hg : ((g : Int) - 1) = ((g - 1 : Nat) : Int) := by omega
  have hq : (g - 1) / n < n := (Nat.div_lt_iff_lt_mul hn).mpr hk
  have hr : (g - 1) % n < n := Nat.mod_lt _ hn
  have hq2 : (g - 1) / n ≤ g - 1 := Nat.div_le_self _ _
  have hr2 : (g - 1) % n ≤ g - 1 := Nat.mod_le _ _
  have ey : toUInt8 (((g : Int) - 1).tdiv (n : Int)) = (g - 1) / n := by
    rw [hg, Int.tdiv_eq_ediv (by omega) (by omega), ← Int.natCast_div, toUInt8]
    generalize (g - 1) / n = q at hq2 ⊢
    omega
  have ex : toUInt8 (((g : Int) - 1).tmod (n : Int)) = (g - 1) % n := by
    rw [hg, Int.tmod_eq_emod (by omega) (by omega), ← Int.natCast_mod, toUInt8]
    generalize (g - 1) % n = r at hr2 ⊢
    omega
  have hp : MMESH_OLD_point n n g =
      (if ((g - 1) / n) % 2 = 0 then (g - 1) % n else n - 1 - (g - 1) % n, (g - 1) / n) := by
    simp only [MMESH_OLD_point]
    simp only [ex, ey]
    have hnq : ((g - 1) / n) % 2 = 1 → n ≤ g - 1 := by
      intro h
      have h1 : 1 ≤ (g - 1) / n := by omega
      calc n = n * 1 := (Nat.mul_one n).symm
        _ ≤ n * ((g - 1) / n) := Nat.mul_le_mul_left n h1
        _ ≤ g - 1 := Nat.mul_div_le _ _
    generalize (g - 1) / n = q at hq hq2 hnq ⊢
    generalize (g - 1) % n = r at hr hr2 ⊢
    by_cases c : q % 2 = 1
    · rw [if_pos c, if_neg (by omega)]
      simp only [Prod.mk.injEq, and_true, toUInt8]
      omega
    · rw [if_neg c, if_pos (by omega)]
  rw [serpentine_order_get n n (g - 1) hk, hp]
  refine ⟨?_, hq, rfl⟩
  show (if ((g - 1) / n) % 2 = 0 then (g - 1) % n else n - 1 - (g - 1) % n) < n
  generalize (g - 1) / n = q at hq hq2 ⊢
  generalize (g - 1) % n = r at hr hr2 ⊢
  split_ifs <;> omega

/-- Witness of C26: the sixth point of the 3 by 3 grid is `(0, 1)`. -/
theorem C26_goto_point_square_witness :
    (serpentine_order 3 3)[6 - 1]? = some (MMESH_OLD_point 3 3 6) ∧
    MMESH_OLD_point 3 3 6 = (0, 1) :=
  ⟨(C26_goto_point_square 3 6 (by decide) (by decide) (by decide)).2.2, by decide⟩

/-- C26 (code defect), the code at the failing inputs.  On a grid of 3 by 2 points the third
point of the serpentine order is `(2, 0)`, and "Goto Mesh Value" computes `(0, 1)` for
`gridpoint = 3`; on a grid of 5 by 2 points it computes `mesh_y = 4` for `gridpoint = 10`,
a row outside the grid.  Line 3951 divides by `GRID_MAX_POINTS_Y` where the length of a row is
`GRID_MAX_POINTS_X`. -/
theorem C26_counterexample :
    serpentine_order 3 2 = [(0, 0), (1, 0), (2, 0), (2, 1), (1, 1), (0, 1)] ∧
    (serpentine_order 3 2)[3 - 1]? = some (2, 0) ∧
    MMESH_OLD_point 3 2 3 = (0, 1) ∧
    MMESH_OLD_point 5 2 10 = (4, 4) ∧ ¬ (MMESH_OLD_point 5 2 10).2 < 2 := by
  decide

/-- Claim C28, as the code has it: from a point inside a grid of `X` by `Y` points, "Next Point"
leaves a point inside the grid except from `(0, Y - 1)` when `Y` is even and `X >= 2`: there it
increments `mesh_y` to `Y`. -/
theorem C28_next_point_in_grid (X Y x y : Nat) (hY2 : Y < 256) (hx : x < X) (hy : y < Y) :
    ((Next_Point_step X Y (x, y)).1 < X ∧ (Next_Point_step X Y (x, y)).2 < Y) ↔
      ¬ (2 ≤ X ∧ Y % 2 = 0 ∧ x = 0 ∧ y + 1 = Y) := by
  simp only [Next_Point_step, Next_Point]
  split_ifs <;> simp only [Option.getD_some, Option.getD_none] <;> omega

/-- Witness of C28: on the 3 by 3 grid the step from `(2, 0)` leads to `(2, 1)`. -/
theorem C28_next_point_in_grid_witness :
    (Next_Point_step 3 3 (2, 0)).1 < 3 ∧ (Next_Point_step 3 3 (2, 0)).2 < 3 :=
  (C28_next_point_in_grid 3 3 2 0 (by decide) (by decide) (by decide)).mpr (by decide)

/-- Claim C29, as the code has it, for a grid of `X` by `Y` points.  When `Y` is odd the walk of
"Next Point" from `(0, 0)` visits the points in the serpentine order, every point of the grid
exactly once, and the last of them is the stopping point `(X - 1, Y - 1)`.  When `Y` is even the
walk reaches the stopping point as the first point of the last row, after `X * (Y - 1)` steps,
and stays there: with `X >= 2` the point `(0, Y - 1)` is never visited. -/
theorem C29_next_point_walk (X Y : Nat) (hX : 0 < X) (hX2 : X < 256) (hY : 0 < Y)
    (hY2 : Y < 256) :
    (Y % 2 = 1 →
      Next_Point_visited X Y (X * Y - 1) = serpentine_order X Y ∧
      (Next_Point_visited X Y (X * Y - 1)).Nodup ∧
      (∀ p : Nat × Nat, p.1 < X → p.2 < Y → p ∈ Next_Point_visited X Y (X * Y - 1)) ∧
      Next_Point_walk X Y (X * Y - 1) = (X - 1, Y - 1)) ∧
    (Y % 2 = 0 →
      Next_Point_visited X Y (X * (Y - 1)) = (serpentine_order X Y).take (X * (Y - 1) + 1) ∧
      Next_Point_walk X Y (X * (Y - 1)) = (X - 1, Y - 1) ∧
      (∀ n, X * (Y - 1) ≤ n → Next_Point_walk X Y n = (X - 1, Y - 1)) ∧
      (2 ≤ X → ∀ n, Next_Point_walk X Y n ≠ (0, Y - 1))) := by
  have hXY : X * (Y - 1) + X = X * Y := by
    rw [← Nat.mul_succ]; congr 1; omega
  refine ⟨fun hy => ?_, fun hy => ?_⟩
  · have hK : (if Y % 2 = 1 then X * Y - 1 else X * (Y - 1)) = X * Y - 1 := if_pos hy
    have hvis : Next_Point_visited X Y (X * Y - 1) = serpentine_order X Y := by
      apply List.ext_getElem?
      intro i
      by_cases c : i < X * Y
      · rw [Next_Point_visited_get X Y _ i (by omega), serpentine_order_get X Y i c,
          Next_Point_walk_serpentine X Y i hX hX2 hY hY2 (by rw [hK]; omega)]
      · rw [List.getElem?_eq_none (by rw [Next_Point_visited_length]; omega),
          List.getElem?_eq_none (by rw [serpentine_order_length]; omega)]
    refine ⟨hvis, ?_, ?_, ?_⟩
    · rw [hvis]; exact serpentine_order_nodup X Y
    · intro p p1 p2
      rw [hvis]; exact (mem_serpentine_order X Y p).mpr ⟨p1, p2⟩
    · have := Next_Point_walk_stop X Y hX hX2 hY hY2
      rwa [hK] at this
  · have hK : (if Y % 2 = 1 then X * Y - 1 else X * (Y - 1)) = X * (Y - 1) :=
      if_neg (by omega)
    have hstop := Next_Point_walk_stop X Y hX hX2 hY hY2
    rw [hK] at hstop
    refine ⟨?_, hstop, ?_, ?_⟩
    · apply List.ext_getElem?
      intro i
      by_cases c : i < X * (Y - 1) + 1
      · rw [Next_Point_visited_get X Y _ i (by omega), List.getElem?_take_of_lt c,
          serpentine_order_get X Y i (by omega),
          Next_Point_walk_serpentine X Y i hX hX2 hY hY2 (by rw [hK]; omega)]
      · rw [List.getElem?_eq_none (by rw [Next_Point_visited_length]; omega),
          List.getElem?_eq_none (by
            rw [List.length_take, serpentine_order_length]; omega)]
    · intro n hn
      exact Next_Point_walk_after_stop X Y hX hX2 hY hY2 n (by rw [hK]; exact hn)
    · intro hX3 n
      by_cases c : X * (Y - 1) ≤ n
      · rw [Next_Point_walk_after_stop X Y hX hX2 hY hY2 n (by rw [hK]; exact c)]
        simp only [ne_eq, Prod.mk.injEq, and_true]
        omega
      · rw [Next_Point_walk_serpentine X Y n hX hX2 hY hY2 (by rw [hK]; omega)]
        have hq : n / X < Y - 1 := by
          apply (Nat.div_lt_iff_lt_mul hX).mpr
          rw [Nat.mul_comm]; omega
        simp only [ne_eq, Prod.mk.injEq, not_and]
        omega

/-- Witness of C29: on the 3 by 3 grid the walk visits the nine points in the order
`0,0 -> 1,0 -> 2,0 -> 2,1 -> 1,1 -> 0,1 -> 0,2 -> 1,2 -> 2,2`. -/
theorem C29_next_point_walk_witness :
    Next_Point_visited 3 3 (3 * 3 - 1) = serpentine_order 3 3 ∧
    serpentine_order 3 3 =
      [(0, 0), (1, 0), (2, 0), (2, 1), (1, 1), (0, 1), (0, 2), (1, 2), (2, 2)] :=
  ⟨((C29_next_point_walk 3 3 (by decide) (by decide) (by decide) (by decide)).1
      (by decide)).1, by decide⟩

/-! ## Agreement of the draw and the activate branches -/

theorem isSome_ite_cons {α : Type} {p q : Prop} [Decidable p] {x : α} {r : Option α}
    (h : r.isSome ↔ q) : (if p then some x else r).isSome ↔ (p ∨ q) := by
  by_cases hp : p
  · simp [hp]
  · simp [hp, h]

theorem isSome_ite_last {α : Type} {p : Prop} [Decidable p] {x : α} :
    (if p then some x else none).isSome ↔ p := by
  by_cases hp : p <;> simp [hp]

theorem noop_ite_cons {p q : Prop} [Decidable p] {a r s : State} (h : ¬ q → r = s) :
    ¬ (p ∨ q) → (if p then a else r) = s := by
  intro hn
  rw [if_neg (fun hp => hn (Or.inl hp))]
  exact h (fun hq => hn (Or.inr hq))

theorem noop_ite_last {p : Prop} [Decidable p] {a s : State} :
    ¬ p → (if p then a else s) = s := fun hn => if_neg hn

theorem Row_agrees_ite {e : Env} {m : Machine} {item : Nat} {p : Prop} [Decidable p] {r1 r2 : Option RowView}
    {s a b : State} (h1 : p → Row_agrees e m item r1 s a) (h2 : ¬ p → Row_agrees e m item r2 s b) :
    Row_agrees e m item (if p then r1 else r2) s (if p then a else b) := by
  by_cases hp : p
  · rw [if_pos hp, if_pos hp]
    exact h1 hp
  · rw [if_neg hp, if_neg hp]
    exact h2 hp

theorem Row_agrees_none {e : Env} {m : Machine} {item : Nat} {s t : State} : Row_agrees e m item none s t := by
  unfold Row_agrees
  exact ⟨fun _ _ h => (by cases h), fun _ _ h => (by cases h), fun _ h => (by cases h),
    fun _ _ h => (by cases h)⟩

theorem Row_agrees_plain {e : Env} {m : Machine} {item : Nat} {s t : State} (l : String) :
    Row_agrees e m item (some ⟨l, none⟩) s t := by
  unfold Row_agrees
  exact ⟨fun _ _ h => (by cases h), fun _ _ h => (by cases h), fun _ h => (by cases h),
    fun _ _ h => (by cases h)⟩

theorem Row_agrees_checkbox {e : Env} {m : Machine} {item : Nat} {s t : State} (l : String)
    (b : Flag) (h : Checkbox_agrees m b s t) :
    Row_agrees e m item (some ⟨l, some (.checkbox b)⟩) s t := by
  unfold Row_agrees
  refine ⟨fun _ _ h1 => (by cases h1), fun _ _ h1 => (by cases h1), fun _ h1 => (by cases h1),
    fun l1 b1 h1 => ?_⟩
  cases h1
  exact h

theorem Row_agrees_local_copy {e : Env} {m : Machine} {item : Nat} {s t : State} (l : String) (p : ValuePtr) :
    Row_agrees e m item (some ⟨l, some (.local_copy p)⟩) s t := by
  unfold Row_agrees
  exact ⟨fun _ _ h => (by cases h), fun _ _ h => (by cases h), fun _ h => (by cases h),
    fun _ _ h => (by cases h)⟩

theorem Row_agrees_of_value {e : Env} {m : Machine} {item : Nat} {s t : State} (l : String) (v : ValuePtr)
    (h : t.process = .Value ∧ t.valuepointer = v) :
    Row_agrees e m item (some ⟨l, some (.value v)⟩) s t := by
  unfold Row_agrees
  refine ⟨fun l1 v1 h1 => ?_, fun _ _ h1 => (by cases h1), fun _ h1 => (by cases h1),
    fun _ _ h1 => (by cases h1)⟩
  cases h1
  exact Or.inl h

theorem Modify_Value_opens (c : Config) (value : ValuePtr) (type : Nat) (min max unit : ℚ)
    (f : Option Callback) (s : State) :
    (Modify_Value c value type min max unit f s).process = .Value ∧
    (Modify_Value c value type min max unit f s).valuepointer = value := by
  simp [Modify_Value, Setup_Value]

theorem Row_agrees_value {e : Env} {m : Machine} {item : Nat} {s : State} (l : String) (c : Config)
    (v : ValuePtr) (type : Nat) (min max unit : ℚ) (f : Option Callback) (s1 : State) :
    Row_agrees e m item (some ⟨l, some (.value v)⟩) s (Modify_Value c v type min max unit f s1) :=
  Row_agrees_of_value l v (Modify_Value_opens c v type min max unit f s1)

theorem Row_agrees_color {e : Env} {m : Machine} {item : Nat} {s : State} (l : String) (f : ColorField)
    (h : item = f.selection e.cfg) :
    Row_agrees e m item (some ⟨l, some (.color f)⟩) s
      (Modify_Option (f.get s.eeprom_settings) .color_names e.cfg.Custom_Colors s) := by
  unfold Row_agrees
  refine ⟨fun _ _ h1 => (by cases h1), fun l1 f1 h1 => ?_, fun _ h1 => (by cases h1),
    fun _ _ h1 => (by cases h1)⟩
  cases h1
  exact ⟨h, rfl, rfl, rfl, rfl, rfl, rfl, rfl, rfl⟩

theorem Row_agrees_preheat_mode {e : Env} {m : Machine} {item : Nat} {s : State} (l : String) :
    Row_agrees e m item (some ⟨l, some .preheat_mode⟩) s
      (Modify_Option s.preheatmode .preheat_modes 2 s) := by
  unfold Row_agrees
  exact ⟨fun _ _ h1 => (by cases h1), fun _ _ h1 => (by cases h1),
    fun _ _ => ⟨rfl, rfl, rfl, rfl, rfl, rfl⟩, fun _ _ h1 => (by cases h1)⟩

theorem Row_agrees_extruder {e : Env} {m : Machine} {item : Nat} {s : State} (l : String) (c : Config)
    (type : Nat) (min max unit : ℚ) (f : Option Callback) (t s1 : State)
    (ht : s.vars .hotend_target < s.vars .extrude_min_temp → t = Popup_Handler .ETemp s) :
    Row_agrees e m item (some ⟨l, some (.value .current_position_e)⟩) s
      (if s.vars .hotend_target < s.vars .extrude_min_temp then t
       else Modify_Value c .current_position_e type min max unit f s1) := by
  unfold Row_agrees
  refine ⟨fun l1 v1 h1 => ?_, fun _ _ h1 => (by cases h1), fun _ h1 => (by cases h1),
    fun _ _ h1 => (by cases h1)⟩
  cases h1
  by_cases hc : s.vars .hotend_target < s.vars .extrude_min_temp
  · rw [if_pos hc]
    exact Or.inr ⟨rfl, hc, ht hc⟩
  · rw [if_neg hc]
    exact Or.inl (Modify_Value_opens _ _ _ _ _ _ _ _)

theorem Draw_Print_Filename_use_probe (reset : Bool) (s : State) :
    (Draw_Print_Filename reset s).use_probe = s.use_probe := by
  unfold Draw_Print_Filename
  cases reset <;> simp only [] <;> split_ifs <;> rfl

theorem Update_Status_use_probe (c : Config) (text : String) (s : State) :
    (Update_Status c text s).use_probe = s.use_probe := by
  unfold Update_Status
  split
  · rw [Draw_Print_Filename_use_probe]
  · rfl

theorem Item_draw_use_probe (e : Env) (m : Machine) (menu : Menu) (item : Nat) (s : State) :
    (Item_draw e m menu item s).use_probe = s.use_probe := by
  unfold Item_draw
  cases menu <;> simp only []
  · split
    · rfl
    · rfl
  · split
    · simp only [Set_Mesh_Viewer_Status]
      rw [Update_Status_use_probe]
      rfl
    · rfl
  · split
    · rfl
    · rfl

theorem draw_rows_use_probe (e : Env) (m : Machine) (menu : Menu) (g : Nat → Nat) (l : List Nat)
    (s : State) : (l.foldl (fun t i => Item_draw e m menu (g i) t) s).use_probe = s.use_probe := by
  induction l generalizing s with
  | nil => rfl
  | cons i l ih => rw [List.foldl_cons, ih, Item_draw_use_probe]

theorem Draw_Menu_use_probe (e : Env) (m : Machine) (menu : Menu) (select scroll : Nat)
    (s : State) : (Draw_Menu e m menu select scroll s).use_probe = s.use_probe := by
  unfold Draw_Menu
  simp only []
  rw [draw_rows_use_probe e m menu (fun i => (i + _) % 256)]
  split_ifs <;> rfl

theorem Redraw_Menu_use_probe (e : Env) (m : Machine) (lp ls lm : Bool) (s : State) :
    (Redraw_Menu e m lp ls lm s).use_probe = s.use_probe := by
  unfold Redraw_Menu
  split
  · exact Draw_Menu_use_probe e m _ _ _ s
  · rfl
  · unfold Draw_Print_Screen
    rw [Draw_Print_Filename_use_probe]
  · rfl
  · rfl

theorem Popup_Handler_use_probe (p : PopupID) (s : State) :
    (Popup_Handler p s).use_probe = s.use_probe := by
  unfold Popup_Handler
  simp only [Draw_Popup]
  split <;> (try split_ifs) <;> rfl

/-- Row "Use Probe" switches `use_probe`. -/
theorem ManualLevel_probe_agrees (e : Env) (m : Machine) (s : State) :
    Checkbox_agrees m .use_probe s (ManualLevel_probe e m s) := by
  show (ManualLevel_probe e m s).use_probe = !s.use_probe
  unfold ManualLevel_probe
  simp only []
  split_ifs
  · rw [Redraw_Menu_use_probe]
    simp only [State.call]
    exact Popup_Handler_use_probe .Level _
  · rfl

/-- Row "Live Adjustment" switches `liveadjust`. -/
theorem ZOffset_mode_agrees (e : Env) (m : Machine) (s : State) :
    Checkbox_agrees m .liveadjust s (ZOffset_mode e m s) := by
  show (ZOffset_mode e m s).liveadjust = !s.liveadjust
  have hl : ∀ a b : State, a.edit = b.edit → a.liveadjust = b.liveadjust := fun a b h =>
    (edit_fields h).2.2.2.2.2.2.2.1
  have hp : ∀ (p : PopupID) (a : State), (Popup_Handler p a).liveadjust = a.liveadjust :=
    fun p a => hl _ _ (Popup_Handler_edit p a)
  unfold ZOffset_mode
  simp only []
  congr 1
  refine ite_cases (fun u : State => u.liveadjust = s.liveadjust) (fun _ => ?_) (fun _ => rfl)
  beta_reduce
  rw [hl _ _ (Redraw_Menu_edit e m true false false _)]
  by_cases h1 : e.cfg.Z_SAFE_HOMING = true <;> by_cases h2 : m.axes_should_home = true <;>
    simp only [h1, h2, if_true, if_false, State.call, State.gcode, hp, Bool.false_eq_true]

theorem Draw_Popup_leveling_active (mode : Process) (s : State) :
    (Draw_Popup mode s).leveling_active = s.leveling_active := by
  simp only [Draw_Popup]
  split_ifs <;> rfl

theorem Confirm_Handler_leveling_active (p : PopupID) (s : State) :
    (Confirm_Handler p s).leveling_active = s.leveling_active := by
  unfold Confirm_Handler
  simp only []
  split <;> first | (rw [Draw_Popup_leveling_active]) | rfl

/-- Row "Leveling Active" switches `planner.leveling_active` through
`set_bed_leveling_enabled`. -/
theorem Leveling_active_agrees (m : Machine) (s : State) :
    Checkbox_agrees m .leveling_active s
      (if s.leveling_active = false then
        if (({ s with leveling_active := m.leveling_enable_result } : State).call
            "set_bed_leveling_enabled(true)").leveling_active = false then
          Confirm_Handler .LevelError
            (({ s with leveling_active := m.leveling_enable_result } : State).call
              "set_bed_leveling_enabled(true)")
        else
          ({ s with leveling_active := m.leveling_enable_result } : State).call
            "set_bed_leveling_enabled(true)"
       else ({ s with leveling_active := false } : State).call
        "set_bed_leveling_enabled(false)") := by
  constructor
  · intro h
    rw [if_neg (by rw [h]; decide)]
    rfl
  · intro h
    rw [if_pos h]
    split_ifs
    · rw [Confirm_Handler_leveling_active]
      rfl
    · rfl

/-- Row "Go to Mesh Z Value" switches `goto_mesh_value`. -/
theorem goto_mesh_value_agrees (e : Env) (m : Machine) (s : State) :
    Checkbox_agrees m .goto_mesh_value s
      (manual_move e m true
        (({ s with goto_mesh_value := !s.goto_mesh_value } : State).store
          .current_position_z 0)) := by
  show (manual_move e m true _).goto_mesh_value = !s.goto_mesh_value
  simp only [manual_move, if_true]
  rfl

theorem Prepare_row_isSome (c : Config) (item : Nat) (s : State) :
    (Prepare_row c item s).isSome ↔ Prepare_case c item := by
  unfold Prepare_row Prepare_case
  iterate 8 refine isSome_ite_cons ?_
  exact isSome_ite_last

theorem Prepare_activate_no_case (e : Env) (m : Machine) (item : Nat) (s : State) :
    ¬ Prepare_case e.cfg item → Prepare_activate e m item s = s := by
  unfold Prepare_case Prepare_activate
  iterate 8 refine noop_ite_cons ?_
  exact noop_ite_last

theorem Prepare_row_agrees (e : Env) (m : Machine) (item : Nat) (s : State) :
    Row_agrees e m item (Prepare_row e.cfg item s) s (Prepare_activate e m item s) := by
  unfold Prepare_row Prepare_activate
  refine Row_agrees_ite (fun _ => Row_agrees_plain _) (fun _ => ?_)
  refine Row_agrees_ite (fun _ => Row_agrees_plain _) (fun _ => ?_)
  refine Row_agrees_ite (fun _ => Row_agrees_plain _) (fun _ => ?_)
  refine Row_agrees_ite (fun _ => Row_agrees_plain _) (fun _ => ?_)
  refine Row_agrees_ite (fun _ => Row_agrees_plain _) (fun _ => ?_)
  refine Row_agrees_ite (fun _ => Row_agrees_plain _) (fun _ => ?_)
  refine Row_agrees_ite (fun _ => Row_agrees_plain _) (fun _ => ?_)
  refine Row_agrees_ite (fun _ => Row_agrees_plain _) (fun _ => ?_)
  refine Row_agrees_ite (fun _ => Row_agrees_plain _) (fun _ => ?_)
  exact Row_agrees_none

theorem HomeMenu_row_isSome (c : Config) (item : Nat) (s : State) :
    (HomeMenu_row c item s).isSome ↔ HomeMenu_case c item := by
  unfold HomeMenu_row HomeMenu_case
  iterate 5 refine isSome_ite_cons ?_
  exact isSome_ite_last

theorem HomeMenu_activate_no_case (e : Env) (m : Machine) (item : Nat) (s : State) :
    ¬ HomeMenu_case e.cfg item → HomeMenu_activate e m item s = s := by
  unfold HomeMenu_case HomeMenu_activate
  iterate 5 refine noop_ite_cons ?_
  exact noop_ite_last

theorem HomeMenu_row_agrees (e : Env) (m : Machine) (item : Nat) (s : State) :
    Row_agrees e m item (HomeMenu_row e.cfg item s) s (HomeMenu_activate e m item s) := by
  unfold HomeMenu_row HomeMenu_activate
  refine Row_agrees_ite (fun _ => Row_agrees_plain _) (fun _ => ?_)
  refine Row_agrees_ite (fun _ => Row_agrees_plain _) (fun _ => ?_)
  refine Row_agrees_ite (fun _ => Row_agrees_plain _) (fun _ => ?_)
  refine Row_agrees_ite (fun _ => Row_agrees_plain _) (fun _ => ?_)
  refine Row_agrees_ite (fun _ => Row_agrees_plain _) (fun _ => ?_)
  refine Row_agrees_ite (fun _ => Row_agrees_plain _) (fun _ => ?_)
  exact Row_agrees_none

theorem Move_row_isSome (c : Config) (item : Nat) (s : State) :
    (Move_row c item s).isSome ↔ Move_case c item := by
  unfold Move_row Move_case
  iterate 6 refine isSome_ite_cons ?_
  exact isSome_ite_last

theorem Move_activate_no_case (e : Env) (m : Machine) (item : Nat) (s : State) :
    ¬ Move_case e.cfg item → Move_activate e m item s = s := by
  unfold Move_case Move_activate
  iterate 6 refine noop_ite_cons ?_
  exact noop_ite_last

theorem Move_row_agrees (e : Env) (m : Machine) (item : Nat) (s : State) :
    Row_agrees e m item (Move_row e.cfg item s) s (Move_activate e m item s) := by
  unfold Move_row Move_activate
  refine Row_agrees_ite (fun _ => Row_agrees_plain _) (fun _ => ?_)
  refine Row_agrees_ite (fun _ => Row_agrees_value _ _ _ _ _ _ _ _ _) (fun _ => ?_)
  refine Row_agrees_ite (fun _ => Row_agrees_value _ _ _ _ _ _ _ _ _) (fun _ => ?_)
  refine Row_agrees_ite (fun _ => Row_agrees_value _ _ _ _ _ _ _ _ _) (fun _ => ?_)
  refine Row_agrees_ite (fun _ => Row_agrees_extruder _ _ _ _ _ _ _ _ _ (fun _ => rfl)) (fun _ => ?_)
  refine Row_agrees_ite (fun _ => Row_agrees_checkbox _ _ (by exact rfl)) (fun _ => ?_)
  refine Row_agrees_ite (fun _ => Row_agrees_checkbox _ _ (by exact rfl)) (fun _ => ?_)
  exact Row_agrees_none

theorem ManualLevel_row_isSome (c : Config) (item : Nat) (s : State) :
    (ManualLevel_row c item s).isSome ↔ ManualLevel_case c item := by
  unfold ManualLevel_row ManualLevel_case
  iterate 7 refine isSome_ite_cons ?_
  exact isSome_ite_last

theorem ManualLevel_activate_no_case (e : Env) (m : Machine) (item : Nat) (s : State) :
    ¬ ManualLevel_case e.cfg item → ManualLevel_activate e m item s = s := by
  unfold ManualLevel_case ManualLevel_activate
  iterate 7 refine noop_ite_cons ?_
  exact noop_ite_last

theorem ManualLevel_row_agrees (e : Env) (m : Machine) (item : Nat) (s : State) :
    Row_agrees e m item (ManualLevel_row e.cfg item s) s (ManualLevel_activate e m item s) := by
  unfold ManualLevel_row ManualLevel_activate
  refine Row_agrees_ite (fun _ => Row_agrees_plain _) (fun _ => ?_)
  refine Row_agrees_ite (fun _ => Row_agrees_checkbox _ _ (ManualLevel_probe_agrees e m s)) (fun _ => ?_)
  refine Row_agrees_ite (fun _ => Row_agrees_plain _) (fun _ => ?_)
  refine Row_agrees_ite (fun _ => Row_agrees_plain _) (fun _ => ?_)
  refine Row_agrees_ite (fun _ => Row_agrees_plain _) (fun _ => ?_)
  refine Row_agrees_ite (fun _ => Row_agrees_plain _) (fun _ => ?_)
  refine Row_agrees_ite (fun _ => Row_agrees_plain _) (fun _ => ?_)
  refine Row_agrees_ite (fun _ => Row_agrees_value _ _ _ _ _ _ _ _ _) (fun _ => ?_)
  exact Row_agrees_none

theorem ZOffset_row_isSome (c : Config) (item : Nat) (s : State) :
    (ZOffset_row c item s).isSome ↔ ZOffset_case c item := by
  unfold ZOffset_row ZOffset_case
  iterate 6 refine isSome_ite_cons ?_
  exact isSome_ite_last

theorem ZOffset_activate_no_case (e : Env) (m : Machine) (item : Nat) (s : State) :
    ¬ ZOffset_case e.cfg item → ZOffset_activate e m item s = s := by
  unfold ZOffset_case ZOffset_activate
  iterate 6 refine noop_ite_cons ?_
  exact noop_ite_last

theorem ZOffset_row_agrees (e : Env) (m : Machine) (item : Nat) (s : State) :
    Row_agrees e m item (ZOffset_row e.cfg item s) s (ZOffset_activate e m item s) := by
  unfold ZOffset_row ZOffset_activate
  refine Row_agrees_ite (fun _ => Row_agrees_plain _) (fun _ => ?_)
  refine Row_agrees_ite (fun _ => Row_agrees_plain _) (fun _ => ?_)
  refine Row_agrees_ite (fun _ => Row_agrees_checkbox _ _ (ZOffset_mode_agrees e m s)) (fun _ => ?_)
  refine Row_agrees_ite (fun _ => Row_agrees_value _ _ _ _ _ _ _ _ _) (fun _ => ?_)
  refine Row_agrees_ite (fun _ => Row_agrees_plain _) (fun _ => ?_)
  refine Row_agrees_ite (fun _ => Row_agrees_plain _) (fun _ => ?_)
  refine Row_agrees_ite (fun _ => Row_agrees_plain _) (fun _ => ?_)
  exact Row_agrees_none

theorem Preheat_row_isSome (c : Config) (item : Nat) (s : State) :
    (Preheat_row c item s).isSome ↔ Preheat_case c item := by
  unfold Preheat_row Preheat_case
  iterate 6 refine isSome_ite_cons ?_
  exact isSome_ite_last

theorem Preheat_activate_no_case (e : Env) (m : Machine) (item : Nat) (s : State) :
    ¬ Preheat_case e.cfg item → Preheat_activate e m item s = s := by
  unfold Preheat_case Preheat_activate
  iterate 6 refine noop_ite_cons ?_
  exact noop_ite_last

theorem Preheat_row_agrees (e : Env) (m : Machine) (item : Nat) (s : State) :
    Row_agrees e m item (Preheat_row e.cfg item s) s (Preheat_activate e m item s) := by
  unfold Preheat_row Preheat_activate
  refine Row_agrees_ite (fun _ => Row_agrees_plain _) (fun _ => ?_)
  refine Row_agrees_ite (fun _ => Row_agrees_preheat_mode _) (fun _ => ?_)
  refine Row_agrees_ite (fun _ => Row_agrees_plain _) (fun _ => ?_)
  refine Row_agrees_ite (fun _ => Row_agrees_plain _) (fun _ => ?_)
  refine Row_agrees_ite (fun _ => Row_agrees_plain _) (fun _ => ?_)
  refine Row_agrees_ite (fun _ => Row_agrees_plain _) (fun _ => ?_)
  refine Row_agrees_ite (fun _ => Row_agrees_plain _) (fun _ => ?_)
  exact Row_agrees_none

theorem ChangeFilament_row_isSome (c : Config) (item : Nat) (s : State) :
    (ChangeFilament_row c item s).isSome ↔ ChangeFilament_case c item := by
  unfold ChangeFilament_row ChangeFilament_case
  iterate 3 refine isSome_ite_cons ?_
  exact isSome_ite_last

theorem ChangeFilament_activate_no_case (e : Env) (m : Machine) (item : Nat) (s : State) :
    ¬ ChangeFilament_case e.cfg item → ChangeFilament_activate e m item s = s := by
  unfold ChangeFilament_case ChangeFilament_activate
  iterate 3 refine noop_ite_cons ?_
  exact noop_ite_last

theorem ChangeFilament_row_agrees (e : Env) (m : Machine) (item : Nat) (s : State) :
    Row_agrees e m item (ChangeFilament_row e.cfg item s) s (ChangeFilament_activate e m item s) := by
  unfold ChangeFilament_row ChangeFilament_activate
  refine Row_agrees_ite (fun _ => Row_agrees_plain _) (fun _ => ?_)
  refine Row_agrees_ite (fun _ => Row_agrees_plain _) (fun _ => ?_)
  refine Row_agrees_ite (fun _ => Row_agrees_plain _) (fun _ => ?_)
  refine Row_agrees_ite (fun _ => Row_agrees_plain _) (fun _ => ?_)
  exact Row_agrees_none

theorem Control_row_isSome (c : Config) (item : Nat) (s : State) :
    (Control_row c item s).isSome ↔ Control_case c item := by
  unfold Control_row Control_case
  iterate 8 refine isSome_ite_cons ?_
  exact isSome_ite_last

theorem Control_activate_no_case (e : Env) (m : Machine) (item : Nat) (s : State) :
    ¬ Control_case e.cfg item → Control_activate e m item s = s := by
  unfold Control_case Control_activate
  iterate 8 refine noop_ite_cons ?_
  exact noop_ite_last

theorem Control_row_agrees (e : Env) (m : Machine) (item : Nat) (s : State) :
    Row_agrees e m item (Control_row e.cfg item s) s (Control_activate e m item s) := by
  unfold Control_row Control_activate
  refine Row_agrees_ite (fun _ => Row_agrees_plain _) (fun _ => ?_)
  refine Row_agrees_ite (fun _ => Row_agrees_plain _) (fun _ => ?_)
  refine Row_agrees_ite (fun _ => Row_agrees_plain _) (fun _ => ?_)
  refine Row_agrees_ite (fun _ => Row_agrees_plain _) (fun _ => ?_)
  refine Row_agrees_ite (fun _ => Row_agrees_plain _) (fun _ => ?_)
  refine Row_agrees_ite (fun _ => Row_agrees_plain _) (fun _ => ?_)
  refine Row_agrees_ite (fun _ => Row_agrees_plain _) (fun _ => ?_)
  refine Row_agrees_ite (fun _ => Row_agrees_plain _) (fun _ => ?_)
  refine Row_agrees_ite (fun _ => Row_agrees_plain _) (fun _ => ?_)
  exact Row_agrees_none

theorem TempMenu_row_isSome (c : Config) (item : Nat) (s : State) :
    (TempMenu_row c item s).isSome ↔ TempMenu_case c item := by
  unfold TempMenu_row TempMenu_case
  iterate 9 refine isSome_ite_cons ?_
  exact isSome_ite_last

theorem TempMenu_activate_no_case (e : Env) (m : Machine) (item : Nat) (s : State) :
    ¬ TempMenu_case e.cfg item → TempMenu_activate e m item s = s := by
  unfold TempMenu_case TempMenu_activate
  iterate 9 refine noop_ite_cons ?_
  exact noop_ite_last

theorem TempMenu_row_agrees (e : Env) (m : Machine) (item : Nat) (s : State) :
    Row_agrees e m item (TempMenu_row e.cfg item s) s (TempMenu_activate e m item s) := by
  unfold TempMenu_row TempMenu_activate
  refine Row_agrees_ite (fun _ => Row_agrees_plain _) (fun _ => ?_)
  refine Row_agrees_ite (fun _ => Row_agrees_value _ _ _ _ _ _ _ _ _) (fun _ => ?_)
  refine Row_agrees_ite (fun _ => Row_agrees_value _ _ _ _ _ _ _ _ _) (fun _ => ?_)
  refine Row_agrees_ite (fun _ => Row_agrees_value _ _ _ _ _ _ _ _ _) (fun _ => ?_)
  refine Row_agrees_ite (fun _ => Row_agrees_plain _) (fun _ => ?_)
  refine Row_agrees_ite (fun _ => Row_agrees_plain _) (fun _ => ?_)
  refine Row_agrees_ite (fun _ => Row_agrees_plain _) (fun _ => ?_)
  refine Row_agrees_ite (fun _ => Row_agrees_plain _) (fun _ => ?_)
  refine Row_agrees_ite (fun _ => Row_agrees_plain _) (fun _ => ?_)
  refine Row_agrees_ite (fun _ => Row_agrees_plain _) (fun _ => ?_)
  exact Row_agrees_none

theorem PID_row_isSome (c : Config) (item : Nat) (s : State) :
    (PID_row c item s).isSome ↔ PID_case c item := by
  unfold PID_row PID_case
  iterate 3 refine isSome_ite_cons ?_
  exact isSome_ite_last

theorem PID_activate_no_case (e : Env) (m : Machine) (item : Nat) (s : State) :
    ¬ PID_case e.cfg item → PID_activate e m item s = s := by
  unfold PID_case PID_activate
  iterate 3 refine noop_ite_cons ?_
  exact noop_ite_last

theorem PID_row_agrees (e : Env) (m : Machine) (item : Nat) (s : State) :
    Row_agrees e m item (PID_row e.cfg item s) s (PID_activate e m item s) := by
  unfold PID_row PID_activate
  refine Row_agrees_ite (fun _ => Row_agrees_plain _) (fun _ => ?_)
  refine Row_agrees_ite (fun _ => Row_agrees_plain _) (fun _ => ?_)
  refine Row_agrees_ite (fun _ => Row_agrees_plain _) (fun _ => ?_)
  refine Row_agrees_ite (fun _ => Row_agrees_value _ _ _ _ _ _ _ _ _) (fun _ => ?_)
  exact Row_agrees_none

theorem HotendPID_row_isSome (c : Config) (item : Nat) (s : State) :
    (HotendPID_row c item s).isSome ↔ HotendPID_case c item := by
  unfold HotendPID_row HotendPID_case
  iterate 5 refine isSome_ite_cons ?_
  exact isSome_ite_last

theorem HotendPID_activate_no_case (e : Env) (m : Machine) (item : Nat) (s : State) :
    ¬ HotendPID_case e.cfg item → HotendPID_activate e m item s = s := by
  unfold HotendPID_case HotendPID_activate
  iterate 5 refine noop_ite_cons ?_
  exact noop_ite_last

theorem HotendPID_row_agrees (e : Env) (m : Machine) (item : Nat) (s : State) :
    Row_agrees e m item (HotendPID_row e.cfg item s) s (HotendPID_activate e m item s) := by
  unfold HotendPID_row HotendPID_activate
  refine Row_agrees_ite (fun _ => Row_agrees_plain _) (fun _ => ?_)
  refine Row_agrees_ite (fun _ => Row_agrees_plain _) (fun _ => ?_)
  refine Row_agrees_ite (fun _ => Row_agrees_value _ _ _ _ _ _ _ _ _) (fun _ => ?_)
  refine Row_agrees_ite (fun _ => Row_agrees_value _ _ _ _ _ _ _ _ _) (fun _ => ?_)
  refine Row_agrees_ite (fun _ => Row_agrees_value _ _ _ _ _ _ _ _ _) (fun _ => ?_)
  refine Row_agrees_ite (fun _ => Row_agrees_value _ _ _ _ _ _ _ _ _) (fun _ => ?_)
  exact Row_agrees_none

theorem BedPID_row_isSome (c : Config) (item : Nat) (s : State) :
    (BedPID_row c item s).isSome ↔ BedPID_case c item := by
  unfold BedPID_row BedPID_case
  iterate 5 refine isSome_ite_cons ?_
  exact isSome_ite_last

theorem BedPID_activate_no_case (e : Env) (m : Machine) (item : Nat) (s : State) :
    ¬ BedPID_case e.cfg item → BedPID_activate e m item s = s := by
  unfold BedPID_case BedPID_activate
  iterate 5 refine noop_ite_cons ?_
  exact noop_ite_last

theorem BedPID_row_agrees (e : Env) (m : Machine) (item : Nat) (s : State) :
    Row_agrees e m item (BedPID_row e.cfg item s) s (BedPID_activate e m item s) := by
  unfold BedPID_row BedPID_activate
  refine Row_agrees_ite (fun _ => Row_agrees_plain _) (fun _ => ?_)
  refine Row_agrees_ite (fun _ => Row_agrees_plain _) (fun _ => ?_)
  refine Row_agrees_ite (fun _ => Row_agrees_value _ _ _ _ _ _ _ _ _) (fun _ => ?_)
  refine Row_agrees_ite (fun _ => Row_agrees_value _ _ _ _ _ _ _ _ _) (fun _ => ?_)
  refine Row_agrees_ite (fun _ => Row_agrees_value _ _ _ _ _ _ _ _ _) (fun _ => ?_)
  refine Row_agrees_ite (fun _ => Row_agrees_value _ _ _ _ _ _ _ _ _) (fun _ => ?_)
  exact Row_agrees_none

theorem Preheat1_row_isSome (c : Config) (item : Nat) (s : State) :
    (Preheat1_row c item s).isSome ↔ Preheat1_case c item := by
  unfold Preheat1_row Preheat1_case
  iterate 3 refine isSome_ite_cons ?_
  exact isSome_ite_last

theorem Preheat1_activate_no_case (e : Env) (m : Machine) (item : Nat) (s : State) :
    ¬ Preheat1_case e.cfg item → Preheat1_activate e m item s = s := by
  unfold Preheat1_case Preheat1_activate
  iterate 3 refine noop_ite_cons ?_
  exact noop_ite_last

theorem Preheat1_row_agrees (e : Env) (m : Machine) (item : Nat) (s : State) :
    Row_agrees e m item (Preheat1_row e.cfg item s) s (Preheat1_activate e m item s) := by
  unfold Preheat1_row Preheat1_activate
  refine Row_agrees_ite (fun _ => Row_agrees_plain _) (fun _ => ?_)
  refine Row_agrees_ite (fun _ => Row_agrees_value _ _ _ _ _ _ _ _ _) (fun _ => ?_)
  refine Row_agrees_ite (fun _ => Row_agrees_value _ _ _ _ _ _ _ _ _) (fun _ => ?_)
  refine Row_agrees_ite (fun _ => Row_agrees_value _ _ _ _ _ _ _ _ _) (fun _ => ?_)
  exact Row_agrees_none

theorem Preheat2_row_isSome (c : Config) (item : Nat) (s : State) :
    (Preheat2_row c item s).isSome ↔ Preheat2_case c item := by
  unfold Preheat2_row Preheat2_case
  iterate 3 refine isSome_ite_cons ?_
  exact isSome_ite_last

theorem Preheat2_activate_no_case (e : Env) (m : Machine) (item : Nat) (s : State) :
    ¬ Preheat2_case e.cfg item → Preheat2_activate e m item s = s := by
  unfold Preheat2_case Preheat2_activate
  iterate 3 refine noop_ite_cons ?_
  exact noop_ite_last

theorem Preheat2_row_agrees (e : Env) (m : Machine) (item : Nat) (s : State) :
    Row_agrees e m item (Preheat2_row e.cfg item s) s (Preheat2_activate e m item s) := by
  unfold Preheat2_row Preheat2_activate
  refine Row_agrees_ite (fun _ => Row_agrees_plain _) (fun _ => ?_)
  refine Row_agrees_ite (fun _ => Row_agrees_value _ _ _ _ _ _ _ _ _) (fun _ => ?_)
  refine Row_agrees_ite (fun _ => Row_agrees_value _ _ _ _ _ _ _ _ _) (fun _ => ?_)
  refine Row_agrees_ite (fun _ => Row_agrees_value _ _ _ _ _ _ _ _ _) (fun _ => ?_)
  exact Row_agrees_none

theorem Preheat3_row_isSome (c : Config) (item : Nat) (s : State) :
    (Preheat3_row c item s).isSome ↔ Preheat3_case c item := by
  unfold Preheat3_row Preheat3_case
  iterate 3 refine isSome_ite_cons ?_
  exact isSome_ite_last

theorem Preheat3_activate_no_case (e : Env) (m : Machine) (item : Nat) (s : State) :
    ¬ Preheat3_case e.cfg item → Preheat3_activate e m item s = s := by
  unfold Preheat3_case Preheat3_activate
  iterate 3 refine noop_ite_cons ?_
  exact noop_ite_last

theorem Preheat3_row_agrees (e : Env) (m : Machine) (item : Nat) (s : State) :
    Row_agrees e m item (Preheat3_row e.cfg item s) s (Preheat3_activate e m item s) := by
  unfold Preheat3_row Preheat3_activate
  refine Row_agrees_ite (fun _ => Row_agrees_plain _) (fun _ => ?_)
  refine Row_agrees_ite (fun _ => Row_agrees_value _ _ _ _ _ _ _ _ _) (fun _ => ?_)
  refine Row_agrees_ite (fun _ => Row_agrees_value _ _ _ _ _ _ _ _ _) (fun _ => ?_)
  refine Row_agrees_ite (fun _ => Row_agrees_value _ _ _ _ _ _ _ _ _) (fun _ => ?_)
  exact Row_agrees_none

theorem Preheat4_row_isSome (c : Config) (item : Nat) (s : State) :
    (Preheat4_row c item s).isSome ↔ Preheat4_case c item := by
  unfold Preheat4_row Preheat4_case
  iterate 3 refine isSome_ite_cons ?_
  exact isSome_ite_last

theorem Preheat4_activate_no_case (e : Env) (m : Machine) (item : Nat) (s : State) :
    ¬ Preheat4_case e.cfg item → Preheat4_activate e m item s = s := by
  unfold Preheat4_case Preheat4_activate
  iterate 3 refine noop_ite_cons ?_
  exact noop_ite_last

theorem Preheat4_row_agrees (e : Env) (m : Machine) (item : Nat) (s : State) :
    Row_agrees e m item (Preheat4_row e.cfg item s) s (Preheat4_activate e m item s) := by
  unfold Preheat4_row Preheat4_activate
  refine Row_agrees_ite (fun _ => Row_agrees_plain _) (fun _ => ?_)
  refine Row_agrees_ite (fun _ => Row_agrees_value _ _ _ _ _ _ _ _ _) (fun _ => ?_)
  refine Row_agrees_ite (fun _ => Row_agrees_value _ _ _ _ _ _ _ _ _) (fun _ => ?_)
  refine Row_agrees_ite (fun _ => Row_agrees_value _ _ _ _ _ _ _ _ _) (fun _ => ?_)
  exact Row_agrees_none

theorem Preheat5_row_isSome (c : Config) (item : Nat) (s : State) :
    (Preheat5_row c item s).isSome ↔ Preheat5_case c item := by
  unfold Preheat5_row Preheat5_case
  iterate 3 refine isSome_ite_cons ?_
  exact isSome_ite_last

theorem Preheat5_activate_no_case (e : Env) (m : Machine) (item : Nat) (s : State) :
    ¬ Preheat5_case e.cfg item → Preheat5_activate e m item s = s := by
  unfold Preheat5_case Preheat5_activate
  iterate 3 refine noop_ite_cons ?_
  exact noop_ite_last

theorem Preheat5_row_agrees (e : Env) (m : Machine) (item : Nat) (s : State) :
    Row_agrees e m item (Preheat5_row e.cfg item s) s (Preheat5_activate e m item s) := by
  unfold Preheat5_row Preheat5_activate
  refine Row_agrees_ite (fun _ => Row_agrees_plain _) (fun _ => ?_)
  refine Row_agrees_ite (fun _ => Row_agrees_value _ _ _ _ _ _ _ _ _) (fun _ => ?_)
  refine Row_agrees_ite (fun _ => Row_agrees_value _ _ _ _ _ _ _ _ _) (fun _ => ?_)
  refine Row_agrees_ite (fun _ => Row_agrees_value _ _ _ _ _ _ _ _ _) (fun _ => ?_)
  exact Row_agrees_none

theorem Motion_row_isSome (c : Config) (item : Nat) (s : State) :
    (Motion_row c item s).isSome ↔ Motion_case c item := by
  unfold Motion_row Motion_case
  iterate 6 refine isSome_ite_cons ?_
  exact isSome_ite_last

theorem Motion_activate_no_case (e : Env) (m : Machine) (item : Nat) (s : State) :
    ¬ Motion_case e.cfg item → Motion_activate e m item s = s := by
  unfold Motion_case Motion_activate
  iterate 6 refine noop_ite_cons ?_
  exact noop_ite_last

theorem Motion_row_agrees (e : Env) (m : Machine) (item : Nat) (s : State) :
    Row_agrees e m item (Motion_row e.cfg item s) s (Motion_activate e m item s) := by
  unfold Motion_row Motion_activate
  refine Row_agrees_ite (fun _ => Row_agrees_plain _) (fun _ => ?_)
  refine Row_agrees_ite (fun _ => Row_agrees_plain _) (fun _ => ?_)
  refine Row_agrees_ite (fun _ => Row_agrees_plain _) (fun _ => ?_)
  refine Row_agrees_ite (fun _ => Row_agrees_plain _) (fun _ => ?_)
  refine Row_agrees_ite (fun _ => Row_agrees_plain _) (fun _ => ?_)
  refine Row_agrees_ite (fun _ => Row_agrees_plain _) (fun _ => ?_)
  refine Row_agrees_ite (fun _ => Row_agrees_value _ _ _ _ _ _ _ _ _) (fun _ => ?_)
  exact Row_agrees_none

theorem HomeOffsets_row_isSome (c : Config) (item : Nat) (s : State) :
    (HomeOffsets_row c item s).isSome ↔ HomeOffsets_case c item := by
  unfold HomeOffsets_row HomeOffsets_case
  iterate 2 refine isSome_ite_cons ?_
  exact isSome_ite_last

theorem HomeOffsets_activate_no_case (e : Env) (m : Machine) (item : Nat) (s : State) :
    ¬ HomeOffsets_case e.cfg item → HomeOffsets_activate e m item s = s := by
  unfold HomeOffsets_case HomeOffsets_activate
  iterate 2 refine noop_ite_cons ?_
  exact noop_ite_last

theorem HomeOffsets_row_agrees (e : Env) (m : Machine) (item : Nat) (s : State) :
    Row_agrees e m item (HomeOffsets_row e.cfg item s) s (HomeOffsets_activate e m item s) := by
  unfold HomeOffsets_row HomeOffsets_activate
  refine Row_agrees_ite (fun _ => Row_agrees_plain _) (fun _ => ?_)
  refine Row_agrees_ite (fun _ => Row_agrees_value _ _ _ _ _ _ _ _ _) (fun _ => ?_)
  refine Row_agrees_ite (fun _ => Row_agrees_value _ _ _ _ _ _ _ _ _) (fun _ => ?_)
  exact Row_agrees_none

theorem MaxSpeed_row_isSome (c : Config) (item : Nat) (s : State) :
    (MaxSpeed_row c item s).isSome ↔ MaxSpeed_case c item := by
  unfold MaxSpeed_row MaxSpeed_case
  iterate 4 refine isSome_ite_cons ?_
  exact isSome_ite_last

theorem MaxSpeed_activate_no_case (e : Env) (m : Machine) (item : Nat) (s : State) :
    ¬ MaxSpeed_case e.cfg item → MaxSpeed_activate e m item s = s := by
  unfold MaxSpeed_case MaxSpeed_activate
  iterate 4 refine noop_ite_cons ?_
  exact noop_ite_last

theorem MaxSpeed_row_agrees (e : Env) (m : Machine) (item : Nat) (s : State) :
    Row_agrees e m item (MaxSpeed_row e.cfg item s) s (MaxSpeed_activate e m item s) := by
  unfold MaxSpeed_row MaxSpeed_activate
  refine Row_agrees_ite (fun _ => Row_agrees_plain _) (fun _ => ?_)
  refine Row_agrees_ite (fun _ => Row_agrees_value _ _ _ _ _ _ _ _ _) (fun _ => ?_)
  refine Row_agrees_ite (fun _ => Row_agrees_value _ _ _ _ _ _ _ _ _) (fun _ => ?_)
  refine Row_agrees_ite (fun _ => Row_agrees_value _ _ _ _ _ _ _ _ _) (fun _ => ?_)
  refine Row_agrees_ite (fun _ => Row_agrees_value _ _ _ _ _ _ _ _ _) (fun _ => ?_)
  exact Row_agrees_none

theorem MaxAcceleration_row_isSome (c : Config) (item : Nat) (s : State) :
    (MaxAcceleration_row c item s).isSome ↔ MaxAcceleration_case c item := by
  unfold MaxAcceleration_row MaxAcceleration_case
  iterate 4 refine isSome_ite_cons ?_
  exact isSome_ite_last

theorem MaxAcceleration_activate_no_case (e : Env) (m : Machine) (item : Nat) (s : State) :
    ¬ MaxAcceleration_case e.cfg item → MaxAcceleration_activate e m item s = s := by
  unfold MaxAcceleration_case MaxAcceleration_activate
  iterate 4 refine noop_ite_cons ?_
  exact noop_ite_last

theorem MaxAcceleration_row_agrees (e : Env) (m : Machine) (item : Nat) (s : State) :
    Row_agrees e m item (MaxAcceleration_row e.cfg item s) s (MaxAcceleration_activate e m item s) := by
  unfold MaxAcceleration_row MaxAcceleration_activate
  refine Row_agrees_ite (fun _ => Row_agrees_plain _) (fun _ => ?_)
  refine Row_agrees_ite (fun _ => Row_agrees_value _ _ _ _ _ _ _ _ _) (fun _ => ?_)
  refine Row_agrees_ite (fun _ => Row_agrees_value _ _ _ _ _ _ _ _ _) (fun _ => ?_)
  refine Row_agrees_ite (fun _ => Row_agrees_value _ _ _ _ _ _ _ _ _) (fun _ => ?_)
  refine Row_agrees_ite (fun _ => Row_agrees_value _ _ _ _ _ _ _ _ _) (fun _ => ?_)
  exact Row_agrees_none

theorem MaxJerk_row_isSome (c : Config) (item : Nat) (s : State) :
    (MaxJerk_row c item s).isSome ↔ MaxJerk_case c item := by
  unfold MaxJerk_row MaxJerk_case
  iterate 4 refine isSome_ite_cons ?_
  exact isSome_ite_last

theorem MaxJerk_activate_no_case (e : Env) (m : Machine) (item : Nat) (s : State) :
    ¬ MaxJerk_case e.cfg item → MaxJerk_activate e m item s = s := by
  unfold MaxJerk_case MaxJerk_activate
  iterate 4 refine noop_ite_cons ?_
  exact noop_ite_last

theorem MaxJerk_row_agrees (e : Env) (m : Machine) (item : Nat) (s : State) :
    Row_agrees e m item (MaxJerk_row e.cfg item s) s (MaxJerk_activate e m item s) := by
  unfold MaxJerk_row MaxJerk_activate
  refine Row_agrees_ite (fun _ => Row_agrees_plain _) (fun _ => ?_)
  refine Row_agrees_ite (fun _ => Row_agrees_value _ _ _ _ _ _ _ _ _) (fun _ => ?_)
  refine Row_agrees_ite (fun _ => Row_agrees_value _ _ _ _ _ _ _ _ _) (fun _ => ?_)
  refine Row_agrees_ite (fun _ => Row_agrees_value _ _ _ _ _ _ _ _ _) (fun _ => ?_)
  refine Row_agrees_ite (fun _ => Row_agrees_value _ _ _ _ _ _ _ _ _) (fun _ => ?_)
  exact Row_agrees_none

theorem Steps_row_isSome (c : Config) (item : Nat) (s : State) :
    (Steps_row c item s).isSome ↔ Steps_case c item := by
  unfold Steps_row Steps_case
  iterate 4 refine isSome_ite_cons ?_
  exact isSome_ite_last

theorem Steps_activate_no_case (e : Env) (m : Machine) (item : Nat) (s : State) :
    ¬ Steps_case e.cfg item → Steps_activate e m item s = s := by
  unfold Steps_case Steps_activate
  iterate 4 refine noop_ite_cons ?_
  exact noop_ite_last

theorem Steps_row_agrees (e : Env) (m : Machine) (item : Nat) (s : State) :
    Row_agrees e m item (Steps_row e.cfg item s) s (Steps_activate e m item s) := by
  unfold Steps_row Steps_activate
  refine Row_agrees_ite (fun _ => Row_agrees_plain _) (fun _ => ?_)
  refine Row_agrees_ite (fun _ => Row_agrees_value _ _ _ _ _ _ _ _ _) (fun _ => ?_)
  refine Row_agrees_ite (fun _ => Row_agrees_value _ _ _ _ _ _ _ _ _) (fun _ => ?_)
  refine Row_agrees_ite (fun _ => Row_agrees_value _ _ _ _ _ _ _ _ _) (fun _ => ?_)
  refine Row_agrees_ite (fun _ => Row_agrees_value _ _ _ _ _ _ _ _ _) (fun _ => ?_)
  exact Row_agrees_none

theorem Visual_row_isSome (c : Config) (item : Nat) (s : State) :
    (Visual_row c item s).isSome ↔ Visual_case c item := by
  unfold Visual_row Visual_case
  iterate 4 refine isSome_ite_cons ?_
  exact isSome_ite_last

theorem Visual_activate_no_case (e : Env) (m : Machine) (item : Nat) (s : State) :
    ¬ Visual_case e.cfg item → Visual_activate e m item s = s := by
  unfold Visual_case Visual_activate
  iterate 4 refine noop_ite_cons ?_
  exact noop_ite_last

theorem Visual_row_agrees (e : Env) (m : Machine) (item : Nat) (s : State) :
    Row_agrees e m item (Visual_row e.cfg item s) s (Visual_activate e m item s) := by
  unfold Visual_row Visual_activate
  refine Row_agrees_ite (fun _ => Row_agrees_plain _) (fun _ => ?_)
  refine Row_agrees_ite (fun _ => Row_agrees_plain _) (fun _ => ?_)
  refine Row_agrees_ite (fun _ => Row_agrees_value _ _ _ _ _ _ _ _ _) (fun _ => ?_)
  refine Row_agrees_ite (fun _ => Row_agrees_checkbox _ _ (by exact rfl)) (fun _ => ?_)
  refine Row_agrees_ite (fun _ => Row_agrees_plain _) (fun _ => ?_)
  exact Row_agrees_none

theorem ColorSettings_row_isSome (c : Config) (item : Nat) (s : State) :
    (ColorSettings_row c item s).isSome ↔ ColorSettings_case c item := by
  unfold ColorSettings_row ColorSettings_case
  iterate 11 refine isSome_ite_cons ?_
  exact isSome_ite_last

theorem ColorSettings_activate_no_case (e : Env) (m : Machine) (item : Nat) (s : State) :
    ¬ ColorSettings_case e.cfg item → ColorSettings_activate e m item s = s := by
  unfold ColorSettings_case ColorSettings_activate
  iterate 11 refine noop_ite_cons ?_
  exact noop_ite_last

theorem ColorSettings_row_agrees (e : Env) (m : Machine) (item : Nat) (s : State) :
    Row_agrees e m item (ColorSettings_row e.cfg item s) s (ColorSettings_activate e m item s) := by
  unfold ColorSettings_row ColorSettings_activate
  refine Row_agrees_ite (fun _ => Row_agrees_plain _) (fun _ => ?_)
  refine Row_agrees_ite (fun h => Row_agrees_color _ _ h) (fun _ => ?_)
  refine Row_agrees_ite (fun h => Row_agrees_color _ _ h) (fun _ => ?_)
  refine Row_agrees_ite (fun h => Row_agrees_color _ _ h) (fun _ => ?_)
  refine Row_agrees_ite (fun h => Row_agrees_color _ _ h) (fun _ => ?_)
  refine Row_agrees_ite (fun h => Row_agrees_color _ _ h) (fun _ => ?_)
  refine Row_agrees_ite (fun h => Row_agrees_color _ _ h) (fun _ => ?_)
  refine Row_agrees_ite (fun h => Row_agrees_color _ _ h) (fun _ => ?_)
  refine Row_agrees_ite (fun h => Row_agrees_color _ _ h) (fun _ => ?_)
  refine Row_agrees_ite (fun h => Row_agrees_color _ _ h) (fun _ => ?_)
  refine Row_agrees_ite (fun h => Row_agrees_color _ _ h) (fun _ => ?_)
  refine Row_agrees_ite (fun h => Row_agrees_color _ _ h) (fun _ => ?_)
  exact Row_agrees_none

theorem Advanced_row_isSome (c : Config) (item : Nat) (s : State) :
    (Advanced_row c item s).isSome ↔ Advanced_case c item := by
  unfold Advanced_row Advanced_case
  iterate 10 refine isSome_ite_cons ?_
  exact isSome_ite_last

theorem Advanced_activate_no_case (e : Env) (m : Machine) (item : Nat) (s : State) :
    ¬ Advanced_case e.cfg item → Advanced_activate e m item s = s := by
  unfold Advanced_case Advanced_activate
  iterate 10 refine noop_ite_cons ?_
  exact noop_ite_last

theorem Advanced_row_agrees (e : Env) (m : Machine) (item : Nat) (s : State) :
    Row_agrees e m item (Advanced_row e.cfg item s) s (Advanced_activate e m item s) := by
  unfold Advanced_row Advanced_activate
  refine Row_agrees_ite (fun _ => Row_agrees_plain _) (fun _ => ?_)
  refine Row_agrees_ite (fun _ => Row_agrees_checkbox _ _ (by exact rfl)) (fun _ => ?_)
  refine Row_agrees_ite (fun _ => Row_agrees_plain _) (fun _ => ?_)
  refine Row_agrees_ite (fun _ => Row_agrees_value _ _ _ _ _ _ _ _ _) (fun _ => ?_)
  refine Row_agrees_ite (fun _ => Row_agrees_value _ _ _ _ _ _ _ _ _) (fun _ => ?_)
  refine Row_agrees_ite (fun _ => Row_agrees_value _ _ _ _ _ _ _ _ _) (fun _ => ?_)
  refine Row_agrees_ite (fun _ => Row_agrees_value _ _ _ _ _ _ _ _ _) (fun _ => ?_)
  refine Row_agrees_ite (fun _ => Row_agrees_of_value _ _ (by simp [State.store, Modify_Value, Setup_Value])) (fun _ => ?_)
  refine Row_agrees_ite (fun _ => Row_agrees_checkbox _ _ (by exact rfl)) (fun _ => ?_)
  refine Row_agrees_ite (fun _ => Row_agrees_value _ _ _ _ _ _ _ _ _) (fun _ => ?_)
  refine Row_agrees_ite (fun _ => Row_agrees_checkbox _ _ (by exact rfl)) (fun _ => ?_)
  exact Row_agrees_none

theorem ProbeMenu_row_isSome (c : Config) (item : Nat) (s : State) :
    (ProbeMenu_row c item s).isSome ↔ ProbeMenu_case c item := by
  unfold ProbeMenu_row ProbeMenu_case
  iterate 4 refine isSome_ite_cons ?_
  exact isSome_ite_last

theorem ProbeMenu_activate_no_case (e : Env) (m : Machine) (item : Nat) (s : State) :
    ¬ ProbeMenu_case e.cfg item → ProbeMenu_activate e m item s = s := by
  unfold ProbeMenu_case ProbeMenu_activate
  iterate 4 refine noop_ite_cons ?_
  exact noop_ite_last

theorem ProbeMenu_row_agrees (e : Env) (m : Machine) (item : Nat) (s : State) :
    Row_agrees e m item (ProbeMenu_row e.cfg item s) s (ProbeMenu_activate e m item s) := by
  unfold ProbeMenu_row ProbeMenu_activate
  refine Row_agrees_ite (fun _ => Row_agrees_plain _) (fun _ => ?_)
  refine Row_agrees_ite (fun _ => Row_agrees_value _ _ _ _ _ _ _ _ _) (fun _ => ?_)
  refine Row_agrees_ite (fun _ => Row_agrees_value _ _ _ _ _ _ _ _ _) (fun _ => ?_)
  refine Row_agrees_ite (fun _ => Row_agrees_plain _) (fun _ => ?_)
  refine Row_agrees_ite (fun _ => Row_agrees_value _ _ _ _ _ _ _ _ _) (fun _ => ?_)
  exact Row_agrees_none

theorem Info_row_isSome (c : Config) (item : Nat) (s : State) :
    (Info_row c item s).isSome ↔ Info_case c item := by
  unfold Info_row Info_case
  exact isSome_ite_last

theorem Info_activate_no_case (e : Env) (m : Machine) (menu : Menu) (item : Nat) (s : State) :
    ¬ Info_case e.cfg item → Info_activate e m menu item s = s := by
  unfold Info_case Info_activate
  exact noop_ite_last

theorem Info_row_agrees (e : Env) (m : Machine) (menu : Menu) (item : Nat) (s : State) :
    Row_agrees e m item (Info_row e.cfg item s) s (Info_activate e m menu item s) := by
  unfold Info_row Info_activate
  refine Row_agrees_ite (fun _ => Row_agrees_plain _) (fun _ => ?_)
  exact Row_agrees_none

theorem Leveling_row_isSome (c : Config) (item : Nat) (s : State) :
    (Leveling_row c item s).isSome ↔ Leveling_case c item := by
  unfold Leveling_row Leveling_case
  iterate 9 refine isSome_ite_cons ?_
  exact isSome_ite_last

theorem Leveling_activate_no_case (e : Env) (m : Machine) (item : Nat) (s : State) :
    ¬ Leveling_case e.cfg item → Leveling_activate e m item s = s := by
  unfold Leveling_case Leveling_activate
  iterate 9 refine noop_ite_cons ?_
  exact noop_ite_last

theorem Leveling_row_agrees (e : Env) (m : Machine) (item : Nat) (s : State) :
    Row_agrees e m item (Leveling_row e.cfg item s) s (Leveling_activate e m item s) := by
  unfold Leveling_row Leveling_activate
  refine Row_agrees_ite (fun _ => Row_agrees_plain _) (fun _ => ?_)
  refine Row_agrees_ite (fun _ => Row_agrees_checkbox _ _ (Leveling_active_agrees m s)) (fun _ => ?_)
  refine Row_agrees_ite (fun _ => Row_agrees_plain _) (fun _ => ?_)
  refine Row_agrees_ite (fun _ => Row_agrees_plain _) (fun _ => ?_)
  refine Row_agrees_ite (fun _ => Row_agrees_plain _) (fun _ => ?_)
  refine Row_agrees_ite (fun _ => Row_agrees_plain _) (fun _ => ?_)
  refine Row_agrees_ite (fun _ => Row_agrees_plain _) (fun _ => ?_)
  refine Row_agrees_ite (fun _ => Row_agrees_value _ _ _ _ _ _ _ _ _) (fun _ => ?_)
  refine Row_agrees_ite (fun _ => Row_agrees_plain _) (fun _ => ?_)
  refine Row_agrees_ite (fun _ => Row_agrees_plain _) (fun _ => ?_)
  exact Row_agrees_none

theorem LevelView_row_isSome (c : Config) (item : Nat) (s : State) :
    (LevelView_row c item s).isSome ↔ LevelView_case c item := by
  unfold LevelView_row LevelView_case
  iterate 3 refine isSome_ite_cons ?_
  exact isSome_ite_last

theorem LevelView_activate_no_case (e : Env) (m : Machine) (item : Nat) (s : State) :
    ¬ LevelView_case e.cfg item → LevelView_activate e m item s = s := by
  unfold LevelView_case LevelView_activate
  iterate 3 refine noop_ite_cons ?_
  exact noop_ite_last

theorem LevelView_row_agrees (e : Env) (m : Machine) (item : Nat) (s : State) :
    Row_agrees e m item (LevelView_row e.cfg item s) s (LevelView_activate e m item s) := by
  unfold LevelView_row LevelView_activate
  refine Row_agrees_ite (fun _ => Row_agrees_plain _) (fun _ => ?_)
  refine Row_agrees_ite (fun _ => Row_agrees_plain _) (fun _ => ?_)
  refine Row_agrees_ite (fun _ => Row_agrees_checkbox _ _ (by exact rfl)) (fun _ => ?_)
  refine Row_agrees_ite (fun _ => Row_agrees_checkbox _ _ (by exact rfl)) (fun _ => ?_)
  exact Row_agrees_none

theorem LevelSettings_row_isSome (c : Config) (item : Nat) (s : State) :
    (LevelSettings_row c item s).isSome ↔ LevelSettings_case c item := by
  unfold LevelSettings_row LevelSettings_case
  iterate 5 refine isSome_ite_cons ?_
  exact isSome_ite_last

theorem LevelSettings_activate_no_case (e : Env) (m : Machine) (item : Nat) (s : State) :
    ¬ LevelSettings_case e.cfg item → LevelSettings_activate e m item s = s := by
  unfold LevelSettings_case LevelSettings_activate
  iterate 5 refine noop_ite_cons ?_
  exact noop_ite_last

theorem LevelSettings_row_agrees (e : Env) (m : Machine) (item : Nat) (s : State) :
    Row_agrees e m item (LevelSettings_row e.cfg item s) s (LevelSettings_activate e m item s) := by
  unfold LevelSettings_row LevelSettings_activate
  refine Row_agrees_ite (fun _ => Row_agrees_plain _) (fun _ => ?_)
  refine Row_agrees_ite (fun _ => Row_agrees_of_value _ _
    (by simp [State.store, State.call, Modify_Value, Setup_Value])) (fun _ => ?_)
  refine Row_agrees_ite (fun _ => Row_agrees_value _ _ _ _ _ _ _ _ _) (fun _ => ?_)
  refine Row_agrees_ite (fun _ => Row_agrees_plain _) (fun _ => ?_)
  refine Row_agrees_ite (fun _ => Row_agrees_plain _) (fun _ => ?_)
  refine Row_agrees_ite (fun _ => Row_agrees_plain _) (fun _ => ?_)
  exact Row_agrees_none

theorem MeshViewer_row_isSome (c : Config) (item : Nat) (s : State) :
    (MeshViewer_row c item s).isSome ↔ MeshViewer_case c item := by
  unfold MeshViewer_row MeshViewer_case
  exact isSome_ite_last

theorem MeshViewer_activate_no_case (e : Env) (m : Machine) (item : Nat) (s : State) :
    ¬ MeshViewer_case e.cfg item → MeshViewer_activate e m item s = s := by
  unfold MeshViewer_case MeshViewer_activate
  exact noop_ite_last

theorem MeshViewer_row_agrees (e : Env) (m : Machine) (item : Nat) (s : State) :
    Row_agrees e m item (MeshViewer_row e.cfg item s) s (MeshViewer_activate e m item s) := by
  unfold MeshViewer_row MeshViewer_activate
  refine Row_agrees_ite (fun _ => Row_agrees_plain _) (fun _ => ?_)
  exact Row_agrees_none

theorem LevelManual_row_isSome (c : Config) (item : Nat) (s : State) :
    (LevelManual_row c item s).isSome ↔ LevelManual_case c item := by
  unfold LevelManual_row LevelManual_case
  iterate 8 refine isSome_ite_cons ?_
  exact isSome_ite_last

theorem LevelManual_activate_no_case (e : Env) (m : Machine) (item : Nat) (s : State) :
    ¬ LevelManual_case e.cfg item → LevelManual_activate e m item s = s := by
  unfold LevelManual_case LevelManual_activate
  iterate 8 refine noop_ite_cons ?_
  exact noop_ite_last

theorem LevelManual_row_agrees (e : Env) (m : Machine) (item : Nat) (s : State) :
    Row_agrees e m item (LevelManual_row e.cfg item s) s (LevelManual_activate e m item s) := by
  unfold LevelManual_row LevelManual_activate
  refine Row_agrees_ite (fun _ => Row_agrees_plain _) (fun _ => ?_)
  refine Row_agrees_ite (fun _ => Row_agrees_value _ _ _ _ _ _ _ _ _) (fun _ => ?_)
  refine Row_agrees_ite (fun _ => Row_agrees_value _ _ _ _ _ _ _ _ _) (fun _ => ?_)
  refine Row_agrees_ite (fun _ => Row_agrees_plain _) (fun _ => ?_)
  refine Row_agrees_ite (fun _ => Row_agrees_value _ _ _ _ _ _ _ _ _) (fun _ => ?_)
  refine Row_agrees_ite (fun _ => Row_agrees_plain _) (fun _ => ?_)
  refine Row_agrees_ite (fun _ => Row_agrees_plain _) (fun _ => ?_)
  refine Row_agrees_ite (fun _ => Row_agrees_checkbox _ _ (goto_mesh_value_agrees e m s)) (fun _ => ?_)
  refine Row_agrees_ite (fun _ => Row_agrees_plain _) (fun _ => ?_)
  exact Row_agrees_none

theorem UBLMesh_row_isSome (c : Config) (item : Nat) (s : State) :
    (UBLMesh_row c item s).isSome ↔ UBLMesh_case c item := by
  unfold UBLMesh_row UBLMesh_case
  iterate 5 refine isSome_ite_cons ?_
  exact isSome_ite_last

theorem UBLMesh_activate_no_case (e : Env) (m : Machine) (item : Nat) (s : State) :
    ¬ UBLMesh_case e.cfg item → UBLMesh_activate e m item s = s := by
  unfold UBLMesh_case UBLMesh_activate
  iterate 5 refine noop_ite_cons ?_
  exact noop_ite_last

theorem UBLMesh_row_agrees (e : Env) (m : Machine) (item : Nat) (s : State) :
    Row_agrees e m item (UBLMesh_row e.cfg item s) s (UBLMesh_activate e m item s) := by
  unfold UBLMesh_row UBLMesh_activate
  refine Row_agrees_ite (fun _ => Row_agrees_plain _) (fun _ => ?_)
  refine Row_agrees_ite (fun _ => Row_agrees_plain _) (fun _ => ?_)
  refine Row_agrees_ite (fun _ => Row_agrees_plain _) (fun _ => ?_)
  refine Row_agrees_ite (fun _ => Row_agrees_value _ _ _ _ _ _ _ _ _) (fun _ => ?_)
  refine Row_agrees_ite (fun _ => Row_agrees_plain _) (fun _ => ?_)
  refine Row_agrees_ite (fun _ => Row_agrees_plain _) (fun _ => ?_)
  exact Row_agrees_none

theorem ManualMesh_row_isSome (c : Config) (item : Nat) (s : State) :
    (ManualMesh_row c item s).isSome ↔ ManualMesh_case c item := by
  unfold ManualMesh_row ManualMesh_case
  iterate 5 refine isSome_ite_cons ?_
  exact isSome_ite_last

theorem ManualMesh_activate_no_case (e : Env) (m : Machine) (item : Nat) (s : State) :
    ¬ ManualMesh_case e.cfg item → ManualMesh_activate e m item s = s := by
  unfold ManualMesh_case ManualMesh_activate
  iterate 5 refine noop_ite_cons ?_
  exact noop_ite_last

theorem ManualMesh_row_agrees (e : Env) (m : Machine) (item : Nat) (s : State) :
    Row_agrees e m item (ManualMesh_row e.cfg item s) s (ManualMesh_activate e m item s) := by
  unfold ManualMesh_row ManualMesh_activate
  refine Row_agrees_ite (fun _ => Row_agrees_plain _) (fun _ => ?_)
  refine Row_agrees_ite (fun _ => Row_agrees_plain _) (fun _ => ?_)
  refine Row_agrees_ite (fun _ => Row_agrees_value _ _ _ _ _ _ _ _ _) (fun _ => ?_)
  refine Row_agrees_ite (fun _ => Row_agrees_plain _) (fun _ => ?_)
  refine Row_agrees_ite (fun _ => Row_agrees_plain _) (fun _ => ?_)
  refine Row_agrees_ite (fun _ => Row_agrees_local_copy _ _) (fun _ => ?_)
  exact Row_agrees_none

theorem Tune_row_isSome (c : Config) (item : Nat) (s : State) :
    (Tune_row c item s).isSome ↔ Tune_case c item := by
  unfold Tune_row Tune_case
  iterate 12 refine isSome_ite_cons ?_
  exact isSome_ite_last

theorem Tune_activate_no_case (e : Env) (m : Machine) (item : Nat) (s : State) :
    ¬ Tune_case e.cfg item → Tune_activate e m item s = s := by
  unfold Tune_case Tune_activate
  iterate 12 refine noop_ite_cons ?_
  exact noop_ite_last

theorem Tune_row_agrees (e : Env) (m : Machine) (item : Nat) (s : State) :
    Row_agrees e m item (Tune_row e.cfg item s) s (Tune_activate e m item s) := by
  unfold Tune_row Tune_activate
  refine Row_agrees_ite (fun _ => Row_agrees_plain _) (fun _ => ?_)
  refine Row_agrees_ite (fun _ => Row_agrees_value _ _ _ _ _ _ _ _ _) (fun _ => ?_)
  refine Row_agrees_ite (fun _ => Row_agrees_value _ _ _ _ _ _ _ _ _) (fun _ => ?_)
  refine Row_agrees_ite (fun _ => Row_agrees_value _ _ _ _ _ _ _ _ _) (fun _ => ?_)
  refine Row_agrees_ite (fun _ => Row_agrees_value _ _ _ _ _ _ _ _ _) (fun _ => ?_)
  refine Row_agrees_ite (fun _ => Row_agrees_value _ _ _ _ _ _ _ _ _) (fun _ => ?_)
  refine Row_agrees_ite (fun _ => Row_agrees_value _ _ _ _ _ _ _ _ _) (fun _ => ?_)
  refine Row_agrees_ite (fun _ => Row_agrees_plain _) (fun _ => ?_)
  refine Row_agrees_ite (fun _ => Row_agrees_plain _) (fun _ => ?_)
  refine Row_agrees_ite (fun _ => Row_agrees_plain _) (fun _ => ?_)
  refine Row_agrees_ite (fun _ => Row_agrees_checkbox _ _ (by exact rfl)) (fun _ => ?_)
  refine Row_agrees_ite (fun _ => Row_agrees_plain _) (fun _ => ?_)
  refine Row_agrees_ite (fun _ => Row_agrees_value _ _ _ _ _ _ _ _ _) (fun _ => ?_)
  exact Row_agrees_none

theorem PreheatHotend_row_isSome (c : Config) (item : Nat) (s : State) :
    (PreheatHotend_row c item s).isSome ↔ PreheatHotend_case c item := by
  unfold PreheatHotend_row PreheatHotend_case
  iterate 7 refine isSome_ite_cons ?_
  exact isSome_ite_last

theorem PreheatHotend_activate_no_case (e : Env) (m : Machine) (item : Nat) (s : State) :
    ¬ PreheatHotend_case e.cfg item → PreheatHotend_activate e m item s = s := by
  unfold PreheatHotend_case PreheatHotend_activate
  iterate 7 refine noop_ite_cons ?_
  exact noop_ite_last

theorem PreheatHotend_row_agrees (e : Env) (m : Machine) (item : Nat) (s : State) :
    Row_agrees e m item (PreheatHotend_row e.cfg item s) s (PreheatHotend_activate e m item s) := by
  unfold PreheatHotend_row PreheatHotend_activate
  refine Row_agrees_ite (fun _ => Row_agrees_plain _) (fun _ => ?_)
  refine Row_agrees_ite (fun _ => Row_agrees_plain _) (fun _ => ?_)
  refine Row_agrees_ite (fun _ => Row_agrees_plain _) (fun _ => ?_)
  refine Row_agrees_ite (fun _ => Row_agrees_plain _) (fun _ => ?_)
  refine Row_agrees_ite (fun _ => Row_agrees_plain _) (fun _ => ?_)
  refine Row_agrees_ite (fun _ => Row_agrees_plain _) (fun _ => ?_)
  refine Row_agrees_ite (fun _ => Row_agrees_plain _) (fun _ => ?_)
  refine Row_agrees_ite (fun _ => Row_agrees_value _ _ _ _ _ _ _ _ _) (fun _ => ?_)
  exact Row_agrees_none
theorem isSome_guard {g q : Prop} [Decidable g] {r : Option RowView} (h : r.isSome ↔ q) :
    (if g then r else none).isSome ↔ (g ∧ q) := by
  by_cases hg : g
  · simp [hg, h]
  · simp [hg]

theorem noop_guard {g q : Prop} [Decidable g] {a s : State} (h : ¬ q → a = s) :
    ¬ (g ∧ q) → (if g then a else s) = s := by
  intro hn
  by_cases hg : g
  · rw [if_pos hg]
    exact h (fun hq => hn ⟨hg, hq⟩)
  · exact if_neg hg

/-- A row has a draw branch exactly when its index is a case label of the menu. -/
theorem Item_row_isSome (c : Config) (menu : Menu) (item : Nat) (s : State) :
    (Item_row c menu item s).isSome ↔ Item_case c menu item := by
  cases menu
  case MainMenu => exact ⟨fun h => Bool.noConfusion h, False.elim⟩
  case Prepare => exact Prepare_row_isSome c item s
  case HomeMenu => exact HomeMenu_row_isSome c item s
  case Move => exact Move_row_isSome c item s
  case ManualLevel => exact ManualLevel_row_isSome c item s
  case ZOffset => exact isSome_guard (ZOffset_row_isSome c item s)
  case Preheat => exact isSome_guard (Preheat_row_isSome c item s)
  case ChangeFilament => exact isSome_guard (ChangeFilament_row_isSome c item s)
  case Control => exact Control_row_isSome c item s
  case TempMenu => exact TempMenu_row_isSome c item s
  case PID => exact isSome_guard (PID_row_isSome c item s)
  case HotendPID => exact isSome_guard (HotendPID_row_isSome c item s)
  case BedPID => exact isSome_guard (BedPID_row_isSome c item s)
  case Preheat1 => exact isSome_guard (Preheat1_row_isSome c item s)
  case Preheat2 => exact isSome_guard (Preheat2_row_isSome c item s)
  case Preheat3 => exact isSome_guard (Preheat3_row_isSome c item s)
  case Preheat4 => exact isSome_guard (Preheat4_row_isSome c item s)
  case Preheat5 => exact isSome_guard (Preheat5_row_isSome c item s)
  case Motion => exact Motion_row_isSome c item s
  case HomeOffsets => exact HomeOffsets_row_isSome c item s
  case MaxSpeed => exact MaxSpeed_row_isSome c item s
  case MaxAcceleration => exact MaxAcceleration_row_isSome c item s
  case MaxJerk => exact isSome_guard (MaxJerk_row_isSome c item s)
  case Steps => exact Steps_row_isSome c item s
  case Visual => exact Visual_row_isSome c item s
  case Advanced => exact Advanced_row_isSome c item s
  case ProbeMenu => exact isSome_guard (ProbeMenu_row_isSome c item s)
  case ColorSettings => exact ColorSettings_row_isSome c item s
  case Info => exact Info_row_isSome c item s
  case InfoMain => exact Info_row_isSome c item s
  case Leveling => exact isSome_guard (Leveling_row_isSome c item s)
  case LevelView => exact isSome_guard (LevelView_row_isSome c item s)
  case LevelSettings => exact isSome_guard (LevelSettings_row_isSome c item s)
  case MeshViewer => exact isSome_guard (MeshViewer_row_isSome c item s)
  case LevelManual => exact isSome_guard (LevelManual_row_isSome c item s)
  case UBLMesh => exact isSome_guard (UBLMesh_row_isSome c item s)
  case ManualMesh => exact isSome_guard (ManualMesh_row_isSome c item s)
  case Tune => exact Tune_row_isSome c item s
  case PreheatHotend => exact PreheatHotend_row_isSome c item s

/-- Where the menu has no case label for the index, activation does nothing. -/
theorem Menu_Item_Handler_activate_no_case (e : Env) (m : Machine) (menu : Menu) (item : Nat)
    (s : State) (h : ¬ Item_case e.cfg menu item) :
    Menu_Item_Handler e m menu item false s = s := by
  cases menu
  case MainMenu => rfl
  case Prepare => exact Prepare_activate_no_case e m item s h
  case HomeMenu => exact HomeMenu_activate_no_case e m item s h
  case Move => exact Move_activate_no_case e m item s h
  case ManualLevel => exact ManualLevel_activate_no_case e m item s h
  case ZOffset => exact noop_guard (ZOffset_activate_no_case e m item s) h
  case Preheat => exact noop_guard (Preheat_activate_no_case e m item s) h
  case ChangeFilament => exact noop_guard (ChangeFilament_activate_no_case e m item s) h
  case Control => exact Control_activate_no_case e m item s h
  case TempMenu => exact TempMenu_activate_no_case e m item s h
  case PID => exact noop_guard (PID_activate_no_case e m item s) h
  case HotendPID => exact noop_guard (HotendPID_activate_no_case e m item s) h
  case BedPID => exact noop_guard (BedPID_activate_no_case e m item s) h
  case Preheat1 => exact noop_guard (Preheat1_activate_no_case e m item s) h
  case Preheat2 => exact noop_guard (Preheat2_activate_no_case e m item s) h
  case Preheat3 => exact noop_guard (Preheat3_activate_no_case e m item s) h
  case Preheat4 => exact noop_guard (Preheat4_activate_no_case e m item s) h
  case Preheat5 => exact noop_guard (Preheat5_activate_no_case e m item s) h
  case Motion => exact Motion_activate_no_case e m item s h
  case HomeOffsets => exact HomeOffsets_activate_no_case e m item s h
  case MaxSpeed => exact MaxSpeed_activate_no_case e m item s h
  case MaxAcceleration => exact MaxAcceleration_activate_no_case e m item s h
  case MaxJerk => exact noop_guard (MaxJerk_activate_no_case e m item s) h
  case Steps => exact Steps_activate_no_case e m item s h
  case Visual => exact Visual_activate_no_case e m item s h
  case Advanced => exact Advanced_activate_no_case e m item s h
  case ProbeMenu => exact noop_guard (ProbeMenu_activate_no_case e m item s) h
  case ColorSettings => exact ColorSettings_activate_no_case e m item s h
  case Info => exact Info_activate_no_case e m .Info item s h
  case InfoMain => exact Info_activate_no_case e m .InfoMain item s h
  case Leveling => exact noop_guard (Leveling_activate_no_case e m item s) h
  case LevelView => exact noop_guard (LevelView_activate_no_case e m item s) h
  case LevelSettings => exact noop_guard (LevelSettings_activate_no_case e m item s) h
  case MeshViewer => exact noop_guard (MeshViewer_activate_no_case e m item s) h
  case LevelManual => exact noop_guard (LevelManual_activate_no_case e m item s) h
  case UBLMesh => exact noop_guard (UBLMesh_activate_no_case e m item s) h
  case ManualMesh => exact noop_guard (ManualMesh_activate_no_case e m item s) h
  case Tune => exact Tune_activate_no_case e m item s h
  case PreheatHotend => exact PreheatHotend_activate_no_case e m item s h

/-- Where the menu has no case label for the index, drawing changes no state. -/
theorem Item_draw_no_case (e : Env) (m : Machine) (menu : Menu) (item : Nat)
    (s : State) (h : ¬ Item_case e.cfg menu item) : Item_draw e m menu item s = s := by
  cases menu
  case Move =>
    have h2 : ¬ Move_case e.cfg item := h
    unfold Move_case at h2
    exact if_neg (fun hc => h2 (Or.inr (Or.inr (Or.inr (Or.inr (Or.inl hc))))))
  case ManualMesh =>
    have h2 : ¬ (e.cfg.PROBE_MANUALLY = true ∧ ManualMesh_case e.cfg item) := h
    unfold ManualMesh_case at h2
    exact if_neg (fun hc => h2 ⟨hc.1, Or.inr (Or.inr (Or.inl hc.2))⟩)
  case MeshViewer =>
    have h2 : ¬ (e.cfg.HAS_MESH = true ∧ MeshViewer_case e.cfg item) := h
    exact if_neg h2
  all_goals rfl

/-- The draw branch and the activate branch of every row are about the same variable. -/
theorem Item_row_agrees (e : Env) (m : Machine) (menu : Menu) (item : Nat) (s : State) :
    Row_agrees e m item (Item_row e.cfg menu item s) s (Menu_Item_Handler e m menu item false s) := by
  cases menu
  case MainMenu => exact Row_agrees_none
  case Prepare => exact Prepare_row_agrees e m item s
  case HomeMenu => exact HomeMenu_row_agrees e m item s
  case Move => exact Move_row_agrees e m item s
  case ManualLevel => exact ManualLevel_row_agrees e m item s
  case ZOffset =>
    exact Row_agrees_ite (fun _ => ZOffset_row_agrees e m item s) (fun _ => Row_agrees_none)
  case Preheat =>
    exact Row_agrees_ite (fun _ => Preheat_row_agrees e m item s) (fun _ => Row_agrees_none)
  case ChangeFilament =>
    exact Row_agrees_ite (fun _ => ChangeFilament_row_agrees e m item s) (fun _ => Row_agrees_none)
  case Control => exact Control_row_agrees e m item s
  case TempMenu => exact TempMenu_row_agrees e m item s
  case PID =>
    exact Row_agrees_ite (fun _ => PID_row_agrees e m item s) (fun _ => Row_agrees_none)
  case HotendPID =>
    exact Row_agrees_ite (fun _ => HotendPID_row_agrees e m item s) (fun _ => Row_agrees_none)
  case BedPID =>
    exact Row_agrees_ite (fun _ => BedPID_row_agrees e m item s) (fun _ => Row_agrees_none)
  case Preheat1 =>
    exact Row_agrees_ite (fun _ => Preheat1_row_agrees e m item s) (fun _ => Row_agrees_none)
  case Preheat2 =>
    exact Row_agrees_ite (fun _ => Preheat2_row_agrees e m item s) (fun _ => Row_agrees_none)
  case Preheat3 =>
    exact Row_agrees_ite (fun _ => Preheat3_row_agrees e m item s) (fun _ => Row_agrees_none)
  case Preheat4 =>
    exact Row_agrees_ite (fun _ => Preheat4_row_agrees e m item s) (fun _ => Row_agrees_none)
  case Preheat5 =>
    exact Row_agrees_ite (fun _ => Preheat5_row_agrees e m item s) (fun _ => Row_agrees_none)
  case Motion => exact Motion_row_agrees e m item s
  case HomeOffsets => exact HomeOffsets_row_agrees e m item s
  case MaxSpeed => exact MaxSpeed_row_agrees e m item s
  case MaxAcceleration => exact MaxAcceleration_row_agrees e m item s
  case MaxJerk =>
    exact Row_agrees_ite (fun _ => MaxJerk_row_agrees e m item s) (fun _ => Row_agrees_none)
  case Steps => exact Steps_row_agrees e m item s
  case Visual => exact Visual_row_agrees e m item s
  case Advanced => exact Advanced_row_agrees e m item s
  case ProbeMenu =>
    exact Row_agrees_ite (fun _ => ProbeMenu_row_agrees e m item s) (fun _ => Row_agrees_none)
  case ColorSettings => exact ColorSettings_row_agrees e m item s
  case Info => exact Info_row_agrees e m .Info item s
  case InfoMain => exact Info_row_agrees e m .InfoMain item s
  case Leveling =>
    exact Row_agrees_ite (fun _ => Leveling_row_agrees e m item s) (fun _ => Row_agrees_none)
  case LevelView =>
    exact Row_agrees_ite (fun _ => LevelView_row_agrees e m item s) (fun _ => Row_agrees_none)
  case LevelSettings =>
    exact Row_agrees_ite (fun _ => LevelSettings_row_agrees e m item s) (fun _ => Row_agrees_none)
  case MeshViewer =>
    exact Row_agrees_ite (fun _ => MeshViewer_row_agrees e m item s) (fun _ => Row_agrees_none)
  case LevelManual =>
    exact Row_agrees_ite (fun _ => LevelManual_row_agrees e m item s) (fun _ => Row_agrees_none)
  case UBLMesh =>
    exact Row_agrees_ite (fun _ => UBLMesh_row_agrees e m item s) (fun _ => Row_agrees_none)
  case ManualMesh =>
    exact Row_agrees_ite (fun _ => ManualMesh_row_agrees e m item s) (fun _ => Row_agrees_none)
  case Tune => exact Tune_row_agrees e m item s
  case PreheatHotend => exact PreheatHotend_row_agrees e m item s
theorem Value_Control_run_keeps (e : Env) (m : Machine) (evs : List (ENCODER_DiffState × ℚ))
    (s : State) (hev : ∀ ev ∈ evs, ev.1 ≠ .ENCODER_DIFF_ENTER) :
    (Value_Control_run e m evs s).session = s.session := by
  induction evs generalizing s with
  | nil => rfl
  | cons ev evs ih =>
    have hrun : Value_Control_run e m (ev :: evs) s =
        Value_Control_run e m evs (Value_Control e m ev.1 ev.2 s) := rfl
    rw [hrun, ih _ (fun x hx => hev x (List.mem_cons_of_mem _ hx))]
    have hne := hev ev (List.mem_cons_self _ _)
    cases h : ev.1
    · rfl
    · exact (Value_Control_turn e m _ ev.2 s (Or.inl rfl)).1
    · exact (Value_Control_turn e m _ ev.2 s (Or.inr rfl)).1
    · exact absurd h hne

theorem Value_Control_enter_store (e : Env) (m : Machine) (rate : ℚ) (u : State)
    (h : u.valuetype ≤ 5) :
    Value_Control e m .ENCODER_DIFF_ENTER rate u =
      Value_Control_finish e m ((Value_Control_prepare e u).store u.valuepointer
        (convert_value u.valuetype (rescale e.cfg u.valuepointer u.tempvalue / u.valueunit))) := by
  obtain ⟨-, f2, -, f4, f5, -, -, f8⟩ := Value_Control_prepare_fields e u
  have hc := commit_value_eq (Value_Control_prepare e u) (by rw [f4]; exact h)
  rw [f2, f4, f5, f8] at hc
  show Value_Control_finish e m (commit_value (Value_Control_prepare e u)) = _
  rw [hc]

theorem Option_Control_color (e : Env) (m : Machine) (rate : ℚ) (u : State) (f : ColorField)
    (hv : u.valuepointer = .color_names) (hs : u.selection = f.selection e.cfg) :
    f.get (Option_Control e m .ENCODER_DIFF_ENTER rate u).eeprom_settings =
      toUnsigned 8 u.tempvalue ∧
    ∀ g, g ≠ f → g.get (Option_Control e m .ENCODER_DIFF_ENTER rate u).eeprom_settings =
      g.get u.eeprom_settings := by
  have hes : ∀ x : State, (Redraw_Screen e m x).eeprom_settings = x.eeprom_settings :=
    fun x => congrArg Prod.fst (Redraw_Screen_prefs e m x)
  cases f <;>
    simp only [ColorField.selection, COLORSETTINGS_BACK, COLORSETTINGS_CURSOR,
      COLORSETTINGS_SPLIT_LINE, COLORSETTINGS_MENU_TOP_TXT, COLORSETTINGS_MENU_TOP_BG,
      COLORSETTINGS_HIGHLIGHT_BORDER, COLORSETTINGS_PROGRESS_PERCENT,
      COLORSETTINGS_PROGRESS_TIME, COLORSETTINGS_PROGRESS_STATUS_BAR,
      COLORSETTINGS_PROGRESS_STATUS_AREA, COLORSETTINGS_PROGRESS_COORDINATES,
      COLORSETTINGS_PROGRESS_COORDINATES_LINE] at hs <;>
    simp only [Option_Control, hv, hs, hes, if_true, COLORSETTINGS_BACK, COLORSETTINGS_CURSOR,
      COLORSETTINGS_SPLIT_LINE, COLORSETTINGS_MENU_TOP_TXT, COLORSETTINGS_MENU_TOP_BG,
      COLORSETTINGS_HIGHLIGHT_BORDER, COLORSETTINGS_PROGRESS_PERCENT,
      COLORSETTINGS_PROGRESS_TIME, COLORSETTINGS_PROGRESS_STATUS_BAR,
      COLORSETTINGS_PROGRESS_STATUS_AREA, COLORSETTINGS_PROGRESS_COORDINATES,
      COLORSETTINGS_PROGRESS_COORDINATES_LINE, Nat.reduceAdd, Nat.reduceEqDiff, if_false,
      ColorField.get, true_and] <;>
    intro g hg <;> cases g <;> first | rfl | exact absurd rfl hg

theorem Option_Control_preheat_mode (e : Env) (m : Machine) (rate : ℚ) (u : State)
    (hv : u.valuepointer = .preheat_modes) :
    (Option_Control e m .ENCODER_DIFF_ENTER rate u).preheatmode = toUnsigned 8 u.tempvalue := by
  simp [Option_Control, hv]

theorem ColorSettings_row_color (c : Config) (f : ColorField) (s : State) :
    ∃ l, Item_row c .ColorSettings (f.selection c) s = some ⟨l, some (.color f)⟩ := by
  cases f <;> exact ⟨_, rfl⟩

/-- An encoder turn or an idle poll handled by `Option_Control` changes the working value
only. -/
theorem Option_Control_turn_keeps (e : Env) (m : Machine) (ev : ENCODER_DiffState) (rate : ℚ)
    (s : State) (h : ev ≠ .ENCODER_DIFF_ENTER) :
    (Option_Control e m ev rate s).valuepointer = s.valuepointer ∧
    (Option_Control e m ev rate s).selection = s.selection ∧
    (Option_Control e m ev rate s).eeprom_settings = s.eeprom_settings ∧
    (Option_Control e m ev rate s).preheatmode = s.preheatmode ∧
    (Option_Control e m ev rate s).process = s.process := by
  cases ev
  · exact ⟨rfl, rfl, rfl, rfl, rfl⟩
  · simp only [Option_Control]
    split_ifs <;> exact ⟨rfl, rfl, rfl, rfl, rfl⟩
  · simp only [Option_Control]
    split_ifs <;> exact ⟨rfl, rfl, rfl, rfl, rfl⟩
  · exact absurd rfl h

theorem Option_Control_run_keeps (e : Env) (m : Machine) (evs : List (ENCODER_DiffState × ℚ))
    (s : State) (hev : ∀ ev ∈ evs, ev.1 ≠ .ENCODER_DIFF_ENTER) :
    (Option_Control_run e m evs s).valuepointer = s.valuepointer ∧
    (Option_Control_run e m evs s).selection = s.selection ∧
    (Option_Control_run e m evs s).eeprom_settings = s.eeprom_settings ∧
    (Option_Control_run e m evs s).preheatmode = s.preheatmode ∧
    (Option_Control_run e m evs s).process = s.process := by
  induction evs generalizing s with
  | nil => exact ⟨rfl, rfl, rfl, rfl, rfl⟩
  | cons ev evs ih =>
    have hrun : Option_Control_run e m (ev :: evs) s =
        Option_Control_run e m evs (Option_Control e m ev.1 ev.2 s) := rfl
    obtain ⟨a1, a2, a3, a4, a5⟩ :=
      Option_Control_turn_keeps e m ev.1 ev.2 s (hev ev (List.mem_cons_self _ _))
    obtain ⟨b1, b2, b3, b4, b5⟩ :=
      ih (Option_Control e m ev.1 ev.2 s) (fun x hx => hev x (List.mem_cons_of_mem _ hx))
    rw [hrun]
    exact ⟨b1.trans a1, b2.trans a2, b3.trans a3, b4.trans a4, b5.trans a5⟩

/-- The ENTER that ends a value session stores the working value, divided by the unit and
converted to the variable's type, through `valuepointer`; outside the mesh menus, where
`manual_move` rewrites the Z position, the variable holds that value when the handler
returns. -/
theorem Value_Control_enter_vars (e : Env) (m : Machine) (rate : ℚ) (u : State)
    (h : u.valuetype ≤ 5)
    (hz : u.valuepointer = .current_position_z →
      u.active_menu ≠ .UBLMesh ∧ u.active_menu ≠ .LevelManual) :
    (Value_Control e m .ENCODER_DIFF_ENTER rate u).vars u.valuepointer =
      convert_value u.valuetype (rescale e.cfg u.valuepointer u.tempvalue / u.valueunit) := by
  rw [Value_Control_enter_store e m rate u h]
  obtain ⟨f1, -, -, -, -, f6, -, -⟩ := Value_Control_prepare_fields e u
  obtain ⟨s7, -, q2, q3⟩ := Value_Control_finish_eq e m
    ((Value_Control_prepare e u).store u.valuepointer
      (convert_value u.valuetype (rescale e.cfg u.valuepointer u.tempvalue / u.valueunit)))
    (by simpa [State.store] using f1) u.valuepointer
    (by
      intro hv
      have : ((Value_Control_prepare e u).store u.valuepointer
          (convert_value u.valuetype (rescale e.cfg u.valuepointer u.tempvalue / u.valueunit))
          ).active_menu = u.active_menu := by
        simp [State.store, f6]
      rw [this]
      exact hz hv)
  rw [q3]
  have hs : s7.vars u.valuepointer =
      convert_value u.valuetype (rescale e.cfg u.valuepointer u.tempvalue / u.valueunit) := by
    rw [q2]
    simp [State.store]
  split
  · simpa [State.call] using hs
  · exact hs

/-- C21: under a fixed build configuration the draw branch and the activate branch of
`Menu_Item_Handler` are about the same row.  An index has a draw branch exactly when it is a
case label of the menu, and for any other index neither drawing nor activation changes the
state.  Activating a row that draws the value of a variable opens the value editor on that
variable, and after any events other than ENTER the ENTER that ends the session stores the
working value (divided by the unit, converted to the variable's type) into that variable,
which holds it when the handler returns (the extruder row of the Move menu shows the `ETemp`
popup instead while the hotend target is below `extrude_min_temp`; in the mesh menus
`manual_move` rewrites the Z position after the store).  Each of the eleven colour fields is
drawn at the row on which `Option_Control` writes it; activating that row opens the option
editor on the value of the field, with the range of the colour table, and after any events
other than ENTER the commit writes the working value to this field and leaves the other ten
as they were.  The preheat mode row opens the option editor on the value of `preheatmode`,
which the commit writes.  Activating a row that draws a flag switches that flag. -/
theorem C21_draw_activate_agree (e : Env) (m : Machine) (menu : Menu) (item : Nat) (s : State) :
    ((Item_row e.cfg menu item s).isSome ↔ Item_case e.cfg menu item) ∧
    (¬ Item_case e.cfg menu item →
      ∀ draw, Menu_Item_Handler e m menu item draw s = s) ∧
    (∀ l v, Item_row e.cfg menu item s = some ⟨l, some (.value v)⟩ →
      ((Menu_Item_Handler e m menu item false s).process = .Value ∧
        (Menu_Item_Handler e m menu item false s).valuepointer = v ∧
        ∀ evs rate, (∀ ev ∈ evs, ev.1 ≠ .ENCODER_DIFF_ENTER) →
          (Menu_Item_Handler e m menu item false s).valuetype ≤ 5 →
          Value_Control e m .ENCODER_DIFF_ENTER rate
              (Value_Control_run e m evs (Menu_Item_Handler e m menu item false s)) =
            Value_Control_finish e m
              ((Value_Control_prepare e
                (Value_Control_run e m evs (Menu_Item_Handler e m menu item false s))).store
                  v (convert_value (Menu_Item_Handler e m menu item false s).valuetype
                    (rescale e.cfg v
                      (Value_Control_run e m evs
                        (Menu_Item_Handler e m menu item false s)).tempvalue /
                      (Menu_Item_Handler e m menu item false s).valueunit))) ∧
          ((v = .current_position_z →
              (Menu_Item_Handler e m menu item false s).active_menu ≠ .UBLMesh ∧
              (Menu_Item_Handler e m menu item false s).active_menu ≠ .LevelManual) →
            (Value_Control e m .ENCODER_DIFF_ENTER rate
              (Value_Control_run e m evs (Menu_Item_Handler e m menu item false s))).vars v =
              convert_value (Menu_Item_Handler e m menu item false s).valuetype
                (rescale e.cfg v
                  (Value_Control_run e m evs
                    (Menu_Item_Handler e m menu item false s)).tempvalue /
                  (Menu_Item_Handler e m menu item false s).valueunit))) ∨
      (v = .current_position_e ∧ s.vars .hotend_target < s.vars .extrude_min_temp ∧
        Menu_Item_Handler e m menu item false s = Popup_Handler .ETemp s)) ∧
    (∀ l f, Item_row e.cfg menu item s = some ⟨l, some (.color f)⟩ →
      item = f.selection e.cfg ∧
      (Menu_Item_Handler e m menu item false s).process = .Option ∧
      (Menu_Item_Handler e m menu item false s).valuepointer = .color_names ∧
      (Menu_Item_Handler e m menu item false s).tempvalue = f.get s.eeprom_settings ∧
      (Menu_Item_Handler e m menu item false s).valuemin = 0 ∧
      (Menu_Item_Handler e m menu item false s).valuemax = e.cfg.Custom_Colors ∧
      (s.selection = item → ∀ evs rate, (∀ ev ∈ evs, ev.1 ≠ .ENCODER_DIFF_ENTER) →
        f.get (Option_Control e m .ENCODER_DIFF_ENTER rate
          (Option_Control_run e m evs
            (Menu_Item_Handler e m menu item false s))).eeprom_settings =
          toUnsigned 8 (Option_Control_run e m evs
            (Menu_Item_Handler e m menu item false s)).tempvalue ∧
        ∀ g, g ≠ f → g.get (Option_Control e m .ENCODER_DIFF_ENTER rate
          (Option_Control_run e m evs
            (Menu_Item_Handler e m menu item false s))).eeprom_settings =
          g.get s.eeprom_settings)) ∧
    (∀ f : ColorField, ∃ l,
      Item_row e.cfg .ColorSettings (f.selection e.cfg) s = some ⟨l, some (.color f)⟩) ∧
    (∀ (f : ColorField) (u : State) (rate : ℚ), u.valuepointer = .color_names →
      u.selection = f.selection e.cfg →
      f.get (Option_Control e m .ENCODER_DIFF_ENTER rate u).eeprom_settings =
        toUnsigned 8 u.tempvalue ∧
      ∀ g, g ≠ f → g.get (Option_Control e m .ENCODER_DIFF_ENTER rate u).eeprom_settings =
        g.get u.eeprom_settings) ∧
    (∀ l, Item_row e.cfg menu item s = some ⟨l, some .preheat_mode⟩ →
      (Menu_Item_Handler e m menu item false s).process = .Option ∧
      (Menu_Item_Handler e m menu item false s).valuepointer = .preheat_modes ∧
      (Menu_Item_Handler e m menu item false s).tempvalue = s.preheatmode ∧
      (Menu_Item_Handler e m menu item false s).valuemin = 0 ∧
      (Menu_Item_Handler e m menu item false s).valuemax = 2 ∧
      ∀ evs rate, (∀ ev ∈ evs, ev.1 ≠ .ENCODER_DIFF_ENTER) →
        (Option_Control e m .ENCODER_DIFF_ENTER rate
          (Option_Control_run e m evs (Menu_Item_Handler e m menu item false s))).preheatmode =
          toUnsigned 8 (Option_Control_run e m evs
            (Menu_Item_Handler e m menu item false s)).tempvalue) ∧
    (∀ (u : State) (rate : ℚ), u.valuepointer = .preheat_modes →
      (Option_Control e m .ENCODER_DIFF_ENTER rate u).preheatmode =
        toUnsigned 8 u.tempvalue) ∧
    (∀ l b, Item_row e.cfg menu item s = some ⟨l, some (.checkbox b)⟩ →
      Checkbox_agrees m b s (Menu_Item_Handler e m menu item false s)) := by
  obtain ⟨hval, hcol, hpre, hbox⟩ := Item_row_agrees e m menu item s
  refine ⟨Item_row_isSome e.cfg menu item s, fun h draw => ?_, fun l v h => ?_,
    fun l f h => ?_, fun f => ColorSettings_row_color e.cfg f s,
    fun f u rate hv hs => Option_Control_color e m rate u f hv hs, fun l h => ?_,
    fun u rate hv => Option_Control_preheat_mode e m rate u hv, hbox⟩
  · cases draw
    · exact Menu_Item_Handler_activate_no_case e m menu item s h
    · exact Item_draw_no_case e m menu item s h
  · rcases hval l v h with ⟨hp, hv⟩ | hx
    · refine Or.inl ⟨hp, hv, fun evs rate hev ht => ?_⟩
      obtain ⟨k1, -, k3, -, -, k6, -, k8, -⟩ := session_fields
        (Value_Control_run_keeps e m evs (Menu_Item_Handler e m menu item false s) hev)
      simp only [State.session] at k1 k3 k6 k8
      have hs := Value_Control_enter_store e m rate
        (Value_Control_run e m evs (Menu_Item_Handler e m menu item false s))
        (by rw [k3]; exact ht)
      rw [k1, k3, k6, hv] at hs
      refine ⟨hs, fun hz => ?_⟩
      have hw := Value_Control_enter_vars e m rate
        (Value_Control_run e m evs (Menu_Item_Handler e m menu item false s))
        (by rw [k3]; exact ht) (by rw [k1, k8, hv]; exact hz)
      rw [k1, k3, k6, hv] at hw
      exact hw
    · exact Or.inr hx
  · obtain ⟨c1, -, c3, c4, c5, c6, c7, c8, c9⟩ := hcol l f h
    refine ⟨c1, c3, c4, c5, c6, c7, fun hsel evs rate hev => ?_⟩
    obtain ⟨r1, r2, r3, -, -⟩ :=
      Option_Control_run_keeps e m evs (Menu_Item_Handler e m menu item false s) hev
    obtain ⟨o1, o2⟩ := Option_Control_color e m rate
      (Option_Control_run e m evs (Menu_Item_Handler e m menu item false s)) f
      (r1.trans c4) (by rw [r2, c8, hsel, c1])
    refine ⟨o1, fun g hg => ?_⟩
    rw [o2 g hg, r3, c9]
  · obtain ⟨-, p2, p3, p4, p5, p6⟩ := hpre l h
    refine ⟨p2, p3, p4, p5, p6, fun evs rate hev => ?_⟩
    obtain ⟨r1, -⟩ :=
      Option_Control_run_keeps e m evs (Menu_Item_Handler e m menu item false s) hev
    exact Option_Control_preheat_mode e m rate _ (r1.trans p3)

/-- C21 at the rows the draw tables give for the evaluation configuration: row 5 of the Move
menu draws `livemove` and its activation switches it; row 1 of the colour menu draws the
cursor colour and the editor opened there writes it. -/
theorem C21_draw_activate_agree_witness :
    Item_row env0.cfg .Move 5 init = some ⟨"Live Movement", some (.checkbox .livemove)⟩ ∧
    (Menu_Item_Handler env0 m0 .Move 5 false init).livemove = !init.livemove ∧
    Item_row env0.cfg .ColorSettings 1 init = some ⟨"Cursor", some (.color .cursor_color)⟩ ∧
    (Menu_Item_Handler env0 m0 .ColorSettings 1 false init).process = .Option :=
  ⟨rfl, (C21_draw_activate_agree env0 m0 .Move 5 init).2.2.2.2.2.2.2.2 _ _ rfl, rfl,
    ((C21_draw_activate_agree env0 m0 .ColorSettings 1 init).2.2.2.1 _ _ rfl).2.1⟩

/-! ## Links between menus -/

theorem toUnsigned_byte (n : Nat) : toUnsigned 8 ((n % 256 : Nat) : ℚ) = n % 256 := by
  have h0 : (0 : ℚ) ≤ ((n % 256 : Nat) : ℚ) := Nat.cast_nonneg _
  simp only [toUnsigned, truncQ, h0, if_true, Int.floor_natCast]
  omega

/-- The stepping of "Next Point" on the state is the stepping `Next_Point` on the mesh point
the state holds. -/
theorem Next_Point_store_point (X Y : Nat) (s : State) :
    (Next_Point_store X Y s).map
        (fun t => (toUnsigned 8 (t.vars .mesh_x), toUnsigned 8 (t.vars .mesh_y))) =
      Next_Point X Y (toUnsigned 8 (s.vars .mesh_x)) (toUnsigned 8 (s.vars .mesh_y)) := by
  simp only [Next_Point_store, Next_Point]
  split_ifs <;> simp [State.store, toUnsigned_byte]

set_option maxRecDepth 100000 in
/-- Counterexample to C28 on the grid of 4 by 4 points: from the point `(0, 3)` of the grid,
"Next Point" of the manual tuning menu increments `mesh_y` to 4. -/
theorem C28_counterexample :
    toUnsigned 8 (at_mesh_last_row.vars .mesh_x) = 0 ∧
    toUnsigned 8 (at_mesh_last_row.vars .mesh_y) = 3 ∧
    Next_Point_step 4 4 (0, 3) = (0, 4) ∧
    toUnsigned 8
      ((Menu_Item_Handler env4 m0 .LevelManual (LEVELING_M_NEXT cfg4) false
        at_mesh_last_row).vars .mesh_x) = 0 ∧
    toUnsigned 8
      ((Menu_Item_Handler env4 m0 .LevelManual (LEVELING_M_NEXT cfg4) false
        at_mesh_last_row).vars .mesh_y) = 4 := by
  decide!

set_option maxRecDepth 100000 in
/-- Counterexample to C29 on the grid of 2 by 2 points: the walk from `(0, 0)` is
`0,0 -> 1,0 -> 1,1` and stays at `(1, 1)`, so `(0, 1)` is never visited; in the mesh menu two
activations of "Next Point" lead to `(1, 1)`, where the row reads "Save Mesh". -/
theorem C29_counterexample :
    Next_Point_visited 2 2 3 = [(0, 0), (1, 0), (1, 1), (1, 1)] ∧
    toUnsigned 8 (after_two_next.vars .mesh_x) = 1 ∧
    toUnsigned 8 (after_two_next.vars .mesh_y) = 1 ∧
    Item_row cfg5 .UBLMesh (UBL_M_NEXT cfg5) after_two_next = some ⟨"Save Mesh", none⟩ := by
  decide!

end CrealityDWIN
